import Mathlib

/-!
# MC6845 CRT controller: register file, status, geometry and line engine

A shallow embedding of `src/devices/video/mc6845.cpp` (the MC6845 family
emulation of MAME).  Machine integers are natural numbers (unsigned members)
or integers (`int` members); truncation to a narrower type is made explicit
with `u8` / `u16` / `i8` / `i16`.  The members of the C++ device class are
grouped into records following the data model of the specification
(ChipConfiguration, RegisterBank, CounterState, ScreenGeometry, SignalState);
each field keeps the name of the C++ member it stands for.  The header
`mc6845.h` is not among the sources at hand; the members are taken to be
`uint8_t` registers and counters, `uint16_t` addresses and cached geometry
(the width of the locals they are compared with), and `int` output levels
and adjustments (as the setters pass them); the row-drawing callback is taken
to receive its address and scanline number as `uint16_t`, its raster row and
x-count as `uint8_t` and its cursor column as `int8_t`.

Effects on the environment (screen configuration, callbacks, timer
adjustments, log lines) are returned as a list of `Event`s in program order;
`fatalerror`, a failed `assert` and undefined behaviour are the error case of
`Except`.  What the device asks the scheduler (elapsed times, whether a timer
is enabled) is an argument of the operation that asks.  Virtual functions are
arguments too: `ccv` stands for the variant's `check_cursor_visible`.

The HD6345 and the MOS8563 are records around the base state; the functions
they override are embedded under the names `hd6345_*` and `mos8563_*`, and
`hd6345_step` / `mos8563_step` dispatch the entry points the way the
overrides do.  Two small devices of the same repository are embedded as
well: the protection PAL of `src/mame/video/mrdo.cpp` and the TI-8x bit
socket of `src/devices/bus/ti8x/bitsocket.cpp`.

The definitions come first; the theorems follow, claim by claim.
-/

namespace MC6845

/-! ## Machine arithmetic -/

/-- Conversion of an `int` expression to `uint8_t`. -/
def u8 (x : Int) : Nat := (x % 256).toNat

/-- Conversion of an `int` expression to `uint16_t`. -/
def u16 (x : Int) : Nat := (x % 65536).toNat

/-! ## Data model -/

/-- Variant flags and the bindings made at configuration time.  The
`*_bound` fields stand for `!m_*_cb.isnull()`, `has_screen` for
`has_screen()`. -/
structure ChipConfiguration where
  m_supports_disp_start_addr_r : Bool
  m_supports_vert_sync_width : Bool
  m_supports_status_reg_d5 : Bool
  m_supports_status_reg_d6 : Bool
  m_supports_status_reg_d7 : Bool
  m_supports_transparent : Bool
  m_noninterlace_adjust : Int
  m_interlace_adjust : Int
  m_show_border_area : Bool
  m_visarea_adjust_min_x : Int
  m_visarea_adjust_max_x : Int
  m_visarea_adjust_min_y : Int
  m_visarea_adjust_max_y : Int
  has_screen : Bool
  reconfigure_cb_bound : Bool
  begin_update_cb_bound : Bool
  update_row_cb_bound : Bool
  end_update_cb_bound : Bool
  on_update_addr_changed_cb_bound : Bool
  deriving DecidableEq, Repr

/-- The programmable register file R0..R19 (`uint8_t` members, and `uint16_t`
for the four address pairs). -/
structure RegisterBank where
  m_horiz_char_total : Nat
  m_horiz_disp : Nat
  m_horiz_sync_pos : Nat
  m_sync_width : Nat
  m_vert_char_total : Nat
  m_vert_total_adj : Nat
  m_vert_disp : Nat
  m_vert_sync_pos : Nat
  m_mode_control : Nat
  m_max_ras_addr : Nat
  m_cursor_start_ras : Nat
  m_cursor_end_ras : Nat
  m_disp_start_addr : Nat
  m_cursor_addr : Nat
  m_light_pen_addr : Nat
  m_update_addr : Nat
  deriving DecidableEq, Repr

/-- Run-time counters, flip-flops and the address latch. -/
structure CounterState where
  m_register_address_latch : Nat
  m_cursor_state : Bool
  m_cursor_blink_count : Nat
  m_update_ready_bit : Bool
  m_character_counter : Nat
  m_hsync_width_counter : Nat
  m_line_counter : Nat
  m_raster_counter : Nat
  m_adjust_counter : Nat
  m_vsync_width_counter : Nat
  m_line_enable_ff : Bool
  m_vsync_ff : Nat
  m_adjust_active : Nat
  m_line_address : Nat
  m_cursor_x : Int
  m_current_disp_addr : Nat
  m_light_pen_latched : Bool
  m_display_disabled_msg_shown : Bool
  deriving DecidableEq, Repr

/-- The cached, derived screen geometry (`uint16_t` members) and its
validity flag. -/
structure ScreenGeometry where
  m_horiz_pix_total : Nat
  m_vert_pix_total : Nat
  m_max_visible_x : Nat
  m_max_visible_y : Nat
  m_hsync_on_pos : Nat
  m_hsync_off_pos : Nat
  m_vsync_on_pos : Nat
  m_vsync_off_pos : Nat
  m_has_valid_parameters : Bool
  deriving DecidableEq, Repr

/-- Current level of the four outputs (`int` members). -/
structure SignalState where
  m_cur : Int
  m_hsync : Int
  m_vsync : Int
  m_de : Int
  deriving DecidableEq, Repr

/-- The whole device.  `m_upd_time` is kept in device clock periods. -/
structure State where
  cfg : ChipConfiguration
  regs : RegisterBank
  ctr : CounterState
  geom : ScreenGeometry
  sig : SignalState
  m_hpixels_per_column : Int
  m_clk_scale : Nat
  m_upd_time : Int
  deriving DecidableEq, Repr

/-- A `rectangle` (inclusive bounds, `int32_t`). -/
structure Rectangle where
  min_x : Int
  max_x : Int
  min_y : Int
  max_y : Int
  deriving DecidableEq, Repr

/-- The timers owned by the device. -/
inductive TimerId where
  | TIMER_LINE
  | TIMER_DE_OFF
  | TIMER_CUR_ON
  | TIMER_CUR_OFF
  | TIMER_HSYNC_ON
  | TIMER_HSYNC_OFF
  | TIMER_LIGHT_PEN_LATCH
  | TIMER_UPD_ADR
  | TIMER_UPD_TRANS
  deriving DecidableEq, Repr

/-- A timer delay: `attotime::never` or a duration in device clock periods. -/
inductive Delay where
  | never
  | clocks (n : Int)
  deriving DecidableEq, Repr

/-- Observable effects, in the order the code performs them. -/
inductive Event where
  /-- The call `screen().configure(width, height, visarea, refresh)`. -/
  | screen_configure (width height : Nat) (visarea : Rectangle) (refresh : Int)
  /-- The call `m_reconfigure_cb(width, height, visarea, refresh)`. -/
  | reconfigure_cb (width height : Nat) (visarea : Rectangle) (refresh : Int)
  /-- The call `timer->adjust(delay, param)`. -/
  | timer_adjust (timer : TimerId) (delay : Delay) (param : Int)
  /-- The line "Mode Control %02X is not supported" written by `logerror`. -/
  | log_mode_control_unsupported (mode_control : Nat)
  /-- The line "Valid screen parameters - display reenabled" written by `logerror`. -/
  | log_display_reenabled
  /-- The line "Invalid screen parameters - display disabled" written by `logerror`. -/
  | log_display_disabled
  /-- The call `screen().reset_origin()`. -/
  | screen_reset_origin
  /-- The call `m_on_update_addr_changed_cb(addr, strobe)`. -/
  | on_update_addr_changed_cb (addr strobe : Int)
  /-- The call `m_begin_update_cb(bitmap, cliprect)`. -/
  | begin_update_cb
  /-- The call `m_end_update_cb(bitmap, cliprect)`. -/
  | end_update_cb
  /-- The call `m_update_row_cb(bitmap, cliprect, ma, ra, y, x_count, cursor_x, de, hbp, vbp)`,
  with the arguments as the callback receives them: `uint16_t ma`, `uint8_t ra`,
  `uint16_t y`, `uint8_t x_count`, `int8_t cursor_x`, `int de`, `int hbp`, `int vbp`. -/
  | update_row_cb (ma : Int) (ra : Nat) (y : Int) (x_count : Nat) (cursor_x : Int) (de hbp vbp : Int)
  /-- The call `m_out_de_cb(level)`. -/
  | out_de_cb (level : Int)
  /-- The call `m_out_cur_cb(level)`. -/
  | out_cur_cb (level : Int)
  /-- The call `m_out_hsync_cb(level)`. -/
  | out_hsync_cb (level : Int)
  /-- The call `m_out_vsync_cb(level)`. -/
  | out_vsync_cb (level : Int)
  deriving DecidableEq, Repr

/-- The ways an operation fails to return: the one `fatalerror` of the
device, the undefined behaviours of the code (a call through an unbound
delegate, an integer division by zero, a loop without end) and a failed
`assert`. -/
inductive Fatal where
  | transparent_memory_mode_without_handler
  | unbound_callback
  | division_by_zero
  | endless_loop
  | assertion_failed
  deriving DecidableEq, Repr

/-! ## Mode macros -/

/-- The macro `MODE_TRANSPARENT`. -/
def MODE_TRANSPARENT (s : State) : Bool := (s.regs.m_mode_control &&& 0x08) != 0

/-- The macro `MODE_TRANSPARENT_PHI2`. -/
def MODE_TRANSPARENT_PHI2 (s : State) : Bool := (s.regs.m_mode_control &&& 0x88) == 0x88

/-- The macro `MODE_TRANSPARENT_BLANK`. -/
def MODE_TRANSPARENT_BLANK (s : State) : Bool := (s.regs.m_mode_control &&& 0x88) == 0x08

/-- The macro `MODE_UPDATE_STROBE`, used as the `int strobe` argument: 1 when
bit 6 is set. -/
def MODE_UPDATE_STROBE (s : State) : Nat :=
  if (s.regs.m_mode_control &&& 0x40) != 0 then 1 else 0

/-- The macro `MODE_INTERLACE_AND_VIDEO`. -/
def MODE_INTERLACE_AND_VIDEO (s : State) : Bool := (s.regs.m_mode_control &&& 0x03) == 3

/-! ## Time -/

/-- Modelled from the spec: `cclks_to_attotime` is declared in `mc6845.h`,
which is not part of the sources at hand.  A duration of `cclks` character
clocks is represented by the number of device clock periods it spans,
`cclks * m_clk_scale`. -/
def cclks_to_attotime (s : State) (cclks : Int) : Int := cclks * s.m_clk_scale

/-! ## Bus interface of the base chip -/

/-- The function `mc6845_device::address_w`. -/
def address_w (s : State) (data : Nat) : State :=
  { s with ctr := { s.ctr with m_register_address_latch := data &&& 0x1f } }

/-- The function `mc6845_device::status_r`. -/
def status_r (s : State) : Nat :=
  let ret := 0
  let ret := if s.cfg.m_supports_status_reg_d5 && !s.ctr.m_line_enable_ff then ret ||| 0x20 else ret
  let ret := if s.cfg.m_supports_status_reg_d6 && s.ctr.m_light_pen_latched then ret ||| 0x40 else ret
  let ret := if s.cfg.m_supports_status_reg_d7 && s.ctr.m_update_ready_bit then ret ||| 0x80 else ret
  ret

/-- The function `mc6845_device::call_on_update_address`. -/
def call_on_update_address (s : State) (strobe : Nat) : Except Fatal (State × List Event) :=
  if s.cfg.on_update_addr_changed_cb_bound then
    .ok (s, [Event.timer_adjust TimerId.TIMER_UPD_TRANS (Delay.clocks 0)
      (((s.regs.m_update_addr <<< 8) ||| strobe : Nat) : Int)])
  else
    .error Fatal.transparent_memory_mode_without_handler

/-- The function `mc6845_device::update_upd_adr_timer`. -/
def update_upd_adr_timer (s : State) : State × List Event :=
  if s.sig.m_de == 0 && s.cfg.m_supports_transparent then
    (s, [Event.timer_adjust TimerId.TIMER_UPD_ADR (Delay.clocks s.m_upd_time) 0])
  else
    (s, [])

/-- The function `mc6845_device::transparent_update`. -/
def transparent_update (s : State) : Except Fatal (State × List Event) :=
  if s.cfg.m_supports_transparent && MODE_TRANSPARENT s then
    if MODE_TRANSPARENT_PHI2 s then
      let s1 := { s with regs := { s.regs with
        m_update_addr := ((s.regs.m_update_addr + 1) % 65536) &&& 0x3fff } }
      call_on_update_address s1 (MODE_UPDATE_STROBE s1)
    else if s.ctr.m_update_ready_bit then
      let s1 := { s with ctr := { s.ctr with m_update_ready_bit := false } }
      .ok (update_upd_adr_timer s1)
    else
      .ok (s, [])
  else
    .ok (s, [])

/-- The function `mc6845_device::register_r`: the byte returned, the state
after the read and the effects; or the fatal error. -/
def register_r (s : State) : Except Fatal (Nat × State × List Event) :=
  match s.ctr.m_register_address_latch with
  | 0x0c => .ok (if s.cfg.m_supports_disp_start_addr_r
                 then (s.regs.m_disp_start_addr >>> 8) &&& 0xff else 0, s, [])
  | 0x0d => .ok (if s.cfg.m_supports_disp_start_addr_r
                 then (s.regs.m_disp_start_addr >>> 0) &&& 0xff else 0, s, [])
  | 0x0e => .ok ((s.regs.m_cursor_addr >>> 8) &&& 0xff, s, [])
  | 0x0f => .ok ((s.regs.m_cursor_addr >>> 0) &&& 0xff, s, [])
  | 0x10 => .ok ((s.regs.m_light_pen_addr >>> 8) &&& 0xff,
                 { s with ctr := { s.ctr with m_light_pen_latched := false } }, [])
  | 0x11 => .ok ((s.regs.m_light_pen_addr >>> 0) &&& 0xff,
                 { s with ctr := { s.ctr with m_light_pen_latched := false } }, [])
  | 0x1f =>
    match transparent_update s with
    | .ok (s1, ev) => .ok (0, s1, ev)
    | .error e => .error e
  | _ => .ok (0, s, [])

/-! ## Geometry recomputation -/

/-- The `uint16_t` / `uint8_t` locals of `recompute_parameters`, after the
three clamps. -/
structure Derived where
  horiz_pix_total : Nat
  vert_pix_total : Nat
  max_visible_x : Nat
  max_visible_y : Nat
  hsync_on_pos : Nat
  hsync_off_pos : Nat
  vsync_on_pos : Nat
  vsync_off_pos : Nat
  deriving DecidableEq, Repr

/-- The local `video_char_height` of `recompute_parameters`. -/
def video_char_height (s : State) : Nat :=
  u16 (s.regs.m_max_ras_addr +
    (if MODE_INTERLACE_AND_VIDEO s then s.cfg.m_interlace_adjust else s.cfg.m_noninterlace_adjust))

/-- Lines 584-625 of `recompute_parameters`: the derived values. -/
def derive_parameters (s : State) : Derived :=
  let video_char_height : Nat := video_char_height s
  let horiz_pix_total : Nat := u16 ((s.regs.m_horiz_char_total + 1) * s.m_hpixels_per_column)
  let vert_pix_total : Nat :=
    u16 ((s.regs.m_vert_char_total + 1) * video_char_height + s.regs.m_vert_total_adj)
  let max_visible_x : Nat := u16 (s.regs.m_horiz_disp * s.m_hpixels_per_column - 1)
  let max_visible_y : Nat := u16 (s.regs.m_vert_disp * video_char_height - 1)
  let horiz_sync_char_width : Nat := u8 (s.regs.m_sync_width &&& 0x0f : Nat)
  let vert_sync_pix_width : Nat :=
    u8 (if s.cfg.m_supports_vert_sync_width then (s.regs.m_sync_width >>> 4) &&& 0x0f else 0x10 : Nat)
  let horiz_sync_char_width : Nat := if horiz_sync_char_width == 0 then 0x10 else horiz_sync_char_width
  let vert_sync_pix_width : Nat := if vert_sync_pix_width == 0 then 0x10 else vert_sync_pix_width
  let hsync_on_pos : Nat := u16 (s.regs.m_horiz_sync_pos * s.m_hpixels_per_column)
  let hsync_off_pos : Nat := u16 (hsync_on_pos + horiz_sync_char_width * s.m_hpixels_per_column)
  let vsync_on_pos : Nat := u16 (s.regs.m_vert_sync_pos * video_char_height : Nat)
  let vsync_off_pos : Nat := u16 (vsync_on_pos + vert_sync_pix_width : Nat)
  let hsync_off_pos : Nat := if hsync_off_pos > horiz_pix_total then horiz_pix_total else hsync_off_pos
  let vsync_on_pos : Nat := if vsync_on_pos > vert_pix_total then vert_pix_total else vsync_on_pos
  let vsync_off_pos : Nat := if vsync_off_pos > vert_pix_total then vert_pix_total else vsync_off_pos
  { horiz_pix_total := horiz_pix_total, vert_pix_total := vert_pix_total,
    max_visible_x := max_visible_x, max_visible_y := max_visible_y,
    hsync_on_pos := hsync_on_pos, hsync_off_pos := hsync_off_pos,
    vsync_on_pos := vsync_on_pos, vsync_off_pos := vsync_off_pos }

/-- The condition of line 628: forced, or some derived value differs from
the cached one. -/
def parameters_changed (s : State) (d : Derived) (postload : Bool) : Bool :=
  postload ||
  (d.horiz_pix_total != s.geom.m_horiz_pix_total) || (d.vert_pix_total != s.geom.m_vert_pix_total) ||
  (d.max_visible_x != s.geom.m_max_visible_x) || (d.max_visible_y != s.geom.m_max_visible_y) ||
  (d.hsync_on_pos != s.geom.m_hsync_on_pos) || (d.vsync_on_pos != s.geom.m_vsync_on_pos) ||
  (d.hsync_off_pos != s.geom.m_hsync_off_pos) || (d.vsync_off_pos != s.geom.m_vsync_off_pos)

/-- The condition of line 635: the derived values describe a usable raster. -/
def parameters_valid (d : Derived) : Bool :=
  (d.horiz_pix_total > 0) && (d.max_visible_x < d.horiz_pix_total) &&
  (d.vert_pix_total > 0) && (d.max_visible_y < d.vert_pix_total) &&
  (d.hsync_on_pos ≤ d.horiz_pix_total) && (d.vsync_on_pos ≤ d.vert_pix_total) &&
  (d.hsync_on_pos != d.hsync_off_pos)

/-- The local `visarea` of `recompute_parameters`. -/
def visarea (s : State) (d : Derived) : Rectangle :=
  if s.cfg.m_show_border_area then
    { min_x := 0, max_x := (d.horiz_pix_total : Int) - 2,
      min_y := 0, max_y := (d.vert_pix_total : Int) - 2 }
  else
    { min_x := 0 + s.cfg.m_visarea_adjust_min_x,
      max_x := (d.max_visible_x : Int) + s.cfg.m_visarea_adjust_max_x,
      min_y := 0 + s.cfg.m_visarea_adjust_min_y,
      max_y := (d.max_visible_y : Int) + s.cfg.m_visarea_adjust_max_y }

/-- The geometry-change notification of lines 663-667: the screen is
configured when there is one, then the reconfigure callback is called when
it is bound. -/
def geometry_notification (s : State) (d : Derived) : List Event :=
  let refresh : Int := cclks_to_attotime s ((s.regs.m_horiz_char_total + 1) * d.vert_pix_total : Nat)
  (if s.cfg.has_screen then
    [Event.screen_configure d.horiz_pix_total d.vert_pix_total (visarea s d) refresh] else []) ++
  (if s.cfg.reconfigure_cb_bound then
    [Event.reconfigure_cb d.horiz_pix_total d.vert_pix_total (visarea s d) refresh] else [])

/-- The function `mc6845_device::recompute_parameters`. -/
def recompute_parameters (s : State) (postload : Bool) : State × List Event :=
  let d := derive_parameters s
  let s := { s with m_upd_time := cclks_to_attotime s (4 * s.m_hpixels_per_column) }
  if parameters_changed s d postload then
    let valid := parameters_valid d
    let ev := if valid then geometry_notification s d else []
    let s := { s with geom :=
      { m_horiz_pix_total := d.horiz_pix_total, m_vert_pix_total := d.vert_pix_total,
        m_max_visible_x := d.max_visible_x, m_max_visible_y := d.max_visible_y,
        m_hsync_on_pos := d.hsync_on_pos, m_hsync_off_pos := d.hsync_off_pos,
        m_vsync_on_pos := d.vsync_on_pos, m_vsync_off_pos := d.vsync_off_pos,
        m_has_valid_parameters := valid } }
    let s := if s.cfg.reconfigure_cb_bound && !postload then
      { s with ctr := { s.ctr with m_line_counter := 0 } } else s
    (s, ev)
  else
    (s, [])

/-! ## Register writes of the base chip -/

/-- The `switch` of `mc6845_device::register_w` (lines 246-284). -/
def register_w_store (s : State) (data : Nat) : Except Fatal (State × List Event) :=
  match s.ctr.m_register_address_latch with
  | 0x00 => .ok ({ s with regs := { s.regs with m_horiz_char_total := data &&& 0xff } }, [])
  | 0x01 => .ok ({ s with regs := { s.regs with m_horiz_disp := data &&& 0xff } }, [])
  | 0x02 => .ok ({ s with regs := { s.regs with m_horiz_sync_pos := data &&& 0xff } }, [])
  | 0x03 => .ok ({ s with regs := { s.regs with m_sync_width := data &&& 0xff } }, [])
  | 0x04 => .ok ({ s with regs := { s.regs with m_vert_char_total := data &&& 0x7f } }, [])
  | 0x05 => .ok ({ s with regs := { s.regs with m_vert_total_adj := data &&& 0x1f } }, [])
  | 0x06 => .ok ({ s with regs := { s.regs with m_vert_disp := data &&& 0x7f } }, [])
  | 0x07 => .ok ({ s with regs := { s.regs with m_vert_sync_pos := data &&& 0x7f } }, [])
  | 0x08 => .ok ({ s with regs := { s.regs with m_mode_control := data &&& 0xff } }, [])
  | 0x09 => .ok ({ s with regs := { s.regs with m_max_ras_addr := data &&& 0x1f } }, [])
  | 0x0a => .ok ({ s with regs := { s.regs with m_cursor_start_ras := data &&& 0x7f } }, [])
  | 0x0b => .ok ({ s with regs := { s.regs with m_cursor_end_ras := data &&& 0x1f } }, [])
  | 0x0c => .ok ({ s with regs := { s.regs with
      m_disp_start_addr := ((data &&& 0x3f) <<< 8) ||| (s.regs.m_disp_start_addr &&& 0x00ff) } }, [])
  | 0x0d => .ok ({ s with regs := { s.regs with
      m_disp_start_addr := ((data &&& 0xff) <<< 0) ||| (s.regs.m_disp_start_addr &&& 0xff00) } }, [])
  | 0x0e => .ok ({ s with regs := { s.regs with
      m_cursor_addr := ((data &&& 0x3f) <<< 8) ||| (s.regs.m_cursor_addr &&& 0x00ff) } }, [])
  | 0x0f => .ok ({ s with regs := { s.regs with
      m_cursor_addr := ((data &&& 0xff) <<< 0) ||| (s.regs.m_cursor_addr &&& 0xff00) } }, [])
  | 0x10 => .ok (s, [])
  | 0x11 => .ok (s, [])
  | 0x12 =>
    if s.cfg.m_supports_transparent then
      let s1 := { s with regs := { s.regs with
        m_update_addr := ((data &&& 0x3f) <<< 8) ||| (s.regs.m_update_addr &&& 0x00ff) } }
      if MODE_TRANSPARENT_PHI2 s1 then call_on_update_address s1 (MODE_UPDATE_STROBE s1)
      else .ok (s1, [])
    else .ok (s, [])
  | 0x13 =>
    if s.cfg.m_supports_transparent then
      let s1 := { s with regs := { s.regs with
        m_update_addr := ((data &&& 0xff) <<< 0) ||| (s.regs.m_update_addr &&& 0xff00) } }
      if MODE_TRANSPARENT_PHI2 s1 then call_on_update_address s1 (MODE_UPDATE_STROBE s1)
      else .ok (s1, [])
    else .ok (s, [])
  | 0x1f => transparent_update s
  | _ => .ok (s, [])

/-- The function `mc6845_device::register_w`: the switch, the log line about
the mode control register, then `recompute_parameters(false)`. -/
def register_w (s : State) (data : Nat) : Except Fatal (State × List Event) :=
  match register_w_store s data with
  | .error e => .error e
  | .ok (s1, ev1) =>
    let ev2 : List Event :=
      if s1.ctr.m_register_address_latch == 0x08 && s1.regs.m_mode_control != 0
          && !s1.cfg.m_supports_transparent
      then [Event.log_mode_control_unsupported s1.regs.m_mode_control] else []
    let r := recompute_parameters s1 false
    .ok (r.1, ev1 ++ ev2 ++ r.2)

/-! ## Start and reset -/

/-- The object as the constructor `mc6845_device::mc6845_device` leaves it;
the members the constructor does not initialise are taken to be 0 / false,
and nothing is bound. -/
def constructed : State :=
  { cfg :=
      { m_supports_disp_start_addr_r := false, m_supports_vert_sync_width := false,
        m_supports_status_reg_d5 := false, m_supports_status_reg_d6 := false,
        m_supports_status_reg_d7 := false, m_supports_transparent := false,
        m_noninterlace_adjust := 0, m_interlace_adjust := 0, m_show_border_area := true,
        m_visarea_adjust_min_x := 0, m_visarea_adjust_max_x := 0,
        m_visarea_adjust_min_y := 0, m_visarea_adjust_max_y := 0,
        has_screen := false, reconfigure_cb_bound := false, begin_update_cb_bound := false,
        update_row_cb_bound := false, end_update_cb_bound := false,
        on_update_addr_changed_cb_bound := false },
    regs :=
      { m_horiz_char_total := 0, m_horiz_disp := 0, m_horiz_sync_pos := 0, m_sync_width := 0,
        m_vert_char_total := 0, m_vert_total_adj := 0, m_vert_disp := 0, m_vert_sync_pos := 0,
        m_mode_control := 0, m_max_ras_addr := 0, m_cursor_start_ras := 0, m_cursor_end_ras := 0,
        m_disp_start_addr := 0, m_cursor_addr := 0, m_light_pen_addr := 0, m_update_addr := 0 },
    ctr :=
      { m_register_address_latch := 0, m_cursor_state := false, m_cursor_blink_count := 0,
        m_update_ready_bit := false, m_character_counter := 0, m_hsync_width_counter := 0,
        m_line_counter := 0, m_raster_counter := 0, m_adjust_counter := 0,
        m_vsync_width_counter := 0, m_line_enable_ff := false, m_vsync_ff := 0,
        m_adjust_active := 0, m_line_address := 0, m_cursor_x := 0, m_current_disp_addr := 0,
        m_light_pen_latched := false, m_display_disabled_msg_shown := false },
    geom :=
      { m_horiz_pix_total := 0, m_vert_pix_total := 0, m_max_visible_x := 0, m_max_visible_y := 0,
        m_hsync_on_pos := 0, m_hsync_off_pos := 0, m_vsync_on_pos := 0, m_vsync_off_pos := 0,
        m_has_valid_parameters := false },
    sig := { m_cur := 0, m_hsync := 0, m_vsync := 0, m_de := 0 },
    m_hpixels_per_column := 0, m_clk_scale := 1, m_upd_time := 0 }

/-- The function `mc6845_device::device_start`: the assignments of lines
1250-1290; the members it does not assign keep their value.  The two
assertions at its head (a positive clock and a positive pixels-per-column
value) are requirements on the configuration handed in. -/
def device_start (s : State) : State :=
  { s with
    cfg := { s.cfg with
      m_supports_disp_start_addr_r := false, m_supports_vert_sync_width := false,
      m_supports_status_reg_d5 := false, m_supports_status_reg_d6 := false,
      m_supports_status_reg_d7 := false, m_supports_transparent := false,
      m_noninterlace_adjust := 1, m_interlace_adjust := 1 },
    regs := { s.regs with
      m_horiz_char_total := 0xff, m_max_ras_addr := 0x1f, m_vert_char_total := 0x7f,
      m_mode_control := 0x00, m_horiz_sync_pos := 1, m_sync_width := 1,
      m_horiz_disp := 0, m_vert_disp := 0, m_vert_sync_pos := 0, m_vert_total_adj := 0,
      m_cursor_start_ras := 0, m_cursor_end_ras := 0, m_cursor_addr := 0,
      m_disp_start_addr := 0 },
    ctr := { s.ctr with
      m_display_disabled_msg_shown := false, m_line_enable_ff := false, m_vsync_ff := 0,
      m_raster_counter := 0, m_adjust_active := 0, m_line_counter := 0,
      m_cursor_blink_count := 0, m_cursor_state := false, m_update_ready_bit := false,
      m_line_address := 0, m_current_disp_addr := 0 },
    geom :=
      { m_horiz_pix_total := 0, m_vert_pix_total := 0, m_max_visible_x := 0, m_max_visible_y := 0,
        m_hsync_on_pos := 0, m_hsync_off_pos := 0, m_vsync_on_pos := 0, m_vsync_off_pos := 0,
        m_has_valid_parameters := false },
    sig := { m_cur := 0, m_hsync := 0, m_vsync := 0, m_de := 0 } }

/-- The function `mc6845_device::device_reset`.  `line_timer_enabled` is the
answer of `m_line_timer->enabled()`. -/
def device_reset (s : State) (line_timer_enabled : Bool) : State × List Event :=
  let ev : List Event :=
    [Event.out_de_cb 0, Event.out_hsync_cb 0, Event.out_vsync_cb 0] ++
    (if !line_timer_enabled then
      [Event.timer_adjust TimerId.TIMER_LINE
        (Delay.clocks (cclks_to_attotime s (s.regs.m_horiz_char_total + 1 : Nat))) 0]
     else [])
  ({ s with
     regs := { s.regs with
       m_cursor_addr := 0, m_horiz_disp := 0, m_mode_control := 0, m_update_addr := 0,
       m_light_pen_addr := 0 },
     ctr := { s.ctr with
       m_light_pen_latched := false, m_line_address := 0, m_cursor_x := 0,
       m_register_address_latch := 0 } }, ev)

/-- An MC6845 with 8 pixels per character column after `device_start`. -/
def mc6845_started : State :=
  device_start { constructed with m_hpixels_per_column := 8 }

/-! ## Variants -/

/-- The function `mc6845_1_device::device_start`. -/
def mc6845_1_device_start (s : State) : State :=
  let s := device_start s
  { s with cfg := { s.cfg with
      m_supports_disp_start_addr_r := true, m_supports_vert_sync_width := true,
      m_supports_status_reg_d5 := false, m_supports_status_reg_d6 := false,
      m_supports_status_reg_d7 := false, m_supports_transparent := false } }

/-- The function `c6545_1_device::device_start`. -/
def c6545_1_device_start (s : State) : State :=
  let s := device_start s
  { s with cfg := { s.cfg with
      m_supports_disp_start_addr_r := false, m_supports_vert_sync_width := true,
      m_supports_status_reg_d5 := true, m_supports_status_reg_d6 := true,
      m_supports_status_reg_d7 := false, m_supports_transparent := false } }

/-- The function `r6545_1_device::device_start`. -/
def r6545_1_device_start (s : State) : State :=
  let s := device_start s
  { s with cfg := { s.cfg with
      m_supports_disp_start_addr_r := false, m_supports_vert_sync_width := true,
      m_supports_status_reg_d5 := true, m_supports_status_reg_d6 := true,
      m_supports_status_reg_d7 := true, m_supports_transparent := true } }

/-- The function `hd6845s_device::device_start`. -/
def hd6845s_device_start (s : State) : State :=
  let s := device_start s
  { s with cfg := { s.cfg with
      m_supports_disp_start_addr_r := true, m_supports_vert_sync_width := true,
      m_supports_status_reg_d5 := false, m_supports_status_reg_d6 := false,
      m_supports_status_reg_d7 := false, m_supports_transparent := false,
      m_noninterlace_adjust := 1, m_interlace_adjust := 2 } }

/-- The function `sy6545_1_device::device_start`. -/
def sy6545_1_device_start (s : State) : State :=
  let s := device_start s
  { s with cfg := { s.cfg with
      m_supports_disp_start_addr_r := false, m_supports_vert_sync_width := true,
      m_supports_status_reg_d5 := true, m_supports_status_reg_d6 := true,
      m_supports_status_reg_d7 := true, m_supports_transparent := true } }

/-- The function `sy6845e_device::device_start`. -/
def sy6845e_device_start (s : State) : State :=
  let s := device_start s
  { s with cfg := { s.cfg with
      m_supports_disp_start_addr_r := false, m_supports_vert_sync_width := true,
      m_supports_status_reg_d5 := true, m_supports_status_reg_d6 := true,
      m_supports_status_reg_d7 := true, m_supports_transparent := true } }

/-- The function `ams40489_device::device_start`. -/
def ams40489_device_start (s : State) : State :=
  let s := device_start s
  { s with cfg := { s.cfg with
      m_supports_disp_start_addr_r := true, m_supports_vert_sync_width := false,
      m_supports_status_reg_d5 := false, m_supports_status_reg_d6 := false,
      m_supports_status_reg_d7 := false, m_supports_transparent := false } }

/-- The members `mos8563_device` adds to the base device, and its video RAM
(address space 0).  The row buffers `m_char_buffer` / `m_attr_buffer` are
only saved, never read or written, by the code at hand and are left out. -/
structure MOS8563State where
  base : State
  m_char_blink_state : Bool
  m_char_blink_count : Nat
  m_attribute_addr : Nat
  m_horiz_char : Nat
  m_vert_char_disp : Nat
  m_vert_scroll : Nat
  m_horiz_scroll : Nat
  m_color : Nat
  m_row_addr_incr : Nat
  m_char_base_addr : Nat
  m_underline_ras : Nat
  m_word_count : Nat
  m_data : Nat
  m_block_addr : Nat
  m_de_begin : Nat
  m_dram_refresh : Nat
  m_sync_polarity : Nat
  m_revision : Nat
  videoram : Nat → Nat

/-- The members `hd6345_device` adds to the base device. -/
structure HD6345State where
  base : State
  m_disp2_pos : Nat
  m_disp3_pos : Nat
  m_disp4_pos : Nat
  m_disp2_start_addr : Nat
  m_disp3_start_addr : Nat
  m_disp4_start_addr : Nat
  m_vert_sync_pos_adj : Nat
  m_smooth_scroll_ras : Nat
  m_control1 : Nat
  m_control2 : Nat
  m_control3 : Nat
  m_mem_width_offs : Nat
  m_cursor2_start_ras : Nat
  m_cursor2_end_ras : Nat
  m_cursor2_addr : Nat
  m_cursor_width : Nat
  m_cursor2_width : Nat
  deriving DecidableEq, Repr

/-- The function `mos8563_device::address_w`. -/
def mos8563_address_w (s : MOS8563State) (data : Nat) : MOS8563State :=
  { s with base := { s.base with ctr := { s.base.ctr with
      m_register_address_latch := data &&& 0x3f } } }

/-- The function `hd6345_device::address_w`. -/
def hd6345_address_w (s : HD6345State) (data : Nat) : HD6345State :=
  { s with base := { s.base with ctr := { s.base.ctr with
      m_register_address_latch := data &&& 0x3f } } }

/-- An R6545-1 with 8 pixels per character column after `device_start`; no
update-address handler is bound. -/
def r6545_1_started : State :=
  r6545_1_device_start { constructed with m_hpixels_per_column := 8 }

/-- The condition under which `transparent_update` reaches the update-address
call with no handler bound: a transparent-capable chip in PHI2 transparent
mode without handler. -/
def transparent_update_fatal (s : State) : Bool :=
  s.cfg.m_supports_transparent && MODE_TRANSPARENT_PHI2 s &&
    !s.cfg.on_update_addr_changed_cb_bound

/-- The cache is up to date: the test of line 628 finds no derived value
different from the cached one, and `m_upd_time` is the update cycle time of
the current pixels-per-column value. -/
def cache_current (s : State) : Bool :=
  !parameters_changed s (derive_parameters s) false &&
    s.m_upd_time == cclks_to_attotime s (4 * s.m_hpixels_per_column)

/-! ## A bus master -/

/-- A bus master programming the chip: for each (register, value) pair it
selects the register with `address_w` and writes the value with
`register_w`; the effects are collected in order. -/
def write_registers (s : State) : List (Nat × Nat) → Except Fatal (State × List Event)
  | [] => .ok (s, [])
  | (reg, data) :: rest =>
    match register_w (address_w s reg) data with
    | .error e => .error e
    | .ok (s1, ev1) =>
      match write_registers s1 rest with
      | .error e => .error e
      | .ok (s2, ev2) => .ok (s2, ev1 ++ ev2)

/-- A 50 x 11 character set-up (40 x 8 displayed, 8 raster rows per character
row) whose vertical sync position, 20, lies beyond the vertical total. -/
def late_vsync_setup : List (Nat × Nat) :=
  [(0x00, 49), (0x01, 40), (0x02, 42), (0x03, 0x01), (0x04, 10), (0x05, 0), (0x06, 8),
   (0x07, 20), (0x09, 7)]

/-- A started MC6845 attached to a screen, with the registers of
`late_vsync_setup` in place. -/
def late_vsync_chip : State :=
  { mc6845_started with
    cfg := { mc6845_started.cfg with has_screen := true },
    regs := { mc6845_started.regs with
      m_horiz_char_total := 49, m_horiz_disp := 40, m_horiz_sync_pos := 42, m_sync_width := 0x01,
      m_vert_char_total := 10, m_vert_total_adj := 0, m_vert_disp := 8, m_vert_sync_pos := 20,
      m_max_ras_addr := 7 } }

/-! ## Output signals -/

/-- Conversion of an `int` expression to `int16_t`. -/
def i16 (x : Int) : Int := (x + 32768) % 65536 - 32768

/-- Conversion of an `int` expression to `int8_t`. -/
def i8 (x : Int) : Int := (x + 128) % 256 - 128

/-- The function `mc6845_device::de_r`. -/
def de_r (s : State) : Int := s.sig.m_de

/-- The function `mc6845_device::cursor_r`. -/
def cursor_r (s : State) : Int := s.sig.m_cur

/-- The function `mc6845_device::hsync_r`. -/
def hsync_r (s : State) : Int := s.sig.m_hsync

/-- The function `mc6845_device::vsync_r`. -/
def vsync_r (s : State) : Int := s.sig.m_vsync

/-- The function `mc6845_device::set_de`. -/
def set_de (s : State) (state : Int) : State × List Event :=
  if s.sig.m_de != state then
    let s1 := { s with sig := { s.sig with m_de := state } }
    let r : State × List Event :=
      if s1.sig.m_de != 0 then
        (s1, [Event.timer_adjust TimerId.TIMER_UPD_ADR Delay.never 0])
      else if !s1.ctr.m_update_ready_bit then update_upd_adr_timer s1
      else (s1, [])
    (r.1, r.2 ++ [Event.out_de_cb r.1.sig.m_de])
  else
    (s, [])

/-- The function `mc6845_device::set_hsync`. -/
def set_hsync (s : State) (state : Int) : State × List Event :=
  if s.sig.m_hsync != state then
    ({ s with sig := { s.sig with m_hsync := state } }, [Event.out_hsync_cb state])
  else
    (s, [])

/-- The function `mc6845_device::set_vsync`. -/
def set_vsync (s : State) (state : Int) : State × List Event :=
  if s.sig.m_vsync != state then
    ({ s with sig := { s.sig with m_vsync := state } }, [Event.out_vsync_cb state])
  else
    (s, [])

/-- The function `mc6845_device::set_cur`. -/
def set_cur (s : State) (state : Int) : State × List Event :=
  if s.sig.m_cur != state then
    ({ s with sig := { s.sig with m_cur := state } }, [Event.out_cur_cb state])
  else
    (s, [])

/-! ## The line engine -/

/-- The `int` expression `m_max_ras_addr + (MODE_INTERLACE_AND_VIDEO ?
m_interlace_adjust : m_noninterlace_adjust)`: the character height. -/
def char_height (s : State) : Int :=
  s.regs.m_max_ras_addr +
    (if MODE_INTERLACE_AND_VIDEO s then s.cfg.m_interlace_adjust else s.cfg.m_noninterlace_adjust)

/-- The function `mc6845_device::match_line`: the state after it and the
value it returns. -/
def match_line (s : State) : State × Bool :=
  let s1 :=
    if s.ctr.m_line_counter == s.regs.m_vert_disp then
      { s with ctr := { s.ctr with
          m_line_enable_ff := false, m_current_disp_addr := s.regs.m_disp_start_addr } }
    else s
  if s1.ctr.m_line_counter == s1.regs.m_vert_sync_pos then
    ({ s1 with ctr := { s1.ctr with m_vsync_width_counter := 0, m_vsync_ff := 1 } }, true)
  else
    (s1, false)

/-- The function `mc6845_device::check_cursor_visible` (the cursor wraps). -/
def check_cursor_visible (s : State) (ra line_addr : Nat) : Bool :=
  if !s.ctr.m_cursor_state then false
  else if s.regs.m_cursor_addr < line_addr ||
      s.regs.m_cursor_addr ≥ line_addr + s.regs.m_horiz_disp then false
  else
    let cursor_start_ras : Nat := s.regs.m_cursor_start_ras &&& 0x1f
    let max_ras_addr : Nat := u16 (char_height s - 1)
    if cursor_start_ras > max_ras_addr then false
    else if cursor_start_ras ≤ s.regs.m_cursor_end_ras then
      if s.regs.m_cursor_end_ras > max_ras_addr then true
      else ra ≥ cursor_start_ras && ra ≤ s.regs.m_cursor_end_ras
    else ra ≤ s.regs.m_cursor_end_ras || ra ≥ cursor_start_ras

/-- The function `hd6845s_device::check_cursor_visible` (no wrap). -/
def hd6845s_check_cursor_visible (s : State) (ra line_addr : Nat) : Bool :=
  if !s.ctr.m_cursor_state then false
  else if s.regs.m_cursor_addr < line_addr ||
      s.regs.m_cursor_addr ≥ line_addr + s.regs.m_horiz_disp then false
  else
    let cursor_start_ras : Nat := s.regs.m_cursor_start_ras &&& 0x1f
    let max_ras_addr : Nat := u16 (char_height s - 1)
    if cursor_start_ras > max_ras_addr || cursor_start_ras > s.regs.m_cursor_end_ras then false
    else ra ≥ cursor_start_ras && ra ≤ s.regs.m_cursor_end_ras

/-- The function `mc6845_device::update_cursor_state`. -/
def update_cursor_state (s : State) : State :=
  let last_cursor_blink_count : Nat := s.ctr.m_cursor_blink_count
  let s := { s with ctr := { s.ctr with
    m_cursor_blink_count := u8 (s.ctr.m_cursor_blink_count + 1 : Nat) } }
  match s.regs.m_cursor_start_ras &&& 0x60 with
  | 0x00 => { s with ctr := { s.ctr with m_cursor_state := true } }
  | 0x40 =>
    if (last_cursor_blink_count &&& 0x10) != (s.ctr.m_cursor_blink_count &&& 0x10) then
      { s with ctr := { s.ctr with m_cursor_state := !s.ctr.m_cursor_state } }
    else s
  | 0x60 =>
    if (last_cursor_blink_count &&& 0x20) != (s.ctr.m_cursor_blink_count &&& 0x20) then
      { s with ctr := { s.ctr with m_cursor_state := !s.ctr.m_cursor_state } }
    else s
  | _ => { s with ctr := { s.ctr with m_cursor_state := false } }

/-- Lines 853-867 of `handle_line_timer`: while VSYNC is active its width
counter advances, and VSYNC ends when the counter reaches the width. -/
def line_vsync_width (s : State) (new_vsync : Bool) : State × Bool :=
  if s.ctr.m_vsync_ff != 0 then
    let vsync_width : Nat :=
      u8 (if s.cfg.m_supports_vert_sync_width then (s.regs.m_sync_width >>> 4) &&& 0x0f else 0 : Nat)
    let s1 := { s with ctr := { s.ctr with
      m_vsync_width_counter := (s.ctr.m_vsync_width_counter + 1) &&& 0x0F } }
    if s1.ctr.m_vsync_width_counter == vsync_width then
      ({ s1 with ctr := { s1.ctr with m_vsync_ff := 0 } }, false)
    else (s1, new_vsync)
  else (s, new_vsync)

/-- Lines 869-893 of `handle_line_timer`: the raster counter, and at a row
boundary the line counter and the line address. -/
def line_counters (s : State) (new_vsync : Bool) : State × Bool :=
  if (s.ctr.m_raster_counter : Int) == char_height s - 1 then
    let s1 :=
      if s.ctr.m_line_counter == s.regs.m_vert_char_total then
        { s with ctr := { s.ctr with m_adjust_counter := 0, m_adjust_active := 1 } }
      else s
    let s2 := { s1 with ctr := { s1.ctr with
      m_raster_counter := 0,
      m_line_counter := (s1.ctr.m_line_counter + 1) &&& 0x7F,
      m_line_address := (s1.ctr.m_line_address + s1.regs.m_horiz_disp) &&& 0x3fff } }
    let r := match_line s2
    (r.1, if r.2 then true else new_vsync)
  else
    ({ s with ctr := { s.ctr with m_raster_counter := (s.ctr.m_raster_counter + 1) &&& 0x1F } },
     new_vsync)

/-- Lines 895-922 of `handle_line_timer`: vertical adjust and the frame
origin reset. -/
def line_adjust (s : State) (new_vsync : Bool) : (State × Bool) × List Event :=
  if s.ctr.m_adjust_active != 0 then
    if s.ctr.m_adjust_counter == s.regs.m_vert_total_adj then
      let s1 := { s with ctr := { s.ctr with
        m_adjust_active := 0, m_raster_counter := 0, m_line_counter := 0,
        m_line_address := s.regs.m_disp_start_addr, m_line_enable_ff := true } }
      let r : State × Bool :=
        if s1.cfg.m_supports_vert_sync_width then
          ((match_line s1).1, if (match_line s1).2 then true else new_vsync)
        else (s1, new_vsync)
      ((update_cursor_state r.1, r.2),
       if s.cfg.has_screen then [Event.screen_reset_origin] else [])
    else
      (({ s with ctr := { s.ctr with
          m_adjust_counter := (s.ctr.m_adjust_counter + 1) &&& 0x1F } }, new_vsync), [])
  else ((s, new_vsync), [])

/-- Lines 924-943 of `handle_line_timer`: the events scheduled for the line.
`ccv` is the variant's `check_cursor_visible`. -/
def line_schedule (ccv : State → Nat → Nat → Bool) (s : State) : State × List Event :=
  let r : State × List Event :=
    if s.ctr.m_line_enable_ff then
      let ev_de : List Event := [Event.timer_adjust TimerId.TIMER_DE_OFF
        (Delay.clocks (cclks_to_attotime s (s.regs.m_horiz_disp : Nat))) 0]
      if ccv s s.ctr.m_raster_counter s.ctr.m_line_address then
        let s1 := { s with ctr := { s.ctr with
          m_cursor_x := i16 ((s.regs.m_cursor_addr : Int) - s.ctr.m_line_address) } }
        (s1, ev_de ++ [Event.timer_adjust TimerId.TIMER_CUR_ON
          (Delay.clocks (cclks_to_attotime s1 s1.ctr.m_cursor_x)) 0])
      else (s, ev_de)
    else (s, [])
  (r.1, r.2 ++
    [Event.timer_adjust TimerId.TIMER_HSYNC_ON
      (Delay.clocks (cclks_to_attotime r.1 (r.1.regs.m_horiz_sync_pos : Nat))) 0,
     Event.timer_adjust TimerId.TIMER_LINE
      (Delay.clocks (cclks_to_attotime r.1 (r.1.regs.m_horiz_char_total + 1 : Nat))) 0])

/-- The function `mc6845_device::handle_line_timer`. -/
def handle_line_timer (ccv : State → Nat → Nat → Bool) (s : State) : State × List Event :=
  let new_vsync : Bool := s.sig.m_vsync != 0
  let s0 := { s with ctr := { s.ctr with m_character_counter := 0, m_cursor_x := -1 } }
  let r1 := line_vsync_width s0 new_vsync
  let r2 := line_counters r1.1 r1.2
  let r3 := line_adjust r2.1 r2.2
  let r4 := line_schedule ccv r3.1.1
  let r5 := set_vsync r4.1 (if r3.1.2 then 1 else 0)
  let r6 := set_de r5.1 (if r5.1.ctr.m_line_enable_ff then 1 else 0)
  (r6.1, r3.2 ++ r4.2 ++ r5.2 ++ r6.2)

/-! ## Timers -/

/-- What the scheduler answers when the device looks at its timers:
`attotime_to_cclks(m_line_timer->elapsed())`, `m_hsync_off_timer->enabled()`
and `attotime_to_cclks(m_hsync_off_timer->elapsed())`. -/
structure TimerView where
  line_elapsed_cclks : Int
  hsync_off_enabled : Bool
  hsync_off_elapsed_cclks : Int
  deriving DecidableEq, Repr

/-- The function `mc6845_device::update_counters`. -/
def update_counters (s : State) (view : TimerView) : State :=
  let s1 := { s with ctr := { s.ctr with m_character_counter := u8 view.line_elapsed_cclks } }
  if view.hsync_off_enabled then
    { s1 with ctr := { s1.ctr with m_hsync_width_counter := u8 view.hsync_off_elapsed_cclks } }
  else s1

/-- The function `mc6845_device::get_ma`: the address returned and the state
after `update_counters`. -/
def get_ma (s : State) (view : TimerView) : Nat × State :=
  let s1 := update_counters s view
  ((s1.ctr.m_line_address + s1.ctr.m_character_counter) &&& 0x3fff, s1)

/-- The function `mc6845_device::get_ra`. -/
def get_ra (s : State) : Nat := s.ctr.m_raster_counter

/-- The function `mc6845_device::assert_light_pen_input`. -/
def assert_light_pen_input (s : State) : State × List Event :=
  (s, [Event.timer_adjust TimerId.TIMER_LIGHT_PEN_LATCH (Delay.clocks (cclks_to_attotime s 1)) 0])

/-- The function `mc6845_device::device_timer`.  `ccv` is the variant's
`check_cursor_visible`; calling the update-address callback while it is
unbound is an error. -/
def device_timer (ccv : State → Nat → Nat → Bool) (s : State) (id : TimerId) (param : Int)
    (view : TimerView) : Except Fatal (State × List Event) :=
  match id with
  | TimerId.TIMER_LINE => .ok (handle_line_timer ccv s)
  | TimerId.TIMER_DE_OFF => .ok (set_de s 0)
  | TimerId.TIMER_CUR_ON =>
    let r := set_cur s 1
    .ok (r.1, r.2 ++ [Event.timer_adjust TimerId.TIMER_CUR_OFF
      (Delay.clocks (cclks_to_attotime r.1 1)) 0])
  | TimerId.TIMER_CUR_OFF => .ok (set_cur s 0)
  | TimerId.TIMER_HSYNC_ON =>
    let hsync_width : Nat :=
      u8 (if (s.regs.m_sync_width &&& 0x0f) != 0 then s.regs.m_sync_width &&& 0x0f else 0x10 : Nat)
    let s1 := { s with ctr := { s.ctr with m_hsync_width_counter := 0 } }
    let r := set_hsync s1 1
    .ok (r.1, r.2 ++ [Event.timer_adjust TimerId.TIMER_HSYNC_OFF
      (Delay.clocks (cclks_to_attotime r.1 (hsync_width : Nat))) 0])
  | TimerId.TIMER_HSYNC_OFF => .ok (set_hsync s 0)
  | TimerId.TIMER_LIGHT_PEN_LATCH =>
    let r := get_ma s view
    .ok ({ r.2 with
      regs := { r.2.regs with m_light_pen_addr := r.1 },
      ctr := { r.2.ctr with m_light_pen_latched := true } }, [])
  | TimerId.TIMER_UPD_ADR => call_on_update_address s (MODE_UPDATE_STROBE s)
  | TimerId.TIMER_UPD_TRANS =>
    if s.cfg.on_update_addr_changed_cb_bound then
      let addr : Int := param / 256
      let strobe : Int := param % 256
      let s1 :=
        if !s.ctr.m_update_ready_bit && MODE_TRANSPARENT_BLANK s then
          { s with
            regs := { s.regs with m_update_addr := ((s.regs.m_update_addr + 1) % 65536) &&& 0x3fff },
            ctr := { s.ctr with m_update_ready_bit := true } }
        else s
      .ok (s1, [Event.on_update_addr_changed_cb addr strobe])
    else .error Fatal.unbound_callback

/-! ## Configuration changes and state restore -/

/-- The function `mc6845_device::set_hpixels_per_column`. -/
def set_hpixels_per_column (s : State) (hpixels_per_column : Int) :
    Except Fatal (State × List Event) :=
  if hpixels_per_column ≤ 0 then .error Fatal.assertion_failed
  else if hpixels_per_column != s.m_hpixels_per_column then
    .ok (recompute_parameters { s with m_hpixels_per_column := hpixels_per_column } false)
  else .ok (s, [])

/-- The function `mc6845_device::device_post_load`. -/
def device_post_load (s : State) : State × List Event := recompute_parameters s true

/-- The function `mc6845_device::device_clock_changed`. -/
def device_clock_changed (s : State) : State × List Event := recompute_parameters s true

/-! ## Drawing -/

/-- The function `mc6845_device::draw_scanline`: the raster row returned,
the state afterwards and the call of the row-drawing callback.  `ccv` is the
variant's `check_cursor_visible`.  A character height of 0 makes the code
divide by zero, and the row-drawing callback must be bound.  The callback
takes the address and the scanline number as `uint16_t`: the `int` values
`ma + m_disp_start_addr` and `y` are converted to 16 bits by the call. -/
def draw_scanline (ccv : State → Nat → Nat → Bool) (s : State) (y : Int) :
    Except Fatal (Nat × State × List Event) :=
  if char_height s = 0 then .error Fatal.division_by_zero
  else if !s.cfg.update_row_cb_bound then .error Fatal.unbound_callback
  else
    let ra : Nat := u8 (Int.tmod y (char_height s))
    let cursor_visible : Bool := ccv s ra s.ctr.m_current_disp_addr
    let cursor_x : Int :=
      i8 (if cursor_visible then (s.regs.m_cursor_addr : Int) - s.ctr.m_current_disp_addr else -1)
    let de : Int := if y ≤ s.geom.m_max_visible_y then 1 else 0
    let vbp : Int := (s.geom.m_vert_pix_total : Int) - s.geom.m_vsync_off_pos
    let vbp : Int := if vbp < 0 then 0 else vbp
    let hbp : Int := (s.geom.m_horiz_pix_total : Int) - s.geom.m_hsync_off_pos
    let hbp : Int := if hbp < 0 then 0 else hbp
    let ev : List Event :=
      if (s.regs.m_mode_control &&& 0x04) != 0 then
        let cc : Nat := 0
        let cr : Nat := u8 (Int.tdiv y (char_height s))
        let ma : Nat := u16 (((cr <<< 8) ||| cc : Nat) : Int)
        [Event.update_row_cb (u16 ((ma : Int) + s.regs.m_disp_start_addr) : Nat) ra (u16 y : Nat)
          s.regs.m_horiz_disp cursor_x de hbp vbp]
      else
        [Event.update_row_cb s.ctr.m_current_disp_addr ra (u16 y : Nat) s.regs.m_horiz_disp
          cursor_x de hbp vbp]
    let s1 :=
      if (ra : Int) == char_height s - 1 then
        { s with ctr := { s.ctr with
          m_current_disp_addr := (s.ctr.m_current_disp_addr + s.regs.m_horiz_disp) &&& 0x3fff } }
      else s
    .ok (ra, s1, ev)

/-- The loop of `screen_update`: `n` scanlines from `y` on. -/
def draw_scanlines (ccv : State → Nat → Nat → Bool) (s : State) (y : Nat) :
    Nat → Except Fatal (State × List Event)
  | 0 => .ok (s, [])
  | n + 1 =>
    match draw_scanline ccv s y with
    | .error e => .error e
    | .ok (_, s1, ev1) =>
      match draw_scanlines ccv s1 (y + 1) n with
      | .error e => .error e
      | .ok (s2, ev2) => .ok (s2, ev1 ++ ev2)

/-- The function `mc6845_device::screen_update`.  With valid parameters the
row-drawing callback is asserted to be bound.  The loop variable is a
`uint16_t` compared with `cliprect.max_y`, so the loop does not end when
`cliprect.max_y` is 65535 or more. -/
def screen_update (ccv : State → Nat → Nat → Bool) (s : State) (cliprect : Rectangle) :
    Except Fatal (State × List Event) :=
  if s.geom.m_has_valid_parameters then
    if !s.cfg.update_row_cb_bound then .error Fatal.assertion_failed
    else if cliprect.max_y ≥ 65535 then .error Fatal.endless_loop
    else
      let ev1 : List Event :=
        if s.ctr.m_display_disabled_msg_shown then [Event.log_display_reenabled] else []
      let s1 := { s with ctr := { s.ctr with m_display_disabled_msg_shown := false } }
      let ev2 : List Event := if s1.cfg.begin_update_cb_bound then [Event.begin_update_cb] else []
      let s2 :=
        if cliprect.min_y = 0 then
          { s1 with ctr := { s1.ctr with m_current_disp_addr := s1.regs.m_disp_start_addr } }
        else s1
      match draw_scanlines ccv s2 (u16 cliprect.min_y)
          (cliprect.max_y + 1 - (u16 cliprect.min_y : Nat)).toNat with
      | .error e => .error e
      | .ok (s3, ev3) =>
        .ok (s3, ev1 ++ ev2 ++ ev3 ++
          (if s3.cfg.end_update_cb_bound then [Event.end_update_cb] else []))
  else
    if !s.ctr.m_display_disabled_msg_shown then
      .ok ({ s with ctr := { s.ctr with m_display_disabled_msg_shown := true } },
        [Event.log_display_disabled])
    else .ok (s, [])

/-! ## The operations of the base device -/

/-- The entry points of `mc6845_device`: the bus interface, the output
getters, the timer callbacks, drawing, configuration changes, state restore
and reset.  The scheduler's answers are part of the operation. -/
inductive Op where
  | address_w (data : Nat)
  | status_r
  | register_r
  | register_w (data : Nat)
  | de_r
  | cursor_r
  | hsync_r
  | vsync_r
  | get_ma (view : TimerView)
  | get_ra
  | assert_light_pen_input
  | set_hpixels_per_column (hpixels_per_column : Int)
  | device_timer (id : TimerId) (param : Int) (view : TimerView)
  | draw_scanline (y : Int)
  | screen_update (cliprect : Rectangle)
  | device_post_load
  | device_clock_changed
  | device_reset (line_timer_enabled : Bool)
  deriving DecidableEq, Repr

/-- One operation on the device: the state afterwards and the effects, or
the failure.  `ccv` is the variant's `check_cursor_visible`. -/
def step (ccv : State → Nat → Nat → Bool) (s : State) : Op → Except Fatal (State × List Event)
  | Op.address_w data => .ok (address_w s data, [])
  | Op.status_r => .ok (s, [])
  | Op.register_r =>
    match register_r s with
    | .error e => .error e
    | .ok (_, s1, ev) => .ok (s1, ev)
  | Op.register_w data => register_w s data
  | Op.de_r => .ok (s, [])
  | Op.cursor_r => .ok (s, [])
  | Op.hsync_r => .ok (s, [])
  | Op.vsync_r => .ok (s, [])
  | Op.get_ma view => .ok ((get_ma s view).2, [])
  | Op.get_ra => .ok (s, [])
  | Op.assert_light_pen_input => .ok (assert_light_pen_input s)
  | Op.set_hpixels_per_column n => set_hpixels_per_column s n
  | Op.device_timer id param view => device_timer ccv s id param view
  | Op.draw_scanline y =>
    match draw_scanline ccv s y with
    | .error e => .error e
    | .ok (_, s1, ev) => .ok (s1, ev)
  | Op.screen_update cliprect => screen_update ccv s cliprect
  | Op.device_post_load => .ok (device_post_load s)
  | Op.device_clock_changed => .ok (device_clock_changed s)
  | Op.device_reset line_timer_enabled => .ok (device_reset s line_timer_enabled)

/-- A sequence of operations, one after the other. -/
def run (ccv : State → Nat → Nat → Bool) (s : State) : List Op → Except Fatal (State × List Event)
  | [] => .ok (s, [])
  | op :: ops =>
    match step ccv s op with
    | .error e => .error e
    | .ok (s1, ev1) =>
      match run ccv s1 ops with
      | .error e => .error e
      | .ok (s2, ev2) => .ok (s2, ev1 ++ ev2)

/-- The operation reads a light-pen register (`register_r` with the address
latch at 0x10 or 0x11) or resets the device. -/
def light_pen_read_or_reset (s : State) : Op → Bool
  | Op.register_r =>
    s.ctr.m_register_address_latch == 0x10 || s.ctr.m_register_address_latch == 0x11
  | Op.device_reset _ => true
  | _ => false

/-- Some operation of the sequence, run from `s`, is a light-pen register
read or a reset. -/
def has_light_pen_read_or_reset (ccv : State → Nat → Nat → Bool) (s : State) : List Op → Bool
  | [] => false
  | op :: ops =>
    light_pen_read_or_reset s op ||
      (match step ccv s op with
       | .error _ => false
       | .ok (s1, _) => has_light_pen_read_or_reset ccv s1 ops)

/-- A C6545-1 (status bits 5 and 6) with 8 pixels per character column after
`device_start`. -/
def c6545_1_started : State :=
  c6545_1_device_start { constructed with m_hpixels_per_column := 8 }

/-- The C6545-1 right after the light-pen latch event, taken three character
clocks into the line. -/
def c6545_1_latched : State :=
  match device_timer check_cursor_visible c6545_1_started TimerId.TIMER_LIGHT_PEN_LATCH 0
      { line_elapsed_cclks := 3, hsync_off_enabled := false, hsync_off_elapsed_cclks := 0 } with
  | .ok (s1, _) => s1
  | .error _ => c6545_1_started

/-- A line tick, a register select, a write, a read of R14, a status read
and a redraw request. -/
def sample_ops : List Op :=
  [Op.device_timer TimerId.TIMER_LINE 0
    { line_elapsed_cclks := 0, hsync_off_enabled := false, hsync_off_elapsed_cclks := 0 },
   Op.address_w 0x0e, Op.register_w 0x12, Op.register_r, Op.status_r,
   Op.screen_update { min_x := 0, max_x := 10, min_y := 0, max_y := 10 }]

/-! ## Notification callbacks -/

/-- The event is a call of one of the four output-signal callbacks
(`m_out_de_cb`, `m_out_cur_cb`, `m_out_hsync_cb`, `m_out_vsync_cb`). -/
def is_output_callback : Event → Bool
  | Event.out_de_cb _ => true
  | Event.out_cur_cb _ => true
  | Event.out_hsync_cb _ => true
  | Event.out_vsync_cb _ => true
  | _ => false

/-! ## Sample cursor set-ups -/

/-- A chip whose character cell has 8 raster rows (max-raster-address 7),
showing 40 characters a line, with the cursor at address 0x10, blink state
on, and the given cursor start and end raster registers. -/
def with_cursor (s : State) (cursor_start_ras cursor_end_ras : Nat) : State :=
  { s with
    regs := { s.regs with
      m_max_ras_addr := 7, m_horiz_disp := 40, m_cursor_addr := 0x10,
      m_cursor_start_ras := cursor_start_ras, m_cursor_end_ras := cursor_end_ras },
    ctr := { s.ctr with m_cursor_state := true } }

/-- An HD6845S with 8 pixels per character column after `device_start`. -/
def hd6845s_started : State :=
  hd6845s_device_start { constructed with m_hpixels_per_column := 8 }

/-! ## Repeated cursor-state updates -/

/-- The state after `n` calls of `update_cursor_state`. -/
def cursor_blinks : Nat → State → State
  | 0, s => s
  | n + 1, s => cursor_blinks n (update_cursor_state s)

/-- How many of `n` consecutive calls of `update_cursor_state`, starting in
`s`, change the cursor state. -/
def cursor_toggles : Nat → State → Nat
  | 0, _ => 0
  | n + 1, s =>
    (if (update_cursor_state s).ctr.m_cursor_state != s.ctr.m_cursor_state then 1 else 0)
      + cursor_toggles n (update_cursor_state s)

/-- The test of `update_cursor_state` in a blinking mode: the masked bit of
the blink counter before the increment differs from the one after it. -/
def blink_flips (mask c : Nat) : Bool := (c &&& mask) != (u8 (c + 1 : Nat) &&& mask)

/-- How many of `n` consecutive increments of the 8-bit blink counter,
starting at `c`, flip the masked bit. -/
def count_flips (mask : Nat) : Nat → Nat → Nat
  | 0, _ => 0
  | n + 1, c => (if blink_flips mask c then 1 else 0) + count_flips mask n (u8 (c + 1 : Nat))

/-- The cursor state after `n` increments of the blink counter, starting at
`c` with cursor state `b`, toggling at every flip of the masked bit. -/
def blink_after (mask : Nat) : Nat → Nat → Bool → Bool
  | 0, _, b => b
  | n + 1, c, b => blink_after mask n (u8 (c + 1 : Nat)) (if blink_flips mask c then !b else b)

/-! ## Sequences of line ticks -/

/-- The state after `n` line ticks (`handle_line_timer`), with nothing else
happening in between. -/
def line_ticks (ccv : State → Nat → Nat → Bool) : Nat → State → State
  | 0, s => s
  | n + 1, s => (handle_line_timer ccv (line_ticks ccv n s)).1

/-- Some call of `match_line` in the line tick that starts in `s` returns
true: the stages of `handle_line_timer` are run with `new_vsync` cleared, so
that the flag they hand on is set only by a match (at the row boundary or at
the frame origin reset). -/
def vsync_match_in_tick (s : State) : Bool :=
  let s0 := { s with ctr := { s.ctr with m_character_counter := 0, m_cursor_x := -1 } }
  let r1 := line_vsync_width s0 false
  let r2 := line_counters r1.1 false
  let r3 := line_adjust r2.1 false
  r2.2 || r3.1.2

/-- The line tick that starts in `s` takes the frame origin reset branch of
lines 898-917 (vertical adjust is active after the counter step and the
adjust counter equals vertical-total-adjust). -/
def frame_reset_in_tick (s : State) : Bool :=
  let s0 := { s with ctr := { s.ctr with m_character_counter := 0, m_cursor_x := -1 } }
  let r1 := line_vsync_width s0 false
  let r2 := line_counters r1.1 false
  r2.1.ctr.m_adjust_active != 0 && r2.1.ctr.m_adjust_counter == r2.1.regs.m_vert_total_adj

/-- The length N of the VSYNC pulse in line ticks: the high nibble of the
sync-width register, or 16 when that nibble is 0, on a variant with a
configurable vsync-width field; 16 on a variant without it. -/
def vsync_pulse_length (s : State) : Nat :=
  if s.cfg.m_supports_vert_sync_width then
    (if (s.regs.m_sync_width >>> 4) &&& 0x0f = 0 then 16 else (s.regs.m_sync_width >>> 4) &&& 0x0f)
  else 16

/-- The state at a row boundary before `match_line` is called (lines 874-883
of `handle_line_timer`): vertical adjust is entered when the line counter
equals vertical-total, the raster counter restarts, the line counter and the
line address advance. -/
def line_boundary (s : State) : State :=
  let s1 :=
    if s.ctr.m_line_counter == s.regs.m_vert_char_total then
      { s with ctr := { s.ctr with m_adjust_counter := 0, m_adjust_active := 1 } }
    else s
  { s1 with ctr := { s1.ctr with
      m_raster_counter := 0,
      m_line_counter := (s1.ctr.m_line_counter + 1) &&& 0x7F,
      m_line_address := (s1.ctr.m_line_address + s1.regs.m_horiz_disp) &&& 0x3fff } }

/-- The state at the end of vertical adjust before `match_line` and
`update_cursor_state` are called (lines 900-904 of `handle_line_timer`). -/
def frame_origin_reset (s : State) : State :=
  { s with ctr := { s.ctr with
      m_adjust_active := 0, m_raster_counter := 0, m_line_counter := 0,
      m_line_address := s.regs.m_disp_start_addr, m_line_enable_ff := true } }

/-- An MC6845-1 (configurable vsync width) with 8 pixels per character column
after `device_start`. -/
def mc6845_1_started : State :=
  mc6845_1_device_start { constructed with m_hpixels_per_column := 8 }

/-- An MC6845-1 with 8 raster rows per character row, vertical total 30,
vertical sync position 20 and sync width 0x41 (vsync width 4), on the last
raster row of character row 19. -/
def before_vsync_row : State :=
  { mc6845_1_started with
    regs := { mc6845_1_started.regs with
      m_max_ras_addr := 7, m_vert_char_total := 30, m_vert_sync_pos := 20, m_sync_width := 0x41,
      m_horiz_char_total := 49, m_horiz_disp := 40, m_vert_disp := 25 },
    ctr := { mc6845_1_started.ctr with m_line_counter := 19, m_raster_counter := 7 } }

/-- The state, in the line tick that starts in `s`, after lines 846-893 of
`handle_line_timer`: the vsync width stage and the counter stage have run,
the vertical adjust stage (lines 895-922) has not. -/
def after_counter_stage (s : State) : State :=
  let s0 := { s with ctr := { s.ctr with m_character_counter := 0, m_cursor_x := -1 } }
  (line_counters (line_vsync_width s0 false).1 false).1

/-- The line tick that starts in `s` enters vertical adjust: it takes the
branch of lines 874-878 (last raster row of the character row, line counter
equal to vertical total), which sets `m_adjust_active`. -/
def adjust_entered_in_tick (s : State) : Bool :=
  let s0 := { s with ctr := { s.ctr with m_character_counter := 0, m_cursor_x := -1 } }
  let r1 := line_vsync_width s0 false
  (r1.1.ctr.m_raster_counter : Int) == char_height r1.1 - 1 &&
    r1.1.ctr.m_line_counter == r1.1.regs.m_vert_char_total

/-- An MC6845-1 with 8 raster rows per character row, vertical total 30,
vertical total adjust 3 and display start address 0x0123, on the last raster
row of character row 30 with vertical adjust inactive. -/
def frame_end_row : State :=
  { mc6845_1_started with
    regs := { mc6845_1_started.regs with
      m_max_ras_addr := 7, m_vert_char_total := 30, m_vert_total_adj := 3,
      m_vert_sync_pos := 20, m_sync_width := 0x41, m_horiz_char_total := 49,
      m_horiz_disp := 40, m_vert_disp := 25, m_disp_start_addr := 0x0123 },
    ctr := { mc6845_1_started.ctr with
      m_line_counter := 30, m_raster_counter := 7, m_adjust_active := 0,
      m_line_address := 0x05d3 } }

/-- The calls of the row-drawing callback among the events, in order: the
address and the scanline passed. -/
def row_calls : List Event → List (Int × Int)
  | [] => []
  | Event.update_row_cb ma _ y _ _ _ _ _ :: rest => (ma, y) :: row_calls rest
  | _ :: rest => row_calls rest

/-- The chip of `late_vsync_chip` (50 x 11 characters of 8 raster rows, 40 x 8
displayed) in linear mode, with a row-drawing callback bound, display-start
address 0x3ff0 and the geometry recomputed. -/
def linear_chip : State :=
  (recompute_parameters
    { late_vsync_chip with
      cfg := { late_vsync_chip.cfg with update_row_cb_bound := true },
      regs := { late_vsync_chip.regs with m_disp_start_addr := 0x3ff0 } } true).1

/-- The scheduler's answer when nothing has elapsed and the HSYNC-off timer
is not running. -/
def view0 : TimerView :=
  { line_elapsed_cclks := 0, hsync_off_enabled := false, hsync_off_elapsed_cclks := 0 }

/-- A bus master programs 200 characters per line (R1), vertical total 0
(R4), one character row displayed (R6), 8 raster rows per character row (R9),
cursor rows 0..7 without blink (R10, R11) and the cursor address 150 (R15);
eight line ticks then complete the first frame, which turns the cursor state
on. -/
def wide_line_ops : List Op :=
  [Op.address_w 0x01, Op.register_w 200, Op.address_w 0x04, Op.register_w 0,
   Op.address_w 0x06, Op.register_w 1,
   Op.address_w 0x09, Op.register_w 7, Op.address_w 0x0a, Op.register_w 0,
   Op.address_w 0x0b, Op.register_w 7, Op.address_w 0x0f, Op.register_w 150] ++
  List.replicate 8 (Op.device_timer TimerId.TIMER_LINE 0 view0)

/-- A started MC6845 with a row-drawing callback bound, after `wide_line_ops`:
the cursor is in column 150 of the 200-character line that starts at address
0. -/
def wide_line_chip : State :=
  match run check_cursor_visible
      { mc6845_started with cfg := { mc6845_started.cfg with update_row_cb_bound := true } }
      wide_line_ops with
  | .ok (s, _) => s
  | .error _ => mc6845_started

/-- An HSYNC-on event, then a reset. -/
def reset_during_hsync : List Op :=
  [Op.device_timer TimerId.TIMER_HSYNC_ON 0 view0, Op.device_reset false]

/-- A bus master programs 40 characters displayed (R1), mode control 0x01
(R8) and the cursor address 0x0123 (R14, R15); then the device is reset. -/
def program_then_reset : List Op :=
  [Op.address_w 0x01, Op.register_w 40, Op.address_w 0x08, Op.register_w 0x01,
   Op.address_w 0x0e, Op.register_w 0x01, Op.address_w 0x0f, Op.register_w 0x23,
   Op.device_reset false]

/-- The adjustments of the timer `id` among the events, in order: the delay
and the parameter of each `adjust` call. -/
def timer_adjusts (id : TimerId) : List Event → List (Delay × Int)
  | [] => []
  | Event.timer_adjust t d p :: rest =>
    if t = id then (d, p) :: timer_adjusts id rest else timer_adjusts id rest
  | _ :: rest => timer_adjusts id rest

/-- The counters and running addresses are within their hardware field
widths: raster counter <= 31, line counter <= 127, vertical-adjust counter <=
31, vsync width counter <= 15, line address and current display address <=
0x3fff. -/
def counters_in_range (c : CounterState) : Prop :=
  c.m_raster_counter ≤ 31 ∧ c.m_line_counter ≤ 127 ∧ c.m_adjust_counter ≤ 31 ∧
  c.m_vsync_width_counter ≤ 15 ∧ c.m_line_address ≤ 0x3fff ∧ c.m_current_disp_addr ≤ 0x3fff

/-- The 14-bit address registers are within their width: display-start
address, cursor address, update address and light-pen address <= 0x3fff. -/
def addresses_in_range (r : RegisterBank) : Prop :=
  r.m_disp_start_addr ≤ 0x3fff ∧ r.m_cursor_addr ≤ 0x3fff ∧ r.m_update_addr ≤ 0x3fff ∧
  r.m_light_pen_addr ≤ 0x3fff

/-- The field-width predicate of the base chip. -/
def field_width_ok (s : State) : Prop :=
  counters_in_range s.ctr ∧ addresses_in_range s.regs

/-- The field-width predicate is decidable. -/
@[instance]
def field_width_ok_decidable (s : State) : Decidable (field_width_ok s) := by
  unfold field_width_ok counters_in_range addresses_in_range
  infer_instance

/-- A bus master programs vertical total 0 (R4) and interlace sync and video
mode (R8 = 3); the maximum raster address keeps its start-up value 31. -/
def interlace_33_ops : List Op :=
  [Op.address_w 0x04, Op.register_w 0, Op.address_w 0x08, Op.register_w 3]

/-- A started HD6845S after `interlace_33_ops`: the character height is 31 +
2 = 33 raster rows. -/
def interlace_33_chip : State :=
  match run hd6845s_check_cursor_visible hd6845s_started interlace_33_ops with
  | .ok (s, _) => s
  | .error _ => hd6845s_started

/-- An R6545-1 with an update-address handler bound, in PHI2 transparent mode
with the update strobe bit set (mode control 0xc8) and the update address at
0x3fff. -/
def phi2_chip : State :=
  { r6545_1_started with
    cfg := { r6545_1_started.cfg with on_update_addr_changed_cb_bound := true },
    regs := { r6545_1_started.regs with m_mode_control := 0xc8, m_update_addr := 0x3fff } }

/-! ## Core macros -/

/-- Modelled from the spec: the macro `BIT(x, n)` of the emulator core is not
among the sources at hand; it is taken to be bit `n` of `x`, as 0 or 1. -/
def BIT (x n : Nat) : Nat := (x >>> n) &&& 1

/-! ## Mr. Do! protection PAL (`src/mame/video/mrdo.cpp`) -/

/-- The members of `mrdo_state` that the foreground video RAM write and the
protection read touch: the foreground video RAM and the value latched on the
PAL16R6 (IC u001). -/
structure MrdoState where
  m_fgvideoram : Nat → Nat
  m_pal_u001 : Nat

/-- The effect of `mrdo_fgvideoram_w` on the foreground tilemap. -/
inductive MrdoEvent where
  /-- The call `m_fg_tilemap->mark_tile_dirty(tile_index)`. -/
  | fg_tilemap_mark_tile_dirty (tile_index : Nat)
  deriving DecidableEq, Repr

/-- The function `mrdo_state::mrdo_secre_r`. -/
def mrdo_secre_r (s : MrdoState) : Nat := s.m_pal_u001

/-- The function `mrdo_state::mrdo_fgvideoram_w`.  The locals are `uint8_t`;
every value assigned to them is below 256. -/
def mrdo_fgvideoram_w (s : MrdoState) (offset data : Nat) : MrdoState × List MrdoEvent :=
  let i9 : Nat := BIT data 0
  let i8 : Nat := BIT data 1
  let i6 : Nat := BIT data 3
  let i5 : Nat := BIT data 4
  let i4 : Nat := BIT data 5
  let i3 : Nat := BIT data 6
  let i2 : Nat := BIT data 7
  let t1 : Nat := i2 &&& (1 ^^^ i3) &&& i4 &&& (1 ^^^ i5) &&& (1 ^^^ i6) &&& (1 ^^^ i8) &&& i9
  let t2 : Nat := (1 ^^^ i2) &&& (1 ^^^ i3) &&& i4 &&& i5 &&& (1 ^^^ i6) &&& i8 &&& (1 ^^^ i9)
  let t3 : Nat := i2 &&& i3 &&& (1 ^^^ i4) &&& (1 ^^^ i5) &&& i6 &&& (1 ^^^ i8) &&& i9
  let t4 : Nat := (1 ^^^ i2) &&& i3 &&& i4 &&& (1 ^^^ i5) &&& i6 &&& i8 &&& i9
  let r12 : Nat := 0
  let r13 : Nat := (1 ^^^ t1) <<< 1
  let r14 : Nat := (1 ^^^ (t1 ||| t2)) <<< 2
  let r15 : Nat := (1 ^^^ (t1 ||| t3)) <<< 3
  let r16 : Nat := (1 ^^^ t1) <<< 4
  let r17 : Nat := (1 ^^^ (t1 ||| t3)) <<< 5
  let r18 : Nat := (1 ^^^ (t3 ||| t4)) <<< 6
  let r19 : Nat := 0
  ({ m_fgvideoram := fun a => if a = offset then data else s.m_fgvideoram a,
     m_pal_u001 := r19 ||| r18 ||| r17 ||| r16 ||| r15 ||| r14 ||| r13 ||| r12 },
   [MrdoEvent.fg_tilemap_mark_tile_dirty (offset &&& 0x3ff)])

/-- The product term of the documented equation `/rf13` (also in `/rf14` ..
`/rf17`): `i2 & /i3 & i4 & /i5 & /i6 & /i8 & i9`. -/
def pal_product_a (i2 i3 i4 i5 i6 i8 i9 : Bool) : Bool :=
  i2 && !i3 && i4 && !i5 && !i6 && !i8 && i9

/-- The first product term of the documented equation `/rf14`:
`/i2 & /i3 & i4 & i5 & /i6 & i8 & /i9`. -/
def pal_product_b (i2 i3 i4 i5 i6 i8 i9 : Bool) : Bool :=
  !i2 && !i3 && i4 && i5 && !i6 && i8 && !i9

/-- The first product term of the documented equations `/rf15` and `/rf17`,
and the second of `/rf18`: `i2 & i3 & /i4 & /i5 & i6 & /i8 & i9`. -/
def pal_product_c (i2 i3 i4 i5 i6 i8 i9 : Bool) : Bool :=
  i2 && i3 && !i4 && !i5 && i6 && !i8 && i9

/-- The first product term of the documented equation `/rf18`:
`/i2 & i3 & i4 & /i5 & i6 & i8 & i9`. -/
def pal_product_d (i2 i3 i4 i5 i6 i8 i9 : Bool) : Bool :=
  !i2 && i3 && i4 && !i5 && i6 && i8 && i9

/-- The documented sum of products for `/rfn`, n = 13 .. 18 (the comment
after `mrdo_fgvideoram_w`); false for any other n. -/
def pal_rf_low (n : Nat) (i2 i3 i4 i5 i6 i8 i9 : Bool) : Bool :=
  match n with
  | 13 => pal_product_a i2 i3 i4 i5 i6 i8 i9
  | 14 => pal_product_b i2 i3 i4 i5 i6 i8 i9 || pal_product_a i2 i3 i4 i5 i6 i8 i9
  | 15 => pal_product_c i2 i3 i4 i5 i6 i8 i9 || pal_product_a i2 i3 i4 i5 i6 i8 i9
  | 16 => pal_product_a i2 i3 i4 i5 i6 i8 i9
  | 17 => pal_product_c i2 i3 i4 i5 i6 i8 i9 || pal_product_a i2 i3 i4 i5 i6 i8 i9
  | 18 => pal_product_d i2 i3 i4 i5 i6 i8 i9 || pal_product_c i2 i3 i4 i5 i6 i8 i9
  | _ => false

/-- A `mrdo_state` with the foreground video RAM and the PAL latch cleared. -/
def mrdo_cleared : MrdoState := { m_fgvideoram := fun _ => 0, m_pal_u001 := 0 }

/-! ## TI-8x bit socket (`src/devices/bus/ti8x/bitsocket.cpp`) -/

/-- The members `m_tip_in` and `m_ring_in` of `bit_socket_device`. -/
structure BitSocketState where
  m_tip_in : Bool
  m_ring_in : Bool
  deriving DecidableEq, Repr

/-- The effects of the bit socket: a byte written to the stream and the two
line outputs of the link port. -/
inductive BitSocketEvent where
  /-- The call `m_stream->output(byte)`. -/
  | stream_output (byte : Nat)
  /-- The call `output_tip(state)`. -/
  | output_tip (state : Nat)
  /-- The call `output_ring(state)`. -/
  | output_ring (state : Nat)
  deriving DecidableEq, Repr

/-- The enumerator `TIMER_ID_POLL` of `bit_socket_device`. -/
def TIMER_ID_POLL : Nat := 1

/-- The function `bit_socket_device::input_tip`; `state` is the `int` line
level handed in. -/
def bit_socket_input_tip (s : BitSocketState) (state : Int) :
    BitSocketState × List BitSocketEvent :=
  let s1 := { s with m_tip_in := state != 0 }
  (s1, [BitSocketEvent.stream_output ((if s1.m_tip_in then 0x01 else 0x00) ||| 0x02)])

/-- The function `bit_socket_device::input_ring`. -/
def bit_socket_input_ring (s : BitSocketState) (state : Int) :
    BitSocketState × List BitSocketEvent :=
  let s1 := { s with m_ring_in := state != 0 }
  (s1, [BitSocketEvent.stream_output ((if s1.m_ring_in then 0x01 else 0x00) ||| 0x04)])

/-- The body of the `while` loop of the poll handler for the bytes that
`m_stream->input` delivers, in order. -/
def bit_socket_poll : List Nat → List BitSocketEvent
  | [] => []
  | data :: rest =>
    (if BIT data 1 != 0 then [BitSocketEvent.output_tip (BIT data 0)] else []) ++
    (if BIT data 2 != 0 then [BitSocketEvent.output_ring (BIT data 0)] else []) ++
    bit_socket_poll rest

/-- The function `bit_socket_device::device_timer`; `received` are the bytes
the stream has ready when the timer fires. -/
def bit_socket_device_timer (s : BitSocketState) (id : Nat) (received : List Nat) :
    BitSocketState × List BitSocketEvent :=
  if id = TIMER_ID_POLL then (s, bit_socket_poll received) else (s, [])

/-! ## MOS8563 (`mos8563_device`) -/

/-- The macro `VSS_CBRATE`. -/
def VSS_CBRATE (s : MOS8563State) : Nat := BIT s.m_vert_scroll 5

/-- The macro `VSS_COPY`. -/
def VSS_COPY (s : MOS8563State) : Nat := BIT s.m_vert_scroll 7

/-- The macro `HSS_DBL`. -/
def HSS_DBL (s : MOS8563State) : Nat := BIT s.m_horiz_scroll 4

/-- The effects of the MOS8563: those of the base device, the adjustments of
its block-copy timer and the accesses to its video RAM (address space 0). -/
inductive MOS8563Event where
  /-- An effect of the code inherited from `mc6845_device`. -/
  | base (e : Event)
  /-- The call `m_block_copy_timer->adjust(delay)`. -/
  | block_copy_timer_adjust (delay : Delay)
  /-- The call `space(0).read_byte(offset)`. -/
  | read_videoram (offset : Nat)
  /-- The call `space(0).write_byte(offset, data)`. -/
  | write_videoram (offset data : Nat)
  deriving DecidableEq, Repr

/-- The function `mos8563_device::read_videoram`: the byte the video RAM
holds at `offset`. -/
def mos8563_read_videoram (s : MOS8563State) (offset : Nat) : Nat := s.videoram offset

/-- The function `mos8563_device::write_videoram`. -/
def mos8563_write_videoram (s : MOS8563State) (offset data : Nat) : MOS8563State :=
  { s with videoram := fun a => if a = offset then data else s.videoram a }

/-- The function `mos8563_device::status_r`. -/
def mos8563_status_r (s : MOS8563State) : Nat :=
  let ret := s.m_revision
  let ret := if !s.base.ctr.m_line_enable_ff then ret ||| 0x20 else ret
  let ret := if s.base.ctr.m_light_pen_latched then ret ||| 0x40 else ret
  let ret := if s.base.ctr.m_update_ready_bit then ret ||| 0x80 else ret
  ret

/-- The function `mos8563_device::register_r`: the byte returned, the state
after the read and the video RAM access made. -/
def mos8563_register_r (s : MOS8563State) : Nat × MOS8563State × List MOS8563Event :=
  match s.base.ctr.m_register_address_latch with
  | 0x00 => (s.base.regs.m_horiz_char_total, s, [])
  | 0x01 => (s.base.regs.m_horiz_disp, s, [])
  | 0x02 => (s.base.regs.m_horiz_sync_pos, s, [])
  | 0x03 => (s.base.regs.m_sync_width, s, [])
  | 0x04 => (s.base.regs.m_vert_char_total, s, [])
  | 0x05 => (s.base.regs.m_vert_total_adj ||| 0xc0, s, [])
  | 0x06 => (s.base.regs.m_vert_disp, s, [])
  | 0x07 => (s.base.regs.m_vert_sync_pos, s, [])
  | 0x08 => (s.base.regs.m_mode_control ||| 0xfc, s, [])
  | 0x09 => (s.base.regs.m_max_ras_addr ||| 0xe0, s, [])
  | 0x0a => (s.base.regs.m_cursor_start_ras ||| 0x80, s, [])
  | 0x0b => (s.base.regs.m_cursor_end_ras ||| 0xe0, s, [])
  | 0x0c => ((s.base.regs.m_disp_start_addr >>> 8) &&& 0xff, s, [])
  | 0x0d => ((s.base.regs.m_disp_start_addr >>> 0) &&& 0xff, s, [])
  | 0x0e => ((s.base.regs.m_cursor_addr >>> 8) &&& 0xff, s, [])
  | 0x0f => ((s.base.regs.m_cursor_addr >>> 0) &&& 0xff, s, [])
  | 0x10 => ((s.base.regs.m_light_pen_addr >>> 8) &&& 0xff,
      { s with base := { s.base with ctr := { s.base.ctr with m_light_pen_latched := false } } }, [])
  | 0x11 => ((s.base.regs.m_light_pen_addr >>> 0) &&& 0xff,
      { s with base := { s.base with ctr := { s.base.ctr with m_light_pen_latched := false } } }, [])
  | 0x12 => ((s.base.regs.m_update_addr >>> 8) &&& 0xff, s, [])
  | 0x13 => ((s.base.regs.m_update_addr >>> 0) &&& 0xff, s, [])
  | 0x14 => ((s.m_attribute_addr >>> 8) &&& 0xff, s, [])
  | 0x15 => ((s.m_attribute_addr >>> 0) &&& 0xff, s, [])
  | 0x16 => (s.m_horiz_char, s, [])
  | 0x17 => (s.m_vert_char_disp ||| 0xe0, s, [])
  | 0x18 => (s.m_vert_scroll, s, [])
  | 0x19 => (s.m_horiz_scroll, s, [])
  | 0x1a => (s.m_color, s, [])
  | 0x1b => (s.m_row_addr_incr, s, [])
  | 0x1c => (s.m_char_base_addr ||| 0x1f, s, [])
  | 0x1d => (s.m_underline_ras ||| 0xe0, s, [])
  | 0x1e => (s.m_word_count, s, [])
  | 0x1f => (mos8563_read_videoram s s.base.regs.m_update_addr,
      { s with base := { s.base with regs := { s.base.regs with m_update_addr := (s.base.regs.m_update_addr + 1) % 65536 } } },
      [MOS8563Event.read_videoram s.base.regs.m_update_addr])
  | 0x20 => ((s.m_block_addr >>> 8) &&& 0xff, s, [])
  | 0x21 => ((s.m_block_addr >>> 0) &&& 0xff, s, [])
  | 0x22 => ((s.m_de_begin >>> 8) &&& 0xff, s, [])
  | 0x23 => ((s.m_de_begin >>> 0) &&& 0xff, s, [])
  | 0x24 => (s.m_dram_refresh ||| 0xf0, s, [])
  | 0x25 => (s.m_sync_polarity ||| 0x3f, s, [])
  | _ => (0xff, s, [])

/-- The `switch` of `mos8563_device::register_w`.  Register 0x19 recomputes
the geometry with a new clock scale when the pixel-double bit changes;
register 0x1e starts a block copy or fill; register 0x1f writes to the video
RAM. -/
def mos8563_register_w_store (s : MOS8563State) (data : Nat) :
    MOS8563State × List MOS8563Event :=
  match s.base.ctr.m_register_address_latch with
  | 0x00 =>
    ({ s with base := { s.base with regs := { s.base.regs with m_horiz_char_total := data &&& 0xff } } }, [])
  | 0x01 =>
    ({ s with base := { s.base with regs := { s.base.regs with m_horiz_disp := data &&& 0xff } } }, [])
  | 0x02 =>
    ({ s with base := { s.base with regs := { s.base.regs with m_horiz_sync_pos := data &&& 0xff } } }, [])
  | 0x03 =>
    ({ s with base := { s.base with regs := { s.base.regs with m_sync_width := data &&& 0xff } } }, [])
  | 0x04 =>
    ({ s with base := { s.base with regs := { s.base.regs with m_vert_char_total := data &&& 0xff } } }, [])
  | 0x05 =>
    ({ s with base := { s.base with regs := { s.base.regs with m_vert_total_adj := data &&& 0x1f } } }, [])
  | 0x06 =>
    ({ s with base := { s.base with regs := { s.base.regs with m_vert_disp := data &&& 0xff } } }, [])
  | 0x07 =>
    ({ s with base := { s.base with regs := { s.base.regs with m_vert_sync_pos := data &&& 0xff } } }, [])
  | 0x08 =>
    ({ s with base := { s.base with regs := { s.base.regs with m_mode_control := data &&& 0x03 } } }, [])
  | 0x09 =>
    ({ s with base := { s.base with regs := { s.base.regs with m_max_ras_addr := data &&& 0x1f } } }, [])
  | 0x0a =>
    ({ s with base := { s.base with regs := { s.base.regs with m_cursor_start_ras := data &&& 0x7f } } }, [])
  | 0x0b =>
    ({ s with base := { s.base with regs := { s.base.regs with m_cursor_end_ras := data &&& 0x1f } } }, [])
  | 0x0c =>
    ({ s with base := { s.base with regs := { s.base.regs with m_disp_start_addr := ((data &&& 0xff) <<< 8) ||| (s.base.regs.m_disp_start_addr &&& 0x00ff) } } }, [])
  | 0x0d =>
    ({ s with base := { s.base with regs := { s.base.regs with m_disp_start_addr := ((data &&& 0xff) <<< 0) ||| (s.base.regs.m_disp_start_addr &&& 0xff00) } } }, [])
  | 0x0e =>
    ({ s with base := { s.base with regs := { s.base.regs with m_cursor_addr := ((data &&& 0xff) <<< 8) ||| (s.base.regs.m_cursor_addr &&& 0x00ff) } } }, [])
  | 0x0f =>
    ({ s with base := { s.base with regs := { s.base.regs with m_cursor_addr := ((data &&& 0xff) <<< 0) ||| (s.base.regs.m_cursor_addr &&& 0xff00) } } }, [])
  | 0x10 => (s, [])
  | 0x11 => (s, [])
  | 0x12 =>
    ({ s with base := { s.base with regs := { s.base.regs with m_update_addr := ((data &&& 0xff) <<< 8) ||| (s.base.regs.m_update_addr &&& 0x00ff) } } }, [])
  | 0x13 =>
    ({ s with base := { s.base with regs := { s.base.regs with m_update_addr := ((data &&& 0xff) <<< 0) ||| (s.base.regs.m_update_addr &&& 0xff00) } } }, [])
  | 0x14 =>
    ({ s with m_attribute_addr := ((data &&& 0xff) <<< 8) ||| (s.m_attribute_addr &&& 0x00ff) }, [])
  | 0x15 =>
    ({ s with m_attribute_addr := ((data &&& 0xff) <<< 0) ||| (s.m_attribute_addr &&& 0xff00) }, [])
  | 0x16 => ({ s with m_horiz_char := data &&& 0xff }, [])
  | 0x17 => ({ s with m_vert_char_disp := data &&& 0x1f }, [])
  | 0x18 => ({ s with m_vert_scroll := data &&& 0xff }, [])
  | 0x19 =>
    let dbl : Nat := HSS_DBL s
    let s1 := { s with m_horiz_scroll := data &&& 0xff }
    let r1 : MOS8563State × List MOS8563Event :=
      if dbl != 0 && !(HSS_DBL s1 != 0) then
        let r := recompute_parameters { s1.base with m_clk_scale := 4 } true
        ({ s1 with base := r.1 }, r.2.map MOS8563Event.base)
      else (s1, [])
    let r2 : MOS8563State × List MOS8563Event :=
      if !(dbl != 0) && HSS_DBL r1.1 != 0 then
        let r := recompute_parameters { r1.1.base with m_clk_scale := 8 } true
        ({ r1.1 with base := r.1 }, r.2.map MOS8563Event.base)
      else (r1.1, [])
    (r2.1, r1.2 ++ r2.2)
  | 0x1a => ({ s with m_color := data &&& 0xff }, [])
  | 0x1b => ({ s with m_row_addr_incr := data &&& 0xff }, [])
  | 0x1c => ({ s with m_char_base_addr := data &&& 0xe0 }, [])
  | 0x1d => ({ s with m_underline_ras := data &&& 0x1f }, [])
  | 0x1e =>
    ({ s with
       m_word_count := data &&& 0xff,
       base := { s.base with ctr := { s.base.ctr with m_update_ready_bit := false } } },
     [MOS8563Event.block_copy_timer_adjust (Delay.clocks (cclks_to_attotime s.base 1))])
  | 0x1f =>
    let s1 := { s with m_data := data &&& 0xff }
    let s2 := mos8563_write_videoram s1 s1.base.regs.m_update_addr s1.m_data
    ({ s2 with base := { s2.base with regs := { s2.base.regs with
        m_update_addr := (s2.base.regs.m_update_addr + 1) % 65536 } } },
     [MOS8563Event.write_videoram s1.base.regs.m_update_addr s1.m_data])
  | 0x20 => ({ s with m_block_addr := ((data &&& 0xff) <<< 8) ||| (s.m_block_addr &&& 0x00ff) }, [])
  | 0x21 => ({ s with m_block_addr := ((data &&& 0xff) <<< 0) ||| (s.m_block_addr &&& 0xff00) }, [])
  | 0x22 => ({ s with m_de_begin := ((data &&& 0xff) <<< 8) ||| (s.m_de_begin &&& 0x00ff) }, [])
  | 0x23 => ({ s with m_de_begin := ((data &&& 0xff) <<< 0) ||| (s.m_de_begin &&& 0xff00) }, [])
  | 0x24 => ({ s with m_dram_refresh := data &&& 0x0f }, [])
  | 0x25 => ({ s with m_sync_polarity := data &&& 0xc0 }, [])
  | _ => (s, [])

/-- The function `mos8563_device::register_w`: the switch, then
`recompute_parameters(false)`. -/
def mos8563_register_w (s : MOS8563State) (data : Nat) : MOS8563State × List MOS8563Event :=
  let r1 := mos8563_register_w_store s data
  let r := recompute_parameters r1.1.base false
  ({ r1.1 with base := r.1 }, r1.2 ++ r.2.map MOS8563Event.base)

/-- The case `TIMER_BLOCK_COPY` of `mos8563_device::device_timer`: one byte
is copied or filled, and the timer is adjusted again unless the decremented
8-bit word count is 0. -/
def mos8563_block_copy (s : MOS8563State) : MOS8563State × List MOS8563Event :=
  let data : Nat := if VSS_COPY s != 0 then mos8563_read_videoram s s.m_block_addr else s.m_data
  let ev1 : List MOS8563Event :=
    if VSS_COPY s != 0 then [MOS8563Event.read_videoram s.m_block_addr] else []
  let s1 := if VSS_COPY s != 0 then { s with m_block_addr := (s.m_block_addr + 1) % 65536 } else s
  let s2 := mos8563_write_videoram s1 s1.base.regs.m_update_addr data
  let ev2 : List MOS8563Event := [MOS8563Event.write_videoram s1.base.regs.m_update_addr data]
  let s3 := { s2 with base := { s2.base with regs := { s2.base.regs with
    m_update_addr := (s2.base.regs.m_update_addr + 1) % 65536 } } }
  let s4 := { s3 with m_word_count := u8 ((s3.m_word_count : Int) - 1) }
  if s4.m_word_count != 0 then
    (s4, ev1 ++ ev2 ++
      [MOS8563Event.block_copy_timer_adjust (Delay.clocks (cclks_to_attotime s4.base 1))])
  else
    ({ s4 with base := { s4.base with ctr := { s4.base.ctr with m_update_ready_bit := true } } },
     ev1 ++ ev2)
/-- The function `mos8563_device::device_start`: the base `device_start`, the
status bits, the default row-drawing delegate, the assignments to the
members of the MOS8563 and the video RAM initialisation loop (0xff at the
even offsets below 0x10000, 0x00 at the odd ones). -/
def mos8563_device_start (s : MOS8563State) : MOS8563State :=
  let b := device_start s.base
  { s with
    base := { b with
      cfg := { b.cfg with
        m_supports_status_reg_d5 := true, m_supports_status_reg_d6 := true,
        m_supports_status_reg_d7 := true, update_row_cb_bound := true },
      ctr := { b.ctr with m_update_ready_bit := true } },
    m_char_blink_state := false, m_char_blink_count := 0, m_attribute_addr := 0,
    m_horiz_char := 0, m_vert_char_disp := 0, m_vert_scroll := 0, m_horiz_scroll := 0,
    m_color := 0, m_row_addr_incr := 0, m_char_base_addr := 0, m_underline_ras := 0,
    m_word_count := 0, m_data := 0, m_block_addr := 0, m_de_begin := 0, m_dram_refresh := 0,
    m_sync_polarity := 0, m_revision := 1,
    videoram := fun a => if a < 0x10000 then (if a % 2 = 0 then 0xff else 0x00) else s.videoram a }

/-- The function `mos8563_device::device_reset`. -/
def mos8563_device_reset (s : MOS8563State) (line_timer_enabled : Bool) :
    MOS8563State × List Event :=
  let r := device_reset s.base line_timer_enabled
  ({ s with base := r.1, m_sync_polarity := 0xc0 }, r.2)

/-- The object as the constructor `mos8563_device::mos8563_device` leaves it:
the clock scale is 8; the members the constructor does not initialise are
taken to be 0 / false. -/
def mos8563_constructed : MOS8563State :=
  { base := { constructed with m_clk_scale := 8 },
    m_char_blink_state := false, m_char_blink_count := 0, m_attribute_addr := 0,
    m_horiz_char := 0, m_vert_char_disp := 0, m_vert_scroll := 0, m_horiz_scroll := 0,
    m_color := 0, m_row_addr_incr := 0, m_char_base_addr := 0, m_underline_ras := 0,
    m_word_count := 0, m_data := 0, m_block_addr := 0, m_de_begin := 0, m_dram_refresh := 0,
    m_sync_polarity := 0, m_revision := 0, videoram := fun _ => 0 }

/-- A MOS8563 with 8 pixels per character column after `device_start`. -/
def mos8563_started : MOS8563State :=
  mos8563_device_start
    { mos8563_constructed with base := { mos8563_constructed.base with m_hpixels_per_column := 8 } }

/-- The mask that `mos8563_device::register_w` applies to the data byte for
the registers it stores as a masked byte (0x00 .. 0x0b, 0x16 .. 0x1d, 0x24 and
0x25); 0 for any other index. -/
def mos8563_write_mask (i : Nat) : Nat :=
  match i with
  | 0x00 => 0xff | 0x01 => 0xff | 0x02 => 0xff | 0x03 => 0xff | 0x04 => 0xff | 0x05 => 0x1f
  | 0x06 => 0xff | 0x07 => 0xff | 0x08 => 0x03 | 0x09 => 0x1f | 0x0a => 0x7f | 0x0b => 0x1f
  | 0x16 => 0xff | 0x17 => 0x1f | 0x18 => 0xff | 0x19 => 0xff | 0x1a => 0xff | 0x1b => 0xff
  | 0x1c => 0xe0 | 0x1d => 0x1f | 0x24 => 0x0f | 0x25 => 0xc0
  | _ => 0

/-- The read-back value of the claim for a register with write mask `m`: the
stored bits of the data byte, and 1 in every bit outside the mask. -/
def read_back_value (m d : Nat) : Nat := (d &&& m) ||| (0xff ^^^ m)
/-- The effect is an adjustment of the block-copy timer. -/
def is_block_copy_adjust : MOS8563Event → Bool
  | MOS8563Event.block_copy_timer_adjust _ => true
  | _ => false

/-- The block-copy event loop: the block-copy timer event is handled, and
handled again for as long as the handler has adjusted the timer.  `fuel`
bounds the number of events handled; `none` means the bound was reached with
the timer still running. -/
def mos8563_block_copy_run : Nat → MOS8563State → Option (MOS8563State × List MOS8563Event)
  | 0, _ => none
  | fuel + 1, s =>
    let r := mos8563_block_copy s
    if r.2.any is_block_copy_adjust then
      match mos8563_block_copy_run fuel r.1 with
      | none => none
      | some (s2, ev2) => some (s2, r.2 ++ ev2)
    else some r

/-- The state after `k` block-copy timer events. -/
def mos8563_block_copy_steps : Nat → MOS8563State → MOS8563State
  | 0, s => s
  | k + 1, s => (mos8563_block_copy (mos8563_block_copy_steps k s)).1

/-- The video RAM writes among the effects, in order: offset and byte. -/
def videoram_writes : List MOS8563Event → List (Nat × Nat)
  | [] => []
  | MOS8563Event.write_videoram offset data :: rest => (offset, data) :: videoram_writes rest
  | _ :: rest => videoram_writes rest

/-- The number of bytes a block copy or fill programmed with the byte `n`
transfers: `n`, or 256 when `n` is 0. -/
def block_copy_count (n : Nat) : Nat := if n = 0 then 256 else n

/-- A started MOS8563 with the update address at 0xfffe, the data register at
0x5a, fill mode, and register 0x1e selected. -/
def mos8563_fill_chip : MOS8563State :=
  mos8563_address_w
   { mos8563_started with
     m_data := 0x5a,
     base := { mos8563_started.base with
       regs := { mos8563_started.base.regs with m_update_addr := 0xfffe } } } 0x1e

/-! ## HD6345 (`hd6345_device`) -/

/-- The function `hd6345_device::register_r`: the byte returned and the state
after the read. -/
def hd6345_register_r (s : HD6345State) : Nat × HD6345State :=
  match s.base.ctr.m_register_address_latch with
  | 0x0c => ((s.base.regs.m_disp_start_addr >>> 8) &&& 0xff, s)
  | 0x0d => ((s.base.regs.m_disp_start_addr >>> 0) &&& 0xff, s)
  | 0x0e => ((s.base.regs.m_cursor_addr >>> 8) &&& 0xff, s)
  | 0x0f => ((s.base.regs.m_cursor_addr >>> 0) &&& 0xff, s)
  | 0x10 => ((s.base.regs.m_light_pen_addr >>> 8) &&& 0xff,
      { s with base := { s.base with ctr := { s.base.ctr with m_light_pen_latched := false } } })
  | 0x11 => ((s.base.regs.m_light_pen_addr >>> 0) &&& 0xff,
      { s with base := { s.base with ctr := { s.base.ctr with m_light_pen_latched := false } } })
  | 0x12 => (s.m_disp2_pos, s)
  | 0x13 => ((s.m_disp2_start_addr >>> 8) &&& 0xff, s)
  | 0x14 => ((s.m_disp2_start_addr >>> 0) &&& 0xff, s)
  | 0x15 => (s.m_disp3_pos, s)
  | 0x16 => ((s.m_disp3_start_addr >>> 8) &&& 0xff, s)
  | 0x17 => ((s.m_disp3_start_addr >>> 0) &&& 0xff, s)
  | 0x18 => (s.m_disp4_pos, s)
  | 0x19 => ((s.m_disp4_start_addr >>> 8) &&& 0xff, s)
  | 0x1a => ((s.m_disp4_start_addr >>> 0) &&& 0xff, s)
  | 0x1b => (s.m_vert_sync_pos_adj, s)
  | 0x1d => (s.m_smooth_scroll_ras, s)
  | 0x21 => (s.m_mem_width_offs, s)
  | 0x24 => ((s.m_cursor2_addr >>> 8) &&& 0xff, s)
  | 0x25 => ((s.m_cursor2_addr >>> 0) &&& 0xff, s)
  | 0x26 => (s.m_cursor_width, s)
  | 0x27 => (s.m_cursor2_width, s)
  | _ => (0, s)

/-- The `switch` of `hd6345_device::register_w`. -/
def hd6345_register_w_store (s : HD6345State) (data : Nat) : HD6345State :=
  match s.base.ctr.m_register_address_latch with
  | 0x00 =>
    { s with base := { s.base with regs := { s.base.regs with m_horiz_char_total := data &&& 0xff } } }
  | 0x01 =>
    { s with base := { s.base with regs := { s.base.regs with m_horiz_disp := data &&& 0xff } } }
  | 0x02 =>
    { s with base := { s.base with regs := { s.base.regs with m_horiz_sync_pos := data &&& 0xff } } }
  | 0x03 =>
    { s with base := { s.base with regs := { s.base.regs with m_sync_width := data &&& 0xff } } }
  | 0x04 =>
    { s with base := { s.base with regs := { s.base.regs with m_vert_char_total := data &&& 0xff } } }
  | 0x05 =>
    { s with base := { s.base with regs := { s.base.regs with m_vert_total_adj := data &&& 0x1f } } }
  | 0x06 =>
    { s with base := { s.base with regs := { s.base.regs with m_vert_disp := data &&& 0xff } } }
  | 0x07 =>
    { s with base := { s.base with regs := { s.base.regs with m_vert_sync_pos := data &&& 0xff } } }
  | 0x08 =>
    { s with base := { s.base with regs := { s.base.regs with m_mode_control := data &&& 0xf3 } } }
  | 0x09 =>
    { s with base := { s.base with regs := { s.base.regs with m_max_ras_addr := data &&& 0x1f } } }
  | 0x0a =>
    { s with base := { s.base with regs := { s.base.regs with m_cursor_start_ras := data &&& 0x7f } } }
  | 0x0b =>
    { s with base := { s.base with regs := { s.base.regs with m_cursor_end_ras := data &&& 0x1f } } }
  | 0x0c =>
    { s with base := { s.base with regs := { s.base.regs with m_disp_start_addr := ((data &&& 0x3f) <<< 8) ||| (s.base.regs.m_disp_start_addr &&& 0x00ff) } } }
  | 0x0d =>
    { s with base := { s.base with regs := { s.base.regs with m_disp_start_addr := ((data &&& 0xff) <<< 0) ||| (s.base.regs.m_disp_start_addr &&& 0xff00) } } }
  | 0x0e =>
    { s with base := { s.base with regs := { s.base.regs with m_cursor_addr := ((data &&& 0x3f) <<< 8) ||| (s.base.regs.m_cursor_addr &&& 0x00ff) } } }
  | 0x0f =>
    { s with base := { s.base with regs := { s.base.regs with m_cursor_addr := ((data &&& 0xff) <<< 0) ||| (s.base.regs.m_cursor_addr &&& 0xff00) } } }
  | 0x10 => s
  | 0x11 => s
  | 0x12 => { s with m_disp2_pos := data &&& 0xff }
  | 0x13 =>
    { s with m_disp2_start_addr := ((data &&& 0x3f) <<< 8) ||| (s.m_disp2_start_addr &&& 0x00ff) }
  | 0x14 =>
    { s with m_disp2_start_addr := ((data &&& 0xff) <<< 0) ||| (s.m_disp2_start_addr &&& 0xff00) }
  | 0x15 => { s with m_disp3_pos := data &&& 0xff }
  | 0x16 =>
    { s with m_disp3_start_addr := ((data &&& 0x3f) <<< 8) ||| (s.m_disp3_start_addr &&& 0x00ff) }
  | 0x17 =>
    { s with m_disp3_start_addr := ((data &&& 0xff) <<< 0) ||| (s.m_disp3_start_addr &&& 0xff00) }
  | 0x18 => { s with m_disp4_pos := data &&& 0xff }
  | 0x19 =>
    { s with m_disp4_start_addr := ((data &&& 0x3f) <<< 8) ||| (s.m_disp4_start_addr &&& 0x00ff) }
  | 0x1a =>
    { s with m_disp4_start_addr := ((data &&& 0xff) <<< 0) ||| (s.m_disp4_start_addr &&& 0xff00) }
  | 0x1b => { s with m_vert_sync_pos_adj := data &&& 0x1f }
  | 0x1c => s
  | 0x1d => { s with m_smooth_scroll_ras := data &&& 0x1f }
  | 0x1e => { s with m_control1 := data &&& 0xff }
  | 0x1f => { s with m_control2 := data &&& 0xf8 }
  | 0x20 => { s with m_control3 := data &&& 0xfe }
  | 0x21 => { s with m_mem_width_offs := data &&& 0xff }
  | 0x22 => { s with m_cursor2_start_ras := data &&& 0x7f }
  | 0x23 => { s with m_cursor2_end_ras := data &&& 0x1f }
  | 0x24 => { s with m_cursor2_addr := ((data &&& 0x3f) <<< 8) ||| (s.m_cursor2_addr &&& 0x00ff) }
  | 0x25 => { s with m_cursor2_addr := ((data &&& 0xff) <<< 0) ||| (s.m_cursor2_addr &&& 0xff00) }
  | 0x26 => { s with m_cursor_width := data &&& 0xff }
  | 0x27 => { s with m_cursor2_width := data &&& 0xff }
  | _ => s

/-- The function `hd6345_device::register_w`: the switch, then
`recompute_parameters(false)`. -/
def hd6345_register_w (s : HD6345State) (data : Nat) : HD6345State × List Event :=
  let s1 := hd6345_register_w_store s data
  let r := recompute_parameters s1.base false
  ({ s1 with base := r.1 }, r.2)

/-- The function `hd6345_device::draw_scanline`: the inherited
`draw_scanline` (with the `check_cursor_visible` of the HD6845S), then on the
last raster row of a character row the three screen-split rules, in order. -/
def hd6345_draw_scanline (s : HD6345State) (y : Int) :
    Except Fatal (Nat × HD6345State × List Event) :=
  match draw_scanline hd6845s_check_cursor_visible s.base y with
  | .error e => .error e
  | .ok (ra, b, ev) =>
    let s1 : HD6345State := { s with base := b }
    if (ra : Int) == char_height s1.base - 1 then
      let y_pos : Int := Int.tdiv y (char_height s1.base)
      let s2 : HD6345State :=
        if (s1.m_control1 &&& 0x03) > 0 && y_pos == (s1.m_disp2_pos : Int) &&
            s1.m_disp2_pos != s1.m_disp3_pos && s1.m_disp2_pos != s1.m_disp4_pos then
          { s1 with base := { s1.base with ctr := { s1.base.ctr with
              m_current_disp_addr := s1.m_disp2_start_addr } } }
        else s1
      let s3 : HD6345State :=
        if (s2.m_control1 &&& 0x03) > 1 && y_pos == (s2.m_disp3_pos : Int) &&
            s2.m_disp3_pos != s2.m_disp2_pos && s2.m_disp3_pos != s2.m_disp4_pos then
          { s2 with base := { s2.base with ctr := { s2.base.ctr with
              m_current_disp_addr := s2.m_disp3_start_addr } } }
        else s2
      let s4 : HD6345State :=
        if (s3.m_control1 &&& 0x03) > 2 && y_pos == (s3.m_disp4_pos : Int) &&
            s3.m_disp4_pos != s3.m_disp2_pos && s3.m_disp4_pos != s3.m_disp3_pos then
          { s3 with base := { s3.base with ctr := { s3.base.ctr with
              m_current_disp_addr := s3.m_disp4_start_addr } } }
        else s3
      .ok (ra, s4, ev)
    else .ok (ra, s1, ev)

/-- The loop of `screen_update` on the HD6345: `n` scanlines from `y` on,
drawn by `hd6345_device::draw_scanline`. -/
def hd6345_draw_scanlines (s : HD6345State) (y : Nat) :
    Nat → Except Fatal (HD6345State × List Event)
  | 0 => .ok (s, [])
  | n + 1 =>
    match hd6345_draw_scanline s y with
    | .error e => .error e
    | .ok (_, s1, ev1) =>
      match hd6345_draw_scanlines s1 (y + 1) n with
      | .error e => .error e
      | .ok (s2, ev2) => .ok (s2, ev1 ++ ev2)

/-- The function `mc6845_device::screen_update` on the HD6345: the scanlines
are drawn by the virtual `draw_scanline` of the HD6345. -/
def hd6345_screen_update (s : HD6345State) (cliprect : Rectangle) :
    Except Fatal (HD6345State × List Event) :=
  if s.base.geom.m_has_valid_parameters then
    if !s.base.cfg.update_row_cb_bound then .error Fatal.assertion_failed
    else if cliprect.max_y ≥ 65535 then .error Fatal.endless_loop
    else
      let ev1 : List Event :=
        if s.base.ctr.m_display_disabled_msg_shown then [Event.log_display_reenabled] else []
      let s1 : HD6345State := { s with base := { s.base with ctr := { s.base.ctr with
        m_display_disabled_msg_shown := false } } }
      let ev2 : List Event :=
        if s1.base.cfg.begin_update_cb_bound then [Event.begin_update_cb] else []
      let s2 : HD6345State :=
        if cliprect.min_y = 0 then
          { s1 with base := { s1.base with ctr := { s1.base.ctr with
              m_current_disp_addr := s1.base.regs.m_disp_start_addr } } }
        else s1
      match hd6345_draw_scanlines s2 (u16 cliprect.min_y)
          (cliprect.max_y + 1 - (u16 cliprect.min_y : Nat)).toNat with
      | .error e => .error e
      | .ok (s3, ev3) =>
        .ok (s3, ev1 ++ ev2 ++ ev3 ++
          (if s3.base.cfg.end_update_cb_bound then [Event.end_update_cb] else []))
  else
    if !s.base.ctr.m_display_disabled_msg_shown then
      .ok ({ s with base := { s.base with ctr := { s.base.ctr with
              m_display_disabled_msg_shown := true } } },
        [Event.log_display_disabled])
    else .ok (s, [])

/-- The function `hd6345_device::device_start`; the three control registers
are not assigned. -/
def hd6345_device_start (s : HD6345State) : HD6345State :=
  { s with
    base := hd6845s_device_start s.base,
    m_disp2_pos := 0, m_disp3_pos := 0, m_disp4_pos := 0,
    m_disp2_start_addr := 0, m_disp3_start_addr := 0, m_disp4_start_addr := 0,
    m_vert_sync_pos_adj := 0, m_smooth_scroll_ras := 0, m_mem_width_offs := 0,
    m_cursor2_start_ras := 0, m_cursor2_end_ras := 0, m_cursor2_addr := 0,
    m_cursor_width := 0, m_cursor2_width := 0 }

/-- The function `hd6345_device::device_reset`. -/
def hd6345_device_reset (s : HD6345State) (line_timer_enabled : Bool) :
    HD6345State × List Event :=
  let r := device_reset s.base line_timer_enabled
  ({ s with base := r.1, m_control1 := 0, m_control2 := 0, m_control3 := 0 }, r.2)

/-- One operation on the HD6345: its own `address_w`, `register_r`,
`register_w`, `draw_scanline` (also under `screen_update`) and
`device_reset`; every other entry point is the inherited one, with the
`check_cursor_visible` of the HD6845S. -/
def hd6345_step (s : HD6345State) : Op → Except Fatal (HD6345State × List Event)
  | Op.address_w data => .ok (hd6345_address_w s data, [])
  | Op.register_r => .ok ((hd6345_register_r s).2, [])
  | Op.register_w data => .ok (hd6345_register_w s data)
  | Op.draw_scanline y =>
    match hd6345_draw_scanline s y with
    | .error e => .error e
    | .ok (_, s1, ev) => .ok (s1, ev)
  | Op.screen_update cliprect => hd6345_screen_update s cliprect
  | Op.device_reset line_timer_enabled => .ok (hd6345_device_reset s line_timer_enabled)
  | op =>
    match step hd6845s_check_cursor_visible s.base op with
    | .error e => .error e
    | .ok (b, ev) => .ok ({ s with base := b }, ev)

/-- The object as the constructors leave it: the members they do not
initialise are taken to be 0. -/
def hd6345_constructed : HD6345State :=
  { base := constructed,
    m_disp2_pos := 0, m_disp3_pos := 0, m_disp4_pos := 0,
    m_disp2_start_addr := 0, m_disp3_start_addr := 0, m_disp4_start_addr := 0,
    m_vert_sync_pos_adj := 0, m_smooth_scroll_ras := 0,
    m_control1 := 0, m_control2 := 0, m_control3 := 0, m_mem_width_offs := 0,
    m_cursor2_start_ras := 0, m_cursor2_end_ras := 0, m_cursor2_addr := 0,
    m_cursor_width := 0, m_cursor2_width := 0 }

/-- An HD6345 with 8 pixels per character column and a row-drawing callback
after `device_start`. -/
def hd6345_started : HD6345State :=
  hd6345_device_start
    { hd6345_constructed with
      base := { constructed with
        m_hpixels_per_column := 8,
        cfg := { constructed.cfg with update_row_cb_bound := true } } }
/-- A started HD6345 with 8 raster rows per character row, 40 characters a
line, control register 1 at 1 (one split enabled), screen 2 starting at
character row 2 with start address 0x0100, and the screen 3 and 4 positions
at rows 10 and 20. -/
def hd6345_split_chip : HD6345State :=
  { hd6345_started with
    base := { hd6345_started.base with
      regs := { hd6345_started.base.regs with m_max_ras_addr := 7, m_horiz_disp := 40 } },
    m_control1 := 1, m_disp2_pos := 2, m_disp2_start_addr := 0x0100,
    m_disp3_pos := 10, m_disp4_pos := 20 }
/-- The lines of `mos8563_device::update_cursor_state` after the call of the
base function: the character blink counter and state. -/
def mos8563_char_blink (s : MOS8563State) : MOS8563State :=
  let last_char_blink_count : Nat := s.m_char_blink_count
  let s := { s with m_char_blink_count := u8 (s.m_char_blink_count + 1 : Nat) }
  if VSS_CBRATE s != 0 then
    if (last_char_blink_count &&& 0x20) != (s.m_char_blink_count &&& 0x20) then
      { s with m_char_blink_state := !s.m_char_blink_state }
    else s
  else
    if (last_char_blink_count &&& 0x10) != (s.m_char_blink_count &&& 0x10) then
      { s with m_char_blink_state := !s.m_char_blink_state }
    else s

/-- The function `mos8563_device::update_cursor_state`. -/
def mos8563_update_cursor_state (s : MOS8563State) : MOS8563State :=
  mos8563_char_blink { s with base := update_cursor_state s.base }

/-- The function `mc6845_device::handle_line_timer` on the MOS8563.  The
function calls `update_cursor_state` in its frame origin reset branch only;
on the MOS8563 that call reaches `mos8563_device::update_cursor_state`, whose
additional lines touch only the character blink members, which the base code
does not read. -/
def mos8563_handle_line_timer (s : MOS8563State) : MOS8563State × List Event :=
  let r := handle_line_timer check_cursor_visible s.base
  let s1 : MOS8563State := { s with base := r.1 }
  (if frame_reset_in_tick s.base then mos8563_char_blink s1 else s1, r.2)

/-- The function `mos8563_device::draw_scanline`. -/
def mos8563_draw_scanline (s : MOS8563State) (y : Int) :
    Except Fatal (Nat × MOS8563State × List Event) :=
  match draw_scanline check_cursor_visible s.base y with
  | .error e => .error e
  | .ok (ra, b, ev) =>
    let s1 : MOS8563State := { s with base := b }
    if ra == s1.base.regs.m_max_ras_addr then
      .ok (ra, { s1 with base := { s1.base with ctr := { s1.base.ctr with
          m_current_disp_addr :=
            (s1.base.ctr.m_current_disp_addr + s1.m_row_addr_incr) &&& 0x3fff } } }, ev)
    else .ok (ra, s1, ev)

/-- The loop of `screen_update` on the MOS8563: `n` scanlines from `y` on,
drawn by `mos8563_device::draw_scanline`. -/
def mos8563_draw_scanlines (s : MOS8563State) (y : Nat) :
    Nat → Except Fatal (MOS8563State × List Event)
  | 0 => .ok (s, [])
  | n + 1 =>
    match mos8563_draw_scanline s y with
    | .error e => .error e
    | .ok (_, s1, ev1) =>
      match mos8563_draw_scanlines s1 (y + 1) n with
      | .error e => .error e
      | .ok (s2, ev2) => .ok (s2, ev1 ++ ev2)

/-- The function `mc6845_device::screen_update` on the MOS8563: the scanlines
are drawn by the virtual `draw_scanline` of the MOS8563. -/
def mos8563_screen_update (s : MOS8563State) (cliprect : Rectangle) :
    Except Fatal (MOS8563State × List Event) :=
  if s.base.geom.m_has_valid_parameters then
    if !s.base.cfg.update_row_cb_bound then .error Fatal.assertion_failed
    else if cliprect.max_y ≥ 65535 then .error Fatal.endless_loop
    else
      let ev1 : List Event :=
        if s.base.ctr.m_display_disabled_msg_shown then [Event.log_display_reenabled] else []
      let s1 : MOS8563State := { s with base := { s.base with ctr := { s.base.ctr with
        m_display_disabled_msg_shown := false } } }
      let ev2 : List Event :=
        if s1.base.cfg.begin_update_cb_bound then [Event.begin_update_cb] else []
      let s2 : MOS8563State :=
        if cliprect.min_y = 0 then
          { s1 with base := { s1.base with ctr := { s1.base.ctr with
              m_current_disp_addr := s1.base.regs.m_disp_start_addr } } }
        else s1
      match mos8563_draw_scanlines s2 (u16 cliprect.min_y)
          (cliprect.max_y + 1 - (u16 cliprect.min_y : Nat)).toNat with
      | .error e => .error e
      | .ok (s3, ev3) =>
        .ok (s3, ev1 ++ ev2 ++ ev3 ++
          (if s3.base.cfg.end_update_cb_bound then [Event.end_update_cb] else []))
  else
    if !s.base.ctr.m_display_disabled_msg_shown then
      .ok ({ s with base := { s.base with ctr := { s.base.ctr with
              m_display_disabled_msg_shown := true } } },
        [Event.log_display_disabled])
    else .ok (s, [])

/-- The entry points of the MOS8563: those of the base device and the
block-copy timer event (`device_timer` with `TIMER_BLOCK_COPY`). -/
inductive MOS8563Op where
  | base (op : Op)
  | block_copy_timer
  deriving DecidableEq, Repr

/-- One operation on the MOS8563: its own `address_w`, `status_r`,
`register_r`, `register_w`, `device_timer`, `draw_scanline` (also under
`screen_update`), `update_cursor_state` (under the line timer event) and
`device_reset`; every other entry point is the inherited one. -/
def mos8563_step (s : MOS8563State) : MOS8563Op → Except Fatal (MOS8563State × List MOS8563Event)
  | MOS8563Op.block_copy_timer => .ok (mos8563_block_copy s)
  | MOS8563Op.base (Op.address_w data) => .ok (mos8563_address_w s data, [])
  | MOS8563Op.base Op.status_r => .ok (s, [])
  | MOS8563Op.base Op.register_r => .ok ((mos8563_register_r s).2.1, (mos8563_register_r s).2.2)
  | MOS8563Op.base (Op.register_w data) => .ok (mos8563_register_w s data)
  | MOS8563Op.base (Op.device_timer TimerId.TIMER_LINE _ _) =>
    .ok ((mos8563_handle_line_timer s).1,
      (mos8563_handle_line_timer s).2.map MOS8563Event.base)
  | MOS8563Op.base (Op.draw_scanline y) =>
    match mos8563_draw_scanline s y with
    | .error e => .error e
    | .ok (_, s1, ev) => .ok (s1, ev.map MOS8563Event.base)
  | MOS8563Op.base (Op.screen_update cliprect) =>
    match mos8563_screen_update s cliprect with
    | .error e => .error e
    | .ok (s1, ev) => .ok (s1, ev.map MOS8563Event.base)
  | MOS8563Op.base (Op.device_reset line_timer_enabled) =>
    .ok ((mos8563_device_reset s line_timer_enabled).1,
      (mos8563_device_reset s line_timer_enabled).2.map MOS8563Event.base)
  | MOS8563Op.base op =>
    match step check_cursor_visible s.base op with
    | .error e => .error e
    | .ok (b, ev) => .ok ({ s with base := b }, ev.map MOS8563Event.base)

/-! ## Runs of the HD6345 and the MOS8563 -/

/-- The states a sequence of operations on the HD6345 passes through: the
state before each operation and the state at the end; the sequence stops at
an operation that fails. -/
def hd6345_trace (s : HD6345State) : List Op → List HD6345State
  | [] => [s]
  | op :: ops =>
    s :: (match hd6345_step s op with
          | .error _ => []
          | .ok (s1, _) => hd6345_trace s1 ops)

/-- The states a sequence of operations on the MOS8563 passes through. -/
def mos8563_trace (s : MOS8563State) : List MOS8563Op → List MOS8563State
  | [] => [s]
  | op :: ops =>
    s :: (match mos8563_step s op with
          | .error _ => []
          | .ok (s1, _) => mos8563_trace s1 ops)

/-- Vertical adjust is not active and the line counter is within its 7
bits, as after `device_start`. -/
def vertical_adjust_idle (s : State) : Prop :=
  s.ctr.m_adjust_active = 0 ∧ s.ctr.m_line_counter ≤ 127
/-- A started HD6345 programmed with vertical total 200 (R4) right after
`device_start`. -/
def hd6345_tall_chip : HD6345State :=
  (hd6345_register_w (hd6345_address_w hd6345_started 0x04) 200).1

/-- Three line timer events. -/
def three_line_ticks : List Op :=
  [Op.device_timer TimerId.TIMER_LINE 0 view0, Op.device_timer TimerId.TIMER_LINE 0 view0,
   Op.device_timer TimerId.TIMER_LINE 0 view0]

/-! ## Frame lemmas for `recompute_parameters` -/

theorem recompute_parameters_regs (s : State) (postload : Bool) :
    (recompute_parameters s postload).1.regs = s.regs := by
  unfold recompute_parameters
  simp only []
  split_ifs <;> rfl

theorem recompute_parameters_cfg (s : State) (postload : Bool) :
    (recompute_parameters s postload).1.cfg = s.cfg := by
  unfold recompute_parameters
  simp only []
  split_ifs <;> rfl

theorem recompute_parameters_sig (s : State) (postload : Bool) :
    (recompute_parameters s postload).1.sig = s.sig := by
  unfold recompute_parameters
  simp only []
  split_ifs <;> rfl

theorem recompute_parameters_hpixels (s : State) (postload : Bool) :
    (recompute_parameters s postload).1.m_hpixels_per_column = s.m_hpixels_per_column ∧
    (recompute_parameters s postload).1.m_clk_scale = s.m_clk_scale := by
  unfold recompute_parameters
  simp only []
  split_ifs <;> exact ⟨rfl, rfl⟩

/-! ## C1: register writes store the masked input -/

/-- C1: on the base chip, for every data byte and every address-latch value
in 0x00..0x0f, `register_w` succeeds and the register bank after the write is
the bank before it with exactly the selected register replaced by the input
masked to the register width: R0-R3 and R8 take `data & 0xff`; R4, R6, R7,
R10 take `data & 0x7f`; R5, R9, R11 take `data & 0x1f`; R12 / R14 replace
the high byte of the display-start / cursor address by `data & 0x3f`;
R13 / R15 replace the low byte by `data & 0xff`. -/
theorem register_w_stores_masked (s : State) (data : Nat)
    (hlatch : s.ctr.m_register_address_latch ≤ 0x0f) :
    ∃ s1 ev, register_w s data = .ok (s1, ev) ∧
      (s.ctr.m_register_address_latch = 0x00 →
        s1.regs = { s.regs with m_horiz_char_total := data &&& 0xff }) ∧
      (s.ctr.m_register_address_latch = 0x01 →
        s1.regs = { s.regs with m_horiz_disp := data &&& 0xff }) ∧
      (s.ctr.m_register_address_latch = 0x02 →
        s1.regs = { s.regs with m_horiz_sync_pos := data &&& 0xff }) ∧
      (s.ctr.m_register_address_latch = 0x03 →
        s1.regs = { s.regs with m_sync_width := data &&& 0xff }) ∧
      (s.ctr.m_register_address_latch = 0x04 →
        s1.regs = { s.regs with m_vert_char_total := data &&& 0x7f }) ∧
      (s.ctr.m_register_address_latch = 0x05 →
        s1.regs = { s.regs with m_vert_total_adj := data &&& 0x1f }) ∧
      (s.ctr.m_register_address_latch = 0x06 →
        s1.regs = { s.regs with m_vert_disp := data &&& 0x7f }) ∧
      (s.ctr.m_register_address_latch = 0x07 →
        s1.regs = { s.regs with m_vert_sync_pos := data &&& 0x7f }) ∧
      (s.ctr.m_register_address_latch = 0x08 →
        s1.regs = { s.regs with m_mode_control := data &&& 0xff }) ∧
      (s.ctr.m_register_address_latch = 0x09 →
        s1.regs = { s.regs with m_max_ras_addr := data &&& 0x1f }) ∧
      (s.ctr.m_register_address_latch = 0x0a →
        s1.regs = { s.regs with m_cursor_start_ras := data &&& 0x7f }) ∧
      (s.ctr.m_register_address_latch = 0x0b →
        s1.regs = { s.regs with m_cursor_end_ras := data &&& 0x1f }) ∧
      (s.ctr.m_register_address_latch = 0x0c →
        s1.regs = { s.regs with m_disp_start_addr :=
          ((data &&& 0x3f) <<< 8) ||| (s.regs.m_disp_start_addr &&& 0x00ff) }) ∧
      (s.ctr.m_register_address_latch = 0x0d →
        s1.regs = { s.regs with m_disp_start_addr :=
          (data &&& 0xff) ||| (s.regs.m_disp_start_addr &&& 0xff00) }) ∧
      (s.ctr.m_register_address_latch = 0x0e →
        s1.regs = { s.regs with m_cursor_addr :=
          ((data &&& 0x3f) <<< 8) ||| (s.regs.m_cursor_addr &&& 0x00ff) }) ∧
      (s.ctr.m_register_address_latch = 0x0f →
        s1.regs = { s.regs with m_cursor_addr :=
          (data &&& 0xff) ||| (s.regs.m_cursor_addr &&& 0xff00) }) := by
  obtain ⟨cfg, regs, ctr, geom, sig, hp, cs, ut⟩ := s
  obtain ⟨latch, c2, c3, c4, c5, c6, c7, c8, c9, c10, c11, c12, c13, c14, c15, c16, c17, c18⟩ := ctr
  simp only at hlatch
  interval_cases latch <;>
    exact ⟨_, _, rfl, by simp [recompute_parameters_regs]⟩

/-- Witness for C1: on a started MC6845, selecting R4 and writing 0xff stores 0x7f. -/
theorem register_w_stores_masked_witness :
    ∃ s1 ev, register_w (address_w mc6845_started 0x04) 0xff = .ok (s1, ev) ∧
      s1.regs = { mc6845_started.regs with m_vert_char_total := 0x7f } := by
  obtain ⟨s1, ev, h, hs⟩ := register_w_stores_masked (address_w mc6845_started 0x04) 0xff
    (by decide)
  exact ⟨s1, ev, h, hs.2.2.2.2.1 rfl⟩

/-! ## C2: register reads -/

/-- C2 as stated fails: on an R6545-1 (transparent-capable) without an
update-address handler, after 0x88 has been written to R8 (PHI2 transparent
mode), a read with the address latch at 0x1f does not return 0: it ends in
the fatal error. -/
theorem register_r_latch_1f_fatal :
    ∃ s1 ev, register_w (address_w r6545_1_started 0x08) 0x88 = .ok (s1, ev) ∧
      (address_w s1 0x1f).ctr.m_register_address_latch = 0x1f ∧
      register_r (address_w s1 0x1f) = .error Fatal.transparent_memory_mode_without_handler ∧
      ¬ ∃ s2 ev2, register_r (address_w s1 0x1f) = .ok (0, s2, ev2) := by
  refine ⟨_, _, rfl, rfl, rfl, ?_⟩
  rintro ⟨s2, ev2, h⟩
  have hfatal : register_r (address_w (recompute_parameters
      { address_w r6545_1_started 0x08 with regs :=
          { (address_w r6545_1_started 0x08).regs with m_mode_control := 0x88 &&& 0xff } }
      false).1 0x1f) = .error Fatal.transparent_memory_mode_without_handler := rfl
  rw [hfatal] at h
  cases h

/-! ## Bit-mask helpers -/

theorem and_ff_eq_mod (x : Nat) : x &&& 0xff = x % 256 :=
  Nat.and_pow_two_sub_one_eq_mod x 8

theorem shiftRight_8_and_ff (x : Nat) : (x >>> 8) &&& 0xff = x / 256 % 256 := by
  rw [and_ff_eq_mod, Nat.shiftRight_eq_div_pow]

theorem phi2_implies_transparent (s : State) (h : MODE_TRANSPARENT_PHI2 s = true) :
    MODE_TRANSPARENT s = true := by
  simp only [ MODE_TRANSPARENT_PHI2, beq_iff_eq] at h
  have h8 : s.regs.m_mode_control &&& 0x08 = 0x08 := by
    have : (s.regs.m_mode_control &&& 0x88) &&& 0x08 = 0x88 &&& 0x08 := by rw [h]
    rw [Nat.land_assoc] at this
    simpa using this
  simp [ MODE_TRANSPARENT, h8]

/-- C2 (amended): for every state of the base chip, `register_r` with the
latch at 0x0c / 0x0d returns the high / low byte of the display-start address
when the variant supports display-start readback and 0 when it does not; at
0x0e / 0x0f the high / low byte of the cursor address; at 0x10 / 0x11 the
high / low byte of the light-pen address; at every other latch value except
0x1f it returns 0; at 0x1f it returns 0 unless the chip is transparent-capable
and in PHI2 transparent mode with no update-address handler bound, in which
case the read ends in the fatal error. -/
theorem register_r_returns (s : State) :
    (s.ctr.m_register_address_latch = 0x0c →
      register_r s = .ok (if s.cfg.m_supports_disp_start_addr_r
        then s.regs.m_disp_start_addr / 256 % 256 else 0, s, [])) ∧
    (s.ctr.m_register_address_latch = 0x0d →
      register_r s = .ok (if s.cfg.m_supports_disp_start_addr_r
        then s.regs.m_disp_start_addr % 256 else 0, s, [])) ∧
    (s.ctr.m_register_address_latch = 0x0e →
      register_r s = .ok (s.regs.m_cursor_addr / 256 % 256, s, [])) ∧
    (s.ctr.m_register_address_latch = 0x0f →
      register_r s = .ok (s.regs.m_cursor_addr % 256, s, [])) ∧
    (s.ctr.m_register_address_latch = 0x10 →
      ∃ s1 ev, register_r s = .ok (s.regs.m_light_pen_addr / 256 % 256, s1, ev)) ∧
    (s.ctr.m_register_address_latch = 0x11 →
      ∃ s1 ev, register_r s = .ok (s.regs.m_light_pen_addr % 256, s1, ev)) ∧
    (s.ctr.m_register_address_latch ∉ [0x0c, 0x0d, 0x0e, 0x0f, 0x10, 0x11, 0x1f] →
      register_r s = .ok (0, s, [])) ∧
    (s.ctr.m_register_address_latch = 0x1f →
      (transparent_update_fatal s = true →
        register_r s = .error Fatal.transparent_memory_mode_without_handler) ∧
      (transparent_update_fatal s = false → ∃ s1 ev, register_r s = .ok (0, s1, ev))) := by
  refine ⟨?_, ?_, ?_, ?_, ?_, ?_, ?_, ?_⟩
  · intro h
    simp [register_r, h, shiftRight_8_and_ff]
  · intro h
    simp [register_r, h, and_ff_eq_mod]
  · intro h
    simp [register_r, h, shiftRight_8_and_ff]
  · intro h
    simp [register_r, h, and_ff_eq_mod]
  · intro h
    simp [register_r, h, shiftRight_8_and_ff]
  · intro h
    simp [register_r, h, and_ff_eq_mod]
  · intro h
    simp only [List.mem_cons, List.mem_singleton, not_or, List.not_mem_nil, or_false] at h
    unfold register_r
    split <;> simp_all
  · intro h
    constructor
    · intro hf
      simp only [transparent_update_fatal, Bool.and_eq_true, Bool.not_eq_true'] at hf
      obtain ⟨⟨h1, h2⟩, h3⟩ := hf
      have h4 := phi2_implies_transparent s h2
      simp [register_r, h, transparent_update, call_on_update_address, h1, h2, h3, h4]
    · intro hn
      replace hn : s.cfg.m_supports_transparent = true → MODE_TRANSPARENT_PHI2 s = true →
          s.cfg.on_update_addr_changed_cb_bound = true := by
        intro h1 h2
        simpa [transparent_update_fatal, h1, h2] using hn
      simp only [register_r, h, transparent_update]
      by_cases h1 : s.cfg.m_supports_transparent = true
      · by_cases h2 : MODE_TRANSPARENT_PHI2 s = true
        · have h3 := hn h1 h2
          have h4 := phi2_implies_transparent s h2
          simp [call_on_update_address, h1, h2, h3, h4]
        · by_cases h5 : MODE_TRANSPARENT s = true
          · by_cases h6 : s.ctr.m_update_ready_bit = true
            · simp only [h1, h2, h5, h6, Bool.and_self, if_true, Bool.false_eq_true, if_false]
              exact ⟨_, _, rfl⟩
            · simp [h1, h2, h5, h6]
          · simp [h1, h5]
      · simp [h1]

/-- Witness for C2: on a started MC6845 (no display-start readback) the
latch values 0x0c and 0x00 read as 0. -/
theorem register_r_returns_witness :
    register_r (address_w mc6845_started 0x0c) = .ok (0, address_w mc6845_started 0x0c, []) ∧
    register_r (address_w mc6845_started 0x00) = .ok (0, address_w mc6845_started 0x00, []) :=
  ⟨(register_r_returns (address_w mc6845_started 0x0c)).1 rfl,
   (register_r_returns (address_w mc6845_started 0x00)).2.2.2.2.2.2.1 (by decide)⟩

/-! ## C4: the address latch -/

/-- C4: `address_w` stores the selected register index masked to the variant's
address-field width (5 bits on the base chip, 6 bits on the MOS8563 and the
HD6345) and changes nothing else: putting the old latch value back gives
back the state before the write. -/
theorem address_w_masks_latch (s : State) (m : MOS8563State) (h : HD6345State) (data : Nat) :
    ((address_w s data).ctr.m_register_address_latch = data &&& 0x1f ∧
      data &&& 0x1f = data % 32 ∧
      { address_w s data with ctr := { (address_w s data).ctr with
          m_register_address_latch := s.ctr.m_register_address_latch } } = s) ∧
    ((mos8563_address_w m data).base.ctr.m_register_address_latch = data &&& 0x3f ∧
      data &&& 0x3f = data % 64 ∧
      { mos8563_address_w m data with base := { (mos8563_address_w m data).base with
          ctr := { (mos8563_address_w m data).base.ctr with
            m_register_address_latch := m.base.ctr.m_register_address_latch } } } = m) ∧
    ((hd6345_address_w h data).base.ctr.m_register_address_latch = data &&& 0x3f ∧
      data &&& 0x3f = data % 64 ∧
      { hd6345_address_w h data with base := { (hd6345_address_w h data).base with
          ctr := { (hd6345_address_w h data).base.ctr with
            m_register_address_latch := h.base.ctr.m_register_address_latch } } } = h) :=
  ⟨⟨rfl, Nat.and_pow_two_sub_one_eq_mod data 5, rfl⟩,
   ⟨rfl, Nat.and_pow_two_sub_one_eq_mod data 6, rfl⟩,
   ⟨rfl, Nat.and_pow_two_sub_one_eq_mod data 6, rfl⟩⟩

/-! ## C5: the status register -/

/-- C5: for every state the byte returned by the base chip's `status_r` has
bit 5 set iff the variant supports status bit 5 and the line-enable flag is
clear, bit 6 set iff it supports bit 6 and the light pen is latched, bit 7
set iff it supports bit 7 and the update-ready bit is set, and bits 0..4
clear; with none of the three bits supported, as after the MC6845's
`device_start`, it is 0. -/
theorem status_r_bits (s : State) :
    (status_r s).testBit 5 = (s.cfg.m_supports_status_reg_d5 && !s.ctr.m_line_enable_ff) ∧
    (status_r s).testBit 6 = (s.cfg.m_supports_status_reg_d6 && s.ctr.m_light_pen_latched) ∧
    (status_r s).testBit 7 = (s.cfg.m_supports_status_reg_d7 && s.ctr.m_update_ready_bit) ∧
    status_r s &&& 0x1f = 0 ∧
    status_r s < 256 ∧
    (s.cfg.m_supports_status_reg_d5 = false → s.cfg.m_supports_status_reg_d6 = false →
      s.cfg.m_supports_status_reg_d7 = false → status_r s = 0) ∧
    status_r (device_start s) = 0 := by
  refine ⟨?_, ?_, ?_, ?_, ?_, ?_, ?_⟩
  case refine_7 => simp [status_r, device_start]
  all_goals
    unfold status_r
    cases s.cfg.m_supports_status_reg_d5 <;> cases s.cfg.m_supports_status_reg_d6 <;>
    cases s.cfg.m_supports_status_reg_d7 <;> cases s.ctr.m_line_enable_ff <;>
    cases s.ctr.m_light_pen_latched <;> cases s.ctr.m_update_ready_bit <;> decide

/-- Witness for C5: a started MC6845 reports status 0. -/
theorem status_r_bits_witness : status_r mc6845_started = 0 :=
  (status_r_bits mc6845_started).2.2.2.2.2.1 rfl rfl rfl

/-! ## 16-bit arithmetic helpers -/

theorem u16_lt (x : Int) : u16 x < 65536 := by
  unfold u16
  omega

theorem u16_cast (x : Int) : ((u16 x : Nat) : Int) = x % 65536 := by
  unfold u16
  omega

theorem u16_mul_u16_add (a h c : Int) : u16 (a * (u16 h : Nat) + c) = u16 (a * h + c) := by
  rw [u16_cast]
  unfold u16
  congr 1
  rw [Int.add_emod, Int.mul_emod, Int.emod_emod_of_dvd _ (dvd_refl _), ← Int.mul_emod,
    ← Int.add_emod]

theorem u16_mul_u16 (a h : Int) : u16 (a * (u16 h : Nat)) = u16 (a * h) := by
  have := u16_mul_u16_add a h 0
  simpa using this

/-! ## The cache after `recompute_parameters` -/

/-- After `recompute_parameters` the eight cached values are the derived
ones, whether the cache was rewritten or found up to date. -/
theorem recompute_parameters_geom (s : State) (postload : Bool) :
    (recompute_parameters s postload).1.geom.m_horiz_pix_total
      = (derive_parameters s).horiz_pix_total ∧
    (recompute_parameters s postload).1.geom.m_vert_pix_total
      = (derive_parameters s).vert_pix_total ∧
    (recompute_parameters s postload).1.geom.m_max_visible_x
      = (derive_parameters s).max_visible_x ∧
    (recompute_parameters s postload).1.geom.m_max_visible_y
      = (derive_parameters s).max_visible_y ∧
    (recompute_parameters s postload).1.geom.m_hsync_on_pos
      = (derive_parameters s).hsync_on_pos ∧
    (recompute_parameters s postload).1.geom.m_hsync_off_pos
      = (derive_parameters s).hsync_off_pos ∧
    (recompute_parameters s postload).1.geom.m_vsync_on_pos
      = (derive_parameters s).vsync_on_pos ∧
    (recompute_parameters s postload).1.geom.m_vsync_off_pos
      = (derive_parameters s).vsync_off_pos := by
  unfold recompute_parameters
  simp only []
  by_cases h1 : parameters_changed
      { s with m_upd_time := cclks_to_attotime s (4 * s.m_hpixels_per_column) }
      (derive_parameters s) postload = true
  · rw [if_pos h1]
    split_ifs <;> simp
  · rw [if_neg h1]
    simp only [parameters_changed, Bool.or_eq_true, bne_iff_ne, not_or, ne_eq, not_not] at h1
    obtain ⟨⟨⟨⟨⟨⟨⟨⟨_, e1⟩, e2⟩, e3⟩, e4⟩, e5⟩, e6⟩, e7⟩, e8⟩ := h1
    simp [e1, e2, e3, e4, e5, e6, e7, e8]

/-! ## C7: the reference formulas -/

/-- C7: after `recompute_parameters` (either value of `postload`) the cached
geometry equals the reference formulas in 16-bit unsigned arithmetic, with
H = max-raster-address + (interlace adjust if (mode_control & 3) == 3 else
non-interlace adjust) and P = pixels per column: horiz_pix_total =
(R0 + 1) * P; vert_pix_total = (R4 + 1) * H + R5; max_visible_x = R1 * P - 1;
max_visible_y = R6 * H - 1; hsync_on_pos = R2 * P; vsync_on_pos =
min (R7 * H, vert_pix_total).  With R0 = 49 and P = 8 the total pixel width
is 400. -/
theorem recompute_parameters_formulas (s : State) (postload : Bool) :
    let g := (recompute_parameters s postload).1.geom
    let P : Int := s.m_hpixels_per_column
    let H : Int := s.regs.m_max_ras_addr +
      (if s.regs.m_mode_control &&& 0x03 = 3 then s.cfg.m_interlace_adjust
       else s.cfg.m_noninterlace_adjust)
    g.m_horiz_pix_total = u16 ((s.regs.m_horiz_char_total + 1) * P) ∧
    g.m_vert_pix_total = u16 ((s.regs.m_vert_char_total + 1) * H + s.regs.m_vert_total_adj) ∧
    g.m_max_visible_x = u16 (s.regs.m_horiz_disp * P - 1) ∧
    g.m_max_visible_y = u16 (s.regs.m_vert_disp * H - 1) ∧
    g.m_hsync_on_pos = u16 (s.regs.m_horiz_sync_pos * P) ∧
    g.m_vsync_on_pos = min (u16 (s.regs.m_vert_sync_pos * H))
      (u16 ((s.regs.m_vert_char_total + 1) * H + s.regs.m_vert_total_adj)) ∧
    (s.regs.m_horiz_char_total = 49 → P = 8 → g.m_horiz_pix_total = 400) := by
  intro g P H
  obtain ⟨e1, e2, e3, e4, e5, -, e7, -⟩ := recompute_parameters_geom s postload
  have hH : video_char_height s = u16 H := by
    simp only [video_char_height, MODE_INTERLACE_AND_VIDEO, beq_iff_eq, H]
  have hv : (derive_parameters s).vert_pix_total
      = u16 ((s.regs.m_vert_char_total + 1) * H + s.regs.m_vert_total_adj) := by
    simp only [derive_parameters, hH]
    exact u16_mul_u16_add _ _ _
  have hx : (derive_parameters s).horiz_pix_total = u16 ((s.regs.m_horiz_char_total + 1) * P) := rfl
  refine ⟨e1.trans hx, e2.trans hv, e3, ?_, e5, ?_, ?_⟩
  · refine e4.trans ?_
    simp only [derive_parameters, hH]
    rw [sub_eq_add_neg, sub_eq_add_neg]
    exact u16_mul_u16_add _ _ _
  · refine e7.trans ?_
    have hon : u16 ((s.regs.m_vert_sync_pos * video_char_height s : Nat) : Int)
        = u16 (s.regs.m_vert_sync_pos * H) := by
      rw [hH]; push_cast; exact u16_mul_u16 _ _
    have hv2 : u16 ((s.regs.m_vert_char_total + 1) * (video_char_height s : Int)
        + s.regs.m_vert_total_adj)
        = u16 ((s.regs.m_vert_char_total + 1) * H + s.regs.m_vert_total_adj) := by
      rw [hH]; exact u16_mul_u16_add _ _ _
    simp only [derive_parameters, hon, hv2]
    split_ifs with hgt
    · exact (min_eq_right (le_of_lt hgt)).symm
    · exact (min_eq_left (not_lt.mp hgt)).symm
  · intro h49 h8
    rw [e1, hx, h49, h8]
    rfl

/-- Witness for C7: the MC6845 started with 8 pixels per column and R0
written with 49 reports a total pixel width of 400. -/
theorem recompute_parameters_formulas_witness :
    (recompute_parameters { mc6845_started with regs :=
      { mc6845_started.regs with m_horiz_char_total := 49 } } false).1.geom.m_horiz_pix_total
      = 400 :=
  (recompute_parameters_formulas { mc6845_started with regs :=
      { mc6845_started.regs with m_horiz_char_total := 49 } } false).2.2.2.2.2.2 rfl rfl

/-! ## C8: recomputation is idempotent -/

theorem derive_parameters_congr (s1 s : State) (hr : s1.regs = s.regs) (hc : s1.cfg = s.cfg)
    (hp : s1.m_hpixels_per_column = s.m_hpixels_per_column) :
    derive_parameters s1 = derive_parameters s := by
  simp only [derive_parameters, video_char_height, MODE_INTERLACE_AND_VIDEO, hr, hc, hp]

theorem recompute_parameters_upd_time (s : State) (postload : Bool) :
    (recompute_parameters s postload).1.m_upd_time
      = cclks_to_attotime s (4 * s.m_hpixels_per_column) := by
  unfold recompute_parameters
  simp only []
  split_ifs <;> rfl

/-- With the cache up to date, `recompute_parameters(false)` does nothing. -/
theorem recompute_parameters_of_current (s : State) (h : cache_current s = true) :
    recompute_parameters s false = (s, []) := by
  simp only [cache_current, Bool.and_eq_true, Bool.not_eq_true', beq_iff_eq] at h
  obtain ⟨hch, hu⟩ := h
  have hs : { s with m_upd_time := cclks_to_attotime s (4 * s.m_hpixels_per_column) } = s := by
    rw [← hu]
  unfold recompute_parameters
  simp only [hs, hch, Bool.false_eq_true, if_false]

/-- After `recompute_parameters` the cache is up to date. -/
theorem cache_current_recompute_parameters (s : State) (postload : Bool) :
    cache_current (recompute_parameters s postload).1 = true := by
  have hd := derive_parameters_congr (recompute_parameters s postload).1 s
    (recompute_parameters_regs s postload) (recompute_parameters_cfg s postload)
    (recompute_parameters_hpixels s postload).1
  obtain ⟨e1, e2, e3, e4, e5, e6, e7, e8⟩ := recompute_parameters_geom s postload
  have hu := recompute_parameters_upd_time s postload
  simp only [cache_current, parameters_changed, hd, e1, e2, e3, e4, e5, e6, e7, e8, hu,
    cclks_to_attotime, (recompute_parameters_hpixels s postload).1,
    (recompute_parameters_hpixels s postload).2]
  simp

/-- C8: geometry recompute is idempotent: for every state, a second
`recompute_parameters(false)` right after a first one delivers no
geometry-change notification (no screen configure, no reconfigure callback,
no effect at all) and leaves the whole state unchanged. -/
theorem recompute_parameters_idempotent (s : State) :
    recompute_parameters (recompute_parameters s false).1 false
      = ((recompute_parameters s false).1, []) :=
  recompute_parameters_of_current _ (cache_current_recompute_parameters s false)

/-! ## C9: when the geometry is judged valid -/

/-- When the test of line 628 holds, the flag is the validity test of the
derived values and the effects are the notification or nothing. -/
theorem recompute_parameters_changed (s : State) (postload : Bool)
    (h : parameters_changed s (derive_parameters s) postload = true) :
    (recompute_parameters s postload).1.geom.m_has_valid_parameters
      = parameters_valid (derive_parameters s) ∧
    (recompute_parameters s postload).2
      = (if parameters_valid (derive_parameters s)
          then geometry_notification
            { s with m_upd_time := cclks_to_attotime s (4 * s.m_hpixels_per_column) }
            (derive_parameters s)
          else []) := by
  have hch : parameters_changed
      { s with m_upd_time := cclks_to_attotime s (4 * s.m_hpixels_per_column) }
      (derive_parameters s) postload = true := h
  unfold recompute_parameters
  simp only []
  rw [if_pos hch]
  split_ifs <;> exact ⟨rfl, rfl⟩

theorem parameters_valid_iff (d : Derived) :
    parameters_valid d = true ↔
      (0 < d.horiz_pix_total ∧ 0 < d.vert_pix_total ∧
       d.max_visible_x < d.horiz_pix_total ∧ d.max_visible_y < d.vert_pix_total ∧
       d.hsync_on_pos ≤ d.horiz_pix_total ∧ d.vsync_on_pos ≤ d.vert_pix_total ∧
       d.hsync_on_pos ≠ d.hsync_off_pos) := by
  simp only [parameters_valid, Bool.and_eq_true, decide_eq_true_eq, bne_iff_ne, ne_eq]
  tauto

/-- C9: whenever `recompute_parameters` re-evaluates the geometry (the test
of line 628 holds: `postload`, or a derived value differs from the cache),
it sets the valid-parameters flag exactly when horiz_pix_total > 0,
vert_pix_total > 0, max_visible_x < horiz_pix_total, max_visible_y <
vert_pix_total, hsync_on_pos <= horiz_pix_total, vsync_on_pos <=
vert_pix_total and hsync_on_pos != hsync_off_pos (the values it has just
cached); when the flag is set it delivers the geometry-change notification
(the screen, when there is one, is configured and the reconfigure callback,
when bound, is called, with the new totals) and nothing else; when the flag
is cleared it delivers nothing; so with a screen or a bound callback there
is a notification exactly when the seven conditions hold. -/
theorem recompute_parameters_validity (s : State) (postload : Bool)
    (h : parameters_changed s (derive_parameters s) postload = true) :
    let r := recompute_parameters s postload
    let g := r.1.geom
    (g.m_has_valid_parameters = true ↔
      (0 < g.m_horiz_pix_total ∧ 0 < g.m_vert_pix_total ∧
       g.m_max_visible_x < g.m_horiz_pix_total ∧ g.m_max_visible_y < g.m_vert_pix_total ∧
       g.m_hsync_on_pos ≤ g.m_horiz_pix_total ∧ g.m_vsync_on_pos ≤ g.m_vert_pix_total ∧
       g.m_hsync_on_pos ≠ g.m_hsync_off_pos)) ∧
    (g.m_has_valid_parameters = true → ∃ va rf,
      r.2 = (if s.cfg.has_screen
              then [Event.screen_configure g.m_horiz_pix_total g.m_vert_pix_total va rf]
              else []) ++
            (if s.cfg.reconfigure_cb_bound
              then [Event.reconfigure_cb g.m_horiz_pix_total g.m_vert_pix_total va rf]
              else [])) ∧
    (g.m_has_valid_parameters = false → r.2 = []) ∧
    (s.cfg.has_screen = true ∨ s.cfg.reconfigure_cb_bound = true →
      (r.2 ≠ [] ↔ g.m_has_valid_parameters = true)) := by
  intro r g
  obtain ⟨hv, hev⟩ := recompute_parameters_changed s postload h
  obtain ⟨e1, e2, e3, e4, e5, e6, e7, -⟩ := recompute_parameters_geom s postload
  have hiff := parameters_valid_iff (derive_parameters s)
  rw [← hv, ← e1, ← e2, ← e3, ← e4, ← e5, ← e6, ← e7] at hiff
  have c2 : g.m_has_valid_parameters = true → ∃ va rf,
      r.2 = (if s.cfg.has_screen
              then [Event.screen_configure g.m_horiz_pix_total g.m_vert_pix_total va rf]
              else []) ++
            (if s.cfg.reconfigure_cb_bound
              then [Event.reconfigure_cb g.m_horiz_pix_total g.m_vert_pix_total va rf]
              else []) := by
    intro hg
    have hval : parameters_valid (derive_parameters s) = true := hv ▸ hg
    refine ⟨visarea s (derive_parameters s), cclks_to_attotime s
      ((s.regs.m_horiz_char_total + 1) * (derive_parameters s).vert_pix_total : Nat), ?_⟩
    show (recompute_parameters s postload).2 = _
    rw [hev, if_pos hval, geometry_notification]
    simp only [g, r, e1, e2]
    rfl
  have c3 : g.m_has_valid_parameters = false → r.2 = [] := by
    intro hg
    have hval : parameters_valid (derive_parameters s) = false := hv ▸ hg
    show (recompute_parameters s postload).2 = _
    rw [hev, hval]
    rfl
  refine ⟨hiff, c2, c3, ?_⟩
  intro hcons
  constructor
  · intro hne
    by_contra hnv
    exact hne (c3 (by simpa using hnv))
  · intro hg
    obtain ⟨va, rf, hr⟩ := c2 hg
    rw [hr]
    rcases hcons with hs | hs <;> simp [hs]

/-- Witness for C9: for the 50 x 11 character set-up on a chip with a screen,
a forced recompute judges the geometry valid and configures the screen with
400 x 88 pixels. -/
theorem recompute_parameters_validity_witness :
    (recompute_parameters late_vsync_chip true).1.geom.m_has_valid_parameters = true ∧
    ∃ va rf, (recompute_parameters late_vsync_chip true).2
      = [Event.screen_configure 400 88 va rf] := by
  have h := recompute_parameters_validity late_vsync_chip true rfl
  have hv : (recompute_parameters late_vsync_chip true).1.geom.m_has_valid_parameters = true :=
    by decide
  obtain ⟨va, rf, hev⟩ := h.2.1 hv
  exact ⟨hv, va, rf, hev⟩

/-! ## C10: sync pulses of a valid configuration -/

set_option maxRecDepth 100000 in
/-- C10 as stated fails: programming the 50 x 11 character set-up (vertical
sync position 20, beyond the vertical total 10) on a started MC6845 ends with
a register write whose recompute sets the valid-parameters flag although the
cached vsync-on and vsync-off positions are both 88, the vertical total. -/
theorem valid_with_empty_vsync_pulse :
    (write_registers mc6845_started late_vsync_setup).map (fun r => r.1.geom)
      = .ok { m_horiz_pix_total := 400, m_vert_pix_total := 88,
              m_max_visible_x := 319, m_max_visible_y := 63,
              m_hsync_on_pos := 336, m_hsync_off_pos := 344,
              m_vsync_on_pos := 88, m_vsync_off_pos := 88,
              m_has_valid_parameters := true } := by
  rfl

theorem vsync_pulse_nonempty (on0 vt w : Nat) (hw1 : 1 ≤ w) (hw2 : w ≤ 16)
    (hlt : (if on0 > vt then vt else on0) < vt) :
    (if on0 > vt then vt else on0)
      ≠ (if u16 ((on0 + w : Nat) : Int) > vt then vt else u16 ((on0 + w : Nat) : Int)) := by
  unfold u16
  split_ifs at hlt ⊢ <;> omega

theorem derive_parameters_vsync (s : State) :
    ∃ on0 w, on0 < 65536 ∧ 1 ≤ w ∧ w ≤ 16 ∧
      (derive_parameters s).vsync_on_pos
        = (if on0 > (derive_parameters s).vert_pix_total
            then (derive_parameters s).vert_pix_total else on0) ∧
      (derive_parameters s).vsync_off_pos
        = (if u16 ((on0 + w : Nat) : Int) > (derive_parameters s).vert_pix_total
            then (derive_parameters s).vert_pix_total else u16 ((on0 + w : Nat) : Int)) := by
  have hb : (s.regs.m_sync_width >>> 4) &&& 0x0f ≤ 0x0f := Nat.and_le_right
  have hx : ∀ x : Nat, x ≤ 16 →
      1 ≤ (if u8 (x : Int) == 0 then 0x10 else u8 (x : Int)) ∧
      (if u8 (x : Int) == 0 then 0x10 else u8 (x : Int)) ≤ 16 := by
    intro x hx16
    have hu : u8 (x : Int) = x := by unfold u8; omega
    rw [hu]
    by_cases h0 : x = 0
    · simp [h0]
    · have hne : (x == 0) = false := by simpa using h0
      rw [hne]
      simp only [Bool.false_eq_true, if_false]
      omega
  have hle : (if s.cfg.m_supports_vert_sync_width then (s.regs.m_sync_width >>> 4) &&& 0x0f
      else 0x10 : Nat) ≤ 16 := by
    split_ifs <;> omega
  exact ⟨u16 ((s.regs.m_vert_sync_pos * video_char_height s : Nat) : Int), _, u16_lt _,
    (hx _ hle).1, (hx _ hle).2, rfl, rfl⟩

/-- C10 (amended): a configuration is judged valid only if the horizontal
sync pulse is non-zero: whenever `recompute_parameters` re-evaluates the
geometry and sets the valid-parameters flag, the cached hsync_on_pos differs
from hsync_off_pos; the cached vsync_on_pos differs from vsync_off_pos
provided vsync_on_pos lies below vert_pix_total (a vertical sync position
clamped to the vertical total may leave an empty vsync pulse). -/
theorem valid_parameters_sync_pulses (s : State) (postload : Bool)
    (h : parameters_changed s (derive_parameters s) postload = true)
    (hv : (recompute_parameters s postload).1.geom.m_has_valid_parameters = true) :
    (recompute_parameters s postload).1.geom.m_hsync_on_pos
      ≠ (recompute_parameters s postload).1.geom.m_hsync_off_pos ∧
    ((recompute_parameters s postload).1.geom.m_vsync_on_pos
        < (recompute_parameters s postload).1.geom.m_vert_pix_total →
      (recompute_parameters s postload).1.geom.m_vsync_on_pos
        ≠ (recompute_parameters s postload).1.geom.m_vsync_off_pos) := by
  obtain ⟨-, e2, -, -, e5, e6, e7, e8⟩ := recompute_parameters_geom s postload
  obtain ⟨hflag, -⟩ := recompute_parameters_changed s postload h
  rw [hflag, parameters_valid_iff] at hv
  rw [e2, e5, e6, e7, e8]
  refine ⟨hv.2.2.2.2.2.2, ?_⟩
  obtain ⟨on0, w, hon, hw1, hw2, eon, eoff⟩ := derive_parameters_vsync s
  rw [eon, eoff]
  exact vsync_pulse_nonempty on0 _ w hw1 hw2

/-- Witness for C10: for the 50 x 11 character set-up the forced recompute
sets the flag and the cached hsync positions, 336 and 344, differ. -/
theorem valid_parameters_sync_pulses_witness :
    (recompute_parameters late_vsync_chip true).1.geom.m_hsync_on_pos
      ≠ (recompute_parameters late_vsync_chip true).1.geom.m_hsync_off_pos ∧
    (recompute_parameters late_vsync_chip true).1.geom.m_hsync_on_pos = 336 ∧
    (recompute_parameters late_vsync_chip true).1.geom.m_hsync_off_pos = 344 :=
  ⟨(valid_parameters_sync_pulses late_vsync_chip true rfl (by decide)).1, by decide, by decide⟩

/-! ## C6: writes to read-only and undefined registers -/

set_option maxRecDepth 100000 in
/-- C6 as stated fails: after the 50 x 11 character set-up has been
programmed (valid geometry, max_visible_x = 319) and the chip has been reset
(`device_reset` clears horizontal-displayed without recomputing), a write to
the read-only register 0x10 changes cached geometry values: max_visible_x
becomes 65535 and the valid-parameters flag is cleared. -/
theorem register_w_readonly_changes_geometry :
    (write_registers mc6845_started late_vsync_setup).bind (fun r =>
      (register_w (address_w (device_reset r.1 true).1 0x10) 0x00).map (fun r2 =>
        ((device_reset r.1 true).1.geom, r2.1.geom)))
      = .ok ({ m_horiz_pix_total := 400, m_vert_pix_total := 88,
               m_max_visible_x := 319, m_max_visible_y := 63,
               m_hsync_on_pos := 336, m_hsync_off_pos := 344,
               m_vsync_on_pos := 88, m_vsync_off_pos := 88,
               m_has_valid_parameters := true },
             { m_horiz_pix_total := 400, m_vert_pix_total := 88,
               m_max_visible_x := 65535, m_max_visible_y := 63,
               m_hsync_on_pos := 336, m_hsync_off_pos := 344,
               m_vsync_on_pos := 88, m_vsync_off_pos := 88,
               m_has_valid_parameters := false }) := by
  rfl

theorem register_w_store_readonly (s : State) (data : Nat)
    (hl : s.ctr.m_register_address_latch = 0x10 ∨ s.ctr.m_register_address_latch = 0x11 ∨
      (0x14 ≤ s.ctr.m_register_address_latch ∧ s.ctr.m_register_address_latch ≤ 0x1e)) :
    register_w_store s data = .ok (s, []) := by
  unfold register_w_store
  split <;> first | rfl | omega

/-- C6 (amended): on the base chip, for every state, every data byte and
every address-latch value in {0x10, 0x11, 0x14..0x1e}, `register_w` never
fails and changes no register: it does exactly what `recompute_parameters
(false)` does.  When the cached geometry is up to date it changes nothing at
all (no register, no counter, no cached geometry value) and has no effect;
when the cache is stale the recompute refreshes it. -/
theorem register_w_readonly (s : State) (data : Nat)
    (hl : s.ctr.m_register_address_latch = 0x10 ∨ s.ctr.m_register_address_latch = 0x11 ∨
      (0x14 ≤ s.ctr.m_register_address_latch ∧ s.ctr.m_register_address_latch ≤ 0x1e)) :
    register_w s data = .ok (recompute_parameters s false) ∧
    (recompute_parameters s false).1.regs = s.regs ∧
    (cache_current s = true → register_w s data = .ok (s, [])) := by
  have hstore := register_w_store_readonly s data hl
  have hne : (s.ctr.m_register_address_latch == 0x08) = false := by
    rw [beq_eq_false_iff_ne]; omega
  have hw : register_w s data = .ok (recompute_parameters s false) := by
    simp only [register_w, hstore, hne, Bool.false_and, Bool.false_eq_true, if_false,
      List.append_nil, List.nil_append]
  refine ⟨hw, recompute_parameters_regs s false, ?_⟩
  intro hc
  rw [hw, recompute_parameters_of_current s hc]

/-- Witness for C6: once the geometry of the started MC6845 has been
recomputed, a write of 0xff to the read-only register 0x10 changes nothing. -/
theorem register_w_readonly_witness :
    register_w (address_w (recompute_parameters mc6845_started true).1 0x10) 0xff
      = .ok (address_w (recompute_parameters mc6845_started true).1 0x10, []) :=
  (register_w_readonly (address_w (recompute_parameters mc6845_started true).1 0x10) 0xff
    (Or.inl rfl)).2.2 (by decide)

/-! ## C3: the light-pen latched flag -/

theorem update_upd_adr_timer_state (s : State) : (update_upd_adr_timer s).1 = s := by
  unfold update_upd_adr_timer
  split_ifs <;> rfl

theorem set_de_frame (s : State) (state : Int) :
    (set_de s state).1.ctr = s.ctr ∧ (set_de s state).1.cfg = s.cfg ∧
    (set_de s state).1.regs = s.regs := by
  unfold set_de
  simp only []
  split_ifs <;> simp [update_upd_adr_timer_state]

theorem set_hsync_frame (s : State) (state : Int) :
    (set_hsync s state).1.ctr = s.ctr ∧ (set_hsync s state).1.cfg = s.cfg ∧
    (set_hsync s state).1.regs = s.regs := by
  unfold set_hsync
  split_ifs <;> simp

theorem set_vsync_frame (s : State) (state : Int) :
    (set_vsync s state).1.ctr = s.ctr ∧ (set_vsync s state).1.cfg = s.cfg ∧
    (set_vsync s state).1.regs = s.regs := by
  unfold set_vsync
  split_ifs <;> simp

theorem set_cur_frame (s : State) (state : Int) :
    (set_cur s state).1.ctr = s.ctr ∧ (set_cur s state).1.cfg = s.cfg ∧
    (set_cur s state).1.regs = s.regs := by
  unfold set_cur
  split_ifs <;> simp

theorem match_line_frame (s : State) :
    (match_line s).1.ctr.m_light_pen_latched = s.ctr.m_light_pen_latched ∧
    (match_line s).1.cfg = s.cfg ∧ (match_line s).1.regs = s.regs := by
  unfold match_line
  simp only []
  split_ifs <;> simp

theorem update_cursor_state_frame (s : State) :
    (update_cursor_state s).ctr.m_light_pen_latched = s.ctr.m_light_pen_latched ∧
    (update_cursor_state s).cfg = s.cfg ∧ (update_cursor_state s).regs = s.regs := by
  unfold update_cursor_state
  simp only []
  split <;> (try split_ifs) <;> simp

theorem line_vsync_width_frame (s : State) (b : Bool) :
    (line_vsync_width s b).1.ctr.m_light_pen_latched = s.ctr.m_light_pen_latched ∧
    (line_vsync_width s b).1.cfg = s.cfg ∧ (line_vsync_width s b).1.regs = s.regs := by
  unfold line_vsync_width
  simp only []
  split_ifs <;> simp

theorem line_counters_frame (s : State) (b : Bool) :
    (line_counters s b).1.ctr.m_light_pen_latched = s.ctr.m_light_pen_latched ∧
    (line_counters s b).1.cfg = s.cfg ∧ (line_counters s b).1.regs = s.regs := by
  unfold line_counters
  simp only []
  split_ifs <;> simp [match_line_frame]

theorem line_adjust_frame (s : State) (b : Bool) :
    (line_adjust s b).1.1.ctr.m_light_pen_latched = s.ctr.m_light_pen_latched ∧
    (line_adjust s b).1.1.cfg = s.cfg ∧ (line_adjust s b).1.1.regs = s.regs := by
  unfold line_adjust
  simp only []
  split_ifs <;> simp [match_line_frame, update_cursor_state_frame]

theorem line_schedule_frame (ccv : State → Nat → Nat → Bool) (s : State) :
    (line_schedule ccv s).1.ctr.m_light_pen_latched = s.ctr.m_light_pen_latched ∧
    (line_schedule ccv s).1.cfg = s.cfg ∧ (line_schedule ccv s).1.regs = s.regs := by
  unfold line_schedule
  simp only []
  split_ifs <;> simp

theorem handle_line_timer_frame (ccv : State → Nat → Nat → Bool) (s : State) :
    (handle_line_timer ccv s).1.ctr.m_light_pen_latched = s.ctr.m_light_pen_latched ∧
    (handle_line_timer ccv s).1.cfg = s.cfg ∧ (handle_line_timer ccv s).1.regs = s.regs := by
  unfold handle_line_timer
  simp only [set_de_frame, set_vsync_frame, line_schedule_frame, line_adjust_frame,
    line_counters_frame, line_vsync_width_frame, and_self]

theorem recompute_parameters_light_pen (s : State) (postload : Bool) :
    (recompute_parameters s postload).1.ctr.m_light_pen_latched = s.ctr.m_light_pen_latched := by
  unfold recompute_parameters
  simp only []
  split_ifs <;> rfl

theorem call_on_update_address_frame (s s1 : State) (strobe : Nat) (ev : List Event)
    (h : call_on_update_address s strobe = .ok (s1, ev)) : s1 = s := by
  unfold call_on_update_address at h
  split_ifs at h
  · simp only [Except.ok.injEq, Prod.mk.injEq] at h
    exact h.1.symm

theorem transparent_update_frame (s s1 : State) (ev : List Event)
    (h : transparent_update s = .ok (s1, ev)) :
    s1.ctr.m_light_pen_latched = s.ctr.m_light_pen_latched ∧ s1.cfg = s.cfg := by
  unfold transparent_update at h
  simp only [] at h
  split_ifs at h
  · rw [call_on_update_address_frame _ _ _ _ h]
    exact ⟨rfl, rfl⟩
  · simp only [Except.ok.injEq] at h
    have h1 := congrArg Prod.fst h
    rw [update_upd_adr_timer_state] at h1
    simp only [] at h1
    rw [← h1]
    exact ⟨rfl, rfl⟩
  · simp only [Except.ok.injEq, Prod.mk.injEq] at h
    rw [← h.1]
    exact ⟨rfl, rfl⟩
  · simp only [Except.ok.injEq, Prod.mk.injEq] at h
    rw [← h.1]
    exact ⟨rfl, rfl⟩

theorem register_w_store_frame (s s1 : State) (data : Nat) (ev : List Event)
    (h : register_w_store s data = .ok (s1, ev)) :
    s1.ctr.m_light_pen_latched = s.ctr.m_light_pen_latched ∧ s1.cfg = s.cfg := by
  unfold register_w_store at h
  split at h
  case h_19 =>
    simp only [] at h
    split_ifs at h
    · rw [call_on_update_address_frame _ _ _ _ h]
      exact ⟨rfl, rfl⟩
    · simp only [Except.ok.injEq, Prod.mk.injEq] at h
      rw [← h.1]
      exact ⟨rfl, rfl⟩
    · simp only [Except.ok.injEq, Prod.mk.injEq] at h
      rw [← h.1]
      exact ⟨rfl, rfl⟩
  case h_20 =>
    simp only [] at h
    split_ifs at h
    · rw [call_on_update_address_frame _ _ _ _ h]
      exact ⟨rfl, rfl⟩
    · simp only [Except.ok.injEq, Prod.mk.injEq] at h
      rw [← h.1]
      exact ⟨rfl, rfl⟩
    · simp only [Except.ok.injEq, Prod.mk.injEq] at h
      rw [← h.1]
      exact ⟨rfl, rfl⟩
  case h_21 => exact transparent_update_frame s s1 ev h
  all_goals
    simp only [Except.ok.injEq, Prod.mk.injEq] at h
    rw [← h.1]
    exact ⟨rfl, rfl⟩

theorem register_w_frame (s s1 : State) (data : Nat) (ev : List Event)
    (h : register_w s data = .ok (s1, ev)) :
    s1.ctr.m_light_pen_latched = s.ctr.m_light_pen_latched ∧ s1.cfg = s.cfg := by
  unfold register_w at h
  split at h
  · cases h
  · rename_i s2 ev1 hstore
    simp only [Except.ok.injEq, Prod.mk.injEq] at h
    obtain ⟨f1, f2⟩ := register_w_store_frame s s2 data ev1 hstore
    rw [← h.1, recompute_parameters_light_pen, recompute_parameters_cfg]
    exact ⟨f1, f2⟩

theorem register_r_frame (s s1 : State) (v : Nat) (ev : List Event)
    (h10 : s.ctr.m_register_address_latch ≠ 0x10) (h11 : s.ctr.m_register_address_latch ≠ 0x11)
    (h : register_r s = .ok (v, s1, ev)) :
    s1.ctr.m_light_pen_latched = s.ctr.m_light_pen_latched ∧ s1.cfg = s.cfg := by
  unfold register_r at h
  split at h
  case h_5 => exact absurd (by assumption) h10
  case h_6 => exact absurd (by assumption) h11
  case h_7 =>
    split at h
    · rename_i s2 ev2 ht
      simp only [Except.ok.injEq, Prod.mk.injEq] at h
      rw [← h.2.1]
      exact transparent_update_frame s s2 ev2 ht
    · cases h
  all_goals
    simp only [Except.ok.injEq, Prod.mk.injEq] at h
    rw [← h.2.1]
    exact ⟨rfl, rfl⟩

theorem update_counters_frame (s : State) (view : TimerView) :
    (update_counters s view).ctr.m_light_pen_latched = s.ctr.m_light_pen_latched ∧
    (update_counters s view).cfg = s.cfg := by
  unfold update_counters
  simp only []
  split_ifs <;> exact ⟨rfl, rfl⟩

/-- Every timer callback leaves a set light-pen flag set, and the
configuration as it is. -/
theorem device_timer_frame (ccv : State → Nat → Nat → Bool) (s s1 : State) (id : TimerId)
    (param : Int) (view : TimerView) (ev : List Event)
    (h : device_timer ccv s id param view = .ok (s1, ev)) :
    (s.ctr.m_light_pen_latched = true → s1.ctr.m_light_pen_latched = true) ∧ s1.cfg = s.cfg := by
  cases id <;> simp only [device_timer] at h
  · simp only [Except.ok.injEq] at h
    have h1 := congrArg Prod.fst h
    simp only [] at h1
    obtain ⟨f1, f2, -⟩ := handle_line_timer_frame ccv s
    rw [← h1, f1, f2]
    exact ⟨id, rfl⟩
  · simp only [Except.ok.injEq] at h
    have h1 := congrArg Prod.fst h
    simp only [] at h1
    obtain ⟨f1, f2, -⟩ := set_de_frame s 0
    rw [← h1, f1, f2]
    exact ⟨id, rfl⟩
  · simp only [Except.ok.injEq, Prod.mk.injEq] at h
    obtain ⟨f1, f2, -⟩ := set_cur_frame s 1
    rw [← h.1, f1, f2]
    exact ⟨id, rfl⟩
  · simp only [Except.ok.injEq] at h
    have h1 := congrArg Prod.fst h
    simp only [] at h1
    obtain ⟨f1, f2, -⟩ := set_cur_frame s 0
    rw [← h1, f1, f2]
    exact ⟨id, rfl⟩
  · simp only [Except.ok.injEq, Prod.mk.injEq] at h
    obtain ⟨f1, f2, -⟩ := set_hsync_frame
      { s with ctr := { s.ctr with m_hsync_width_counter := 0 } } 1
    rw [← h.1, f1, f2]
    exact ⟨id, rfl⟩
  · simp only [Except.ok.injEq] at h
    have h1 := congrArg Prod.fst h
    simp only [] at h1
    obtain ⟨f1, f2, -⟩ := set_hsync_frame s 0
    rw [← h1, f1, f2]
    exact ⟨id, rfl⟩
  · simp only [Except.ok.injEq, Prod.mk.injEq] at h
    rw [← h.1]
    exact ⟨fun _ => rfl, (update_counters_frame s view).2⟩
  · rw [call_on_update_address_frame _ _ _ _ h]
    exact ⟨id, rfl⟩
  · split_ifs at h
    · simp only [Except.ok.injEq, Prod.mk.injEq] at h
      rw [← h.1]
      exact ⟨id, rfl⟩
    · simp only [Except.ok.injEq, Prod.mk.injEq] at h
      rw [← h.1]
      exact ⟨id, rfl⟩

theorem draw_scanline_frame (ccv : State → Nat → Nat → Bool) (s s1 : State) (y : Int) (ra : Nat)
    (ev : List Event) (h : draw_scanline ccv s y = .ok (ra, s1, ev)) :
    s1.ctr.m_light_pen_latched = s.ctr.m_light_pen_latched ∧ s1.cfg = s.cfg := by
  unfold draw_scanline at h
  simp only [] at h
  split_ifs at h <;>
    (simp only [Except.ok.injEq, Prod.mk.injEq] at h
     rw [← h.2.1]
     exact ⟨rfl, rfl⟩)

theorem draw_scanlines_frame (ccv : State → Nat → Nat → Bool) (n : Nat) :
    ∀ (s s1 : State) (y : Nat) (ev : List Event), draw_scanlines ccv s y n = .ok (s1, ev) →
      s1.ctr.m_light_pen_latched = s.ctr.m_light_pen_latched ∧ s1.cfg = s.cfg := by
  induction n with
  | zero =>
    intro s s1 y ev h
    simp only [draw_scanlines, Except.ok.injEq, Prod.mk.injEq] at h
    rw [← h.1]
    exact ⟨rfl, rfl⟩
  | succ n ih =>
    intro s s1 y ev h
    simp only [draw_scanlines] at h
    split at h
    · cases h
    · rename_i ra s2 ev1 hd
      split at h
      · cases h
      · rename_i s3 ev2 hrest
        simp only [Except.ok.injEq, Prod.mk.injEq] at h
        obtain ⟨f1, f2⟩ := draw_scanline_frame ccv s s2 y ra ev1 hd
        obtain ⟨g1, g2⟩ := ih s2 s3 (y + 1) ev2 hrest
        rw [← h.1, g1, g2, f1, f2]
        exact ⟨rfl, rfl⟩

theorem screen_update_frame (ccv : State → Nat → Nat → Bool) (s s1 : State) (cliprect : Rectangle)
    (ev : List Event) (h : screen_update ccv s cliprect = .ok (s1, ev)) :
    s1.ctr.m_light_pen_latched = s.ctr.m_light_pen_latched ∧ s1.cfg = s.cfg := by
  unfold screen_update at h
  simp only [] at h
  split_ifs at h
  all_goals first
    | (simp only [Except.ok.injEq, Prod.mk.injEq] at h
       rw [← h.1]
       exact ⟨rfl, rfl⟩)
    | (split at h
       · cases h
       · rename_i s3 ev3 hd
         simp only [Except.ok.injEq, Prod.mk.injEq] at h
         obtain ⟨g1, g2⟩ := draw_scanlines_frame ccv _ _ s3 _ ev3 hd
         rw [← h.1, g1, g2]
         exact ⟨rfl, rfl⟩)

theorem set_hpixels_per_column_frame (s s1 : State) (n : Int) (ev : List Event)
    (h : set_hpixels_per_column s n = .ok (s1, ev)) :
    s1.ctr.m_light_pen_latched = s.ctr.m_light_pen_latched ∧ s1.cfg = s.cfg := by
  unfold set_hpixels_per_column at h
  split_ifs at h
  · simp only [Except.ok.injEq] at h
    have h1 := congrArg Prod.fst h
    simp only [] at h1
    rw [← h1, recompute_parameters_light_pen, recompute_parameters_cfg]
    exact ⟨rfl, rfl⟩
  · simp only [Except.ok.injEq, Prod.mk.injEq] at h
    rw [← h.1]
    exact ⟨rfl, rfl⟩

/-- An operation that is neither a light-pen register read nor a reset
leaves a set light-pen flag set, and the configuration as it is. -/
theorem step_keeps_light_pen (ccv : State → Nat → Nat → Bool) (s s1 : State) (op : Op)
    (ev : List Event) (hop : light_pen_read_or_reset s op = false)
    (h : step ccv s op = .ok (s1, ev)) :
    (s.ctr.m_light_pen_latched = true → s1.ctr.m_light_pen_latched = true) ∧ s1.cfg = s.cfg := by
  cases op <;> simp only [step] at h
  case register_r =>
    simp only [light_pen_read_or_reset, Bool.or_eq_false_iff, beq_eq_false_iff_ne, ne_eq] at hop
    split at h
    · cases h
    · rename_i v s2 ev2 hr
      simp only [Except.ok.injEq, Prod.mk.injEq] at h
      obtain ⟨f1, f2⟩ := register_r_frame s s2 v ev2 hop.1 hop.2 hr
      rw [← h.1, f1, f2]
      exact ⟨id, rfl⟩
  case register_w data =>
    obtain ⟨f1, f2⟩ := register_w_frame s s1 data ev h
    rw [f1, f2]
    exact ⟨id, rfl⟩
  case set_hpixels_per_column n =>
    obtain ⟨f1, f2⟩ := set_hpixels_per_column_frame s s1 n ev h
    rw [f1, f2]
    exact ⟨id, rfl⟩
  case device_timer id param view => exact device_timer_frame ccv s s1 id param view ev h
  case draw_scanline y =>
    split at h
    · cases h
    · rename_i ra s2 ev2 hr
      simp only [Except.ok.injEq, Prod.mk.injEq] at h
      obtain ⟨f1, f2⟩ := draw_scanline_frame ccv s s2 y ra ev2 hr
      rw [← h.1, f1, f2]
      exact ⟨id, rfl⟩
  case screen_update cliprect =>
    obtain ⟨f1, f2⟩ := screen_update_frame ccv s s1 cliprect ev h
    rw [f1, f2]
    exact ⟨id, rfl⟩
  case device_reset b => simp [light_pen_read_or_reset] at hop
  case get_ma view =>
    simp only [Except.ok.injEq, Prod.mk.injEq] at h
    rw [← h.1]
    simp only [get_ma]
    obtain ⟨f1, f2⟩ := update_counters_frame s view
    rw [f1, f2]
    exact ⟨id, rfl⟩
  case device_post_load =>
    simp only [Except.ok.injEq] at h
    have h1 := congrArg Prod.fst h
    simp only [device_post_load] at h1
    rw [← h1, recompute_parameters_light_pen, recompute_parameters_cfg]
    exact ⟨id, rfl⟩
  case device_clock_changed =>
    simp only [Except.ok.injEq] at h
    have h1 := congrArg Prod.fst h
    simp only [device_clock_changed] at h1
    rw [← h1, recompute_parameters_light_pen, recompute_parameters_cfg]
    exact ⟨id, rfl⟩
  case assert_light_pen_input =>
    simp only [Except.ok.injEq] at h
    have h1 := congrArg Prod.fst h
    simp only [assert_light_pen_input] at h1
    rw [← h1]
    exact ⟨id, rfl⟩
  all_goals
    simp only [Except.ok.injEq, Prod.mk.injEq] at h
    rw [← h.1]
    exact ⟨id, rfl⟩

/-- A sequence of operations without light-pen register read and without
reset leaves a set light-pen flag set, and the configuration as it is. -/
theorem run_keeps_light_pen (ccv : State → Nat → Nat → Bool) (ops : List Op) :
    ∀ (s s1 : State) (ev : List Event), s.ctr.m_light_pen_latched = true →
      has_light_pen_read_or_reset ccv s ops = false → run ccv s ops = .ok (s1, ev) →
      s1.ctr.m_light_pen_latched = true ∧ s1.cfg = s.cfg := by
  induction ops with
  | nil =>
    intro s s1 ev hf _ h
    simp only [run, Except.ok.injEq, Prod.mk.injEq] at h
    rw [← h.1]
    exact ⟨hf, rfl⟩
  | cons op ops ih =>
    intro s s1 ev hf hno h
    simp only [run] at h
    simp only [has_light_pen_read_or_reset, Bool.or_eq_false_iff] at hno
    split at h
    · cases h
    · rename_i s2 ev1 hstep
      rw [hstep] at hno
      split at h
      · cases h
      · rename_i s3 ev2 hrest
        simp only [Except.ok.injEq, Prod.mk.injEq] at h
        obtain ⟨f1, f2⟩ := step_keeps_light_pen ccv s s2 op ev1 hno.1 hstep
        obtain ⟨g1, g2⟩ := ih s2 s3 ev2 (f1 hf) hno.2 hrest
        rw [← h.1]
        exact ⟨g1, g2.trans f2⟩

/-- Bit 6 of the status byte: supported and latched. -/
theorem status_r_testBit_6 (s : State) :
    (status_r s).testBit 6 = (s.cfg.m_supports_status_reg_d6 && s.ctr.m_light_pen_latched) := by
  unfold status_r
  cases s.cfg.m_supports_status_reg_d5 <;> cases s.cfg.m_supports_status_reg_d6 <;>
  cases s.cfg.m_supports_status_reg_d7 <;> cases s.ctr.m_line_enable_ff <;>
  cases s.ctr.m_light_pen_latched <;> cases s.ctr.m_update_ready_bit <;> decide

set_option maxRecDepth 100000 in
/-- C3 as stated fails: on a C6545-1 (status bit 6 supported) the light-pen
latch event sets status bit 6, and a following `device_reset` clears it
although no light-pen register has been read. -/
theorem light_pen_flag_cleared_by_reset :
    (device_timer check_cursor_visible c6545_1_started TimerId.TIMER_LIGHT_PEN_LATCH 0
        { line_elapsed_cclks := 0, hsync_off_enabled := false, hsync_off_elapsed_cclks := 0 }).map
      (fun r => ((status_r r.1).testBit 6, (status_r (device_reset r.1 true).1).testBit 6))
      = .ok (true, false) := by
  rfl

/-- C3 (amended): reading a light-pen register (address latch 0x10 or 0x11)
through `register_r` clears the light-pen latched flag and changes nothing
else; reading with any other latch value except 0x1f changes no state at
all and has no effect; the light-pen latch event sets the flag, which makes
status bit 6 read as set on a variant supporting it; and from a state with
the flag set, any sequence of operations of the device that contains neither
a read of a light-pen register nor a device reset leaves the flag, and with
it status bit 6, set. -/
theorem light_pen_latched_flag (ccv : State → Nat → Nat → Bool) (s : State) :
    ((s.ctr.m_register_address_latch = 0x10 ∨ s.ctr.m_register_address_latch = 0x11) →
      ∃ v, register_r s
        = .ok (v, { s with ctr := { s.ctr with m_light_pen_latched := false } }, [])) ∧
    (s.ctr.m_register_address_latch ≠ 0x10 → s.ctr.m_register_address_latch ≠ 0x11 →
      s.ctr.m_register_address_latch ≠ 0x1f → ∃ v, register_r s = .ok (v, s, [])) ∧
    (∀ param view, ∃ s1,
      device_timer ccv s TimerId.TIMER_LIGHT_PEN_LATCH param view = .ok (s1, []) ∧
      s1.ctr.m_light_pen_latched = true ∧
      (s.cfg.m_supports_status_reg_d6 = true → (status_r s1).testBit 6 = true)) ∧
    (∀ ops s1 ev, s.ctr.m_light_pen_latched = true →
      has_light_pen_read_or_reset ccv s ops = false → run ccv s ops = .ok (s1, ev) →
      s1.ctr.m_light_pen_latched = true ∧
      (s.cfg.m_supports_status_reg_d6 = true → (status_r s1).testBit 6 = true)) := by
  refine ⟨?_, ?_, ?_, ?_⟩
  · rintro (h | h)
    · exact ⟨(s.regs.m_light_pen_addr >>> 8) &&& 0xff, by simp only [register_r, h]⟩
    · exact ⟨(s.regs.m_light_pen_addr >>> 0) &&& 0xff, by simp only [register_r, h]⟩
  · intro h10 h11 h1f
    unfold register_r
    split
    case h_5 => exact absurd (by assumption) h10
    case h_6 => exact absurd (by assumption) h11
    case h_7 => exact absurd (by assumption) h1f
    all_goals exact ⟨_, rfl⟩
  · intro param view
    refine ⟨_, rfl, rfl, ?_⟩
    intro hd6
    have hc : ((update_counters s view).cfg.m_supports_status_reg_d6) = true := by
      rw [(update_counters_frame s view).2]; exact hd6
    have h6 := status_r_testBit_6
      { (get_ma s view).2 with
        regs := { (get_ma s view).2.regs with m_light_pen_addr := (get_ma s view).1 },
        ctr := { (get_ma s view).2.ctr with m_light_pen_latched := true } }
    rw [h6]
    simp only [get_ma, hc, Bool.and_self]
  · intro ops s1 ev hf hno hrun
    obtain ⟨g1, g2⟩ := run_keeps_light_pen ccv ops s s1 ev hf hno hrun
    refine ⟨g1, ?_⟩
    intro hd6
    rw [status_r_testBit_6 s1, g1, g2, hd6]
    rfl

set_option maxRecDepth 100000 in
/-- Witness for C3: on a C6545-1 with the light pen latched, a line tick, a
register select, a write, a read of R14, a status read and a redraw request
leave status bit 6 set. -/
theorem light_pen_latched_flag_witness :
    ∃ s2 ev, run check_cursor_visible c6545_1_latched sample_ops = .ok (s2, ev) ∧
      (status_r s2).testBit 6 = true := by
  refine ⟨_, _, rfl, ?_⟩
  exact ((light_pen_latched_flag check_cursor_visible c6545_1_latched).2.2.2 sample_ops _ _
    rfl rfl rfl).2 rfl

/-! ## C11: the cached sync positions stay within the totals -/

/-- C11: after every call of `recompute_parameters`, for every register
configuration and pixels-per-column value (the 16-bit products may wrap), the
cached hsync_off_pos does not exceed horiz_pix_total and the cached
vsync_on_pos and vsync_off_pos do not exceed vert_pix_total. -/
theorem recompute_parameters_sync_within_totals (s : State) (postload : Bool) :
    (recompute_parameters s postload).1.geom.m_hsync_off_pos
      ≤ (recompute_parameters s postload).1.geom.m_horiz_pix_total ∧
    (recompute_parameters s postload).1.geom.m_vsync_on_pos
      ≤ (recompute_parameters s postload).1.geom.m_vert_pix_total ∧
    (recompute_parameters s postload).1.geom.m_vsync_off_pos
      ≤ (recompute_parameters s postload).1.geom.m_vert_pix_total := by
  obtain ⟨e1, e2, -, -, -, e6, e7, e8⟩ := recompute_parameters_geom s postload
  rw [e1, e2, e6, e7, e8]
  simp only [derive_parameters]
  refine ⟨?_, ?_, ?_⟩ <;> split_ifs <;> omega

/-! ## C12: state restore -/

/-- C12: for every state, `recompute_parameters(postload = true)`, which is
all `device_post_load` does, modifies only the cached geometry (with its
valid-parameters flag) and the transparent-update cycle time: the
configuration, every register, every run-time counter (the line counter among
them), the output levels, the pixels-per-column value and the clock scale are
unchanged, and it does not ask the screen for a frame origin reset. -/
theorem recompute_parameters_postload_frame (s : State) :
    device_post_load s = recompute_parameters s true ∧
    (recompute_parameters s true).1
      = { s with geom := (recompute_parameters s true).1.geom,
                 m_upd_time := (recompute_parameters s true).1.m_upd_time } ∧
    (recompute_parameters s true).1.regs = s.regs ∧
    (recompute_parameters s true).1.ctr = s.ctr ∧
    (recompute_parameters s true).1.ctr.m_line_counter = s.ctr.m_line_counter ∧
    (recompute_parameters s true).1.sig = s.sig ∧
    Event.screen_reset_origin ∉ (recompute_parameters s true).2 := by
  have hstate : (recompute_parameters s true).1
      = { s with geom := (recompute_parameters s true).1.geom,
                 m_upd_time := (recompute_parameters s true).1.m_upd_time } := by
    unfold recompute_parameters
    simp only [parameters_changed, Bool.true_or, if_true, Bool.not_true, Bool.and_false,
      Bool.false_eq_true, if_false]
  have hctr : (recompute_parameters s true).1.ctr = s.ctr := by rw [hstate]
  refine ⟨rfl, hstate, recompute_parameters_regs s true, hctr, by rw [hctr],
    recompute_parameters_sig s true, ?_⟩
  unfold recompute_parameters
  simp only [parameters_changed, Bool.true_or, if_true, Bool.not_true, Bool.and_false,
    Bool.false_eq_true, if_false, geometry_notification]
  split_ifs <;> simp

/-! ## C13: edge-triggered outputs -/

/-- C13: for each of `set_de`, `set_hsync`, `set_vsync` and `set_cur` and for
every state, calling the setter with the signal's current level changes no
state and has no effect at all (no callback), while calling it with another
level stores that level (so the getter returns it), changes nothing else in
the state, and calls the signal's callback exactly once, with the stored new
level; the only other effect is the adjustment of the update-address timer
that `set_de` makes before the callback. -/
theorem output_setters_edge_triggered (s : State) (state : Int) :
    (set_de s s.sig.m_de = (s, []) ∧ set_hsync s s.sig.m_hsync = (s, []) ∧
     set_vsync s s.sig.m_vsync = (s, []) ∧ set_cur s s.sig.m_cur = (s, [])) ∧
    (state ≠ s.sig.m_de →
      (set_de s state).1 = { s with sig := { s.sig with m_de := state } } ∧
      de_r (set_de s state).1 = state ∧
      (set_de s state).2.filter is_output_callback = [Event.out_de_cb state] ∧
      (set_de s state).2.getLast? = some (Event.out_de_cb state)) ∧
    (state ≠ s.sig.m_hsync →
      set_hsync s state
        = ({ s with sig := { s.sig with m_hsync := state } }, [Event.out_hsync_cb state]) ∧
      hsync_r (set_hsync s state).1 = state) ∧
    (state ≠ s.sig.m_vsync →
      set_vsync s state
        = ({ s with sig := { s.sig with m_vsync := state } }, [Event.out_vsync_cb state]) ∧
      vsync_r (set_vsync s state).1 = state) ∧
    (state ≠ s.sig.m_cur →
      set_cur s state
        = ({ s with sig := { s.sig with m_cur := state } }, [Event.out_cur_cb state]) ∧
      cursor_r (set_cur s state).1 = state) := by
  refine ⟨⟨?_, ?_, ?_, ?_⟩, ?_, ?_, ?_, ?_⟩
  · simp [set_de]
  · simp [set_hsync]
  · simp [set_vsync]
  · simp [set_cur]
  · intro h
    have hne : (s.sig.m_de != state) = true := by
      rw [bne_iff_ne]; exact fun e => h e.symm
    unfold set_de
    simp only [hne, if_true, update_upd_adr_timer]
    split_ifs <;> simp [is_output_callback, de_r]
  · intro h
    have hne : (s.sig.m_hsync != state) = true := by
      rw [bne_iff_ne]; exact fun e => h e.symm
    simp [set_hsync, hne, hsync_r]
  · intro h
    have hne : (s.sig.m_vsync != state) = true := by
      rw [bne_iff_ne]; exact fun e => h e.symm
    simp [set_vsync, hne, vsync_r]
  · intro h
    have hne : (s.sig.m_cur != state) = true := by
      rw [bne_iff_ne]; exact fun e => h e.symm
    simp [set_cur, hne, cursor_r]

/-- Witness for C13: on a started MC6845 (DE low) `set_de(1)` calls the DE
callback once with level 1, after cancelling the update-address timer, and a
second `set_de(1)` does nothing. -/
theorem output_setters_edge_triggered_witness :
    (set_de mc6845_started 1).2
      = [Event.timer_adjust TimerId.TIMER_UPD_ADR Delay.never 0, Event.out_de_cb 1] ∧
    (set_de mc6845_started 1).2.filter is_output_callback = [Event.out_de_cb 1] ∧
    set_de (set_de mc6845_started 1).1 1 = ((set_de mc6845_started 1).1, []) :=
  ⟨rfl, ((output_setters_edge_triggered mc6845_started 1).2.1 (by decide)).2.2.1,
   by
    have h := (output_setters_edge_triggered (set_de mc6845_started 1).1 1).1.1
    exact h⟩

/-! ## C14..C17: cursor visibility -/

/-- The 16-bit maximum raster row is the integer `char_height - 1` when that
lies in 0..65535. -/
theorem max_ras_row_cast (s : State) (h0 : 0 ≤ char_height s - 1)
    (hr : char_height s - 1 < 65536) : ((u16 (char_height s - 1) : Nat) : Int) = char_height s - 1 := by
  unfold u16
  omega

/-- C14: for both the wrap-capable (base) and the non-wrap (HD6845S)
`check_cursor_visible`, when cursor-start-raster (low 5 bits) <=
cursor-end-raster <= the maximum raster row (max-raster-address + adjust - 1,
a 16-bit value), the cursor is reported visible for raster row `ra` and line
address `a` iff the blink state is on, a <= cursor address < a +
horizontal-displayed, and cursor-start <= ra <= cursor-end.  With start = 2,
end = 5, max-raster = 7, the cursor on the line and blink on, exactly rows
2..5 of rows 0..7 are visible. -/
theorem cursor_visible_start_to_end (s : State) (ra a : Nat) :
    ((s.regs.m_cursor_start_ras &&& 0x1f ≤ s.regs.m_cursor_end_ras →
      (s.regs.m_cursor_end_ras : Int) ≤ char_height s - 1 → char_height s - 1 < 65536 →
      (check_cursor_visible s ra a = true ↔
        (s.ctr.m_cursor_state = true ∧ a ≤ s.regs.m_cursor_addr ∧
         s.regs.m_cursor_addr < a + s.regs.m_horiz_disp ∧
         s.regs.m_cursor_start_ras &&& 0x1f ≤ ra ∧ ra ≤ s.regs.m_cursor_end_ras)) ∧
      (hd6845s_check_cursor_visible s ra a = true ↔
        (s.ctr.m_cursor_state = true ∧ a ≤ s.regs.m_cursor_addr ∧
         s.regs.m_cursor_addr < a + s.regs.m_horiz_disp ∧
         s.regs.m_cursor_start_ras &&& 0x1f ≤ ra ∧ ra ≤ s.regs.m_cursor_end_ras)))) ∧
    (List.range 8).map (fun row => check_cursor_visible (with_cursor mc6845_started 2 5) row 0)
      = [false, false, true, true, true, true, false, false] ∧
    (List.range 8).map (fun row =>
        hd6845s_check_cursor_visible (with_cursor hd6845s_started 2 5) row 0)
      = [false, false, true, true, true, true, false, false] := by
  refine ⟨?_, by decide, by decide⟩
  intro hs he hr
  have hM := max_ras_row_cast s (by omega) hr
  have heM : s.regs.m_cursor_end_ras ≤ u16 (char_height s - 1) := by omega
  constructor
  · unfold check_cursor_visible
    cases hb : s.ctr.m_cursor_state
    · simp
    · simp only [Bool.not_true, Bool.false_eq_true, if_false, Bool.or_eq_true, decide_eq_true_eq,
        Bool.and_eq_true, true_and]
      generalize s.regs.m_cursor_start_ras &&& 0x1f = start at *
      split_ifs <;>
        simp only [Bool.and_eq_true, Bool.or_eq_true, decide_eq_true_eq, ge_iff_le, gt_iff_lt,
          not_or, not_lt, Bool.false_eq_true, false_iff, iff_false, true_iff] at * <;>
        omega
  · unfold hd6845s_check_cursor_visible
    cases hb : s.ctr.m_cursor_state
    · simp
    · simp only [Bool.not_true, Bool.false_eq_true, if_false, Bool.or_eq_true, decide_eq_true_eq,
        Bool.and_eq_true, true_and]
      generalize s.regs.m_cursor_start_ras &&& 0x1f = start at *
      split_ifs <;>
        simp only [Bool.and_eq_true, Bool.or_eq_true, decide_eq_true_eq, ge_iff_le, gt_iff_lt,
          not_or, not_lt, Bool.false_eq_true, false_iff, iff_false, true_iff] at * <;>
        omega

/-- Witness for C14: with start = 2, end = 5 and max-raster = 7 the base chip
shows the cursor on row 3 and not on row 6. -/
theorem cursor_visible_start_to_end_witness :
    check_cursor_visible (with_cursor mc6845_started 2 5) 3 0 = true ∧
    check_cursor_visible (with_cursor mc6845_started 2 5) 6 0 = false :=
  ⟨(((cursor_visible_start_to_end (with_cursor mc6845_started 2 5) 3 0).1
      (by decide) (by decide) (by decide)).1).2 (by decide),
   by
    have h := ((cursor_visible_start_to_end (with_cursor mc6845_started 2 5) 6 0).1
      (by decide) (by decide) (by decide)).1
    cases hc : check_cursor_visible (with_cursor mc6845_started 2 5) 6 0
    · rfl
    · exact absurd (h.1 hc).2.2.2.2 (by decide)⟩

/-- C15: split-cursor policy.  When cursor-start-raster (low 5 bits) >
cursor-end-raster, the blink state is on, the cursor address is inside the
line and start <= the maximum raster row (a 16-bit value), the wrap-capable
base `check_cursor_visible` reports raster row `ra` visible iff ra <= end or
ra >= start, whereas the HD6845S `check_cursor_visible` reports no row
visible.  With start = 6, end = 2, max-raster = 7 the base chip shows rows
6, 7, 0, 1, 2 and not rows 3, 4, 5. -/
theorem cursor_visible_split (s : State) (ra a : Nat) :
    (s.regs.m_cursor_start_ras &&& 0x1f > s.regs.m_cursor_end_ras →
      s.ctr.m_cursor_state = true →
      a ≤ s.regs.m_cursor_addr → s.regs.m_cursor_addr < a + s.regs.m_horiz_disp →
      ((s.regs.m_cursor_start_ras &&& 0x1f : Nat) : Int) ≤ char_height s - 1 →
      char_height s - 1 < 65536 →
      (check_cursor_visible s ra a = true ↔
        (ra ≤ s.regs.m_cursor_end_ras ∨ ra ≥ s.regs.m_cursor_start_ras &&& 0x1f)) ∧
      hd6845s_check_cursor_visible s ra a = false) ∧
    (List.range 8).map (fun row => check_cursor_visible (with_cursor mc6845_started 6 2) row 0)
      = [true, true, true, false, false, false, true, true] ∧
    (List.range 8).map (fun row =>
        hd6845s_check_cursor_visible (with_cursor hd6845s_started 6 2) row 0)
      = [false, false, false, false, false, false, false, false] := by
  refine ⟨?_, by decide, by decide⟩
  intro hs hb ha1 ha2 hm hr
  have hM := max_ras_row_cast s (by omega) hr
  constructor
  · unfold check_cursor_visible
    simp only [hb, Bool.not_true, Bool.false_eq_true, if_false, Bool.or_eq_true,
      decide_eq_true_eq]
    generalize s.regs.m_cursor_start_ras &&& 0x1f = start at *
    split_ifs <;>
      simp only [Bool.and_eq_true, Bool.or_eq_true, decide_eq_true_eq, ge_iff_le, gt_iff_lt,
        not_or, not_lt, Bool.false_eq_true, false_iff, iff_false, true_iff] at * <;>
      omega
  · unfold hd6845s_check_cursor_visible
    simp only [hb, Bool.not_true, Bool.false_eq_true, if_false, Bool.or_eq_true,
      decide_eq_true_eq]
    generalize s.regs.m_cursor_start_ras &&& 0x1f = start at *
    split_ifs
    all_goals simp only [Bool.and_eq_true, Bool.or_eq_true, decide_eq_true_eq, ge_iff_le,
      gt_iff_lt, not_or, not_lt, Bool.and_eq_false_imp] at *
    all_goals omega

/-- Witness for C15: with start = 6, end = 2 and max-raster = 7 the base chip
shows the cursor on row 7 and the HD6845S does not. -/
theorem cursor_visible_split_witness :
    check_cursor_visible (with_cursor mc6845_started 6 2) 7 0 = true ∧
    hd6845s_check_cursor_visible (with_cursor hd6845s_started 6 2) 7 0 = false :=
  ⟨(((cursor_visible_split (with_cursor mc6845_started 6 2) 7 0).1
      (by decide) rfl (by decide) (by decide) (by decide) (by decide)).1).2 (by decide),
   ((cursor_visible_split (with_cursor hd6845s_started 6 2) 7 0).1
      (by decide) rfl (by decide) (by decide) (by decide) (by decide)).2⟩

/-- C16: on the wrap-capable base chip, if cursor-end-raster exceeds the
maximum raster row (max-raster-address + adjust - 1, a 16-bit value) while
cursor-start-raster (low 5 bits) <= that maximum and start <= end, the blink
state is on and the cursor address is inside the line, then
`check_cursor_visible` reports the cursor visible for every raster row. -/
theorem cursor_visible_full_cell (s : State) (ra a : Nat)
    (he : (s.regs.m_cursor_end_ras : Int) > char_height s - 1)
    (hm : ((s.regs.m_cursor_start_ras &&& 0x1f : Nat) : Int) ≤ char_height s - 1)
    (hs : s.regs.m_cursor_start_ras &&& 0x1f ≤ s.regs.m_cursor_end_ras)
    (hr : char_height s - 1 < 65536)
    (hb : s.ctr.m_cursor_state = true)
    (ha1 : a ≤ s.regs.m_cursor_addr) (ha2 : s.regs.m_cursor_addr < a + s.regs.m_horiz_disp) :
    check_cursor_visible s ra a = true := by
  have hM := max_ras_row_cast s (by omega) hr
  unfold check_cursor_visible
  simp only [hb, Bool.not_true, Bool.false_eq_true, if_false, Bool.or_eq_true,
    decide_eq_true_eq]
  generalize s.regs.m_cursor_start_ras &&& 0x1f = start at *
  split_ifs <;>
    simp only [Bool.and_eq_true, Bool.or_eq_true, decide_eq_true_eq, ge_iff_le, gt_iff_lt,
      not_or, not_lt] at * <;>
    omega

/-- Witness for C16: with start = 2, end = 10 and max-raster = 7 the base
chip shows the cursor on row 0. -/
theorem cursor_visible_full_cell_witness :
    check_cursor_visible (with_cursor mc6845_started 2 10) 0 0 = true :=
  cursor_visible_full_cell (with_cursor mc6845_started 2 10) 0 0
    (by decide) (by decide) (by decide) (by decide) rfl (by decide) (by decide)

/-- C17 as stated fails: on an HD6845S with start = 2, end = 10 (beyond the
maximum raster row 7), blink on and the cursor on the line, raster rows 0 and
1 of the character cell are not reported visible; rows 2..7 are. -/
theorem hd6845s_cursor_not_full_cell :
    ((with_cursor hd6845s_started 2 10).regs.m_cursor_end_ras : Int)
      > char_height (with_cursor hd6845s_started 2 10) - 1 ∧
    (List.range 8).map (fun row =>
        hd6845s_check_cursor_visible (with_cursor hd6845s_started 2 10) row 0)
      = [false, false, true, true, true, true, true, true] := by
  decide

/-- C17 (amended): on the non-wrap HD6845S variant, if cursor-end-raster
exceeds the maximum raster row (max-raster-address + adjust - 1, a 16-bit
value) while cursor-start-raster (low 5 bits) <= that maximum and start <=
end, the blink state is on and the cursor address is inside the line, then
`check_cursor_visible` reports the cursor visible exactly on the raster rows
from start to end: on every row start..maximum of the character cell and on
no row below start (on every row 0..maximum only when start is 0). -/
theorem hd6845s_cursor_visible_from_start (s : State) (ra a : Nat)
    (he : (s.regs.m_cursor_end_ras : Int) > char_height s - 1)
    (hm : ((s.regs.m_cursor_start_ras &&& 0x1f : Nat) : Int) ≤ char_height s - 1)
    (hs : s.regs.m_cursor_start_ras &&& 0x1f ≤ s.regs.m_cursor_end_ras)
    (hr : char_height s - 1 < 65536)
    (hb : s.ctr.m_cursor_state = true)
    (ha1 : a ≤ s.regs.m_cursor_addr) (ha2 : s.regs.m_cursor_addr < a + s.regs.m_horiz_disp) :
    (hd6845s_check_cursor_visible s ra a = true ↔
      (s.regs.m_cursor_start_ras &&& 0x1f ≤ ra ∧ ra ≤ s.regs.m_cursor_end_ras)) ∧
    ((ra : Int) ≤ char_height s - 1 →
      (hd6845s_check_cursor_visible s ra a = true ↔ s.regs.m_cursor_start_ras &&& 0x1f ≤ ra)) ∧
    (s.regs.m_cursor_start_ras &&& 0x1f = 0 → (ra : Int) ≤ char_height s - 1 →
      hd6845s_check_cursor_visible s ra a = true) := by
  have hM := max_ras_row_cast s (by omega) hr
  have key : hd6845s_check_cursor_visible s ra a = true ↔
      (s.regs.m_cursor_start_ras &&& 0x1f ≤ ra ∧ ra ≤ s.regs.m_cursor_end_ras) := by
    unfold hd6845s_check_cursor_visible
    simp only [hb, Bool.not_true, Bool.false_eq_true, if_false, Bool.or_eq_true,
      decide_eq_true_eq]
    generalize s.regs.m_cursor_start_ras &&& 0x1f = start at *
    split_ifs <;>
      simp only [Bool.and_eq_true, Bool.or_eq_true, decide_eq_true_eq, ge_iff_le, gt_iff_lt,
        not_or, not_lt, Bool.false_eq_true, false_iff, iff_false, true_iff] at * <;>
      omega
  refine ⟨key, ?_, ?_⟩
  · intro hra
    rw [key]
    constructor
    · exact fun h => h.1
    · exact fun h => ⟨h, by omega⟩
  · intro h0 hra
    rw [key, h0]
    exact ⟨Nat.zero_le _, by omega⟩

/-- Witness for C17: on the HD6845S with start = 2, end = 10 and max-raster
= 7, row 7 is visible and row 1 is not. -/
theorem hd6845s_cursor_visible_from_start_witness :
    hd6845s_check_cursor_visible (with_cursor hd6845s_started 2 10) 7 0 = true ∧
    hd6845s_check_cursor_visible (with_cursor hd6845s_started 2 10) 1 0 = false :=
  ⟨((hd6845s_cursor_visible_from_start (with_cursor hd6845s_started 2 10) 7 0
      (by decide) (by decide) (by decide) (by decide) rfl (by decide) (by decide)).1).2
      (by decide),
   by decide⟩

/-! ## C18: cursor blink modes -/

set_option maxRecDepth 1000000 in
theorem count_flips_16 : ∀ c < 256, count_flips 0x10 16 c = 1 := by decide

set_option maxRecDepth 1000000 in
theorem blink_after_32 : ∀ c < 256, ∀ b : Bool, blink_after 0x10 32 c b = b := by decide

set_option maxRecDepth 1000000 in
theorem count_flips_32 : ∀ c < 256, count_flips 0x20 32 c = 1 := by decide

set_option maxRecDepth 1000000 in
theorem blink_after_64 : ∀ c < 256, ∀ b : Bool, blink_after 0x20 64 c b = b := by decide

theorem u8_succ_lt (c : Nat) : u8 (c + 1 : Nat) < 256 := by
  unfold u8
  omega

theorem update_cursor_state_count (s : State) :
    (update_cursor_state s).regs = s.regs ∧
    (update_cursor_state s).ctr.m_cursor_blink_count = u8 (s.ctr.m_cursor_blink_count + 1 : Nat) := by
  unfold update_cursor_state
  simp only []
  split <;> (try split_ifs) <;> exact ⟨rfl, rfl⟩

theorem update_cursor_state_mode_00 (s : State) (hm : s.regs.m_cursor_start_ras &&& 0x60 = 0x00) :
    (update_cursor_state s).ctr.m_cursor_state = true := by
  unfold update_cursor_state
  simp only [hm]

theorem update_cursor_state_mode_01 (s : State) (hm : s.regs.m_cursor_start_ras &&& 0x60 = 0x20) :
    (update_cursor_state s).ctr.m_cursor_state = false := by
  unfold update_cursor_state
  simp only [hm]

theorem update_cursor_state_mode_10 (s : State) (hm : s.regs.m_cursor_start_ras &&& 0x60 = 0x40) :
    (update_cursor_state s).ctr.m_cursor_state
      = (if blink_flips 0x10 s.ctr.m_cursor_blink_count then !s.ctr.m_cursor_state
         else s.ctr.m_cursor_state) := by
  unfold update_cursor_state blink_flips
  simp only [hm]
  split_ifs <;> rfl

theorem update_cursor_state_mode_11 (s : State) (hm : s.regs.m_cursor_start_ras &&& 0x60 = 0x60) :
    (update_cursor_state s).ctr.m_cursor_state
      = (if blink_flips 0x20 s.ctr.m_cursor_blink_count then !s.ctr.m_cursor_state
         else s.ctr.m_cursor_state) := by
  unfold update_cursor_state blink_flips
  simp only [hm]
  split_ifs <;> rfl

/-- In a blinking mode the state-level counts are the counter-level ones. -/
theorem cursor_blinks_blinking (m mask : Nat)
    (hstep : ∀ s : State, s.regs.m_cursor_start_ras &&& 0x60 = m →
      (update_cursor_state s).ctr.m_cursor_state
        = (if blink_flips mask s.ctr.m_cursor_blink_count then !s.ctr.m_cursor_state
           else s.ctr.m_cursor_state)) (n : Nat) :
    ∀ s : State, s.regs.m_cursor_start_ras &&& 0x60 = m →
      cursor_toggles n s = count_flips mask n s.ctr.m_cursor_blink_count ∧
      (cursor_blinks n s).ctr.m_cursor_state
        = blink_after mask n s.ctr.m_cursor_blink_count s.ctr.m_cursor_state := by
  induction n with
  | zero =>
    intro s _
    exact ⟨rfl, rfl⟩
  | succ n ih =>
    intro s hm
    obtain ⟨hr, hc⟩ := update_cursor_state_count s
    have hm1 : (update_cursor_state s).regs.m_cursor_start_ras &&& 0x60 = m := by rw [hr]; exact hm
    obtain ⟨i1, i2⟩ := ih (update_cursor_state s) hm1
    have hs := hstep s hm
    constructor
    · simp only [cursor_toggles, count_flips, i1, hc, hs]
      congr 1
      cases blink_flips mask s.ctr.m_cursor_blink_count <;> cases s.ctr.m_cursor_state <;> rfl
    · simp only [cursor_blinks, blink_after, i2, hc, hs]

theorem cursor_blinks_frame (n : Nat) :
    ∀ s : State, (cursor_blinks n s).regs = s.regs ∧
      (s.ctr.m_cursor_blink_count < 256 → (cursor_blinks n s).ctr.m_cursor_blink_count < 256) := by
  induction n with
  | zero =>
    intro s
    exact ⟨rfl, id⟩
  | succ n ih =>
    intro s
    obtain ⟨hr, hc⟩ := update_cursor_state_count s
    obtain ⟨i1, i2⟩ := ih (update_cursor_state s)
    refine ⟨by simp only [cursor_blinks, i1, hr], fun _ => ?_⟩
    simp only [cursor_blinks]
    exact i2 (by rw [hc]; exact u8_succ_lt _)

theorem cursor_blinks_constant (b : Bool)
    (P : State → Prop) (hP : ∀ s, P s → P (update_cursor_state s))
    (hon : ∀ s, P s → (update_cursor_state s).ctr.m_cursor_state = b) (n : Nat) :
    ∀ s : State, P s → (cursor_blinks (n + 1) s).ctr.m_cursor_state = b := by
  induction n with
  | zero =>
    intro s hs
    exact hon s hs
  | succ n ih =>
    intro s hs
    have := ih (update_cursor_state s) (hP s hs)
    simpa only [cursor_blinks] using this

/-- C18: cursor blink modes of `update_cursor_state`, selected by bits 6..5
of cursor-start-raster (which the calls leave unchanged), for every starting
value of the 8-bit blink counter and of the cursor state: in mode 00 the
cursor state is on after every call; in mode 01 it is off after every call;
in mode 10 it changes in exactly one of any 16 consecutive calls and is back
at its value after 32 calls; in mode 11 it changes in exactly one of any 32
consecutive calls and is back at its value after 64 calls. -/
theorem cursor_blink_modes (s : State) (hc : s.ctr.m_cursor_blink_count < 256) :
    (s.regs.m_cursor_start_ras &&& 0x60 = 0x00 →
      ∀ n, (cursor_blinks (n + 1) s).ctr.m_cursor_state = true) ∧
    (s.regs.m_cursor_start_ras &&& 0x60 = 0x20 →
      ∀ n, (cursor_blinks (n + 1) s).ctr.m_cursor_state = false) ∧
    (s.regs.m_cursor_start_ras &&& 0x60 = 0x40 →
      ∀ k, cursor_toggles 16 (cursor_blinks k s) = 1 ∧
        (cursor_blinks 32 (cursor_blinks k s)).ctr.m_cursor_state
          = (cursor_blinks k s).ctr.m_cursor_state) ∧
    (s.regs.m_cursor_start_ras &&& 0x60 = 0x60 →
      ∀ k, cursor_toggles 32 (cursor_blinks k s) = 1 ∧
        (cursor_blinks 64 (cursor_blinks k s)).ctr.m_cursor_state
          = (cursor_blinks k s).ctr.m_cursor_state) := by
  refine ⟨?_, ?_, ?_, ?_⟩
  · intro hm n
    refine cursor_blinks_constant true
      (fun t => t.regs.m_cursor_start_ras &&& 0x60 = 0x00) ?_ ?_ n s hm
    · intro t ht
      show (update_cursor_state t).regs.m_cursor_start_ras &&& 0x60 = 0x00
      rw [(update_cursor_state_count t).1]; exact ht
    · intro t ht
      exact update_cursor_state_mode_00 t ht
  · intro hm n
    refine cursor_blinks_constant false
      (fun t => t.regs.m_cursor_start_ras &&& 0x60 = 0x20) ?_ ?_ n s hm
    · intro t ht
      show (update_cursor_state t).regs.m_cursor_start_ras &&& 0x60 = 0x20
      rw [(update_cursor_state_count t).1]; exact ht
    · intro t ht
      exact update_cursor_state_mode_01 t ht
  · intro hm k
    obtain ⟨hr, hlt⟩ := cursor_blinks_frame k s
    have hmk : (cursor_blinks k s).regs.m_cursor_start_ras &&& 0x60 = 0x40 := by rw [hr]; exact hm
    obtain ⟨a1, -⟩ := cursor_blinks_blinking 0x40 0x10 update_cursor_state_mode_10 16 _ hmk
    obtain ⟨-, a2⟩ := cursor_blinks_blinking 0x40 0x10 update_cursor_state_mode_10 32 _ hmk
    exact ⟨a1.trans (count_flips_16 _ (hlt hc)), a2.trans (blink_after_32 _ (hlt hc) _)⟩
  · intro hm k
    obtain ⟨hr, hlt⟩ := cursor_blinks_frame k s
    have hmk : (cursor_blinks k s).regs.m_cursor_start_ras &&& 0x60 = 0x60 := by rw [hr]; exact hm
    obtain ⟨a1, -⟩ := cursor_blinks_blinking 0x60 0x20 update_cursor_state_mode_11 32 _ hmk
    obtain ⟨-, a2⟩ := cursor_blinks_blinking 0x60 0x20 update_cursor_state_mode_11 64 _ hmk
    exact ⟨a1.trans (count_flips_32 _ (hlt hc)), a2.trans (blink_after_64 _ (hlt hc) _)⟩

/-- Witness for C18: in mode 10 (cursor-start-raster 0x40) with the blink
counter at 250, the cursor state changes once in the next 16 calls, across
the wrap of the counter from 255 to 0. -/
theorem cursor_blink_modes_witness :
    cursor_toggles 16 { with_cursor mc6845_started 0x40 0 with
      ctr := { (with_cursor mc6845_started 0x40 0).ctr with m_cursor_blink_count := 250 } } = 1 ∧
    (cursor_blinks 6 { with_cursor mc6845_started 0x40 0 with
      ctr := { (with_cursor mc6845_started 0x40 0).ctr with
        m_cursor_blink_count := 250 } }).ctr.m_cursor_blink_count = 0 :=
  ⟨((cursor_blink_modes { with_cursor mc6845_started 0x40 0 with
      ctr := { (with_cursor mc6845_started 0x40 0).ctr with m_cursor_blink_count := 250 } }
      (by decide)).2.2.1 (by decide) 0).1, by decide⟩

/-! ## Stage lemmas of the line tick -/

theorem match_line_vsync (s : State) :
    ((match_line s).2 = true →
      (match_line s).1.ctr.m_vsync_ff = 1 ∧ (match_line s).1.ctr.m_vsync_width_counter = 0) ∧
    ((match_line s).2 = false →
      (match_line s).1.ctr.m_vsync_ff = s.ctr.m_vsync_ff ∧
      (match_line s).1.ctr.m_vsync_width_counter = s.ctr.m_vsync_width_counter) := by
  unfold match_line
  simp only []
  split_ifs <;> simp

theorem match_line_counters (s : State) :
    (match_line s).1.ctr.m_adjust_active = s.ctr.m_adjust_active ∧
    (match_line s).1.ctr.m_adjust_counter = s.ctr.m_adjust_counter ∧
    (match_line s).1.ctr.m_line_counter = s.ctr.m_line_counter ∧
    (match_line s).1.ctr.m_raster_counter = s.ctr.m_raster_counter ∧
    (match_line s).1.ctr.m_line_address = s.ctr.m_line_address := by
  unfold match_line
  simp only []
  split_ifs <;> simp

theorem update_cursor_state_counters (s : State) :
    (update_cursor_state s).ctr.m_adjust_active = s.ctr.m_adjust_active ∧
    (update_cursor_state s).ctr.m_adjust_counter = s.ctr.m_adjust_counter ∧
    (update_cursor_state s).ctr.m_line_counter = s.ctr.m_line_counter ∧
    (update_cursor_state s).ctr.m_raster_counter = s.ctr.m_raster_counter ∧
    (update_cursor_state s).ctr.m_line_address = s.ctr.m_line_address ∧
    (update_cursor_state s).ctr.m_vsync_ff = s.ctr.m_vsync_ff ∧
    (update_cursor_state s).ctr.m_vsync_width_counter = s.ctr.m_vsync_width_counter := by
  unfold update_cursor_state
  simp only []
  split <;> (try split_ifs) <;> simp

theorem line_vsync_width_state (s : State) (b : Bool) :
    (line_vsync_width s b).1 = (line_vsync_width s false).1 := by
  unfold line_vsync_width
  simp only []
  split_ifs <;> rfl

theorem line_counters_flag (s : State) (b : Bool) :
    (line_counters s b).1 = (line_counters s false).1 ∧
    (line_counters s b).2 = ((line_counters s false).2 || b) := by
  unfold line_counters
  simp only []
  split_ifs <;> simp

theorem line_adjust_flag (s : State) (b : Bool) :
    (line_adjust s b).1.1 = (line_adjust s false).1.1 ∧
    (line_adjust s b).1.2 = ((line_adjust s false).1.2 || b) ∧
    (line_adjust s b).2 = (line_adjust s false).2 := by
  unfold line_adjust
  simp only []
  split_ifs <;> simp

theorem ite_true_or (c b : Bool) : (if c then true else b) = (c || b) := by
  cases c <;> rfl

/-- The two stages written with their helper states: at a row boundary
`match_line` runs on `line_boundary s`, at the frame origin reset on
`frame_origin_reset s`. -/
theorem line_counters_eq (s : State) (b : Bool) :
    line_counters s b
      = (if (s.ctr.m_raster_counter : Int) == char_height s - 1 then
          ((match_line (line_boundary s)).1, (match_line (line_boundary s)).2 || b)
         else
          ({ s with ctr := { s.ctr with
              m_raster_counter := (s.ctr.m_raster_counter + 1) &&& 0x1F } }, b)) := by
  unfold line_counters
  by_cases h : ((s.ctr.m_raster_counter : Int) == char_height s - 1) = true
  · rw [if_pos h, if_pos h]
    exact Prod.ext rfl (ite_true_or _ _)
  · rw [if_neg h, if_neg h]

theorem line_adjust_eq (s : State) (b : Bool) :
    line_adjust s b
      = (if s.ctr.m_adjust_active != 0 then
          (if s.ctr.m_adjust_counter == s.regs.m_vert_total_adj then
            (if s.cfg.m_supports_vert_sync_width then
              ((update_cursor_state (match_line (frame_origin_reset s)).1,
                (match_line (frame_origin_reset s)).2 || b),
               if s.cfg.has_screen then [Event.screen_reset_origin] else [])
             else
              ((update_cursor_state (frame_origin_reset s), b),
               if s.cfg.has_screen then [Event.screen_reset_origin] else []))
           else
            (({ s with ctr := { s.ctr with
                m_adjust_counter := (s.ctr.m_adjust_counter + 1) &&& 0x1F } }, b), []))
         else ((s, b), [])) := by
  unfold line_adjust
  by_cases h1 : (s.ctr.m_adjust_active != 0) = true
  · rw [if_pos h1, if_pos h1]
    by_cases h2 : (s.ctr.m_adjust_counter == s.regs.m_vert_total_adj) = true
    · rw [if_pos h2, if_pos h2]
      by_cases h3 : s.cfg.m_supports_vert_sync_width = true
      · rw [if_pos h3]
        simp only [frame_origin_reset, h3, if_true, ite_true_or]
      · rw [if_neg h3]
        simp only [frame_origin_reset, h3, Bool.false_eq_true, if_false]
    · rw [if_neg h2, if_neg h2]
  · rw [if_neg h1, if_neg h1]

theorem line_boundary_frame (s : State) :
    (line_boundary s).regs = s.regs ∧ (line_boundary s).cfg = s.cfg ∧
    (line_boundary s).sig = s.sig ∧
    (line_boundary s).ctr.m_vsync_ff = s.ctr.m_vsync_ff ∧
    (line_boundary s).ctr.m_vsync_width_counter = s.ctr.m_vsync_width_counter := by
  unfold line_boundary
  simp only []
  split_ifs <;> simp

theorem frame_origin_reset_frame (s : State) :
    (frame_origin_reset s).regs = s.regs ∧ (frame_origin_reset s).cfg = s.cfg ∧
    (frame_origin_reset s).sig = s.sig ∧
    (frame_origin_reset s).ctr.m_vsync_ff = s.ctr.m_vsync_ff ∧
    (frame_origin_reset s).ctr.m_vsync_width_counter = s.ctr.m_vsync_width_counter :=
  ⟨rfl, rfl, rfl, rfl, rfl⟩

theorem line_counters_vsync (s : State) :
    ((line_counters s false).2 = true →
      (line_counters s false).1.ctr.m_vsync_ff = 1 ∧
      (line_counters s false).1.ctr.m_vsync_width_counter = 0) ∧
    ((line_counters s false).2 = false →
      (line_counters s false).1.ctr.m_vsync_ff = s.ctr.m_vsync_ff ∧
      (line_counters s false).1.ctr.m_vsync_width_counter = s.ctr.m_vsync_width_counter) := by
  rw [line_counters_eq]
  obtain ⟨-, -, -, f1, f2⟩ := line_boundary_frame s
  have hm := match_line_vsync (line_boundary s)
  rw [f1, f2] at hm
  split_ifs
  · simp only [Bool.or_false]
    exact hm
  · simp

theorem line_adjust_vsync (s : State) :
    ((line_adjust s false).1.2 = true →
      (line_adjust s false).1.1.ctr.m_vsync_ff = 1 ∧
      (line_adjust s false).1.1.ctr.m_vsync_width_counter = 0) ∧
    ((line_adjust s false).1.2 = false →
      (line_adjust s false).1.1.ctr.m_vsync_ff = s.ctr.m_vsync_ff ∧
      (line_adjust s false).1.1.ctr.m_vsync_width_counter = s.ctr.m_vsync_width_counter) := by
  rw [line_adjust_eq]
  obtain ⟨-, -, -, f1, f2⟩ := frame_origin_reset_frame s
  have hm := match_line_vsync (frame_origin_reset s)
  rw [f1, f2] at hm
  have ua := update_cursor_state_counters (match_line (frame_origin_reset s)).1
  have ub := update_cursor_state_counters (frame_origin_reset s)
  split_ifs
  all_goals first
    | (simp only [Bool.or_false, ua.2.2.2.2.2.1, ua.2.2.2.2.2.2]
       exact hm)
    | simp [ub.2.2.2.2.2.1, ub.2.2.2.2.2.2, f1, f2]

theorem line_schedule_ctr (ccv : State → Nat → Nat → Bool) (s : State) :
    (line_schedule ccv s).1.sig = s.sig ∧
    (line_schedule ccv s).1.ctr.m_vsync_ff = s.ctr.m_vsync_ff ∧
    (line_schedule ccv s).1.ctr.m_vsync_width_counter = s.ctr.m_vsync_width_counter ∧
    (line_schedule ccv s).1.ctr.m_adjust_active = s.ctr.m_adjust_active ∧
    (line_schedule ccv s).1.ctr.m_adjust_counter = s.ctr.m_adjust_counter ∧
    (line_schedule ccv s).1.ctr.m_line_counter = s.ctr.m_line_counter ∧
    (line_schedule ccv s).1.ctr.m_raster_counter = s.ctr.m_raster_counter ∧
    (line_schedule ccv s).1.ctr.m_line_address = s.ctr.m_line_address ∧
    (line_schedule ccv s).1.ctr.m_line_enable_ff = s.ctr.m_line_enable_ff := by
  unfold line_schedule
  simp only []
  split_ifs <;> simp

theorem set_vsync_level (s : State) (state : Int) :
    (set_vsync s state).1.sig.m_vsync = state ∧ (set_vsync s state).1.sig.m_de = s.sig.m_de := by
  unfold set_vsync
  split_ifs with h
  · exact ⟨rfl, rfl⟩
  · simp only [bne_iff_ne, ne_eq, not_not] at h
    exact ⟨h, rfl⟩

theorem set_de_level (s : State) (state : Int) :
    (set_de s state).1.sig.m_de = state ∧ (set_de s state).1.sig.m_vsync = s.sig.m_vsync := by
  unfold set_de
  simp only []
  split_ifs with h <;> simp [update_upd_adr_timer_state]
  simpa [bne_iff_ne] using h

theorem match_line_sig (s : State) : (match_line s).1.sig = s.sig := by
  unfold match_line
  simp only []
  split_ifs <;> rfl

theorem update_cursor_state_sig (s : State) : (update_cursor_state s).sig = s.sig := by
  unfold update_cursor_state
  simp only []
  split <;> (try split_ifs) <;> rfl

theorem stages_sig (s : State) (b : Bool) :
    (line_vsync_width s b).1.sig = s.sig ∧ (line_counters s b).1.sig = s.sig ∧
    (line_adjust s b).1.1.sig = s.sig := by
  refine ⟨?_, ?_, ?_⟩
  · unfold line_vsync_width
    simp only []
    split_ifs <;> rfl
  · rw [line_counters_eq]
    split_ifs
    · simp only [match_line_sig, (line_boundary_frame s).2.2.1]
    · rfl
  · rw [line_adjust_eq]
    split_ifs
    all_goals first
      | rfl
      | simp only [update_cursor_state_sig, match_line_sig, (frame_origin_reset_frame s).2.2.1]

/-- The line tick seen from the VSYNC side: with a vsync-position match the
tick ends with VSYNC high, the flip-flop set and the width counter at 0;
without one, VSYNC and the flip-flop are what the width stage (lines
853-867) decides. -/
theorem handle_line_timer_vsync (ccv : State → Nat → Nat → Bool) (s : State) :
    (vsync_match_in_tick s = true →
      (handle_line_timer ccv s).1.sig.m_vsync = 1 ∧
      (handle_line_timer ccv s).1.ctr.m_vsync_ff = 1 ∧
      (handle_line_timer ccv s).1.ctr.m_vsync_width_counter = 0) ∧
    (vsync_match_in_tick s = false →
      (handle_line_timer ccv s).1.sig.m_vsync
        = (if (line_vsync_width { s with ctr := { s.ctr with
              m_character_counter := 0, m_cursor_x := -1 } } (s.sig.m_vsync != 0)).2
           then 1 else 0) ∧
      (handle_line_timer ccv s).1.ctr.m_vsync_ff
        = (line_vsync_width { s with ctr := { s.ctr with
              m_character_counter := 0, m_cursor_x := -1 } } false).1.ctr.m_vsync_ff ∧
      (handle_line_timer ccv s).1.ctr.m_vsync_width_counter
        = (line_vsync_width { s with ctr := { s.ctr with
              m_character_counter := 0, m_cursor_x := -1 } } false).1.ctr.m_vsync_width_counter) := by
  obtain ⟨s0, hs0⟩ : ∃ s0 : State, s0 = { s with ctr := { s.ctr with
      m_character_counter := 0, m_cursor_x := -1 } } := ⟨_, rfl⟩
  obtain ⟨w, hw⟩ : ∃ w : State, w = (line_vsync_width s0 false).1 := ⟨_, rfl⟩
  obtain ⟨c, hc⟩ : ∃ c : State, c = (line_counters w false).1 := ⟨_, rfl⟩
  obtain ⟨a, ha⟩ : ∃ a : State, a = (line_adjust c false).1.1 := ⟨_, rfl⟩
  have hmatch : vsync_match_in_tick s
      = ((line_counters w false).2 || (line_adjust c false).1.2) := by
    rw [hc, hw, hs0]; rfl
  have e1 : (line_vsync_width s0 (s.sig.m_vsync != 0)).1 = w := by
    rw [hw]; exact line_vsync_width_state s0 _
  have e2 : (line_counters w (line_vsync_width s0 (s.sig.m_vsync != 0)).2).1 = c := by
    rw [hc]; exact (line_counters_flag w _).1
  have e2b : (line_counters w (line_vsync_width s0 (s.sig.m_vsync != 0)).2).2
      = ((line_counters w false).2 || (line_vsync_width s0 (s.sig.m_vsync != 0)).2) :=
    (line_counters_flag w _).2
  have e3 : ∀ b, (line_adjust c b).1.1 = a := by
    intro b; rw [ha]; exact (line_adjust_flag c b).1
  have e3b : ∀ b, (line_adjust c b).1.2 = ((line_adjust c false).1.2 || b) :=
    fun b => (line_adjust_flag c b).2.1
  have hT : (handle_line_timer ccv s).1
      = (set_de (set_vsync (line_schedule ccv a).1
          (if ((line_adjust c false).1.2 || ((line_counters w false).2 ||
              (line_vsync_width s0 (s.sig.m_vsync != 0)).2)) then 1 else 0)).1
          (if (set_vsync (line_schedule ccv a).1
              (if ((line_adjust c false).1.2 || ((line_counters w false).2 ||
                (line_vsync_width s0 (s.sig.m_vsync != 0)).2)) then 1 else 0)).1.ctr.m_line_enable_ff
            then 1 else 0)).1 := by
    unfold handle_line_timer
    simp only []
    rw [← hs0, e1, e2, e2b, e3, e3b]
  have hsig : (handle_line_timer ccv s).1.sig.m_vsync
      = (if ((line_adjust c false).1.2 || ((line_counters w false).2 ||
              (line_vsync_width s0 (s.sig.m_vsync != 0)).2)) then 1 else 0) := by
    rw [hT, (set_de_level _ _).2, (set_vsync_level _ _).1]
  have hctr : (handle_line_timer ccv s).1.ctr.m_vsync_ff = a.ctr.m_vsync_ff ∧
      (handle_line_timer ccv s).1.ctr.m_vsync_width_counter = a.ctr.m_vsync_width_counter := by
    rw [hT, (set_de_frame _ _).1, (set_vsync_frame _ _).1]
    exact ⟨(line_schedule_ctr ccv a).2.1, (line_schedule_ctr ccv a).2.2.1⟩
  have hcv := line_counters_vsync w
  have hav := line_adjust_vsync c
  rw [← hc] at hcv
  rw [← ha] at hav
  rw [hsig, hctr.1, hctr.2, hmatch, ← hs0, ← hw]
  constructor
  · intro hm
    cases hA : (line_adjust c false).1.2
    · rw [hA] at hm hav
      have hC : (line_counters w false).2 = true := by simpa using hm
      rw [hC] at hcv
      obtain ⟨c1, c2⟩ := hcv.1 rfl
      obtain ⟨a1, a2⟩ := hav.2 rfl
      simp only [hC, Bool.true_or, Bool.or_true, if_true]
      exact ⟨trivial, a1.trans c1, a2.trans c2⟩
    · rw [hA] at hav
      obtain ⟨a1, a2⟩ := hav.1 rfl
      simp only [Bool.true_or, if_true]
      exact ⟨trivial, a1, a2⟩
  · intro hm
    simp only [Bool.or_eq_false_iff] at hm
    obtain ⟨hC, hA⟩ := hm
    rw [hC] at hcv
    rw [hA] at hav
    obtain ⟨c1, c2⟩ := hcv.2 rfl
    obtain ⟨a1, a2⟩ := hav.2 rfl
    simp only [hC, hA, Bool.false_or]
    exact ⟨trivial, a1.trans c1, a2.trans c2⟩

theorem line_vsync_width_pulse (s : State) (k : Nat) (hff : s.ctr.m_vsync_ff = 1)
    (hk : s.ctr.m_vsync_width_counter = k) (hlt : k < vsync_pulse_length s) :
    (k + 1 < vsync_pulse_length s →
      (line_vsync_width s true).2 = true ∧
      (line_vsync_width s false).1.ctr.m_vsync_ff = 1 ∧
      (line_vsync_width s false).1.ctr.m_vsync_width_counter = k + 1) ∧
    (k + 1 = vsync_pulse_length s →
      (line_vsync_width s true).2 = false ∧
      (line_vsync_width s false).1.ctr.m_vsync_ff = 0) := by
  have hb : (s.regs.m_sync_width >>> 4) &&& 0x0f ≤ 0x0f := Nat.and_le_right
  have hmod : (k + 1) &&& 0x0F = (k + 1) % 16 := Nat.and_pow_two_sub_one_eq_mod (k + 1) 4
  unfold vsync_pulse_length at hlt ⊢
  unfold line_vsync_width
  simp only [hff, hk, hmod]
  generalize (s.regs.m_sync_width >>> 4) &&& 0x0f = nib at *
  have hu : ∀ x : Nat, x ≤ 15 → u8 (x : Int) = x := by
    intro x hx; unfold u8; omega
  have h0 : u8 ((0 : Nat) : Int) = 0 := hu 0 (by omega)
  generalize hr0 : (k + 1) % 16 = r
  cases hs : s.cfg.m_supports_vert_sync_width
  · simp only [hs, Bool.false_eq_true, if_false, h0] at hlt ⊢
    constructor
    · intro h
      have hne : ¬ r = 0 := by omega
      have hr : r = k + 1 := by omega
      subst hr
      simp [hne]
    · intro h
      have he : r = 0 := by omega
      simp [he]
  · simp only [hs, if_true, hu nib hb] at hlt ⊢
    by_cases hn : nib = 0
    · simp only [hn, if_true] at hlt ⊢
      constructor
      · intro h
        have hne : ¬ r = 0 := by omega
        have hr : r = k + 1 := by omega
        subst hr
        simp [hne]
      · intro h
        have he : r = 0 := by omega
        simp [he]
    · simp only [hn, if_false] at hlt ⊢
      constructor
      · intro h
        have hne : ¬ r = nib := by omega
        have hr : r = k + 1 := by omega
        subst hr
        simp [hne]
      · intro h
        have he : r = nib := by omega
        simp [he]

theorem line_ticks_frame (ccv : State → Nat → Nat → Bool) (n : Nat) (s : State) :
    (line_ticks ccv n s).regs = s.regs ∧ (line_ticks ccv n s).cfg = s.cfg := by
  induction n with
  | zero => exact ⟨rfl, rfl⟩
  | succ n ih =>
    have h := handle_line_timer_frame ccv (line_ticks ccv n s)
    exact ⟨h.2.2.trans ih.1, h.2.1.trans ih.2⟩

theorem vsync_pulse_length_congr (a b : State) (h1 : a.regs = b.regs) (h2 : a.cfg = b.cfg) :
    vsync_pulse_length a = vsync_pulse_length b := by
  unfold vsync_pulse_length
  rw [h1, h2]

theorem vsync_pulse_length_bounds (s : State) :
    1 ≤ vsync_pulse_length s ∧ vsync_pulse_length s ≤ 16 := by
  have hb : (s.regs.m_sync_width >>> 4) &&& 0x0f ≤ 0x0f := Nat.and_le_right
  unfold vsync_pulse_length
  split_ifs <;> omega

/-- One line tick inside the pulse: without a vsync-position match the width
counter advances, and VSYNC ends exactly when it reaches the pulse length. -/
theorem handle_line_timer_pulse (ccv : State → Nat → Nat → Bool) (s : State) (k : Nat)
    (hv : s.sig.m_vsync = 1) (hff : s.ctr.m_vsync_ff = 1)
    (hk : s.ctr.m_vsync_width_counter = k) (hlt : k < vsync_pulse_length s)
    (hm : vsync_match_in_tick s = false) :
    (k + 1 < vsync_pulse_length s →
      (handle_line_timer ccv s).1.sig.m_vsync = 1 ∧
      (handle_line_timer ccv s).1.ctr.m_vsync_ff = 1 ∧
      (handle_line_timer ccv s).1.ctr.m_vsync_width_counter = k + 1) ∧
    (k + 1 = vsync_pulse_length s →
      (handle_line_timer ccv s).1.sig.m_vsync = 0 ∧
      (handle_line_timer ccv s).1.ctr.m_vsync_ff = 0) := by
  obtain ⟨h1, h2, h3⟩ := (handle_line_timer_vsync ccv s).2 hm
  have hb : (s.sig.m_vsync != 0) = true := by rw [hv]; decide
  rw [hb] at h1
  have hp := line_vsync_width_pulse
    { s with ctr := { s.ctr with m_character_counter := 0, m_cursor_x := -1 } } k hff hk hlt
  constructor
  · intro h
    obtain ⟨p1, p2, p3⟩ := hp.1 h
    rw [h1, h2, h3, p1, p2, p3]
    exact ⟨rfl, rfl, rfl⟩
  · intro h
    obtain ⟨p1, p2⟩ := hp.2 h
    rw [h1, h2, p1, p2]
    exact ⟨rfl, rfl⟩

theorem vsync_pulse_invariant (ccv : State → Nat → Nat → Bool) (s : State)
    (hv : s.sig.m_vsync = 1) (hff : s.ctr.m_vsync_ff = 1)
    (hc : s.ctr.m_vsync_width_counter = 0)
    (hno : ∀ k, k < vsync_pulse_length s → vsync_match_in_tick (line_ticks ccv k s) = false) :
    ∀ j, j < vsync_pulse_length s →
      (line_ticks ccv j s).sig.m_vsync = 1 ∧ (line_ticks ccv j s).ctr.m_vsync_ff = 1 ∧
      (line_ticks ccv j s).ctr.m_vsync_width_counter = j := by
  intro j
  induction j with
  | zero => intro _; exact ⟨hv, hff, hc⟩
  | succ j ih =>
    intro hj
    obtain ⟨i1, i2, i3⟩ := ih (by omega)
    have hN := vsync_pulse_length_congr (line_ticks ccv j s) s
      (line_ticks_frame ccv j s).1 (line_ticks_frame ccv j s).2
    have hp := handle_line_timer_pulse ccv (line_ticks ccv j s) j i1 i2 i3
      (by rw [hN]; omega) (hno j (by omega))
    exact hp.1 (by rw [hN]; exact hj)

theorem line_vsync_width_counters (s : State) (b : Bool) :
    (line_vsync_width s b).1.ctr.m_adjust_active = s.ctr.m_adjust_active ∧
    (line_vsync_width s b).1.ctr.m_adjust_counter = s.ctr.m_adjust_counter ∧
    (line_vsync_width s b).1.ctr.m_line_counter = s.ctr.m_line_counter ∧
    (line_vsync_width s b).1.ctr.m_raster_counter = s.ctr.m_raster_counter ∧
    (line_vsync_width s b).1.ctr.m_line_address = s.ctr.m_line_address := by
  unfold line_vsync_width
  simp only []
  split_ifs <;> simp

theorem char_height_congr (a b : State) (h1 : a.regs = b.regs) (h2 : a.cfg = b.cfg) :
    char_height a = char_height b := by
  unfold char_height MODE_INTERLACE_AND_VIDEO
  rw [h1, h2]

theorem match_line_flag (s : State) :
    (match_line s).2 = (s.ctr.m_line_counter == s.regs.m_vert_sync_pos) := by
  unfold match_line
  simp only []
  split_ifs <;> simp_all

theorem line_boundary_counters (s : State) :
    (line_boundary s).ctr.m_line_counter = (s.ctr.m_line_counter + 1) &&& 0x7F ∧
    (line_boundary s).ctr.m_raster_counter = 0 ∧
    (line_boundary s).ctr.m_line_address
      = (s.ctr.m_line_address + s.regs.m_horiz_disp) &&& 0x3fff ∧
    (line_boundary s).ctr.m_adjust_active
      = (if s.ctr.m_line_counter == s.regs.m_vert_char_total then 1
         else s.ctr.m_adjust_active) ∧
    (line_boundary s).ctr.m_adjust_counter
      = (if s.ctr.m_line_counter == s.regs.m_vert_char_total then 0
         else s.ctr.m_adjust_counter) := by
  unfold line_boundary
  simp only []
  split_ifs <;> simp

theorem vsync_match_at_boundary (s : State)
    (hr : (s.ctr.m_raster_counter : Int) = char_height s - 1)
    (hl : (s.ctr.m_line_counter + 1) &&& 0x7F = s.regs.m_vert_sync_pos) :
    vsync_match_in_tick s = true := by
  obtain ⟨s0, hs0⟩ : ∃ s0 : State, s0 = { s with ctr := { s.ctr with
      m_character_counter := 0, m_cursor_x := -1 } } := ⟨_, rfl⟩
  obtain ⟨w, hw⟩ : ∃ w : State, w = (line_vsync_width s0 false).1 := ⟨_, rfl⟩
  have hmatch : vsync_match_in_tick s
      = ((line_counters w false).2 || (line_adjust (line_counters w false).1 false).1.2) := by
    rw [hw, hs0]; rfl
  have wf := line_vsync_width_frame s0 false
  have wc := line_vsync_width_counters s0 false
  rw [← hw] at wf wc
  have hregs : w.regs = s.regs := by rw [wf.2.2, hs0]
  have hcfg : w.cfg = s.cfg := by rw [wf.2.1, hs0]
  have hch : char_height w = char_height s := char_height_congr w s hregs hcfg
  have hras : w.ctr.m_raster_counter = s.ctr.m_raster_counter := by rw [wc.2.2.2.1, hs0]
  have hlc : w.ctr.m_line_counter = s.ctr.m_line_counter := by rw [wc.2.2.1, hs0]
  have hrw : ((w.ctr.m_raster_counter : Int) == char_height w - 1) = true := by
    rw [hch, hras, hr]
    exact beq_self_eq_true _
  have hC : (line_counters w false).2 = true := by
    rw [line_counters_eq, if_pos hrw]
    simp only [Bool.or_false, match_line_flag, (line_boundary_counters w).1,
      (line_boundary_frame w).1, hlc, hregs, hl]
    exact beq_self_eq_true _
  rw [hmatch, hC]
  rfl

/-- C19: VSYNC pulse length. The pulse length N (`vsync_pulse_length`) is 16
on a variant without a configurable vsync-width field, and on a variant with
the field it is the high nibble of the sync-width register, or 16 when that
nibble is 0. A line tick at a row boundary that makes the line counter equal
to vertical-sync-position is a tick with a vsync-position match, and a tick
with a match ends with VSYNC raised, the flip-flop set and the width counter
at 0. From such a state, if no further vsync-position match occurs in the
next N line ticks, VSYNC stays asserted after each of the next N - 1 ticks
and is deasserted (flip-flop cleared) after exactly the N-th tick. -/
theorem vsync_pulse_lasts_sync_width (ccv : State → Nat → Nat → Bool) (s : State) :
    (1 ≤ vsync_pulse_length s ∧ vsync_pulse_length s ≤ 16) ∧
    (s.cfg.m_supports_vert_sync_width = false → vsync_pulse_length s = 16) ∧
    (s.cfg.m_supports_vert_sync_width = true →
      ((s.regs.m_sync_width >>> 4) &&& 0x0f = 0 → vsync_pulse_length s = 16) ∧
      ((s.regs.m_sync_width >>> 4) &&& 0x0f ≠ 0 →
        vsync_pulse_length s = (s.regs.m_sync_width >>> 4) &&& 0x0f)) ∧
    ((s.ctr.m_raster_counter : Int) = char_height s - 1 →
      (s.ctr.m_line_counter + 1) &&& 0x7F = s.regs.m_vert_sync_pos →
      vsync_match_in_tick s = true) ∧
    (vsync_match_in_tick s = true →
      vsync_r (line_ticks ccv 1 s) = 1 ∧ (line_ticks ccv 1 s).ctr.m_vsync_ff = 1 ∧
      (line_ticks ccv 1 s).ctr.m_vsync_width_counter = 0) ∧
    (vsync_r s = 1 → s.ctr.m_vsync_ff = 1 → s.ctr.m_vsync_width_counter = 0 →
      (∀ k, k < vsync_pulse_length s → vsync_match_in_tick (line_ticks ccv k s) = false) →
      (∀ k, k < vsync_pulse_length s → vsync_r (line_ticks ccv k s) = 1) ∧
      vsync_r (line_ticks ccv (vsync_pulse_length s) s) = 0 ∧
      (line_ticks ccv (vsync_pulse_length s) s).ctr.m_vsync_ff = 0) := by
  refine ⟨vsync_pulse_length_bounds s, ?_, ?_, vsync_match_at_boundary s, ?_, ?_⟩
  · intro h
    unfold vsync_pulse_length
    simp [h]
  · intro h
    unfold vsync_pulse_length
    constructor
    · intro hn
      simp [h, hn]
    · intro hn
      simp [h, hn]
  · intro hm
    exact (handle_line_timer_vsync ccv s).1 hm
  · intro hv hff hc hno
    have inv := vsync_pulse_invariant ccv s hv hff hc hno
    refine ⟨fun k hk => (inv k hk).1, ?_⟩
    obtain ⟨n, hn⟩ : ∃ n, vsync_pulse_length s = n + 1 :=
      ⟨vsync_pulse_length s - 1, by have := (vsync_pulse_length_bounds s).1; omega⟩
    obtain ⟨i1, i2, i3⟩ := inv n (by omega)
    have hN := vsync_pulse_length_congr (line_ticks ccv n s) s
      (line_ticks_frame ccv n s).1 (line_ticks_frame ccv n s).2
    have hp := handle_line_timer_pulse ccv (line_ticks ccv n s) n i1 i2 i3
      (by rw [hN]; omega) (hno n (by omega))
    rw [hn]
    exact hp.2 (by rw [hN]; omega)

set_option maxRecDepth 100000 in
/-- On the MC6845-1 with vertical sync position 20 and sync width 0x41, the
tick that takes the line counter from 19 to 20 raises VSYNC; it stays high
after the next three ticks and is low after the fourth. -/
theorem vsync_pulse_lasts_sync_width_witness :
    (vsync_match_in_tick before_vsync_row = true ∧
      (line_ticks check_cursor_visible 1 before_vsync_row).ctr.m_line_counter = 20 ∧
      vsync_r (line_ticks check_cursor_visible 1 before_vsync_row) = 1) ∧
    vsync_pulse_length (line_ticks check_cursor_visible 1 before_vsync_row) = 4 ∧
    ((∀ k, k < vsync_pulse_length (line_ticks check_cursor_visible 1 before_vsync_row) →
        vsync_r (line_ticks check_cursor_visible k
          (line_ticks check_cursor_visible 1 before_vsync_row)) = 1) ∧
      vsync_r (line_ticks check_cursor_visible
        (vsync_pulse_length (line_ticks check_cursor_visible 1 before_vsync_row))
        (line_ticks check_cursor_visible 1 before_vsync_row)) = 0 ∧
      (line_ticks check_cursor_visible
        (vsync_pulse_length (line_ticks check_cursor_visible 1 before_vsync_row))
        (line_ticks check_cursor_visible 1 before_vsync_row)).ctr.m_vsync_ff = 0) :=
  ⟨⟨(vsync_pulse_lasts_sync_width check_cursor_visible before_vsync_row).2.2.2.1
      (by decide) (by decide),
    by decide,
    ((vsync_pulse_lasts_sync_width check_cursor_visible before_vsync_row).2.2.2.2.1
      (by decide)).1⟩,
   by decide,
   (vsync_pulse_lasts_sync_width check_cursor_visible
      (line_ticks check_cursor_visible 1 before_vsync_row)).2.2.2.2.2
      (by decide) (by decide) (by decide) (by decide)⟩

/-- The five frame counters after a line tick are those left by the vertical
adjust stage: the scheduling stage and the output setters keep them. -/
theorem handle_line_timer_ctr (ccv : State → Nat → Nat → Bool) (s a : State)
    (ha : a = (line_adjust (after_counter_stage s) false).1.1) :
    (handle_line_timer ccv s).1.ctr.m_adjust_active = a.ctr.m_adjust_active ∧
    (handle_line_timer ccv s).1.ctr.m_adjust_counter = a.ctr.m_adjust_counter ∧
    (handle_line_timer ccv s).1.ctr.m_line_counter = a.ctr.m_line_counter ∧
    (handle_line_timer ccv s).1.ctr.m_raster_counter = a.ctr.m_raster_counter ∧
    (handle_line_timer ccv s).1.ctr.m_line_address = a.ctr.m_line_address := by
  have hT : (handle_line_timer ccv s).1.ctr = (line_schedule ccv a).1.ctr := by
    unfold handle_line_timer
    simp only []
    rw [(set_de_frame _ _).1, (set_vsync_frame _ _).1, (line_adjust_flag _ _).1,
      (line_counters_flag _ _).1, line_vsync_width_state, ha]
    rfl
  rw [hT]
  have h := line_schedule_ctr ccv a
  exact ⟨h.2.2.2.1, h.2.2.2.2.1, h.2.2.2.2.2.1, h.2.2.2.2.2.2.1, h.2.2.2.2.2.2.2.1⟩

theorem line_adjust_counting (c : State) (h1 : c.ctr.m_adjust_active = 1)
    (h2 : c.ctr.m_adjust_counter ≠ c.regs.m_vert_total_adj) :
    (line_adjust c false).1.1.ctr.m_adjust_active = 1 ∧
    (line_adjust c false).1.1.ctr.m_adjust_counter = (c.ctr.m_adjust_counter + 1) &&& 0x1F ∧
    (line_adjust c false).1.1.ctr.m_line_counter = c.ctr.m_line_counter := by
  have e1 : (c.ctr.m_adjust_active != 0) = true := by rw [h1]; decide
  have e2 : ¬ ((c.ctr.m_adjust_counter == c.regs.m_vert_total_adj) = true) := by
    simpa using h2
  rw [line_adjust_eq, if_pos e1, if_neg e2]
  exact ⟨h1, rfl, rfl⟩

theorem line_adjust_resets (c : State) (h1 : c.ctr.m_adjust_active = 1)
    (h2 : c.ctr.m_adjust_counter = c.regs.m_vert_total_adj) :
    (line_adjust c false).1.1.ctr.m_adjust_active = 0 ∧
    (line_adjust c false).1.1.ctr.m_line_counter = 0 ∧
    (line_adjust c false).1.1.ctr.m_raster_counter = 0 ∧
    (line_adjust c false).1.1.ctr.m_line_address = c.regs.m_disp_start_addr := by
  have e1 : (c.ctr.m_adjust_active != 0) = true := by rw [h1]; decide
  have e2 : (c.ctr.m_adjust_counter == c.regs.m_vert_total_adj) = true := by
    rw [h2]; exact beq_self_eq_true _
  have ua := update_cursor_state_counters (match_line (frame_origin_reset c)).1
  have ub := update_cursor_state_counters (frame_origin_reset c)
  have mc := match_line_counters (frame_origin_reset c)
  rw [line_adjust_eq, if_pos e1, if_pos e2]
  by_cases h3 : c.cfg.m_supports_vert_sync_width = true
  · rw [if_pos h3]
    exact ⟨ua.1.trans mc.1, ua.2.2.1.trans mc.2.2.1, ua.2.2.2.1.trans mc.2.2.2.1,
      ua.2.2.2.2.1.trans mc.2.2.2.2⟩
  · rw [if_neg h3]
    exact ⟨ub.1, ub.2.2.1, ub.2.2.2.1, ub.2.2.2.2.1⟩

theorem line_counters_fields (s : State) :
    ((s.ctr.m_raster_counter : Int) = char_height s - 1 →
      (line_counters s false).1.ctr.m_adjust_active = (line_boundary s).ctr.m_adjust_active ∧
      (line_counters s false).1.ctr.m_adjust_counter = (line_boundary s).ctr.m_adjust_counter ∧
      (line_counters s false).1.ctr.m_line_counter = (line_boundary s).ctr.m_line_counter) ∧
    ((s.ctr.m_raster_counter : Int) ≠ char_height s - 1 →
      (line_counters s false).1.ctr.m_adjust_active = s.ctr.m_adjust_active ∧
      (line_counters s false).1.ctr.m_adjust_counter = s.ctr.m_adjust_counter ∧
      (line_counters s false).1.ctr.m_line_counter = s.ctr.m_line_counter) := by
  rw [line_counters_eq]
  constructor
  · intro h
    have e : ((s.ctr.m_raster_counter : Int) == char_height s - 1) = true := by
      rw [h]; exact beq_self_eq_true _
    rw [if_pos e]
    have mc := match_line_counters (line_boundary s)
    exact ⟨mc.1, mc.2.1, mc.2.2.1⟩
  · intro h
    have e : ¬ (((s.ctr.m_raster_counter : Int) == char_height s - 1) = true) := by
      simpa using h
    rw [if_neg e]
    exact ⟨rfl, rfl, rfl⟩

/-- The counter stage of the line tick that starts in `t`, on the fields of
vertical adjust and the line counter. -/
theorem after_counter_stage_fields (t : State) :
    (after_counter_stage t).regs = t.regs ∧
    ((t.ctr.m_raster_counter : Int) = char_height t - 1 →
      (after_counter_stage t).ctr.m_adjust_active
        = (if t.ctr.m_line_counter == t.regs.m_vert_char_total then 1
           else t.ctr.m_adjust_active) ∧
      (after_counter_stage t).ctr.m_adjust_counter
        = (if t.ctr.m_line_counter == t.regs.m_vert_char_total then 0
           else t.ctr.m_adjust_counter) ∧
      (after_counter_stage t).ctr.m_line_counter = (t.ctr.m_line_counter + 1) &&& 0x7F) ∧
    ((t.ctr.m_raster_counter : Int) ≠ char_height t - 1 →
      (after_counter_stage t).ctr.m_adjust_active = t.ctr.m_adjust_active ∧
      (after_counter_stage t).ctr.m_adjust_counter = t.ctr.m_adjust_counter ∧
      (after_counter_stage t).ctr.m_line_counter = t.ctr.m_line_counter) := by
  obtain ⟨s0, hs0⟩ : ∃ s0 : State, s0 = { t with ctr := { t.ctr with
      m_character_counter := 0, m_cursor_x := -1 } } := ⟨_, rfl⟩
  obtain ⟨w, hw⟩ : ∃ w : State, w = (line_vsync_width s0 false).1 := ⟨_, rfl⟩
  have hc : after_counter_stage t = (line_counters w false).1 := by rw [hw, hs0]; rfl
  have wf := line_vsync_width_frame s0 false
  have wc := line_vsync_width_counters s0 false
  rw [← hw] at wf wc
  have hregs : w.regs = t.regs := by rw [wf.2.2, hs0]
  have hcfg : w.cfg = t.cfg := by rw [wf.2.1, hs0]
  have hch : char_height w = char_height t := char_height_congr w t hregs hcfg
  have hras : w.ctr.m_raster_counter = t.ctr.m_raster_counter := by rw [wc.2.2.2.1, hs0]
  have hlc : w.ctr.m_line_counter = t.ctr.m_line_counter := by rw [wc.2.2.1, hs0]
  have hact : w.ctr.m_adjust_active = t.ctr.m_adjust_active := by rw [wc.1, hs0]
  have hcnt : w.ctr.m_adjust_counter = t.ctr.m_adjust_counter := by rw [wc.2.1, hs0]
  have hf := line_counters_fields w
  have hb := line_boundary_counters w
  rw [hch, hras, hlc, hact, hcnt] at hf
  rw [hlc, hact, hcnt, hregs] at hb
  rw [hc]
  refine ⟨(line_counters_frame w false).2.2.trans hregs, ?_, hf.2⟩
  intro h
  obtain ⟨f1, f2, f3⟩ := hf.1 h
  exact ⟨f1.trans hb.2.2.2.1, f2.trans hb.2.2.2.2, f3.trans hb.1⟩

/-- One line tick with vertical adjust active after the counter stage and
the adjust counter at `k`: below vertical-total-adjust the adjust counter
advances and there is no frame reset; at vertical-total-adjust the frame
resets. -/
theorem adjust_tick (ccv : State → Nat → Nat → Bool) (t : State) (k : Nat)
    (h1 : (after_counter_stage t).ctr.m_adjust_active = 1)
    (h2 : (after_counter_stage t).ctr.m_adjust_counter = k)
    (hv : t.regs.m_vert_total_adj ≤ 31) :
    (k < t.regs.m_vert_total_adj →
      frame_reset_in_tick t = false ∧
      (handle_line_timer ccv t).1.ctr.m_adjust_active = 1 ∧
      (handle_line_timer ccv t).1.ctr.m_adjust_counter = k + 1 ∧
      (handle_line_timer ccv t).1.ctr.m_line_counter
        = (after_counter_stage t).ctr.m_line_counter) ∧
    (k = t.regs.m_vert_total_adj →
      frame_reset_in_tick t = true ∧
      (handle_line_timer ccv t).1.ctr.m_adjust_active = 0 ∧
      (handle_line_timer ccv t).1.ctr.m_line_counter = 0 ∧
      (handle_line_timer ccv t).1.ctr.m_raster_counter = 0 ∧
      (handle_line_timer ccv t).1.ctr.m_line_address = t.regs.m_disp_start_addr) := by
  obtain ⟨c, hc⟩ : ∃ c : State, c = after_counter_stage t := ⟨_, rfl⟩
  have hregs : c.regs = t.regs := by rw [hc]; exact (after_counter_stage_fields t).1
  have hfr : frame_reset_in_tick t
      = (c.ctr.m_adjust_active != 0 && c.ctr.m_adjust_counter == c.regs.m_vert_total_adj) := by
    rw [hc]; rfl
  have hT := handle_line_timer_ctr ccv t (line_adjust c false).1.1 (by rw [hc])
  have hmod : (k + 1) &&& 0x1F = (k + 1) % 32 := Nat.and_pow_two_sub_one_eq_mod (k + 1) 5
  rw [← hc] at h1 h2 ⊢
  rw [← hregs]
  rw [← hregs] at hv
  constructor
  · intro hlt
    have hne : c.ctr.m_adjust_counter ≠ c.regs.m_vert_total_adj := by omega
    obtain ⟨a1, a2, a3⟩ := line_adjust_counting c h1 hne
    refine ⟨?_, hT.1.trans a1, ?_, hT.2.2.1.trans a3⟩
    · rw [hfr]
      simp [hne]
    · rw [hT.2.1, a2, h2, hmod]
      omega
  · intro heq
    have he : c.ctr.m_adjust_counter = c.regs.m_vert_total_adj := by omega
    obtain ⟨a1, a2, a3, a4⟩ := line_adjust_resets c h1 he
    refine ⟨?_, hT.1.trans a1, hT.2.2.1.trans a2, hT.2.2.2.1.trans a3,
      hT.2.2.2.2.trans a4⟩
    rw [hfr, h1, he]
    simp

/-- Through vertical adjust: at the start of line tick `k + 1`, for every
`k` up to vertical-total-adjust, the counter stage leaves vertical adjust
active with the adjust counter at `k`, and the line counter has moved on from
vertical total. -/
theorem adjust_invariant (ccv : State → Nat → Nat → Bool) (s : State)
    (hvta : s.regs.m_vert_total_adj ≤ 31)
    (hr : (s.ctr.m_raster_counter : Int) = char_height s - 1)
    (hl : s.ctr.m_line_counter = s.regs.m_vert_char_total) :
    ∀ k, k ≤ s.regs.m_vert_total_adj →
      (after_counter_stage (line_ticks ccv k s)).ctr.m_adjust_active = 1 ∧
      (after_counter_stage (line_ticks ccv k s)).ctr.m_adjust_counter = k ∧
      ∃ j, 1 ≤ j ∧ j ≤ k + 1 ∧
        (after_counter_stage (line_ticks ccv k s)).ctr.m_line_counter
          = (s.regs.m_vert_char_total + j) % 128 := by
  intro k
  induction k with
  | zero =>
    intro _
    obtain ⟨f1, f2, f3⟩ := (after_counter_stage_fields s).2.1 hr
    have e : (s.ctr.m_line_counter == s.regs.m_vert_char_total) = true := by
      rw [hl]; exact beq_self_eq_true _
    rw [if_pos e] at f1 f2
    refine ⟨f1, f2, 1, le_refl 1, le_refl 1, ?_⟩
    have hm := Nat.and_pow_two_sub_one_eq_mod (s.ctr.m_line_counter + 1) 7
    exact f3.trans (hm.trans (by rw [hl]))
  | succ k ih =>
    intro hk
    obtain ⟨i1, i2, j, hj1, hj2, i3⟩ := ih (by omega)
    obtain ⟨t, ht⟩ : ∃ t : State, t = line_ticks ccv k s := ⟨_, rfl⟩
    have htr : t.regs = s.regs := by rw [ht]; exact (line_ticks_frame ccv k s).1
    rw [← ht] at i1 i2 i3
    obtain ⟨-, a1, a2, a3⟩ := (adjust_tick ccv t k i1 i2 (by rw [htr]; exact hvta)).1
      (by rw [htr]; omega)
    obtain ⟨u, hu⟩ : ∃ u : State, u = (handle_line_timer ccv t).1 := ⟨_, rfl⟩
    have hu2 : line_ticks ccv (k + 1) s = u := by rw [hu, ht]; rfl
    have hur : u.regs = s.regs := by rw [← hu2]; exact (line_ticks_frame ccv (k + 1) s).1
    rw [← hu] at a1 a2 a3
    rw [hu2]
    have hlc : u.ctr.m_line_counter = (s.regs.m_vert_char_total + j) % 128 := a3.trans i3
    have hne : ¬ ((u.ctr.m_line_counter == u.regs.m_vert_char_total) = true) := by
      rw [hur, hlc]
      simp only [beq_iff_eq]
      omega
    have hf := after_counter_stage_fields u
    by_cases hb : (u.ctr.m_raster_counter : Int) = char_height u - 1
    · obtain ⟨f1, f2, f3⟩ := hf.2.1 hb
      rw [if_neg hne] at f1 f2
      refine ⟨f1.trans a1, f2.trans a2, j + 1, by omega, by omega, ?_⟩
      have hm := Nat.and_pow_two_sub_one_eq_mod (u.ctr.m_line_counter + 1) 7
      rw [f3, hm, hlc]
      omega
    · obtain ⟨f1, f2, f3⟩ := hf.2.2 hb
      exact ⟨f1.trans a1, f2.trans a2, j, hj1, by omega, f3.trans hlc⟩

/-- C20: frame wrap. With vertical-total-adjust in its 5-bit range, from a
state with the raster counter at its maximum (max-raster-address + adjust - 1)
and the line counter equal to vertical-total (vertical adjust inactive or
not), line ticks alone (registers held constant) do this: the next tick
enters vertical adjust, which is active after its counter stage; vertical
adjust is active after each of the ticks 1 .. vertical-total-adjust, during
none of which the frame resets; tick vertical-total-adjust + 1 (the entering
tick itself when vertical-total-adjust is 0) is the frame reset, after which
vertical adjust is inactive, the line counter and raster counter are 0 and
the line address is the display-start address. -/
theorem frame_wrap_after_vertical_adjust (ccv : State → Nat → Nat → Bool) (s : State)
    (hvta : s.regs.m_vert_total_adj ≤ 31)
    (hr : (s.ctr.m_raster_counter : Int) = char_height s - 1)
    (hl : s.ctr.m_line_counter = s.regs.m_vert_char_total) :
    adjust_entered_in_tick s = true ∧
    (after_counter_stage s).ctr.m_adjust_active = 1 ∧
    (∀ n, (line_ticks ccv n s).regs = s.regs) ∧
    (∀ k, 1 ≤ k → k ≤ s.regs.m_vert_total_adj →
      (line_ticks ccv k s).ctr.m_adjust_active = 1) ∧
    (∀ k, k < s.regs.m_vert_total_adj → frame_reset_in_tick (line_ticks ccv k s) = false) ∧
    frame_reset_in_tick (line_ticks ccv s.regs.m_vert_total_adj s) = true ∧
    (line_ticks ccv (s.regs.m_vert_total_adj + 1) s).ctr.m_adjust_active = 0 ∧
    (line_ticks ccv (s.regs.m_vert_total_adj + 1) s).ctr.m_line_counter = 0 ∧
    (line_ticks ccv (s.regs.m_vert_total_adj + 1) s).ctr.m_raster_counter = 0 ∧
    (line_ticks ccv (s.regs.m_vert_total_adj + 1) s).ctr.m_line_address
      = s.regs.m_disp_start_addr := by
  have inv := adjust_invariant ccv s hvta hr hl
  have hreg : ∀ n, (line_ticks ccv n s).regs = s.regs := fun n => (line_ticks_frame ccv n s).1
  have tick : ∀ k, k ≤ s.regs.m_vert_total_adj →
      (k < s.regs.m_vert_total_adj →
        frame_reset_in_tick (line_ticks ccv k s) = false ∧
        (line_ticks ccv (k + 1) s).ctr.m_adjust_active = 1) ∧
      (k = s.regs.m_vert_total_adj →
        frame_reset_in_tick (line_ticks ccv k s) = true ∧
        (line_ticks ccv (k + 1) s).ctr.m_adjust_active = 0 ∧
        (line_ticks ccv (k + 1) s).ctr.m_line_counter = 0 ∧
        (line_ticks ccv (k + 1) s).ctr.m_raster_counter = 0 ∧
        (line_ticks ccv (k + 1) s).ctr.m_line_address = s.regs.m_disp_start_addr) := by
    intro k hk
    obtain ⟨i1, i2, -⟩ := inv k hk
    have h := adjust_tick ccv (line_ticks ccv k s) k i1 i2 (by rw [hreg k]; exact hvta)
    rw [hreg k] at h
    constructor
    · intro hlt
      obtain ⟨a0, a1, -, -⟩ := h.1 hlt
      exact ⟨a0, a1⟩
    · intro heq
      exact h.2 heq
  refine ⟨?_, (inv 0 (Nat.zero_le _)).1, hreg, ?_, ?_, ?_, ?_⟩
  · have wc := line_vsync_width_counters
      { s with ctr := { s.ctr with m_character_counter := 0, m_cursor_x := -1 } } false
    have wf := line_vsync_width_frame
      { s with ctr := { s.ctr with m_character_counter := 0, m_cursor_x := -1 } } false
    have hch := char_height_congr _ s wf.2.2 wf.2.1
    unfold adjust_entered_in_tick
    simp only []
    rw [hch, wc.2.2.2.1, wc.2.2.1, wf.2.2]
    simp only [Bool.and_eq_true, beq_iff_eq]
    exact ⟨hr, hl⟩
  · intro k hk1 hk2
    obtain ⟨n, hn⟩ : ∃ n, k = n + 1 := ⟨k - 1, by omega⟩
    rw [hn]
    exact ((tick n (by omega)).1 (by omega)).2
  · intro k hk
    exact ((tick k (by omega)).1 hk).1
  · exact ((tick _ (le_refl _)).2 rfl).1
  · exact ((tick _ (le_refl _)).2 rfl).2

set_option maxRecDepth 100000 in
/-- On the MC6845-1 with vertical total 30 and vertical total adjust 3, from
the last raster row of character row 30: vertical adjust is active after
ticks 1, 2 and 3, and tick 4 resets the frame. -/
theorem frame_wrap_after_vertical_adjust_witness :
    frame_end_row.regs.m_vert_total_adj = 3 ∧
    frame_end_row.ctr.m_adjust_active = 0 ∧
    adjust_entered_in_tick frame_end_row = true ∧
    (after_counter_stage frame_end_row).ctr.m_adjust_active = 1 ∧
    (∀ n, (line_ticks check_cursor_visible n frame_end_row).regs = frame_end_row.regs) ∧
    (∀ k, 1 ≤ k → k ≤ frame_end_row.regs.m_vert_total_adj →
      (line_ticks check_cursor_visible k frame_end_row).ctr.m_adjust_active = 1) ∧
    (∀ k, k < frame_end_row.regs.m_vert_total_adj →
      frame_reset_in_tick (line_ticks check_cursor_visible k frame_end_row) = false) ∧
    frame_reset_in_tick (line_ticks check_cursor_visible 3 frame_end_row) = true ∧
    (line_ticks check_cursor_visible 4 frame_end_row).ctr.m_adjust_active = 0 ∧
    (line_ticks check_cursor_visible 4 frame_end_row).ctr.m_line_counter = 0 ∧
    (line_ticks check_cursor_visible 4 frame_end_row).ctr.m_raster_counter = 0 ∧
    (line_ticks check_cursor_visible 4 frame_end_row).ctr.m_line_address = 0x0123 :=
  ⟨by decide, by decide,
    frame_wrap_after_vertical_adjust check_cursor_visible frame_end_row
      (by decide) (by decide) (by decide)⟩

/-- What `draw_scanline` does when the character height is not 0 and the
row-drawing callback is bound: the raster row, the state and the one call. -/
theorem draw_scanline_eq (ccv : State → Nat → Nat → Bool) (s : State) (y : Int)
    (h0 : char_height s ≠ 0) (hb : s.cfg.update_row_cb_bound = true) :
    draw_scanline ccv s y
      = .ok (u8 (Int.tmod y (char_height s)),
          (if ((u8 (Int.tmod y (char_height s)) : Nat) : Int) == char_height s - 1 then
            { s with ctr := { s.ctr with
                m_current_disp_addr :=
                  (s.ctr.m_current_disp_addr + s.regs.m_horiz_disp) &&& 0x3fff } }
           else s),
          [Event.update_row_cb
            (if (s.regs.m_mode_control &&& 0x04) != 0 then
              ((u16 (((u16 (((u8 (Int.tdiv y (char_height s)) <<< 8) ||| 0 : Nat) : Int) : Nat) : Int)
                + s.regs.m_disp_start_addr) : Nat) : Int)
             else s.ctr.m_current_disp_addr)
            (u8 (Int.tmod y (char_height s))) (u16 y : Nat) s.regs.m_horiz_disp
            (i8 (if ccv s (u8 (Int.tmod y (char_height s))) s.ctr.m_current_disp_addr then
              (s.regs.m_cursor_addr : Int) - s.ctr.m_current_disp_addr else -1))
            (if y ≤ s.geom.m_max_visible_y then 1 else 0)
            (if (s.geom.m_horiz_pix_total : Int) - s.geom.m_hsync_off_pos < 0 then 0
             else (s.geom.m_horiz_pix_total : Int) - s.geom.m_hsync_off_pos)
            (if (s.geom.m_vert_pix_total : Int) - s.geom.m_vsync_off_pos < 0 then 0
             else (s.geom.m_vert_pix_total : Int) - s.geom.m_vsync_off_pos)]) := by
  unfold draw_scanline
  rw [if_neg h0]
  simp only [hb, Bool.not_true, Bool.false_eq_true, if_false]
  split_ifs <;> rfl

theorem u8_tmod (y H : Int) (hy : 0 ≤ y) (h0 : 0 < H) (h256 : H ≤ 256) :
    u8 (Int.tmod y H) = (y % H).toNat := by
  rw [Int.tmod_eq_emod hy (le_of_lt h0)]
  have h1 := Int.emod_nonneg y (ne_of_gt h0)
  have h2 := Int.emod_lt_of_pos y h0
  unfold u8
  omega

theorem row_calls_append (a b : List Event) : row_calls (a ++ b) = row_calls a ++ row_calls b := by
  induction a with
  | nil => rfl
  | cons e rest ih =>
    cases e <;> simp [row_calls, ih]

theorem succ_div_of_mod (y H : Nat) (hH : 0 < H) :
    (y % H + 1 = H → (y + 1) / H = y / H + 1) ∧ (y % H + 1 ≠ H → (y + 1) / H = y / H) := by
  have h := Nat.div_add_mod y H
  have hlt := Nat.mod_lt y hH
  constructor
  · intro he
    have h1 : y + 1 = H * (y / H + 1) := by rw [Nat.mul_add]; omega
    rw [h1, Nat.mul_div_cancel_left _ hH]
  · intro hne
    have h1 : y + 1 = (y % H + 1) + H * (y / H) := by omega
    rw [h1, Nat.add_mul_div_left _ _ hH, Nat.div_eq_of_lt (by omega), Nat.zero_add]

/-- One scanline in linear mode: the callback gets the running display
address, which advances by horizontal-displayed (modulo 0x4000) after the
last raster row of a character row. -/
theorem draw_scanline_linear (ccv : State → Nat → Nat → Bool) (t : State) (y H A : Nat)
    (hH : char_height t = H) (h0 : 0 < H) (h256 : H ≤ 256) (hy : y < 65536)
    (hb : t.cfg.update_row_cb_bound = true) (hlin : t.regs.m_mode_control &&& 0x04 = 0)
    (ha : t.ctr.m_current_disp_addr = (A + (y / H) * t.regs.m_horiz_disp) % 0x4000) :
    ∃ t1 ev, draw_scanline ccv t (y : Int) = .ok (y % H, t1, ev) ∧
      row_calls ev = [((((A + (y / H) * t.regs.m_horiz_disp) % 0x4000 : Nat) : Int), (y : Int))] ∧
      t1.regs = t.regs ∧ t1.cfg = t.cfg ∧
      t1.ctr.m_current_disp_addr = (A + ((y + 1) / H) * t.regs.m_horiz_disp) % 0x4000 := by
  have hH0 : char_height t ≠ 0 := by rw [hH]; omega
  have hra : u8 (Int.tmod (y : Int) (char_height t)) = y % H := by
    rw [hH, ← Int.ofNat_tmod]
    have := Nat.mod_lt y h0
    unfold u8
    omega
  have hm : (t.regs.m_mode_control &&& 0x04 != 0) = false := by rw [hlin]; rfl
  have hyu : u16 (y : Int) = y := by
    unfold u16
    omega
  rw [draw_scanline_eq ccv t y hH0 hb, hra, hm, hH, hyu]
  simp only [Bool.false_eq_true, if_false]
  refine ⟨_, _, rfl, ?_, ?_⟩
  · rw [ha]; rfl
  · have hd := succ_div_of_mod y H h0
    have hlt := Nat.mod_lt y h0
    by_cases hlast : y % H + 1 = H
    · have e : (((y % H : Nat) : Int) == (H : Int) - 1) = true := by
        rw [beq_iff_eq]; omega
      rw [if_pos e, hd.1 hlast]
      refine ⟨rfl, rfl, ?_⟩
      show (t.ctr.m_current_disp_addr + t.regs.m_horiz_disp) &&& 0x3fff = _
      rw [Nat.and_pow_two_sub_one_eq_mod _ 14, ha, Nat.mod_add_mod, Nat.add_mul, Nat.one_mul,
        Nat.add_assoc]
    · have e : ¬ ((((y % H : Nat) : Int) == (H : Int) - 1) = true) := by
        rw [beq_iff_eq]; omega
      rw [if_neg e, hd.2 hlast]
      exact ⟨rfl, rfl, ha⟩

/-- The loop of `screen_update` in linear mode: `n` scanlines from `y` on are
drawn in order, each with the address display-start + (y div H) *
horizontal-displayed modulo 0x4000. -/
theorem draw_scanlines_linear (ccv : State → Nat → Nat → Bool) (H A : Nat) (regs : RegisterBank)
    (cfg : ChipConfiguration) (h0 : 0 < H) (h256 : H ≤ 256)
    (hb : cfg.update_row_cb_bound = true) (hlin : regs.m_mode_control &&& 0x04 = 0) (n : Nat) :
    ∀ (t : State) (y : Nat), y + n ≤ 65536 → t.regs = regs → t.cfg = cfg → char_height t = H →
      t.ctr.m_current_disp_addr = (A + (y / H) * regs.m_horiz_disp) % 0x4000 →
      ∃ t1 ev, draw_scanlines ccv t y n = .ok (t1, ev) ∧ t1.regs = regs ∧ t1.cfg = cfg ∧
        row_calls ev = (List.range n).map (fun i =>
          ((((A + ((y + i) / H) * regs.m_horiz_disp) % 0x4000 : Nat) : Int), ((y + i : Nat) : Int))) := by
  induction n with
  | zero =>
    intro t y _ hr hc _ _
    exact ⟨t, [], rfl, hr, hc, rfl⟩
  | succ n ih =>
    intro t y hyn hr hc hH ha
    obtain ⟨t1, ev1, e1, c1, r1, g1, a1⟩ := draw_scanline_linear ccv t y H A hH h0 h256
      (by omega) (by rw [hc]; exact hb) (by rw [hr]; exact hlin) (by rw [hr]; exact ha)
    have hH1 : char_height t1 = H := by
      rw [char_height_congr t1 t r1 g1]; exact hH
    rw [hr] at a1 c1
    obtain ⟨t2, ev2, e2, r2, g2, c2⟩ := ih t1 (y + 1) (by omega) (r1.trans hr) (g1.trans hc)
      hH1 a1
    refine ⟨t2, ev1 ++ ev2, ?_, r2, g2, ?_⟩
    · simp only [draw_scanlines, e1, e2]
    · rw [row_calls_append, c1, c2, List.range_succ_eq_map, List.map_cons, List.map_map]
      simp only [List.singleton_append, Nat.add_zero, List.cons.injEq, true_and]
      apply List.map_congr_left
      intro i _
      simp only [Function.comp, Nat.succ_eq_add_one]
      rw [show y + 1 + i = y + (i + 1) by omega]

set_option maxRecDepth 100000 in
/-- Beyond any frame: a clip rectangle that ends at y = 65535 lies outside
every frame, whose height is a `uint16_t` value; with such a rectangle the
loop of `screen_update` does not end, its loop variable being a `uint16_t`
that never exceeds `cliprect.max_y`. -/
theorem screen_update_clip_65535_endless :
    (linear_chip.regs.m_mode_control &&& 0x04 = 0 ∧
      linear_chip.geom.m_has_valid_parameters = true ∧
      linear_chip.cfg.update_row_cb_bound = true ∧
      linear_chip.regs.m_disp_start_addr ≤ 0x3fff) ∧
    screen_update check_cursor_visible linear_chip
        { min_x := 0, max_x := 319, min_y := 0, max_y := 65535 }
      = .error Fatal.endless_loop :=
  ⟨by decide, rfl⟩

/-- C22: linear addressing over a frame.  In linear mode (mode_control bit 2
clear) with valid parameters, a bound row-drawing callback, a positive
character height H = max-raster-address + adjust (within the 8-bit raster row)
and display-start address <= 0x3fff, a `screen_update` whose clip rectangle
starts at y = 0 and ends within a frame returns, changes no register, and
calls the row-drawing callback once per scanline 0 .. cliprect.max_y in
increasing y order, the address passed for scanline y being (display-start +
(y div H) * horizontal-displayed) mod 0x4000.  The frame height is a
`uint16_t` value, so a clip rectangle within a frame ends below y = 65535,
which is all the theorem asks of it. -/
theorem screen_update_linear_addresses (ccv : State → Nat → Nat → Bool) (s : State)
    (cliprect : Rectangle) (H : Nat)
    (hH : char_height s = H) (h0 : 0 < H) (h256 : H ≤ 256)
    (hvalid : s.geom.m_has_valid_parameters = true)
    (hb : s.cfg.update_row_cb_bound = true)
    (hlin : s.regs.m_mode_control &&& 0x04 = 0)
    (hstart : s.regs.m_disp_start_addr ≤ 0x3fff)
    (hmin : cliprect.min_y = 0) (hmax : cliprect.max_y < 65535) :
    ∃ s1 ev, screen_update ccv s cliprect = .ok (s1, ev) ∧ s1.regs = s.regs ∧
      row_calls ev = (List.range (cliprect.max_y + 1).toNat).map (fun y =>
        ((((s.regs.m_disp_start_addr + (y / H) * s.regs.m_horiz_disp) % 0x4000 : Nat) : Int),
         (y : Int))) := by
  obtain ⟨s2, hs2⟩ : ∃ s2 : State, s2 = { s with ctr := { s.ctr with
      m_display_disabled_msg_shown := false,
      m_current_disp_addr := s.regs.m_disp_start_addr } } := ⟨_, rfl⟩
  have hu : u16 cliprect.min_y = 0 := by rw [hmin]; rfl
  have ha : s2.ctr.m_current_disp_addr
      = (s.regs.m_disp_start_addr + (0 / H) * s.regs.m_horiz_disp) % 0x4000 := by
    rw [hs2, Nat.zero_div, Nat.zero_mul, Nat.add_zero]
    exact (Nat.mod_eq_of_lt (Nat.lt_succ_of_le hstart)).symm
  obtain ⟨s3, ev3, e3, r3, g3, c3⟩ := draw_scanlines_linear ccv H s.regs.m_disp_start_addr
    s.regs s.cfg h0 h256 hb hlin (cliprect.max_y + 1).toNat s2 0 (by omega) (by rw [hs2])
    (by rw [hs2])
    (by rw [← hH, hs2]; rfl) ha
  refine ⟨s3,
    (if s.ctr.m_display_disabled_msg_shown then [Event.log_display_reenabled] else []) ++
      (if s.cfg.begin_update_cb_bound then [Event.begin_update_cb] else []) ++ ev3 ++
      (if s3.cfg.end_update_cb_bound then [Event.end_update_cb] else []), ?_, r3, ?_⟩
  · unfold screen_update
    rw [if_pos hvalid]
    simp only [hb, Bool.not_true, Bool.false_eq_true, if_false, hmin, if_true,
      not_le.mpr hmax, ge_iff_le]
    rw [show u16 (0 : Int) = 0 from rfl]
    simp only [Nat.cast_zero, sub_zero]
    rw [← hs2, e3]
  · simp only [row_calls_append]
    rw [c3]
    have z1 : row_calls (if s.ctr.m_display_disabled_msg_shown = true
        then [Event.log_display_reenabled] else []) = [] := by split_ifs <;> rfl
    have z2 : row_calls (if s.cfg.begin_update_cb_bound = true
        then [Event.begin_update_cb] else []) = [] := by split_ifs <;> rfl
    have z3 : row_calls (if s3.cfg.end_update_cb_bound = true
        then [Event.end_update_cb] else []) = [] := by split_ifs <;> rfl
    rw [z1, z2, z3]
    simp only [List.nil_append, List.append_nil, Nat.zero_add]

set_option maxRecDepth 100000 in
/-- Witness for C22: 18 scanlines of the linear chip (character height 8,
40 characters displayed, display start 0x3ff0); the address wraps modulo
0x4000 from the second character row on. -/
theorem screen_update_linear_addresses_witness :
    ∃ s1 ev,
      screen_update check_cursor_visible linear_chip
          { min_x := 0, max_x := 319, min_y := 0, max_y := 17 } = .ok (s1, ev) ∧
      s1.regs = linear_chip.regs ∧
      row_calls ev = (List.range 18).map (fun y =>
        ((((0x3ff0 + (y / 8) * 40) % 0x4000 : Nat) : Int), (y : Int))) :=
  screen_update_linear_addresses check_cursor_visible linear_chip
    { min_x := 0, max_x := 319, min_y := 0, max_y := 17 } 8
    (by decide) (by decide) (by decide) (by decide) (by decide) (by decide) (by decide)
    (by decide) (by decide)

set_option maxRecDepth 100000 in
/-- C23 fails on the code: with 200 characters per line and the cursor
visible in column 150 (`check_cursor_visible` holds for raster row 0 and the
current display address 0, and the line tick has stored `m_cursor_x` = 150),
`draw_scanline(0)` passes cursor_x = -106, the column truncated to a signed
8-bit value: a negative value although the cursor is visible on the row. -/
theorem draw_scanline_cursor_column_truncated :
    check_cursor_visible wide_line_chip 0 wide_line_chip.ctr.m_current_disp_addr = true ∧
    (wide_line_chip.regs.m_cursor_addr : Int) - wide_line_chip.ctr.m_current_disp_addr = 150 ∧
    wide_line_chip.regs.m_horiz_disp = 200 ∧
    wide_line_chip.ctr.m_cursor_x = 150 ∧
    draw_scanline check_cursor_visible wide_line_chip 0
      = .ok (0, wide_line_chip, [Event.update_row_cb 0 0 0 200 (-106) 1 2032 0]) :=
  ⟨by decide, by decide, by decide, by decide, rfl⟩

theorem call_on_update_address_result (s : State) (strobe : Nat) :
    (s.cfg.on_update_addr_changed_cb_bound = false →
      call_on_update_address s strobe = .error Fatal.transparent_memory_mode_without_handler) ∧
    (s.cfg.on_update_addr_changed_cb_bound = true →
      ∃ r, call_on_update_address s strobe = .ok r) := by
  unfold call_on_update_address
  constructor
  · intro h
    simp [h]
  · intro h
    simp [h]

theorem transparent_update_phi2 (s : State) (h1 : s.cfg.m_supports_transparent = true)
    (h2 : MODE_TRANSPARENT_PHI2 s = true) :
    (s.cfg.on_update_addr_changed_cb_bound = false →
      transparent_update s = .error Fatal.transparent_memory_mode_without_handler) ∧
    (s.cfg.on_update_addr_changed_cb_bound = true → ∃ r, transparent_update s = .ok r) := by
  have h3 := phi2_implies_transparent s h2
  constructor
  · intro h
    simp [transparent_update, call_on_update_address, h1, h2, h3, h]
  · intro h
    simp [transparent_update, call_on_update_address, h1, h2, h3, h]

theorem transparent_update_unsupported (s : State) (h1 : s.cfg.m_supports_transparent = false) :
    transparent_update s = .ok (s, []) := by
  simp [transparent_update, h1]

theorem register_w_of_store (s : State) (data : Nat) :
    (∀ e, register_w_store s data = .error e → register_w s data = .error e) ∧
    ((∃ r, register_w_store s data = .ok r) → ∃ r, register_w s data = .ok r) := by
  constructor
  · intro e h
    simp only [register_w, h]
  · rintro ⟨⟨s1, ev1⟩, h⟩
    simp only [register_w, h]
    exact ⟨_, rfl⟩

theorem register_w_store_unsupported (s : State) (data : Nat)
    (h1 : s.cfg.m_supports_transparent = false) : ∃ r, register_w_store s data = .ok r := by
  unfold register_w_store
  split
  all_goals first
    | exact ⟨_, rfl⟩
    | (simp only [h1, Bool.false_eq_true, if_false]; exact ⟨_, rfl⟩)
    | (rw [transparent_update_unsupported s h1]; exact ⟨_, rfl⟩)

/-- C24: transparent mode without a handler is fatal, and only that.
`call_on_update_address` fails with the fatal error exactly when the
update-address-changed callback is unbound and returns when it is bound.  On a
transparent-capable variant in PHI2 transparent mode ((mode_control & 0x88) ==
0x88), `register_w` with the latch at 0x12, 0x13 or 0x1f and `register_r` with
the latch at 0x1f fail fatally when no handler is bound and return when one
is bound.  On a variant without transparent support `register_w` and
`register_r` return for every latch value and data byte. -/
theorem transparent_mode_without_handler_fatal (s : State) (data strobe : Nat) :
    ((call_on_update_address s strobe = .error Fatal.transparent_memory_mode_without_handler ↔
        s.cfg.on_update_addr_changed_cb_bound = false) ∧
      ((∃ r, call_on_update_address s strobe = .ok r) ↔
        s.cfg.on_update_addr_changed_cb_bound = true)) ∧
    (s.cfg.m_supports_transparent = true → MODE_TRANSPARENT_PHI2 s = true →
      (s.ctr.m_register_address_latch = 0x12 ∨ s.ctr.m_register_address_latch = 0x13 ∨
        s.ctr.m_register_address_latch = 0x1f) →
      (s.cfg.on_update_addr_changed_cb_bound = false →
        register_w s data = .error Fatal.transparent_memory_mode_without_handler) ∧
      (s.cfg.on_update_addr_changed_cb_bound = true → ∃ r, register_w s data = .ok r)) ∧
    (s.cfg.m_supports_transparent = true → MODE_TRANSPARENT_PHI2 s = true →
      s.ctr.m_register_address_latch = 0x1f →
      (s.cfg.on_update_addr_changed_cb_bound = false →
        register_r s = .error Fatal.transparent_memory_mode_without_handler) ∧
      (s.cfg.on_update_addr_changed_cb_bound = true → ∃ r, register_r s = .ok r)) ∧
    (s.cfg.m_supports_transparent = false →
      (∃ r, register_w s data = .ok r) ∧ (∃ r, register_r s = .ok r)) := by
  refine ⟨⟨?_, ?_⟩, ?_, ?_, ?_⟩
  · unfold call_on_update_address
    cases s.cfg.on_update_addr_changed_cb_bound <;> simp
  · unfold call_on_update_address
    cases s.cfg.on_update_addr_changed_cb_bound <;> simp
  · intro h1 h2 hl
    have hstore : (s.cfg.on_update_addr_changed_cb_bound = false →
          register_w_store s data = .error Fatal.transparent_memory_mode_without_handler) ∧
        (s.cfg.on_update_addr_changed_cb_bound = true →
          ∃ r, register_w_store s data = .ok r) := by
      have h2' : (s.regs.m_mode_control &&& 0x88 == 0x88) = true := h2
      rcases hl with hl | hl | hl
      · constructor
        · intro h
          simp [register_w_store, hl, h1, MODE_TRANSPARENT_PHI2, h2', call_on_update_address, h]
        · intro h
          simp [register_w_store, hl, h1, MODE_TRANSPARENT_PHI2, h2', call_on_update_address, h]
      · constructor
        · intro h
          simp [register_w_store, hl, h1, MODE_TRANSPARENT_PHI2, h2', call_on_update_address, h]
        · intro h
          simp [register_w_store, hl, h1, MODE_TRANSPARENT_PHI2, h2', call_on_update_address, h]
      · have ht := transparent_update_phi2 s h1 h2
        have he : register_w_store s data = transparent_update s := by
          simp [register_w_store, hl]
        rw [he]
        exact ht
    exact ⟨fun h => (register_w_of_store s data).1 _ (hstore.1 h),
      fun h => (register_w_of_store s data).2 (hstore.2 h)⟩
  · intro h1 h2 hl
    have ht := transparent_update_phi2 s h1 h2
    constructor
    · intro h
      simp [register_r, hl, ht.1 h]
    · intro h
      obtain ⟨⟨s1, ev⟩, hr⟩ := ht.2 h
      simp [register_r, hl, hr]
  · intro h1
    refine ⟨(register_w_of_store s data).2 (register_w_store_unsupported s data h1), ?_⟩
    unfold register_r
    split
    all_goals first
      | exact ⟨_, rfl⟩
      | (rw [transparent_update_unsupported s h1]; exact ⟨_, rfl⟩)

set_option maxRecDepth 100000 in
/-- Witness for C24: the started R6545-1 (transparent-capable, no handler
bound) in PHI2 transparent mode fails on a write to register 0x12, and
returns once a handler is bound; the started MC6845 (no transparent support)
returns from a write and a read with the latch at 0x1f. -/
theorem transparent_mode_without_handler_fatal_witness :
    register_w (address_w { r6545_1_started with
        regs := { r6545_1_started.regs with m_mode_control := 0x88 } } 0x12) 0x55
      = .error Fatal.transparent_memory_mode_without_handler ∧
    (∃ r, register_w (address_w { r6545_1_started with
        cfg := { r6545_1_started.cfg with on_update_addr_changed_cb_bound := true },
        regs := { r6545_1_started.regs with m_mode_control := 0x88 } } 0x12) 0x55 = .ok r) ∧
    ((∃ r, register_w (address_w mc6845_started 0x1f) 0x55 = .ok r) ∧
      (∃ r, register_r (address_w mc6845_started 0x1f) = .ok r)) :=
  ⟨((transparent_mode_without_handler_fatal (address_w { r6545_1_started with
        regs := { r6545_1_started.regs with m_mode_control := 0x88 } } 0x12) 0x55 0).2.1
      (by decide) (by decide) (by decide)).1 (by decide),
   ((transparent_mode_without_handler_fatal (address_w { r6545_1_started with
        cfg := { r6545_1_started.cfg with on_update_addr_changed_cb_bound := true },
        regs := { r6545_1_started.regs with m_mode_control := 0x88 } } 0x12) 0x55 0).2.1
      (by decide) (by decide) (by decide)).2 (by decide),
   (transparent_mode_without_handler_fatal (address_w mc6845_started 0x1f) 0x55 0).2.2.2
      (by decide)⟩

set_option maxRecDepth 100000 in
/-- C25 fails on the code: `device_reset` reports the low level to the DE,
HSYNC and VSYNC callbacks but leaves the stored levels as they were, so the
getters return what they returned before the reset.  On a started MC6845 an
HSYNC-on event followed by a reset ends with `hsync_r` = 1, after the
callback has been told 0. -/
theorem device_reset_keeps_stored_levels :
    (∀ (s : State) (line_timer_enabled : Bool),
      de_r (device_reset s line_timer_enabled).1 = de_r s ∧
      hsync_r (device_reset s line_timer_enabled).1 = hsync_r s ∧
      vsync_r (device_reset s line_timer_enabled).1 = vsync_r s ∧
      (device_reset s line_timer_enabled).2.take 3
        = [Event.out_de_cb 0, Event.out_hsync_cb 0, Event.out_vsync_cb 0]) ∧
    (run check_cursor_visible mc6845_started reset_during_hsync).map
        (fun r => (de_r r.1, hsync_r r.1, vsync_r r.1, r.2))
      = .ok (0, 1, 0,
          [Event.out_hsync_cb 1,
           Event.timer_adjust TimerId.TIMER_HSYNC_OFF (Delay.clocks 1) 0,
           Event.out_de_cb 0, Event.out_hsync_cb 0, Event.out_vsync_cb 0,
           Event.timer_adjust TimerId.TIMER_LINE (Delay.clocks 256) 0]) :=
  ⟨fun _ _ => ⟨rfl, rfl, rfl, rfl⟩, rfl⟩

set_option maxRecDepth 100000 in
/-- C26 fails on the code: `device_reset` clears horizontal-displayed (R1),
mode control (R8) and the cursor address (R14/R15); the other registers
R0..R13 keep their value.  After a bus master has programmed R1 = 40, R8 =
0x01 and the cursor address 0x0123, a reset leaves all three at 0. -/
theorem device_reset_clears_registers :
    (∀ (s : State) (line_timer_enabled : Bool),
      (device_reset s line_timer_enabled).1.regs
        = { s.regs with m_cursor_addr := 0, m_horiz_disp := 0, m_mode_control := 0,
                        m_update_addr := 0, m_light_pen_addr := 0 }) ∧
    (run check_cursor_visible mc6845_started (program_then_reset.take 8)).map
        (fun r => (r.1.regs.m_horiz_disp, r.1.regs.m_mode_control, r.1.regs.m_cursor_addr))
      = .ok (40, 0x01, 0x0123) ∧
    (run check_cursor_visible mc6845_started program_then_reset).map
        (fun r => (r.1.regs.m_horiz_disp, r.1.regs.m_mode_control, r.1.regs.m_cursor_addr))
      = .ok (0, 0, 0) :=
  ⟨fun _ _ => rfl, rfl, rfl⟩

/-- The counter stage of the line tick that starts in `s`, on the raster
counter, the line counter and the line address. -/
theorem after_counter_stage_row (s : State) :
    ((s.ctr.m_raster_counter : Int) = char_height s - 1 →
      (after_counter_stage s).ctr.m_raster_counter = 0 ∧
      (after_counter_stage s).ctr.m_line_counter = (s.ctr.m_line_counter + 1) % 128 ∧
      (after_counter_stage s).ctr.m_line_address
        = (s.ctr.m_line_address + s.regs.m_horiz_disp) % 0x4000) ∧
    ((s.ctr.m_raster_counter : Int) ≠ char_height s - 1 →
      (after_counter_stage s).ctr.m_raster_counter = (s.ctr.m_raster_counter + 1) % 32 ∧
      (after_counter_stage s).ctr.m_line_counter = s.ctr.m_line_counter ∧
      (after_counter_stage s).ctr.m_line_address = s.ctr.m_line_address) := by
  obtain ⟨s0, hs0⟩ : ∃ s0 : State, s0 = { s with ctr := { s.ctr with
      m_character_counter := 0, m_cursor_x := -1 } } := ⟨_, rfl⟩
  obtain ⟨w, hw⟩ : ∃ w : State, w = (line_vsync_width s0 false).1 := ⟨_, rfl⟩
  have hc : after_counter_stage s = (line_counters w false).1 := by rw [hw, hs0]; rfl
  have wf := line_vsync_width_frame s0 false
  have wc := line_vsync_width_counters s0 false
  rw [← hw] at wf wc
  have hregs : w.regs = s.regs := by rw [wf.2.2, hs0]
  have hcfg : w.cfg = s.cfg := by rw [wf.2.1, hs0]
  have hch : char_height w = char_height s := char_height_congr w s hregs hcfg
  have hras : w.ctr.m_raster_counter = s.ctr.m_raster_counter := by rw [wc.2.2.2.1, hs0]
  have hlc : w.ctr.m_line_counter = s.ctr.m_line_counter := by rw [wc.2.2.1, hs0]
  have hla : w.ctr.m_line_address = s.ctr.m_line_address := by rw [wc.2.2.2.2, hs0]
  have hb := line_boundary_counters w
  have mc := match_line_counters (line_boundary w)
  rw [hlc, hla, hregs] at hb
  rw [hc, line_counters_eq, hch, hras]
  constructor
  · intro h
    have e : ((s.ctr.m_raster_counter : Int) == char_height s - 1) = true := by
      rw [h]; exact beq_self_eq_true _
    rw [if_pos e]
    refine ⟨mc.2.2.2.1.trans hb.2.1, mc.2.2.1.trans (hb.1.trans ?_),
      mc.2.2.2.2.trans (hb.2.2.1.trans ?_)⟩
    · exact Nat.and_pow_two_sub_one_eq_mod _ 7
    · exact Nat.and_pow_two_sub_one_eq_mod _ 14
  · intro h
    have e : ¬ (((s.ctr.m_raster_counter : Int) == char_height s - 1) = true) := by
      simpa using h
    rw [if_neg e]
    refine ⟨?_, hlc, hla⟩
    exact Nat.and_pow_two_sub_one_eq_mod _ 5

theorem line_adjust_no_reset (c : State)
    (h : (c.ctr.m_adjust_active != 0 && c.ctr.m_adjust_counter == c.regs.m_vert_total_adj)
      = false) :
    (line_adjust c false).1.1.ctr.m_raster_counter = c.ctr.m_raster_counter ∧
    (line_adjust c false).1.1.ctr.m_line_counter = c.ctr.m_line_counter ∧
    (line_adjust c false).1.1.ctr.m_line_address = c.ctr.m_line_address ∧
    (line_adjust c false).1.1.ctr.m_adjust_active = c.ctr.m_adjust_active := by
  rw [line_adjust_eq]
  by_cases h1 : (c.ctr.m_adjust_active != 0) = true
  · have h2 : ¬ ((c.ctr.m_adjust_counter == c.regs.m_vert_total_adj) = true) := by
      rw [h1, Bool.true_and] at h
      rw [h]
      exact Bool.false_ne_true
    rw [if_pos h1, if_neg h2]
    exact ⟨rfl, rfl, rfl, rfl⟩
  · rw [if_neg h1]
    exact ⟨rfl, rfl, rfl, rfl⟩

theorem line_adjust_reset_fields (c : State)
    (h : (c.ctr.m_adjust_active != 0 && c.ctr.m_adjust_counter == c.regs.m_vert_total_adj)
      = true) :
    (line_adjust c false).1.1.ctr.m_raster_counter = 0 ∧
    (line_adjust c false).1.1.ctr.m_line_counter = 0 ∧
    (line_adjust c false).1.1.ctr.m_line_address = c.regs.m_disp_start_addr ∧
    (line_adjust c false).1.1.ctr.m_adjust_active = 0 := by
  rw [Bool.and_eq_true] at h
  have ua := update_cursor_state_counters (match_line (frame_origin_reset c)).1
  have ub := update_cursor_state_counters (frame_origin_reset c)
  have mc := match_line_counters (frame_origin_reset c)
  rw [line_adjust_eq, if_pos h.1, if_pos h.2]
  by_cases h3 : c.cfg.m_supports_vert_sync_width = true
  · rw [if_pos h3]
    exact ⟨ua.2.2.2.1.trans mc.2.2.2.1, ua.2.2.1.trans mc.2.2.1,
      ua.2.2.2.2.1.trans mc.2.2.2.2, ua.1.trans mc.1⟩
  · rw [if_neg h3]
    exact ⟨ub.2.2.2.1, ub.2.2.1, ub.2.2.2.2.1, ub.1⟩

theorem after_counter_stage_regs (s : State) :
    (after_counter_stage s).regs = s.regs ∧ (after_counter_stage s).cfg = s.cfg := by
  unfold after_counter_stage
  simp only []
  rw [(line_counters_frame _ _).2.2, (line_counters_frame _ _).2.1,
    (line_vsync_width_frame _ _).2.2, (line_vsync_width_frame _ _).2.1]
  exact ⟨rfl, rfl⟩

theorem frame_reset_in_tick_eq (s : State) :
    frame_reset_in_tick s
      = ((after_counter_stage s).ctr.m_adjust_active != 0 &&
          (after_counter_stage s).ctr.m_adjust_counter
            == (after_counter_stage s).regs.m_vert_total_adj) := rfl

/-- C27: row-boundary step of `handle_line_timer`, for every state.  If
before the tick the raster counter equals max-raster-address + adjust - 1,
then after the counter-advance step the raster counter is 0, the line counter
is (old + 1) mod 128 and the line address is (old + horizontal-displayed) mod
0x4000; otherwise the raster counter is (old + 1) mod 32 and the line counter
and line address are unchanged.  These are the values at the end of the tick
unless the same tick completes vertical adjust, in which case the raster
counter and line counter end at 0 and the line address at the display-start
address. -/
theorem row_boundary_step (ccv : State → Nat → Nat → Bool) (s : State) :
    ((s.ctr.m_raster_counter : Int) = char_height s - 1 →
      (after_counter_stage s).ctr.m_raster_counter = 0 ∧
      (after_counter_stage s).ctr.m_line_counter = (s.ctr.m_line_counter + 1) % 128 ∧
      (after_counter_stage s).ctr.m_line_address
        = (s.ctr.m_line_address + s.regs.m_horiz_disp) % 0x4000) ∧
    ((s.ctr.m_raster_counter : Int) ≠ char_height s - 1 →
      (after_counter_stage s).ctr.m_raster_counter = (s.ctr.m_raster_counter + 1) % 32 ∧
      (after_counter_stage s).ctr.m_line_counter = s.ctr.m_line_counter ∧
      (after_counter_stage s).ctr.m_line_address = s.ctr.m_line_address) ∧
    (frame_reset_in_tick s = false →
      (handle_line_timer ccv s).1.ctr.m_raster_counter
        = (after_counter_stage s).ctr.m_raster_counter ∧
      (handle_line_timer ccv s).1.ctr.m_line_counter
        = (after_counter_stage s).ctr.m_line_counter ∧
      (handle_line_timer ccv s).1.ctr.m_line_address
        = (after_counter_stage s).ctr.m_line_address) ∧
    (frame_reset_in_tick s = true →
      (handle_line_timer ccv s).1.ctr.m_raster_counter = 0 ∧
      (handle_line_timer ccv s).1.ctr.m_line_counter = 0 ∧
      (handle_line_timer ccv s).1.ctr.m_line_address = s.regs.m_disp_start_addr) := by
  have hT := handle_line_timer_ctr ccv s (line_adjust (after_counter_stage s) false).1.1 rfl
  refine ⟨(after_counter_stage_row s).1, (after_counter_stage_row s).2, ?_, ?_⟩
  · intro h
    rw [frame_reset_in_tick_eq] at h
    obtain ⟨a1, a2, a3, -⟩ := line_adjust_no_reset _ h
    exact ⟨hT.2.2.2.1.trans a1, hT.2.2.1.trans a2, hT.2.2.2.2.trans a3⟩
  · intro h
    rw [frame_reset_in_tick_eq] at h
    obtain ⟨a1, a2, a3, -⟩ := line_adjust_reset_fields _ h
    rw [(after_counter_stage_regs s).1] at a3
    exact ⟨hT.2.2.2.1.trans a1, hT.2.2.1.trans a2, hT.2.2.2.2.trans a3⟩

set_option maxRecDepth 100000 in
/-- Witness for C27: on the last raster row (7) of character row 19 the tick
moves to raster row 0 of character row 20, 40 characters further on; on the
last row before the frame reset the tick ends at row 0, line 0, display
start. -/
theorem row_boundary_step_witness :
    ((after_counter_stage before_vsync_row).ctr.m_raster_counter = 0 ∧
      (after_counter_stage before_vsync_row).ctr.m_line_counter = (19 + 1) % 128 ∧
      (after_counter_stage before_vsync_row).ctr.m_line_address = (0 + 40) % 0x4000) ∧
    ((handle_line_timer check_cursor_visible
        (line_ticks check_cursor_visible 3 frame_end_row)).1.ctr.m_raster_counter = 0 ∧
      (handle_line_timer check_cursor_visible
        (line_ticks check_cursor_visible 3 frame_end_row)).1.ctr.m_line_counter = 0 ∧
      (handle_line_timer check_cursor_visible
        (line_ticks check_cursor_visible 3 frame_end_row)).1.ctr.m_line_address = 0x0123) :=
  ⟨(row_boundary_step check_cursor_visible before_vsync_row).1 (by decide),
   (row_boundary_step check_cursor_visible
      (line_ticks check_cursor_visible 3 frame_end_row)).2.2.2 (by decide)⟩

theorem timer_adjusts_append (id : TimerId) (a b : List Event) :
    timer_adjusts id (a ++ b) = timer_adjusts id a ++ timer_adjusts id b := by
  induction a with
  | nil => rfl
  | cons e rest ih =>
    cases e <;> simp [timer_adjusts, ih]
    split_ifs <;> simp

theorem match_line_clk (s : State) : (match_line s).1.m_clk_scale = s.m_clk_scale := by
  unfold match_line
  simp only []
  split_ifs <;> rfl

theorem update_cursor_state_clk (s : State) :
    (update_cursor_state s).m_clk_scale = s.m_clk_scale := by
  unfold update_cursor_state
  simp only []
  split <;> (try split_ifs) <;> rfl

theorem line_boundary_clk (s : State) : (line_boundary s).m_clk_scale = s.m_clk_scale := by
  unfold line_boundary
  simp only []
  split_ifs <;> rfl

theorem stages_clk (s : State) (b : Bool) :
    (line_vsync_width s b).1.m_clk_scale = s.m_clk_scale ∧
    (line_counters s b).1.m_clk_scale = s.m_clk_scale ∧
    (line_adjust s b).1.1.m_clk_scale = s.m_clk_scale := by
  refine ⟨?_, ?_, ?_⟩
  · unfold line_vsync_width
    simp only []
    split_ifs <;> rfl
  · rw [line_counters_eq]
    split_ifs
    · simp only [match_line_clk, line_boundary_clk]
    · rfl
  · rw [line_adjust_eq]
    split_ifs
    all_goals first
      | rfl
      | (simp only [update_cursor_state_clk, match_line_clk]; rfl)

/-- The state of the line tick that starts in `s` when the scheduling stage
begins (after the vertical adjust stage): same registers and clock scale. -/
theorem before_schedule_frame (s : State) :
    (line_adjust (after_counter_stage s) false).1.1.regs = s.regs ∧
    (line_adjust (after_counter_stage s) false).1.1.m_clk_scale = s.m_clk_scale := by
  constructor
  · rw [(line_adjust_frame _ _).2.2, (after_counter_stage_regs s).1]
  · rw [(stages_clk _ _).2.2]
    unfold after_counter_stage
    simp only []
    rw [(stages_clk _ _).2.1, (stages_clk _ _).1]

theorem line_schedule_adjusts (ccv : State → Nat → Nat → Bool) (a : State) :
    timer_adjusts TimerId.TIMER_LINE (line_schedule ccv a).2
      = [(Delay.clocks (((a.regs.m_horiz_char_total + 1 : Nat) : Int) * a.m_clk_scale), 0)] ∧
    timer_adjusts TimerId.TIMER_HSYNC_ON (line_schedule ccv a).2
      = [(Delay.clocks (((a.regs.m_horiz_sync_pos : Nat) : Int) * a.m_clk_scale), 0)] ∧
    timer_adjusts TimerId.TIMER_DE_OFF (line_schedule ccv a).2
      = (if a.ctr.m_line_enable_ff
          then [(Delay.clocks (((a.regs.m_horiz_disp : Nat) : Int) * a.m_clk_scale), 0)]
          else []) := by
  unfold line_schedule
  simp only []
  split_ifs <;> simp [timer_adjusts, cclks_to_attotime]

theorem line_adjust_adjusts (id : TimerId) (c : State) (b : Bool) :
    timer_adjusts id (line_adjust c b).2 = [] := by
  rw [line_adjust_eq]
  split_ifs <;> rfl

theorem set_vsync_adjusts (id : TimerId) (s : State) (state : Int) :
    timer_adjusts id (set_vsync s state).2 = [] := by
  unfold set_vsync
  split_ifs <;> rfl

theorem set_de_adjusts (id : TimerId) (hid : id ≠ TimerId.TIMER_UPD_ADR) (s : State)
    (state : Int) : timer_adjusts id (set_de s state).2 = [] := by
  have h : ¬ (TimerId.TIMER_UPD_ADR = id) := fun e => hid e.symm
  unfold set_de update_upd_adr_timer
  simp only []
  split_ifs <;> simp [timer_adjusts, h]

/-- The timer adjustments of a line tick for the timers `id` other than the
update-address timer are those of the scheduling stage. -/
theorem handle_line_timer_adjusts (ccv : State → Nat → Nat → Bool) (s : State)
    (id : TimerId) (hid : id ≠ TimerId.TIMER_UPD_ADR) :
    timer_adjusts id (handle_line_timer ccv s).2
      = timer_adjusts id
          (line_schedule ccv (line_adjust (after_counter_stage s) false).1.1).2 := by
  unfold handle_line_timer
  simp only []
  rw [timer_adjusts_append, timer_adjusts_append, timer_adjusts_append,
    set_de_adjusts id hid, set_vsync_adjusts, line_adjust_adjusts,
    (line_adjust_flag _ _).1, (line_counters_flag _ _).1, line_vsync_width_state]
  simp only [List.nil_append, List.append_nil]
  rfl

theorem handle_line_timer_line_enable (ccv : State → Nat → Nat → Bool) (s : State) :
    (handle_line_timer ccv s).1.ctr.m_line_enable_ff
      = (line_adjust (after_counter_stage s) false).1.1.ctr.m_line_enable_ff := by
  have hT : (handle_line_timer ccv s).1.ctr
      = (line_schedule ccv (line_adjust (after_counter_stage s) false).1.1).1.ctr := by
    unfold handle_line_timer
    simp only []
    rw [(set_de_frame _ _).1, (set_vsync_frame _ _).1, (line_adjust_flag _ _).1,
      (line_counters_flag _ _).1, line_vsync_width_state]
    rfl
  rw [hT]
  exact (line_schedule_ctr ccv _).2.2.2.2.2.2.2.2

/-- C29: event scheduling delays, in character clocks (`cclks_to_attotime`),
for every state.  Each line tick adjusts the line timer once, to
horizontal-total + 1, and the HSYNC-on timer once, to
horizontal-sync-position; it adjusts the DE-off timer, to
horizontal-displayed, exactly when the line-enable flag is set after the
counter update (the flag the tick ends with).  The HSYNC-on event resets the
hsync width counter, raises HSYNC and adjusts the HSYNC-off timer to W =
sync-width & 0x0f, or 16 when that nibble is 0, so 1 <= W <= 16.  The
CURSOR-on event raises CURSOR and adjusts the CURSOR-off timer to exactly
1. -/
theorem event_scheduling_delays (ccv : State → Nat → Nat → Bool) (s : State) (param : Int)
    (view : TimerView) :
    (timer_adjusts TimerId.TIMER_LINE (handle_line_timer ccv s).2
        = [(Delay.clocks (cclks_to_attotime s (s.regs.m_horiz_char_total + 1 : Nat)), 0)] ∧
      timer_adjusts TimerId.TIMER_HSYNC_ON (handle_line_timer ccv s).2
        = [(Delay.clocks (cclks_to_attotime s (s.regs.m_horiz_sync_pos : Nat)), 0)] ∧
      timer_adjusts TimerId.TIMER_DE_OFF (handle_line_timer ccv s).2
        = (if (line_adjust (after_counter_stage s) false).1.1.ctr.m_line_enable_ff
            then [(Delay.clocks (cclks_to_attotime s (s.regs.m_horiz_disp : Nat)), 0)]
            else []) ∧
      (handle_line_timer ccv s).1.ctr.m_line_enable_ff
        = (line_adjust (after_counter_stage s) false).1.1.ctr.m_line_enable_ff) ∧
    (∃ s1 ev, device_timer ccv s TimerId.TIMER_HSYNC_ON param view = .ok (s1, ev) ∧
      s1.ctr.m_hsync_width_counter = 0 ∧ hsync_r s1 = 1 ∧
      timer_adjusts TimerId.TIMER_HSYNC_OFF ev
        = [(Delay.clocks (cclks_to_attotime s
            ((if s.regs.m_sync_width &&& 0x0f = 0 then 16
              else s.regs.m_sync_width &&& 0x0f : Nat) : Int)), 0)]) ∧
    (1 ≤ (if s.regs.m_sync_width &&& 0x0f = 0 then 16 else s.regs.m_sync_width &&& 0x0f) ∧
      (if s.regs.m_sync_width &&& 0x0f = 0 then 16 else s.regs.m_sync_width &&& 0x0f) ≤ 16) ∧
    (∃ s1 ev, device_timer ccv s TimerId.TIMER_CUR_ON param view = .ok (s1, ev) ∧
      cursor_r s1 = 1 ∧
      timer_adjusts TimerId.TIMER_CUR_OFF ev
        = [(Delay.clocks (cclks_to_attotime s 1), 0)]) := by
  have hf := before_schedule_frame s
  have hs := line_schedule_adjusts ccv (line_adjust (after_counter_stage s) false).1.1
  rw [hf.1, hf.2] at hs
  have hnib : s.regs.m_sync_width &&& 0x0f ≤ 0x0f := Nat.and_le_right
  refine ⟨⟨?_, ?_, ?_, handle_line_timer_line_enable ccv s⟩, ?_, ?_, ?_⟩
  · rw [handle_line_timer_adjusts ccv s _ (by decide), hs.1]
    rfl
  · rw [handle_line_timer_adjusts ccv s _ (by decide), hs.2.1]
    rfl
  · rw [handle_line_timer_adjusts ccv s _ (by decide), hs.2.2]
    rfl
  · have hu : u8 ((if (s.regs.m_sync_width &&& 0x0f) != 0 then s.regs.m_sync_width &&& 0x0f
        else 0x10 : Nat) : Int)
        = (if s.regs.m_sync_width &&& 0x0f = 0 then 16 else s.regs.m_sync_width &&& 0x0f) := by
      unfold u8
      by_cases h : s.regs.m_sync_width &&& 0x0f = 0
      · simp [h]
      · simp only [bne_iff_ne, ne_eq, h, not_false_eq_true, if_true, if_false]
        omega
    refine ⟨_, _, rfl, ?_, ?_, ?_⟩
    · unfold set_hsync
      split_ifs <;> rfl
    · unfold set_hsync hsync_r
      split_ifs with h
      · rfl
      · simpa [bne_iff_ne] using h
    · rw [timer_adjusts_append, hu]
      unfold set_hsync
      split_ifs <;> simp [timer_adjusts, cclks_to_attotime]
  · split_ifs <;> omega
  · refine ⟨_, _, rfl, ?_, ?_⟩
    · unfold set_cur cursor_r
      split_ifs with h
      · rfl
      · simpa [bne_iff_ne] using h
    · rw [timer_adjusts_append]
      unfold set_cur
      split_ifs <;> simp [timer_adjusts, cclks_to_attotime]

theorem field_width_ok_congr (a b : State) (h1 : a.ctr = b.ctr) (h2 : a.regs = b.regs)
    (h : field_width_ok b) : field_width_ok a := by
  unfold field_width_ok at *
  rw [h1, h2]
  exact h

theorem or_le_3fff (a b : Nat) (ha : a ≤ 0x3fff) (hb : b ≤ 0x3fff) : a ||| b ≤ 0x3fff := by
  have h : a ||| b < 2 ^ 14 := Nat.or_lt_two_pow (by omega) (by omega)
  omega

theorem high_byte_le (data : Nat) : (data &&& 0x3f) <<< 8 ≤ 0x3fff := by
  have h : data &&& 0x3f ≤ 0x3f := Nat.and_le_right
  rw [Nat.shiftLeft_eq]
  omega

theorem low_byte_le (data : Nat) : (data &&& 0xff) <<< 0 ≤ 0x3fff := by
  have h : data &&& 0xff ≤ 0xff := Nat.and_le_right
  rw [Nat.shiftLeft_eq]
  omega

theorem and_le_3fff (a m : Nat) (ha : a ≤ 0x3fff) : a &&& m ≤ 0x3fff :=
  le_trans Nat.and_le_left ha

theorem match_line_field_width (s : State) (h : field_width_ok s) :
    field_width_ok (match_line s).1 := by
  unfold match_line
  simp only [field_width_ok, counters_in_range, addresses_in_range] at *
  split_ifs <;> (try simp only []) <;> omega

theorem update_cursor_state_field_width (s : State) (h : field_width_ok s) :
    field_width_ok (update_cursor_state s) := by
  unfold update_cursor_state
  simp only [field_width_ok, counters_in_range, addresses_in_range] at *
  split <;> (try split_ifs) <;> (try simp only []) <;> omega

theorem line_vsync_width_field_width (s : State) (b : Bool) (h : field_width_ok s) :
    field_width_ok (line_vsync_width s b).1 := by
  have hm : (s.ctr.m_vsync_width_counter + 1) &&& 0x0F ≤ 0x0F := Nat.and_le_right
  unfold line_vsync_width
  simp only [field_width_ok, counters_in_range, addresses_in_range] at *
  split_ifs <;> (try simp only []) <;> omega

theorem line_boundary_field_width (s : State) (h : field_width_ok s) :
    field_width_ok (line_boundary s) := by
  have h1 : (s.ctr.m_line_counter + 1) &&& 0x7F ≤ 0x7F := Nat.and_le_right
  have h2 : (s.ctr.m_line_address + s.regs.m_horiz_disp) &&& 0x3fff ≤ 0x3fff :=
    Nat.and_le_right
  unfold line_boundary
  simp only [field_width_ok, counters_in_range, addresses_in_range] at *
  split_ifs <;> (try simp only []) <;> omega

theorem frame_origin_reset_field_width (s : State) (h : field_width_ok s) :
    field_width_ok (frame_origin_reset s) := by
  unfold frame_origin_reset
  simp only [field_width_ok, counters_in_range, addresses_in_range] at *
  omega

theorem line_counters_field_width (s : State) (b : Bool) (h : field_width_ok s) :
    field_width_ok (line_counters s b).1 := by
  have h1 : (s.ctr.m_raster_counter + 1) &&& 0x1F ≤ 0x1F := Nat.and_le_right
  rw [line_counters_eq]
  split_ifs
  · exact match_line_field_width _ (line_boundary_field_width s h)
  · simp only [field_width_ok, counters_in_range, addresses_in_range] at *
    omega

theorem line_adjust_field_width (s : State) (b : Bool) (h : field_width_ok s) :
    field_width_ok (line_adjust s b).1.1 := by
  have h1 : (s.ctr.m_adjust_counter + 1) &&& 0x1F ≤ 0x1F := Nat.and_le_right
  rw [line_adjust_eq]
  split_ifs
  all_goals first
    | exact update_cursor_state_field_width _
        (match_line_field_width _ (frame_origin_reset_field_width s h))
    | exact update_cursor_state_field_width _ (frame_origin_reset_field_width s h)
    | exact h
    | exact ⟨⟨h.1.1, h.1.2.1, h1, h.1.2.2.2⟩, h.2⟩

theorem line_schedule_field_width (ccv : State → Nat → Nat → Bool) (s : State)
    (h : field_width_ok s) : field_width_ok (line_schedule ccv s).1 := by
  unfold line_schedule
  simp only [field_width_ok, counters_in_range, addresses_in_range] at *
  split_ifs <;> (try simp only []) <;> omega

theorem handle_line_timer_field_width (ccv : State → Nat → Nat → Bool) (s : State)
    (h : field_width_ok s) : field_width_ok (handle_line_timer ccv s).1 := by
  unfold handle_line_timer
  simp only []
  apply field_width_ok_congr _ _ (set_de_frame _ _).1 (set_de_frame _ _).2.2
  apply field_width_ok_congr _ _ (set_vsync_frame _ _).1 (set_vsync_frame _ _).2.2
  apply line_schedule_field_width
  apply line_adjust_field_width
  apply line_counters_field_width
  apply line_vsync_width_field_width
  exact h

theorem recompute_parameters_field_width (s : State) (postload : Bool) (h : field_width_ok s) :
    field_width_ok (recompute_parameters s postload).1 := by
  unfold recompute_parameters
  simp only [field_width_ok, counters_in_range, addresses_in_range] at *
  split_ifs <;> (try simp only []) <;> omega

theorem transparent_update_field_width (s s1 : State) (ev : List Event)
    (hok : transparent_update s = .ok (s1, ev)) (h : field_width_ok s) : field_width_ok s1 := by
  have hm : ((s.regs.m_update_addr + 1) % 65536) &&& 0x3fff ≤ 0x3fff := Nat.and_le_right
  unfold transparent_update at hok
  simp only [] at hok
  split_ifs at hok
  · rw [call_on_update_address_frame _ _ _ _ hok]
    simp only [field_width_ok, counters_in_range, addresses_in_range] at *
    omega
  · simp only [Except.ok.injEq] at hok
    have h1 := congrArg Prod.fst hok
    rw [update_upd_adr_timer_state] at h1
    simp only [] at h1
    rw [← h1]
    exact h
  · simp only [Except.ok.injEq, Prod.mk.injEq] at hok
    rw [← hok.1]
    exact h
  · simp only [Except.ok.injEq, Prod.mk.injEq] at hok
    rw [← hok.1]
    exact h

theorem register_w_store_field_width (s s1 : State) (data : Nat) (ev : List Event)
    (hok : register_w_store s data = .ok (s1, ev)) (h : field_width_ok s) :
    field_width_ok s1 := by
  have a1 := or_le_3fff _ _ (high_byte_le data) (and_le_3fff s.regs.m_disp_start_addr 0x00ff h.2.1)
  have a2 := or_le_3fff _ _ (low_byte_le data) (and_le_3fff s.regs.m_disp_start_addr 0xff00 h.2.1)
  have a3 := or_le_3fff _ _ (high_byte_le data) (and_le_3fff s.regs.m_cursor_addr 0x00ff h.2.2.1)
  have a4 := or_le_3fff _ _ (low_byte_le data) (and_le_3fff s.regs.m_cursor_addr 0xff00 h.2.2.1)
  have a5 := or_le_3fff _ _ (high_byte_le data)
    (and_le_3fff s.regs.m_update_addr 0x00ff h.2.2.2.1)
  have a6 := or_le_3fff _ _ (low_byte_le data)
    (and_le_3fff s.regs.m_update_addr 0xff00 h.2.2.2.1)
  unfold register_w_store at hok
  split at hok
  case h_19 =>
    simp only [] at hok
    split_ifs at hok
    · rw [call_on_update_address_frame _ _ _ _ hok]
      exact ⟨h.1, h.2.1, h.2.2.1, a5, h.2.2.2.2⟩
    · simp only [Except.ok.injEq, Prod.mk.injEq] at hok
      rw [← hok.1]
      exact ⟨h.1, h.2.1, h.2.2.1, a5, h.2.2.2.2⟩
    · simp only [Except.ok.injEq, Prod.mk.injEq] at hok
      rw [← hok.1]
      exact h
  case h_20 =>
    simp only [] at hok
    split_ifs at hok
    · rw [call_on_update_address_frame _ _ _ _ hok]
      exact ⟨h.1, h.2.1, h.2.2.1, a6, h.2.2.2.2⟩
    · simp only [Except.ok.injEq, Prod.mk.injEq] at hok
      rw [← hok.1]
      exact ⟨h.1, h.2.1, h.2.2.1, a6, h.2.2.2.2⟩
    · simp only [Except.ok.injEq, Prod.mk.injEq] at hok
      rw [← hok.1]
      exact h
  case h_21 => exact transparent_update_field_width s s1 ev hok h
  case h_13 =>
    simp only [Except.ok.injEq, Prod.mk.injEq] at hok
    rw [← hok.1]
    exact ⟨h.1, a1, h.2.2.1, h.2.2.2.1, h.2.2.2.2⟩
  case h_14 =>
    simp only [Except.ok.injEq, Prod.mk.injEq] at hok
    rw [← hok.1]
    exact ⟨h.1, a2, h.2.2.1, h.2.2.2.1, h.2.2.2.2⟩
  case h_15 =>
    simp only [Except.ok.injEq, Prod.mk.injEq] at hok
    rw [← hok.1]
    exact ⟨h.1, h.2.1, a3, h.2.2.2.1, h.2.2.2.2⟩
  case h_16 =>
    simp only [Except.ok.injEq, Prod.mk.injEq] at hok
    rw [← hok.1]
    exact ⟨h.1, h.2.1, a4, h.2.2.2.1, h.2.2.2.2⟩
  all_goals
    simp only [Except.ok.injEq, Prod.mk.injEq] at hok
    rw [← hok.1]
    exact h

theorem register_w_field_width (s s1 : State) (data : Nat) (ev : List Event)
    (hok : register_w s data = .ok (s1, ev)) (h : field_width_ok s) : field_width_ok s1 := by
  unfold register_w at hok
  split at hok
  · cases hok
  · rename_i s2 ev1 hstore
    simp only [Except.ok.injEq, Prod.mk.injEq] at hok
    rw [← hok.1]
    exact recompute_parameters_field_width _ _
      (register_w_store_field_width s s2 data ev1 hstore h)

theorem register_r_field_width (s s1 : State) (v : Nat) (ev : List Event)
    (hok : register_r s = .ok (v, s1, ev)) (h : field_width_ok s) : field_width_ok s1 := by
  unfold register_r at hok
  split at hok
  case h_7 =>
    split at hok
    · rename_i s2 ev2 ht
      simp only [Except.ok.injEq, Prod.mk.injEq] at hok
      rw [← hok.2.1]
      exact transparent_update_field_width s s2 ev2 ht h
    · cases hok
  all_goals
    simp only [Except.ok.injEq, Prod.mk.injEq] at hok
    rw [← hok.2.1]
    exact h

theorem update_counters_field_width (s : State) (view : TimerView) (h : field_width_ok s) :
    field_width_ok (update_counters s view) := by
  unfold update_counters
  simp only []
  split_ifs <;> exact h

theorem device_timer_field_width (ccv : State → Nat → Nat → Bool) (s s1 : State) (id : TimerId)
    (param : Int) (view : TimerView) (ev : List Event)
    (hok : device_timer ccv s id param view = .ok (s1, ev)) (h : field_width_ok s) :
    field_width_ok s1 := by
  cases id <;> simp only [device_timer] at hok
  · simp only [Except.ok.injEq] at hok
    have h1 := congrArg Prod.fst hok
    simp only [] at h1
    rw [← h1]
    exact handle_line_timer_field_width ccv s h
  · simp only [Except.ok.injEq] at hok
    have h1 := congrArg Prod.fst hok
    simp only [] at h1
    rw [← h1]
    exact field_width_ok_congr _ _ (set_de_frame _ _).1 (set_de_frame _ _).2.2 h
  · simp only [Except.ok.injEq, Prod.mk.injEq] at hok
    rw [← hok.1]
    exact field_width_ok_congr _ _ (set_cur_frame _ _).1 (set_cur_frame _ _).2.2 h
  · simp only [Except.ok.injEq] at hok
    have h1 := congrArg Prod.fst hok
    simp only [] at h1
    rw [← h1]
    exact field_width_ok_congr _ _ (set_cur_frame _ _).1 (set_cur_frame _ _).2.2 h
  · simp only [Except.ok.injEq, Prod.mk.injEq] at hok
    rw [← hok.1]
    exact field_width_ok_congr _ _ (set_hsync_frame _ _).1 (set_hsync_frame _ _).2.2 h
  · simp only [Except.ok.injEq] at hok
    have h1 := congrArg Prod.fst hok
    simp only [] at h1
    rw [← h1]
    exact field_width_ok_congr _ _ (set_hsync_frame _ _).1 (set_hsync_frame _ _).2.2 h
  · simp only [Except.ok.injEq, Prod.mk.injEq] at hok
    rw [← hok.1]
    have hu := update_counters_field_width s view h
    have hm : (get_ma s view).1 ≤ 0x3fff := Nat.and_le_right
    exact ⟨hu.1, hu.2.1, hu.2.2.1, hu.2.2.2.1, hm⟩
  · rw [call_on_update_address_frame _ _ _ _ hok]
    exact h
  · have hm : ((s.regs.m_update_addr + 1) % 65536) &&& 0x3fff ≤ 0x3fff := Nat.and_le_right
    split_ifs at hok
    all_goals
      simp only [Except.ok.injEq, Prod.mk.injEq] at hok
      rw [← hok.1]
    · exact ⟨h.1, h.2.1, h.2.2.1, hm, h.2.2.2.2⟩
    · exact h

theorem draw_scanline_field_width (ccv : State → Nat → Nat → Bool) (s s1 : State) (y : Int)
    (ra : Nat) (ev : List Event) (hok : draw_scanline ccv s y = .ok (ra, s1, ev))
    (h : field_width_ok s) : field_width_ok s1 := by
  have hm : (s.ctr.m_current_disp_addr + s.regs.m_horiz_disp) &&& 0x3fff ≤ 0x3fff :=
    Nat.and_le_right
  unfold draw_scanline at hok
  simp only [] at hok
  split_ifs at hok
  all_goals
    simp only [Except.ok.injEq, Prod.mk.injEq] at hok
    rw [← hok.2.1]
  all_goals first
    | exact h
    | exact ⟨⟨h.1.1, h.1.2.1, h.1.2.2.1, h.1.2.2.2.1, h.1.2.2.2.2.1, hm⟩, h.2⟩

theorem draw_scanlines_field_width (ccv : State → Nat → Nat → Bool) (n : Nat) :
    ∀ (s s1 : State) (y : Nat) (ev : List Event), draw_scanlines ccv s y n = .ok (s1, ev) →
      field_width_ok s → field_width_ok s1 := by
  induction n with
  | zero =>
    intro s s1 y ev hok h
    simp only [draw_scanlines, Except.ok.injEq, Prod.mk.injEq] at hok
    rw [← hok.1]
    exact h
  | succ n ih =>
    intro s s1 y ev hok h
    simp only [draw_scanlines] at hok
    split at hok
    · cases hok
    · rename_i ra s2 ev1 hd
      split at hok
      · cases hok
      · rename_i s3 ev2 hrest
        simp only [Except.ok.injEq, Prod.mk.injEq] at hok
        rw [← hok.1]
        exact ih s2 s3 (y + 1) ev2 hrest (draw_scanline_field_width ccv s s2 y ra ev1 hd h)

theorem screen_update_field_width (ccv : State → Nat → Nat → Bool) (s s1 : State)
    (cliprect : Rectangle) (ev : List Event) (hok : screen_update ccv s cliprect = .ok (s1, ev))
    (h : field_width_ok s) : field_width_ok s1 := by
  unfold screen_update at hok
  simp only [] at hok
  split_ifs at hok
  all_goals first
    | (simp only [Except.ok.injEq, Prod.mk.injEq] at hok
       rw [← hok.1]
       exact h)
    | (split at hok
       · cases hok
       · rename_i s3 ev3 hd
         simp only [Except.ok.injEq, Prod.mk.injEq] at hok
         rw [← hok.1]
         refine draw_scanlines_field_width ccv _ _ s3 _ ev3 hd ?_
         first
           | exact h
           | exact ⟨⟨h.1.1, h.1.2.1, h.1.2.2.1, h.1.2.2.2.1, h.1.2.2.2.2.1, h.2.1⟩, h.2⟩)

theorem set_hpixels_per_column_field_width (s s1 : State) (n : Int) (ev : List Event)
    (hok : set_hpixels_per_column s n = .ok (s1, ev)) (h : field_width_ok s) :
    field_width_ok s1 := by
  unfold set_hpixels_per_column at hok
  split_ifs at hok
  · simp only [Except.ok.injEq] at hok
    have h1 := congrArg Prod.fst hok
    simp only [] at h1
    rw [← h1]
    exact recompute_parameters_field_width _ _ h
  · simp only [Except.ok.injEq, Prod.mk.injEq] at hok
    rw [← hok.1]
    exact h

theorem device_reset_field_width (s : State) (b : Bool) (h : field_width_ok s) :
    field_width_ok (device_reset s b).1 := by
  unfold device_reset
  simp only [field_width_ok, counters_in_range, addresses_in_range] at *
  omega

theorem step_field_width (ccv : State → Nat → Nat → Bool) (s s1 : State) (op : Op)
    (ev : List Event) (hok : step ccv s op = .ok (s1, ev)) (h : field_width_ok s) :
    field_width_ok s1 := by
  cases op <;> simp only [step] at hok
  case register_r =>
    split at hok
    · cases hok
    · rename_i v s2 ev2 hr
      simp only [Except.ok.injEq, Prod.mk.injEq] at hok
      rw [← hok.1]
      exact register_r_field_width s s2 v ev2 hr h
  case register_w data => exact register_w_field_width s s1 data ev hok h
  case set_hpixels_per_column n => exact set_hpixels_per_column_field_width s s1 n ev hok h
  case device_timer id param view => exact device_timer_field_width ccv s s1 id param view ev hok h
  case draw_scanline y =>
    split at hok
    · cases hok
    · rename_i ra s2 ev2 hr
      simp only [Except.ok.injEq, Prod.mk.injEq] at hok
      rw [← hok.1]
      exact draw_scanline_field_width ccv s s2 y ra ev2 hr h
  case screen_update cliprect => exact screen_update_field_width ccv s s1 cliprect ev hok h
  case get_ma view =>
    simp only [Except.ok.injEq, Prod.mk.injEq] at hok
    rw [← hok.1]
    exact update_counters_field_width s view h
  case device_post_load =>
    simp only [Except.ok.injEq] at hok
    have h1 := congrArg Prod.fst hok
    simp only [] at h1
    rw [← h1]
    exact recompute_parameters_field_width _ _ h
  case device_clock_changed =>
    simp only [Except.ok.injEq] at hok
    have h1 := congrArg Prod.fst hok
    simp only [] at h1
    rw [← h1]
    exact recompute_parameters_field_width _ _ h
  case device_reset b =>
    simp only [Except.ok.injEq] at hok
    have h1 := congrArg Prod.fst hok
    simp only [] at h1
    rw [← h1]
    exact device_reset_field_width s b h
  case assert_light_pen_input =>
    simp only [Except.ok.injEq] at hok
    have h1 := congrArg Prod.fst hok
    simp only [assert_light_pen_input] at h1
    rw [← h1]
    exact h
  case address_w data =>
    simp only [Except.ok.injEq, Prod.mk.injEq] at hok
    rw [← hok.1]
    exact h
  all_goals
    simp only [Except.ok.injEq, Prod.mk.injEq] at hok
    rw [← hok.1]
    exact h
theorem run_field_width (ccv : State → Nat → Nat → Bool) (ops : List Op) :
    ∀ (s s1 : State) (ev : List Event), run ccv s ops = .ok (s1, ev) →
      field_width_ok s → field_width_ok s1 := by
  induction ops with
  | nil =>
    intro s s1 ev hok h
    simp only [run, Except.ok.injEq, Prod.mk.injEq] at hok
    rw [← hok.1]
    exact h
  | cons op ops ih =>
    intro s s1 ev hok h
    simp only [run] at hok
    split at hok
    · cases hok
    · rename_i s2 ev1 hstep
      split at hok
      · cases hok
      · rename_i s3 ev2 hrest
        simp only [Except.ok.injEq, Prod.mk.injEq] at hok
        rw [← hok.1]
        exact ih s2 s3 ev2 hrest (step_field_width ccv s s2 op ev1 hstep h)

theorem device_start_field_width (s : State) (h1 : s.ctr.m_adjust_counter = 0)
    (h2 : s.ctr.m_vsync_width_counter = 0) (h3 : s.regs.m_update_addr = 0)
    (h4 : s.regs.m_light_pen_addr = 0) : field_width_ok (device_start s) := by
  unfold device_start
  simp only [field_width_ok, counters_in_range, addresses_in_range]
  omega

/-- C30: field-width invariant of the base chip.  The predicate 'raster
counter <= 31, line counter <= 127, vertical-adjust counter <= 31, vsync
width counter <= 15, and display-start address, cursor address, update
address, line address, current display address and light-pen address all <=
0x3fff' holds after `device_start` when the members it does not assign (the
adjust and vsync width counters, the update and light-pen addresses) are 0,
and every operation that returns preserves it: `register_w` for every latch
and data, `register_r`, `handle_line_timer`, every timer event,
`transparent_update`, `draw_scanline`, `recompute_parameters`,
`device_reset`, and every other entry point of the device (`step`, `run`). -/
theorem field_width_invariant (ccv : State → Nat → Nat → Bool) :
    field_width_ok mc6845_started ∧
    (∀ s0 : State, s0.ctr.m_adjust_counter = 0 → s0.ctr.m_vsync_width_counter = 0 →
      s0.regs.m_update_addr = 0 → s0.regs.m_light_pen_addr = 0 →
      field_width_ok (device_start s0)) ∧
    (∀ s : State, field_width_ok s →
      (∀ data s1 ev, register_w s data = .ok (s1, ev) → field_width_ok s1) ∧
      (∀ v s1 ev, register_r s = .ok (v, s1, ev) → field_width_ok s1) ∧
      field_width_ok (handle_line_timer ccv s).1 ∧
      (∀ id param view s1 ev, device_timer ccv s id param view = .ok (s1, ev) →
        field_width_ok s1) ∧
      (∀ s1 ev, transparent_update s = .ok (s1, ev) → field_width_ok s1) ∧
      (∀ y ra s1 ev, draw_scanline ccv s y = .ok (ra, s1, ev) → field_width_ok s1) ∧
      (∀ postload, field_width_ok (recompute_parameters s postload).1) ∧
      (∀ line_timer_enabled, field_width_ok (device_reset s line_timer_enabled).1) ∧
      (∀ op s1 ev, step ccv s op = .ok (s1, ev) → field_width_ok s1) ∧
      (∀ ops s1 ev, run ccv s ops = .ok (s1, ev) → field_width_ok s1)) := by
  refine ⟨device_start_field_width _ rfl rfl rfl rfl, device_start_field_width, ?_⟩
  intro s h
  exact ⟨fun data s1 ev hok => register_w_field_width s s1 data ev hok h,
    fun v s1 ev hok => register_r_field_width s s1 v ev hok h,
    handle_line_timer_field_width ccv s h,
    fun id param view s1 ev hok => device_timer_field_width ccv s s1 id param view ev hok h,
    fun s1 ev hok => transparent_update_field_width s s1 ev hok h,
    fun y ra s1 ev hok => draw_scanline_field_width ccv s s1 y ra ev hok h,
    fun postload => recompute_parameters_field_width s postload h,
    fun b => device_reset_field_width s b h,
    fun op s1 ev hok => step_field_width ccv s s1 op ev hok h,
    fun ops s1 ev hok => run_field_width ccv ops s s1 ev hok h⟩

set_option maxRecDepth 100000 in
/-- Witness for C30: the chip programmed and run by `wide_line_ops` is within
the field widths and stays so over a line tick, and so does the R6545-1 with
the display-start address at its maximum. -/
theorem field_width_invariant_witness :
    (field_width_ok wide_line_chip ∧
      field_width_ok (handle_line_timer check_cursor_visible wide_line_chip).1) ∧
    field_width_ok (handle_line_timer check_cursor_visible
      { r6545_1_started with
        regs := { r6545_1_started.regs with m_disp_start_addr := 0x3fff } }).1 :=
  ⟨⟨by decide,
    ((field_width_invariant check_cursor_visible).2.2 wide_line_chip (by decide)).2.2.1⟩,
   ((field_width_invariant check_cursor_visible).2.2 _ (by decide)).2.2.1⟩

/-- One line tick when the last raster row of the character row lies beyond
the 5-bit raster counter: the raster counter wraps within 0..31, the line
counter stays, vertical adjust is not entered and the frame does not
reset. -/
theorem handle_line_timer_tall_row (ccv : State → Nat → Nat → Bool) (t : State)
    (hH : 31 < char_height t - 1) (hr : t.ctr.m_raster_counter ≤ 31)
    (ha : t.ctr.m_adjust_active = 0) :
    frame_reset_in_tick t = false ∧
    (handle_line_timer ccv t).1.ctr.m_raster_counter = (t.ctr.m_raster_counter + 1) % 32 ∧
    (handle_line_timer ccv t).1.ctr.m_adjust_active = 0 ∧
    (handle_line_timer ccv t).1.ctr.m_line_counter = t.ctr.m_line_counter := by
  have hne : (t.ctr.m_raster_counter : Int) ≠ char_height t - 1 := by omega
  obtain ⟨r1, r2, -⟩ := (after_counter_stage_row t).2 hne
  obtain ⟨f1, -, -⟩ := (after_counter_stage_fields t).2.2 hne
  have hfr : frame_reset_in_tick t = false := by
    rw [frame_reset_in_tick_eq, f1, ha]
    rfl
  have hT := handle_line_timer_ctr ccv t (line_adjust (after_counter_stage t) false).1.1 rfl
  have hfr' := hfr
  rw [frame_reset_in_tick_eq] at hfr'
  obtain ⟨a1, a2, -, a4⟩ := line_adjust_no_reset _ hfr'
  refine ⟨hfr, ?_, ?_, ?_⟩
  · rw [hT.2.2.2.1, a1, r1]
  · rw [hT.1, a4, f1, ha]
  · rw [hT.2.2.1, a2, r2]

/-- With a character height above 32 the line engine never completes a
character row: no line tick is a frame reset. -/
theorem line_ticks_tall_row (ccv : State → Nat → Nat → Bool) (s : State)
    (hH : 31 < char_height s - 1) (hr : s.ctr.m_raster_counter ≤ 31)
    (ha : s.ctr.m_adjust_active = 0) (n : Nat) :
    frame_reset_in_tick (line_ticks ccv n s) = false ∧
    (line_ticks ccv n s).ctr.m_raster_counter = (s.ctr.m_raster_counter + n) % 32 ∧
    (line_ticks ccv n s).ctr.m_adjust_active = 0 ∧
    (line_ticks ccv n s).ctr.m_line_counter = s.ctr.m_line_counter := by
  have hch : ∀ k, char_height (line_ticks ccv k s) = char_height s := fun k =>
    char_height_congr _ _ (line_ticks_frame ccv k s).1 (line_ticks_frame ccv k s).2
  induction n with
  | zero =>
    exact ⟨(handle_line_timer_tall_row ccv s hH hr ha).1,
      (Nat.mod_eq_of_lt (Nat.lt_succ_of_le hr)).symm, ha, rfl⟩
  | succ n ih =>
    obtain ⟨-, i2, i3, i4⟩ := ih
    have i2' : (line_ticks ccv n s).ctr.m_raster_counter ≤ 31 := by omega
    obtain ⟨-, t2, t3, t4⟩ := handle_line_timer_tall_row ccv (line_ticks ccv n s)
      (by rw [hch n]; exact hH) i2' i3
    have e2 : (line_ticks ccv (n + 1) s).ctr.m_raster_counter
        = (s.ctr.m_raster_counter + (n + 1)) % 32 := by
      show (handle_line_timer ccv (line_ticks ccv n s)).1.ctr.m_raster_counter = _
      rw [t2, i2]
      omega
    have hnext := handle_line_timer_tall_row ccv (line_ticks ccv (n + 1) s)
      (by rw [hch (n + 1)]; exact hH) (by omega) t3
    exact ⟨hnext.1, e2, t3, t4.trans i4⟩

set_option maxRecDepth 100000 in
/-- C28 fails on the code: on the HD6845S with maximum raster address 31 in
interlace sync and video mode the character height is 33 and
`recompute_parameters` reports a frame of (0 + 1) * 33 + 0 = 33 scanlines, but
the 5-bit raster counter wraps from 31 to 0 and never equals 32: from raster
counter 0, line counter 0 and vertical adjust inactive no line tick is a frame
reset (the 33rd is not one), and after n ticks the raster counter is n mod 32
with the line counter still 0. -/
theorem frame_never_wraps_at_height_33 :
    (char_height interlace_33_chip = 33 ∧
      interlace_33_chip.regs.m_vert_char_total = 0 ∧
      interlace_33_chip.regs.m_vert_total_adj = 0 ∧
      interlace_33_chip.ctr.m_raster_counter = 0 ∧
      interlace_33_chip.ctr.m_line_counter = 0 ∧
      interlace_33_chip.ctr.m_adjust_active = 0 ∧
      interlace_33_chip.geom.m_vert_pix_total = 33) ∧
    frame_reset_in_tick (line_ticks hd6845s_check_cursor_visible 32 interlace_33_chip) = false ∧
    (∀ n,
      frame_reset_in_tick (line_ticks hd6845s_check_cursor_visible n interlace_33_chip)
        = false ∧
      (line_ticks hd6845s_check_cursor_visible n interlace_33_chip).ctr.m_raster_counter
        = (0 + n) % 32 ∧
      (line_ticks hd6845s_check_cursor_visible n interlace_33_chip).ctr.m_line_counter = 0) :=
  ⟨by decide,
   (line_ticks_tall_row hd6845s_check_cursor_visible interlace_33_chip
     (by decide) (by decide) (by decide) 32).1,
   fun n =>
    ⟨(line_ticks_tall_row hd6845s_check_cursor_visible interlace_33_chip
       (by decide) (by decide) (by decide) n).1,
     (line_ticks_tall_row hd6845s_check_cursor_visible interlace_33_chip
       (by decide) (by decide) (by decide) n).2.1,
     (line_ticks_tall_row hd6845s_check_cursor_visible interlace_33_chip
       (by decide) (by decide) (by decide) n).2.2.2⟩⟩

theorem check_cursor_visible_on_line (s : State) (ra a : Nat)
    (h : check_cursor_visible s ra a = true) :
    a ≤ s.regs.m_cursor_addr ∧ s.regs.m_cursor_addr < a + s.regs.m_horiz_disp := by
  unfold check_cursor_visible at h
  split_ifs at h with h1 h2
  all_goals first
    | exact absurd h Bool.false_ne_true
    | (simp only [Bool.or_eq_true, decide_eq_true_eq, not_or, not_lt, ge_iff_le, not_le] at h2
       exact h2)

/-- The cursor column `draw_scanline` hands to the renderer: -1 when the
cursor is not visible on the row, and the cursor's column (cursor address -
current display address) when it is visible and the column is at most 127,
the largest value of the signed 8-bit argument. -/
theorem draw_scanline_cursor_x (s : State) (y : Int)
    (h0 : char_height s ≠ 0) (hb : s.cfg.update_row_cb_bound = true) :
    ∃ ra s1 ma cursor_x de hbp vbp,
      draw_scanline check_cursor_visible s y
        = .ok (ra, s1,
            [Event.update_row_cb ma ra (u16 y : Nat) s.regs.m_horiz_disp cursor_x de hbp vbp]) ∧
      (check_cursor_visible s ra s.ctr.m_current_disp_addr = false → cursor_x = -1) ∧
      (check_cursor_visible s ra s.ctr.m_current_disp_addr = true →
        (s.regs.m_cursor_addr : Int) - s.ctr.m_current_disp_addr ≤ 127 →
        cursor_x = (s.regs.m_cursor_addr : Int) - s.ctr.m_current_disp_addr ∧
        0 ≤ cursor_x ∧ cursor_x < s.regs.m_horiz_disp) := by
  refine ⟨_, _, _, _, _, _, _, draw_scanline_eq check_cursor_visible s y h0 hb, ?_, ?_⟩
  · intro h
    rw [h]
    rfl
  · intro h hle
    have hl := check_cursor_visible_on_line s _ _ h
    rw [h]
    simp only [if_true]
    unfold i8
    omega

theorem line_ticks_add (ccv : State → Nat → Nat → Bool) (m n : Nat) (s : State) :
    line_ticks ccv (m + n) s = line_ticks ccv n (line_ticks ccv m s) := by
  induction n with
  | zero => rfl
  | succ n ih =>
    show (handle_line_timer ccv (line_ticks ccv (m + n) s)).1 = _
    rw [ih]
    rfl

theorem succ_mod_of_mod (y H : Nat) (hH : 0 < H) :
    (y % H + 1 = H → (y + 1) % H = 0) ∧ (y % H + 1 ≠ H → (y + 1) % H = y % H + 1) := by
  have h := Nat.div_add_mod y H
  have h' := Nat.div_add_mod (y + 1) H
  have hd := succ_div_of_mod y H hH
  constructor
  · intro he
    rw [hd.1 he, Nat.mul_add, Nat.mul_one] at h'
    omega
  · intro hne
    rw [hd.2 hne] at h'
    omega

/-- One line tick inside the displayed rows (vertical adjust inactive, and
at a row boundary the line counter not yet at vertical total): the raster
counter steps through 0 .. H - 1, the line counter advances at the row
boundary, and the frame does not reset. -/
theorem display_tick (ccv : State → Nat → Nat → Bool) (t : State) (H : Nat)
    (hH : char_height t = H) (h32 : H ≤ 32)
    (hr : t.ctr.m_raster_counter < H) (ha : t.ctr.m_adjust_active = 0)
    (hb : t.ctr.m_raster_counter + 1 = H →
      t.ctr.m_line_counter ≠ t.regs.m_vert_char_total ∧ t.ctr.m_line_counter + 1 ≤ 127) :
    frame_reset_in_tick t = false ∧
    (handle_line_timer ccv t).1.ctr.m_adjust_active = 0 ∧
    (t.ctr.m_raster_counter + 1 = H →
      (handle_line_timer ccv t).1.ctr.m_raster_counter = 0 ∧
      (handle_line_timer ccv t).1.ctr.m_line_counter = t.ctr.m_line_counter + 1) ∧
    (t.ctr.m_raster_counter + 1 ≠ H →
      (handle_line_timer ccv t).1.ctr.m_raster_counter = t.ctr.m_raster_counter + 1 ∧
      (handle_line_timer ccv t).1.ctr.m_line_counter = t.ctr.m_line_counter) := by
  have hT := handle_line_timer_ctr ccv t (line_adjust (after_counter_stage t) false).1.1 rfl
  have hact : (after_counter_stage t).ctr.m_adjust_active = 0 := by
    by_cases hlast : t.ctr.m_raster_counter + 1 = H
    · have e : (t.ctr.m_raster_counter : Int) = char_height t - 1 := by rw [hH]; omega
      obtain ⟨f1, -, -⟩ := (after_counter_stage_fields t).2.1 e
      have hne : ¬ ((t.ctr.m_line_counter == t.regs.m_vert_char_total) = true) := by
        rw [beq_iff_eq]; exact (hb hlast).1
      rw [if_neg hne] at f1
      rw [f1, ha]
    · have e : (t.ctr.m_raster_counter : Int) ≠ char_height t - 1 := by rw [hH]; omega
      obtain ⟨f1, -, -⟩ := (after_counter_stage_fields t).2.2 e
      rw [f1, ha]
  have hfr : frame_reset_in_tick t = false := by
    rw [frame_reset_in_tick_eq, hact]
    rfl
  have hfr' := hfr
  rw [frame_reset_in_tick_eq] at hfr'
  obtain ⟨a1, a2, -, a4⟩ := line_adjust_no_reset _ hfr'
  refine ⟨hfr, ?_, ?_, ?_⟩
  · rw [hT.1, a4, hact]
  · intro hlast
    have e : (t.ctr.m_raster_counter : Int) = char_height t - 1 := by rw [hH]; omega
    obtain ⟨r1, r2, -⟩ := (after_counter_stage_row t).1 e
    have := (hb hlast).2
    constructor
    · rw [hT.2.2.2.1, a1, r1]
    · rw [hT.2.2.1, a2, r2]
      omega
  · intro hlast
    have e : (t.ctr.m_raster_counter : Int) ≠ char_height t - 1 := by rw [hH]; omega
    obtain ⟨r1, r2, -⟩ := (after_counter_stage_row t).2 e
    constructor
    · rw [hT.2.2.2.1, a1, r1]
      omega
    · rw [hT.2.2.1, a2, r2]

/-- Through the displayed rows of a frame: after k line ticks from raster
counter 0 and line counter 0, for k below (vertical-total + 1) * H, the
raster counter is k mod H, the line counter k div H, and vertical adjust is
inactive. -/
theorem display_rows_invariant (ccv : State → Nat → Nat → Bool) (s : State) (H : Nat)
    (hH : char_height s = H) (h1 : 1 ≤ H) (h32 : H ≤ 32)
    (hVT : s.regs.m_vert_char_total ≤ 127)
    (hr : s.ctr.m_raster_counter = 0) (hl : s.ctr.m_line_counter = 0)
    (ha : s.ctr.m_adjust_active = 0) :
    ∀ k, k < (s.regs.m_vert_char_total + 1) * H →
      (line_ticks ccv k s).ctr.m_raster_counter = k % H ∧
      (line_ticks ccv k s).ctr.m_line_counter = k / H ∧
      (line_ticks ccv k s).ctr.m_adjust_active = 0 ∧
      (k + 1 < (s.regs.m_vert_char_total + 1) * H →
        frame_reset_in_tick (line_ticks ccv k s) = false) := by
  have hch : ∀ k, char_height (line_ticks ccv k s) = H := fun k => by
    rw [char_height_congr _ _ (line_ticks_frame ccv k s).1 (line_ticks_frame ccv k s).2]
    exact hH
  have hreg : ∀ k, (line_ticks ccv k s).regs = s.regs := fun k => (line_ticks_frame ccv k s).1
  have key : ∀ k, k < (s.regs.m_vert_char_total + 1) * H →
      (line_ticks ccv k s).ctr.m_raster_counter = k % H ∧
      (line_ticks ccv k s).ctr.m_line_counter = k / H ∧
      (line_ticks ccv k s).ctr.m_adjust_active = 0 →
      (k + 1 < (s.regs.m_vert_char_total + 1) * H →
        frame_reset_in_tick (line_ticks ccv k s) = false ∧
        (line_ticks ccv (k + 1) s).ctr.m_raster_counter = (k + 1) % H ∧
        (line_ticks ccv (k + 1) s).ctr.m_line_counter = (k + 1) / H ∧
        (line_ticks ccv (k + 1) s).ctr.m_adjust_active = 0) := by
    intro k _ ⟨i1, i2, i3⟩ hk1
    have hmod := Nat.mod_lt k h1
    have hd := succ_div_of_mod k H h1
    have hm := succ_mod_of_mod k H h1
    have hbound : k % H + 1 = H → k / H + 1 < s.regs.m_vert_char_total + 1 := by
      intro he
      have hdm := Nat.div_add_mod k H
      have e1 : k + 1 = H * (k / H + 1) := by rw [Nat.mul_add]; omega
      rw [e1, Nat.mul_comm] at hk1
      exact Nat.lt_of_mul_lt_mul_right hk1
    have ht := display_tick ccv (line_ticks ccv k s) H (hch k) h32 (by rw [i1]; exact hmod) i3
      (by
        rw [i1, i2, hreg k]
        intro he
        have := hbound he
        omega)
    rw [i1, i2] at ht
    obtain ⟨t0, t1, t2, t3⟩ := ht
    refine ⟨t0, ?_, ?_, t1⟩
    · by_cases he : k % H + 1 = H
      · rw [hm.1 he]; exact (t2 he).1
      · rw [hm.2 he]; exact (t3 he).1
    · by_cases he : k % H + 1 = H
      · rw [hd.1 he]; exact (t2 he).2
      · rw [hd.2 he]; exact (t3 he).2
  have inv : ∀ k, k < (s.regs.m_vert_char_total + 1) * H →
      (line_ticks ccv k s).ctr.m_raster_counter = k % H ∧
      (line_ticks ccv k s).ctr.m_line_counter = k / H ∧
      (line_ticks ccv k s).ctr.m_adjust_active = 0 := by
    intro k
    induction k with
    | zero =>
      intro _
      exact ⟨by rw [Nat.zero_mod]; exact hr, by rw [Nat.zero_div]; exact hl, ha⟩
    | succ k ih =>
      intro hk
      exact (key k (by omega) (ih (by omega)) hk).2
  intro k hk
  obtain ⟨i1, i2, i3⟩ := inv k hk
  exact ⟨i1, i2, i3, fun hk1 => (key k hk ⟨i1, i2, i3⟩ hk1).1⟩

/-- From the last raster row of character row vertical-total: the frame
resets in tick vertical-total-adjust + 1 and in no earlier tick. -/
theorem adjust_reset_schedule (ccv : State → Nat → Nat → Bool) (s : State)
    (hvta : s.regs.m_vert_total_adj ≤ 31)
    (hr : (s.ctr.m_raster_counter : Int) = char_height s - 1)
    (hl : s.ctr.m_line_counter = s.regs.m_vert_char_total) :
    (∀ j, j < s.regs.m_vert_total_adj → frame_reset_in_tick (line_ticks ccv j s) = false) ∧
    frame_reset_in_tick (line_ticks ccv s.regs.m_vert_total_adj s) = true := by
  have inv := adjust_invariant ccv s hvta hr hl
  have hreg : ∀ n, (line_ticks ccv n s).regs = s.regs := fun n => (line_ticks_frame ccv n s).1
  have tick : ∀ k, k ≤ s.regs.m_vert_total_adj →
      (k < s.regs.m_vert_total_adj → frame_reset_in_tick (line_ticks ccv k s) = false) ∧
      (k = s.regs.m_vert_total_adj → frame_reset_in_tick (line_ticks ccv k s) = true) := by
    intro k hk
    obtain ⟨i1, i2, -⟩ := inv k hk
    have h := adjust_tick ccv (line_ticks ccv k s) k i1 i2 (by rw [hreg k]; exact hvta)
    rw [hreg k] at h
    exact ⟨fun hlt => (h.1 hlt).1, fun heq => (h.2 heq).1⟩
  exact ⟨fun j hj => (tick j (by omega)).1 hj, (tick _ (le_refl _)).2 rfl⟩

/-- The frame period of the line engine for character heights within the
5-bit raster counter.  With 1 <= H <= 32, vertical-total <= 127 and
vertical-total-adjust <= 31 held constant, from raster counter 0, line
counter 0 and vertical adjust inactive, the next frame reset is the N-th line
tick and no earlier one, N = (vertical-total + 1) * H + vertical-total-adjust,
which is the `vert_pix_total` that `recompute_parameters` derives. -/
theorem frame_period_matches_geometry (ccv : State → Nat → Nat → Bool) (s : State) (H : Nat)
    (hH : char_height s = H) (h1 : 1 ≤ H) (h32 : H ≤ 32)
    (hVT : s.regs.m_vert_char_total ≤ 127) (hvta : s.regs.m_vert_total_adj ≤ 31)
    (hr : s.ctr.m_raster_counter = 0) (hl : s.ctr.m_line_counter = 0)
    (ha : s.ctr.m_adjust_active = 0) :
    (∀ k, k + 1 < (s.regs.m_vert_char_total + 1) * H + s.regs.m_vert_total_adj →
      frame_reset_in_tick (line_ticks ccv k s) = false) ∧
    frame_reset_in_tick (line_ticks ccv
      ((s.regs.m_vert_char_total + 1) * H + s.regs.m_vert_total_adj - 1) s) = true ∧
    (derive_parameters s).vert_pix_total
      = (s.regs.m_vert_char_total + 1) * H + s.regs.m_vert_total_adj := by
  have hpos : 1 ≤ (s.regs.m_vert_char_total + 1) * H :=
    Nat.mul_pos (Nat.succ_pos _) h1
  have hle : (s.regs.m_vert_char_total + 1) * H ≤ 128 * 32 := Nat.mul_le_mul (by omega) h32
  obtain ⟨k0, hk0⟩ : ∃ k0, (s.regs.m_vert_char_total + 1) * H = k0 + 1 :=
    ⟨(s.regs.m_vert_char_total + 1) * H - 1, by omega⟩
  have inv := display_rows_invariant ccv s H hH h1 h32 hVT hr hl ha
  have hk0form : k0 = (H - 1) + H * s.regs.m_vert_char_total := by
    have e : (s.regs.m_vert_char_total + 1) * H = H * s.regs.m_vert_char_total + H := by
      rw [Nat.add_mul, Nat.one_mul, Nat.mul_comm]
    omega
  have hk0mod : k0 % H = H - 1 := by
    rw [hk0form, Nat.add_mul_mod_self_left]
    exact Nat.mod_eq_of_lt (by omega)
  have hk0div : k0 / H = s.regs.m_vert_char_total := by
    rw [hk0form, Nat.add_mul_div_left _ _ (by omega : 0 < H), Nat.div_eq_of_lt (by omega),
      Nat.zero_add]
  obtain ⟨j1, j2, -, -⟩ := inv k0 (by omega)
  have hreg0 : (line_ticks ccv k0 s).regs = s.regs := (line_ticks_frame ccv k0 s).1
  have hch0 : char_height (line_ticks ccv k0 s) = H := by
    rw [char_height_congr _ _ (line_ticks_frame ccv k0 s).1 (line_ticks_frame ccv k0 s).2]
    exact hH
  obtain ⟨p1, p2⟩ := adjust_reset_schedule ccv (line_ticks ccv k0 s)
    (by rw [hreg0]; exact hvta)
    (by rw [hch0, j1, hk0mod]; omega)
    (by rw [j2, hk0div, hreg0])
  rw [hreg0] at p1 p2
  refine ⟨?_, ?_, ?_⟩
  · intro k hk
    by_cases hph : k + 1 < (s.regs.m_vert_char_total + 1) * H
    · exact (inv k (by omega)).2.2.2 hph
    · obtain ⟨j, hj⟩ : ∃ j, k = k0 + j := ⟨k - k0, by omega⟩
      rw [hj, line_ticks_add]
      exact p1 j (by omega)
  · have e : (s.regs.m_vert_char_total + 1) * H + s.regs.m_vert_total_adj - 1
        = k0 + s.regs.m_vert_total_adj := by omega
    rw [e, line_ticks_add]
    exact p2
  · have hv : video_char_height s = H := by
      show u16 (char_height s) = H
      rw [hH]
      unfold u16
      omega
    unfold derive_parameters
    simp only [hv]
    unfold u16
    have hc : ((s.regs.m_vert_char_total : Int) + 1) * (H : Int)
        = (((s.regs.m_vert_char_total + 1) * H : Nat) : Int) := by push_cast; rfl
    rw [hc]
    omega

/-- C31: transparent update address round trip.  On a transparent-capable
variant in PHI2 transparent mode with an update-address handler bound,
`transparent_update` returns: the update address becomes (old + 1) mod 0x4000
and the update-transfer timer is adjusted once, with delay zero and the
parameter (update address << 8) | strobe, the strobe being bit 6 of the mode
control register as 0 or 1.  The update-transfer event with that parameter, in
any state in which the handler is bound, calls the handler with exactly that
update address and that strobe; and for every address <= 0x3fff and strobe in
{0, 1} the unpacking (param >> 8, param & 0xff) inverts the packing. -/
theorem transparent_update_round_trip (ccv : State → Nat → Nat → Bool) (s : State)
    (hsup : s.cfg.m_supports_transparent = true) (hphi2 : MODE_TRANSPARENT_PHI2 s = true)
    (hb : s.cfg.on_update_addr_changed_cb_bound = true) :
    ∃ s1 : State,
      s1.regs.m_update_addr = (s.regs.m_update_addr + 1) % 0x4000 ∧
      MODE_UPDATE_STROBE s = (if s.regs.m_mode_control.testBit 6 then 1 else 0) ∧
      transparent_update s
        = .ok (s1, [Event.timer_adjust TimerId.TIMER_UPD_TRANS (Delay.clocks 0)
            (((s1.regs.m_update_addr <<< 8) ||| MODE_UPDATE_STROBE s : Nat) : Int)]) ∧
      (∀ (t : State) (view : TimerView), t.cfg.on_update_addr_changed_cb_bound = true →
        ∃ t1, device_timer ccv t TimerId.TIMER_UPD_TRANS
            (((s1.regs.m_update_addr <<< 8) ||| MODE_UPDATE_STROBE s : Nat) : Int) view
          = .ok (t1, [Event.on_update_addr_changed_cb s1.regs.m_update_addr
              (MODE_UPDATE_STROBE s)])) ∧
      (∀ a st : Nat, a ≤ 0x3fff → st ≤ 1 →
        (((a <<< 8) ||| st : Nat) : Int) / 256 = a ∧
        (((a <<< 8) ||| st : Nat) : Int) % 256 = st) := by
  have hpack : ∀ a st : Nat, st ≤ 1 →
      (((a <<< 8) ||| st : Nat) : Int) / 256 = a ∧
      (((a <<< 8) ||| st : Nat) : Int) % 256 = st := by
    intro a st hst
    have h1 : (a <<< 8) ||| st = a * 256 + st := by
      rw [Nat.shiftLeft_eq]
      have h2 : st < 2 ^ 8 := by omega
      rw [Nat.mul_comm a (2 ^ 8), ← Nat.mul_add_lt_is_or h2 a]
    rw [h1]
    constructor <;> omega
  have hst : MODE_UPDATE_STROBE s ≤ 1 := by
    unfold MODE_UPDATE_STROBE
    split_ifs <;> omega
  have htr : MODE_TRANSPARENT s = true := phi2_implies_transparent s hphi2
  refine ⟨{ s with regs := { s.regs with
      m_update_addr := ((s.regs.m_update_addr + 1) % 65536) &&& 0x3fff } }, ?_, ?_, ?_, ?_, ?_⟩
  · show ((s.regs.m_update_addr + 1) % 65536) &&& 0x3fff = _
    rw [Nat.and_pow_two_sub_one_eq_mod _ 14]
    omega
  · unfold MODE_UPDATE_STROBE
    have : ((s.regs.m_mode_control &&& 0x40) != 0) = s.regs.m_mode_control.testBit 6 := by
      have h2 := Nat.and_two_pow s.regs.m_mode_control 6
      have h3 : (0x40 : Nat) = 2 ^ 6 := by norm_num
      rw [h3, h2]
      cases s.regs.m_mode_control.testBit 6 <;> decide
    rw [this]
  · unfold transparent_update
    simp only [hsup, htr, hphi2, Bool.and_self, if_true]
    unfold call_on_update_address
    simp only [hb, if_true]
    rfl
  · intro t view ht
    simp only [device_timer, ht, if_true]
    rw [(hpack _ _ hst).1, (hpack _ _ hst).2]
    exact ⟨_, rfl⟩
  · intro a st _ hst
    exact hpack a st hst
/-- Witness for C31: on the R6545-1 of `phi2_chip` the update address wraps
from 0x3fff to 0, the timer parameter is (0 << 8) | 1 = 1, and the
update-transfer event with that parameter calls the handler with (0, 1). -/
theorem transparent_update_round_trip_witness :
    (phi2_chip.cfg.m_supports_transparent = true ∧ MODE_TRANSPARENT_PHI2 phi2_chip = true ∧
      phi2_chip.cfg.on_update_addr_changed_cb_bound = true) ∧
    ∃ s1 : State, s1.regs.m_update_addr = 0 ∧
      transparent_update phi2_chip
        = .ok (s1, [Event.timer_adjust TimerId.TIMER_UPD_TRANS (Delay.clocks 0) 1]) ∧
      ∃ t1, device_timer check_cursor_visible phi2_chip TimerId.TIMER_UPD_TRANS 1 view0
        = .ok (t1, [Event.on_update_addr_changed_cb 0 1]) := by
  refine ⟨⟨by decide, by decide, by decide⟩, ?_⟩
  obtain ⟨s1, h1, _, h3, h4, _⟩ :=
    transparent_update_round_trip check_cursor_visible phi2_chip (by decide) (by decide)
      (by decide)
  have h5 : s1.regs.m_update_addr = 0 := by rw [h1]; decide
  have h6 : MODE_UPDATE_STROBE phi2_chip = 1 := by decide
  rw [h5, h6] at h3 h4
  exact ⟨s1, h5, h3, h4 phi2_chip view0 (by decide)⟩

theorem line_adjust_no_outputs (c : State) (b : Bool) :
    ∀ e ∈ (line_adjust c b).2, is_output_callback e = false := by
  rw [line_adjust_eq]
  split_ifs <;> simp [is_output_callback]

theorem line_schedule_no_outputs (ccv : State → Nat → Nat → Bool) (a : State) :
    ∀ e ∈ (line_schedule ccv a).2, is_output_callback e = false := by
  unfold line_schedule
  simp only []
  split_ifs <;> simp [is_output_callback]

theorem handle_line_timer_events (ccv : State → Nat → Nat → Bool) (s : State) :
    let s0 : State := { s with ctr := { s.ctr with m_character_counter := 0, m_cursor_x := -1 } }
    let r1 := line_vsync_width s0 (s.sig.m_vsync != 0)
    let r2 := line_counters r1.1 r1.2
    let r3 := line_adjust r2.1 r2.2
    let r4 := line_schedule ccv r3.1.1
    let v : Int := if r3.1.2 then 1 else 0
    let r5 := set_vsync r4.1 v
    let d : Int := if r5.1.ctr.m_line_enable_ff then 1 else 0
    r4.1.ctr = (handle_line_timer ccv s).1.ctr ∧
    (∀ e ∈ r3.2 ++ r4.2, is_output_callback e = false) ∧
    (handle_line_timer ccv s).2 = (r3.2 ++ r4.2) ++ (set_vsync r4.1 v).2 ++ (set_de r5.1 d).2 := by
  intro s0 r1 r2 r3 r4 v r5 d
  refine ⟨?_, ?_, ?_⟩
  · have h : (handle_line_timer ccv s).1 = (set_de r5.1 d).1 := rfl
    rw [h, (set_de_frame _ _).1, (set_vsync_frame _ _).1]
  · intro e he
    rcases List.mem_append.1 he with h | h
    · exact line_adjust_no_outputs _ _ e h
    · exact line_schedule_no_outputs ccv _ e h
  · rfl

/-- C34: after every line tick the outputs agree with the internal
flip-flops.  For every state whose vsync flip-flop holds 0 or 1 (the only
values the code assigns to it): if the VSYNC level equals the vsync flip-flop
before `handle_line_timer` runs, then after it the VSYNC level equals the
vsync flip-flop; in every case the DE level after the tick is 1 when the
line-enable flag is set and 0 when it is clear; and the effects of the tick
are a list without any output callback followed by the effects of `set_vsync`
and then `set_de`, both applied to states whose counters are already those
at the end of the tick. -/
theorem line_tick_outputs_agree (ccv : State → Nat → Nat → Bool) (s : State)
    (hff : s.ctr.m_vsync_ff ≤ 1) :
    (s.sig.m_vsync = s.ctr.m_vsync_ff →
      (handle_line_timer ccv s).1.sig.m_vsync = (handle_line_timer ccv s).1.ctr.m_vsync_ff) ∧
    (handle_line_timer ccv s).1.sig.m_de
      = (if (handle_line_timer ccv s).1.ctr.m_line_enable_ff then 1 else 0) ∧
    (∃ (t : State) (pre : List Event) (v d : Int),
      t.ctr = (handle_line_timer ccv s).1.ctr ∧
      (∀ e ∈ pre, is_output_callback e = false) ∧
      (handle_line_timer ccv s).2
        = pre ++ (set_vsync t v).2 ++ (set_de (set_vsync t v).1 d).2) := by
  refine ⟨?_, ?_, ?_⟩
  · intro hv
    have h := handle_line_timer_vsync ccv s
    cases hm : vsync_match_in_tick s
    · obtain ⟨h1, h2, _⟩ := h.2 hm
      rw [h1, h2]
      unfold line_vsync_width
      simp only []
      have h01 : s.ctr.m_vsync_ff = 0 ∨ s.ctr.m_vsync_ff = 1 := by omega
      rcases h01 with h0 | h0
      · have hs : s.sig.m_vsync = 0 := by rw [hv, h0]; rfl
        simp [h0, hs]
      · have hs : s.sig.m_vsync = 1 := by rw [hv, h0]; rfl
        simp only [h0, hs]
        split_ifs <;> simp_all
    · obtain ⟨h1, h2, _⟩ := h.1 hm
      rw [h1, h2]
      rfl
  · unfold handle_line_timer
    simp only []
    rw [(set_de_level _ _).1, (set_de_frame _ _).1]
  · have h := handle_line_timer_events ccv s
    simp only [] at h
    exact ⟨_, _, _, _, h.1, h.2.1, h.2.2⟩
/-- Witness for C34: the MC6845-1 of `before_vsync_row` has its vsync
flip-flop and VSYNC level both at 0; the tick that raises VSYNC leaves the
level equal to the flip-flop and the DE level equal to the line-enable flag. -/
theorem line_tick_outputs_agree_witness :
    (before_vsync_row.ctr.m_vsync_ff ≤ 1 ∧
      before_vsync_row.sig.m_vsync = before_vsync_row.ctr.m_vsync_ff) ∧
    (handle_line_timer check_cursor_visible before_vsync_row).1.sig.m_vsync
      = (handle_line_timer check_cursor_visible before_vsync_row).1.ctr.m_vsync_ff ∧
    (handle_line_timer check_cursor_visible before_vsync_row).1.sig.m_de
      = (if (handle_line_timer check_cursor_visible before_vsync_row).1.ctr.m_line_enable_ff
          then 1 else 0) :=
  ⟨⟨by decide, by decide⟩,
   (line_tick_outputs_agree check_cursor_visible before_vsync_row (by decide)).1 (by decide),
   (line_tick_outputs_agree check_cursor_visible before_vsync_row (by decide)).2.1⟩

/-- C35: a display with zero displayed characters or zero displayed rows is
always judged invalid.  For every state (every register configuration and
pixels-per-column value) with horizontal-displayed = 0 or vertical-displayed
= 0, `recompute_parameters(true)` leaves the valid-parameters flag false and
delivers no geometry-change notification (it has no effect on the
environment at all); the 16-bit `max_visible_x` (resp. `max_visible_y`) is
0xffff.  `device_reset` zeroes horizontal-displayed, so this is the situation
right after every reset. -/
theorem zero_display_is_invalid (s : State)
    (h : s.regs.m_horiz_disp = 0 ∨ s.regs.m_vert_disp = 0) :
    (recompute_parameters s true).1.geom.m_has_valid_parameters = false ∧
    (recompute_parameters s true).2 = [] ∧
    (s.regs.m_horiz_disp = 0 → (derive_parameters s).max_visible_x = 0xffff) ∧
    (s.regs.m_vert_disp = 0 → (derive_parameters s).max_visible_y = 0xffff) ∧
    (∀ (t : State) (line_timer_enabled : Bool),
      (device_reset t line_timer_enabled).1.regs.m_horiz_disp = 0 ∧
      (recompute_parameters (device_reset t line_timer_enabled).1 true).1.geom.m_has_valid_parameters
        = false ∧
      (recompute_parameters (device_reset t line_timer_enabled).1 true).2 = []) := by
  have hx : ∀ u : State, u.regs.m_horiz_disp = 0 → (derive_parameters u).max_visible_x = 0xffff := by
    intro u hu
    simp only [derive_parameters, hu]
    simp [u16]
  have hy : ∀ u : State, u.regs.m_vert_disp = 0 → (derive_parameters u).max_visible_y = 0xffff := by
    intro u hu
    simp only [derive_parameters, hu]
    simp [u16]
  have hxt : ∀ u : State, (derive_parameters u).horiz_pix_total ≤ 0xffff := by
    intro u
    simp only [derive_parameters]
    exact Nat.le_of_lt_succ (u16_lt _)
  have hyt : ∀ u : State, (derive_parameters u).vert_pix_total ≤ 0xffff := by
    intro u
    simp only [derive_parameters]
    exact Nat.le_of_lt_succ (u16_lt _)
  have hinv : ∀ u : State, (u.regs.m_horiz_disp = 0 ∨ u.regs.m_vert_disp = 0) →
      parameters_valid (derive_parameters u) = false := by
    intro u hu
    rw [Bool.eq_false_iff]
    intro hv
    rw [parameters_valid_iff] at hv
    obtain ⟨_, _, h3, h4, _⟩ := hv
    rcases hu with hu | hu
    · have := hx u hu
      have := hxt u
      omega
    · have := hy u hu
      have := hyt u
      omega
  have hmain : ∀ u : State, (u.regs.m_horiz_disp = 0 ∨ u.regs.m_vert_disp = 0) →
      (recompute_parameters u true).1.geom.m_has_valid_parameters = false ∧
      (recompute_parameters u true).2 = [] := by
    intro u hu
    have hc := recompute_parameters_changed u true (by simp [parameters_changed])
    rw [hc.1, hc.2, hinv u hu]
    exact ⟨rfl, rfl⟩
  refine ⟨(hmain s h).1, (hmain s h).2, hx s, hy s, ?_⟩
  intro t b
  have h0 : (device_reset t b).1.regs.m_horiz_disp = 0 := rfl
  exact ⟨h0, hmain _ (Or.inl h0)⟩

/-- Witness for C35: the started MC6845 has horizontal-displayed 0. -/
theorem zero_display_is_invalid_witness :
    (mc6845_started.regs.m_horiz_disp = 0 ∨ mc6845_started.regs.m_vert_disp = 0) ∧
    (recompute_parameters mc6845_started true).1.geom.m_has_valid_parameters = false ∧
    (recompute_parameters mc6845_started true).2 = [] :=
  ⟨Or.inl (by decide),
   (zero_display_is_invalid mc6845_started (Or.inl (by decide))).1,
   (zero_display_is_invalid mc6845_started (Or.inl (by decide))).2.1⟩

/-- C37: a geometry-changing write restarts the line counter.  For every
state, `recompute_parameters(false)` leaves the counters as they were except
that the line counter is set to 0 when at least one of the eight derived
geometry values differs from the cached one and a reconfigure callback is
bound; when nothing changed, or no reconfigure callback is bound, the line
counter is unchanged too.  The raster counter, the vertical-adjust counter
and flag and the vsync width counter are unchanged in either case. -/
theorem recompute_parameters_restarts_line_counter (s : State) :
    (recompute_parameters s false).1.ctr
      = (if ((derive_parameters s).horiz_pix_total ≠ s.geom.m_horiz_pix_total ∨
             (derive_parameters s).vert_pix_total ≠ s.geom.m_vert_pix_total ∨
             (derive_parameters s).max_visible_x ≠ s.geom.m_max_visible_x ∨
             (derive_parameters s).max_visible_y ≠ s.geom.m_max_visible_y ∨
             (derive_parameters s).hsync_on_pos ≠ s.geom.m_hsync_on_pos ∨
             (derive_parameters s).vsync_on_pos ≠ s.geom.m_vsync_on_pos ∨
             (derive_parameters s).hsync_off_pos ≠ s.geom.m_hsync_off_pos ∨
             (derive_parameters s).vsync_off_pos ≠ s.geom.m_vsync_off_pos) ∧
            s.cfg.reconfigure_cb_bound = true
         then { s.ctr with m_line_counter := 0 } else s.ctr) ∧
    (recompute_parameters s false).1.ctr.m_raster_counter = s.ctr.m_raster_counter ∧
    (recompute_parameters s false).1.ctr.m_adjust_counter = s.ctr.m_adjust_counter ∧
    (recompute_parameters s false).1.ctr.m_adjust_active = s.ctr.m_adjust_active ∧
    (recompute_parameters s false).1.ctr.m_vsync_width_counter = s.ctr.m_vsync_width_counter := by
  have hc : parameters_changed
        { s with m_upd_time := cclks_to_attotime s (4 * s.m_hpixels_per_column) }
        (derive_parameters s) false
      = decide ((derive_parameters s).horiz_pix_total ≠ s.geom.m_horiz_pix_total ∨
             (derive_parameters s).vert_pix_total ≠ s.geom.m_vert_pix_total ∨
             (derive_parameters s).max_visible_x ≠ s.geom.m_max_visible_x ∨
             (derive_parameters s).max_visible_y ≠ s.geom.m_max_visible_y ∨
             (derive_parameters s).hsync_on_pos ≠ s.geom.m_hsync_on_pos ∨
             (derive_parameters s).vsync_on_pos ≠ s.geom.m_vsync_on_pos ∨
             (derive_parameters s).hsync_off_pos ≠ s.geom.m_hsync_off_pos ∨
             (derive_parameters s).vsync_off_pos ≠ s.geom.m_vsync_off_pos) := by
    rw [Bool.eq_iff_iff]
    simp [parameters_changed, or_assoc]
  have hmain : (recompute_parameters s false).1.ctr
      = (if parameters_changed
            { s with m_upd_time := cclks_to_attotime s (4 * s.m_hpixels_per_column) }
            (derive_parameters s) false = true ∧ s.cfg.reconfigure_cb_bound = true
         then { s.ctr with m_line_counter := 0 } else s.ctr) := by
    unfold recompute_parameters
    simp only []
    cases parameters_changed
        { s with m_upd_time := cclks_to_attotime s (4 * s.m_hpixels_per_column) }
        (derive_parameters s) false <;>
      cases s.cfg.reconfigure_cb_bound <;> simp
  rw [hc] at hmain
  simp only [decide_eq_true_eq] at hmain
  refine ⟨hmain, ?_, ?_, ?_, ?_⟩ <;>
  · rw [hmain]
    split_ifs <;> rfl

theorem mrdo_latch_independent (s s1 : MrdoState) (offset offset1 data : Nat) :
    mrdo_secre_r (mrdo_fgvideoram_w s offset data).1
      = mrdo_secre_r (mrdo_fgvideoram_w s1 offset1 data).1 := rfl

set_option maxRecDepth 100000 in
theorem mrdo_latch_bits : ∀ data : Fin 256,
    (∀ n : Fin 19, 13 ≤ n.val →
      ((mrdo_secre_r (mrdo_fgvideoram_w mrdo_cleared 0 data.val).1).testBit (n.val - 12) = false ↔
        pal_rf_low n.val (data.val.testBit 7) (data.val.testBit 6) (data.val.testBit 5)
          (data.val.testBit 4) (data.val.testBit 3) (data.val.testBit 1) (data.val.testBit 0)
          = true)) ∧
    (mrdo_secre_r (mrdo_fgvideoram_w mrdo_cleared 0 data.val).1).testBit 0 = false ∧
    (mrdo_secre_r (mrdo_fgvideoram_w mrdo_cleared 0 data.val).1).testBit 7 = false ∧
    mrdo_secre_r (mrdo_fgvideoram_w mrdo_cleared 0 data.val).1 < 256 ∧
    mrdo_secre_r (mrdo_fgvideoram_w mrdo_cleared 0 (data.val &&& 0xfb)).1
      = mrdo_secre_r (mrdo_fgvideoram_w mrdo_cleared 0 data.val).1 ∧
    mrdo_secre_r (mrdo_fgvideoram_w mrdo_cleared 0 (data.val ||| 0x04)).1
      = mrdo_secre_r (mrdo_fgvideoram_w mrdo_cleared 0 data.val).1 ∧
    ((pal_product_a (data.val.testBit 7) (data.val.testBit 6) (data.val.testBit 5)
          (data.val.testBit 4) (data.val.testBit 3) (data.val.testBit 1) (data.val.testBit 0)
        || pal_product_b (data.val.testBit 7) (data.val.testBit 6) (data.val.testBit 5)
          (data.val.testBit 4) (data.val.testBit 3) (data.val.testBit 1) (data.val.testBit 0)
        || pal_product_c (data.val.testBit 7) (data.val.testBit 6) (data.val.testBit 5)
          (data.val.testBit 4) (data.val.testBit 3) (data.val.testBit 1) (data.val.testBit 0)
        || pal_product_d (data.val.testBit 7) (data.val.testBit 6) (data.val.testBit 5)
          (data.val.testBit 4) (data.val.testBit 3) (data.val.testBit 1) (data.val.testBit 0))
        = false →
      mrdo_secre_r (mrdo_fgvideoram_w mrdo_cleared 0 data.val).1 = 0x7e) := by
  decide

/-- C39: Mr. Do! protection PAL.  For every data byte written by
`mrdo_fgvideoram_w`, at any offset and in any state, with i2, i3, i4, i5, i6,
i8, i9 the data bits 7, 6, 5, 4, 3, 1, 0: the latched value returned by
`mrdo_secre_r` has, for n in 13 .. 18, bit (n - 12) equal to 0 exactly when
the documented sum of products for /rfn holds; bits 0 and 7 are always 0 (the
value is a byte); the value is the same for any other state and write offset
and when data bit 2 is cleared or set; and it equals 0x7e when none of the
four product terms matches. -/
theorem mrdo_protection_latch (s : MrdoState) (offset : Nat) (data : Fin 256) :
    (∀ n : Nat, 13 ≤ n → n ≤ 18 →
      ((mrdo_secre_r (mrdo_fgvideoram_w s offset data.val).1).testBit (n - 12) = false ↔
        pal_rf_low n (data.val.testBit 7) (data.val.testBit 6) (data.val.testBit 5)
          (data.val.testBit 4) (data.val.testBit 3) (data.val.testBit 1) (data.val.testBit 0)
          = true)) ∧
    (mrdo_secre_r (mrdo_fgvideoram_w s offset data.val).1).testBit 0 = false ∧
    (mrdo_secre_r (mrdo_fgvideoram_w s offset data.val).1).testBit 7 = false ∧
    mrdo_secre_r (mrdo_fgvideoram_w s offset data.val).1 < 256 ∧
    (∀ (s1 : MrdoState) (offset1 : Nat),
      mrdo_secre_r (mrdo_fgvideoram_w s1 offset1 data.val).1
        = mrdo_secre_r (mrdo_fgvideoram_w s offset data.val).1 ∧
      mrdo_secre_r (mrdo_fgvideoram_w s1 offset1 (data.val &&& 0xfb)).1
        = mrdo_secre_r (mrdo_fgvideoram_w s offset data.val).1 ∧
      mrdo_secre_r (mrdo_fgvideoram_w s1 offset1 (data.val ||| 0x04)).1
        = mrdo_secre_r (mrdo_fgvideoram_w s offset data.val).1) ∧
    ((pal_product_a (data.val.testBit 7) (data.val.testBit 6) (data.val.testBit 5)
          (data.val.testBit 4) (data.val.testBit 3) (data.val.testBit 1) (data.val.testBit 0)
        || pal_product_b (data.val.testBit 7) (data.val.testBit 6) (data.val.testBit 5)
          (data.val.testBit 4) (data.val.testBit 3) (data.val.testBit 1) (data.val.testBit 0)
        || pal_product_c (data.val.testBit 7) (data.val.testBit 6) (data.val.testBit 5)
          (data.val.testBit 4) (data.val.testBit 3) (data.val.testBit 1) (data.val.testBit 0)
        || pal_product_d (data.val.testBit 7) (data.val.testBit 6) (data.val.testBit 5)
          (data.val.testBit 4) (data.val.testBit 3) (data.val.testBit 1) (data.val.testBit 0))
        = false →
      mrdo_secre_r (mrdo_fgvideoram_w s offset data.val).1 = 0x7e) := by
  obtain ⟨h1, h2, h3, h4, h5, h6, h7⟩ := mrdo_latch_bits data
  have e : ∀ (t : MrdoState) (o d : Nat), mrdo_secre_r (mrdo_fgvideoram_w t o d).1
      = mrdo_secre_r (mrdo_fgvideoram_w mrdo_cleared 0 d).1 :=
    fun t o d => mrdo_latch_independent t mrdo_cleared o 0 d
  rw [e s offset]
  refine ⟨?_, h2, h3, h4, ?_, h7⟩
  · intro n hn1 hn2
    exact h1 ⟨n, by omega⟩ hn1
  · intro s1 offset1
    rw [e s1 offset1, e s1 offset1, e s1 offset1]
    exact ⟨rfl, h5, h6⟩

/-- C40: TI-8x bit socket round trip.  For every line level `state` (taken as
true when non-zero, s = 1, and false when zero, s = 0): `input_tip` writes the
one byte s | 0x02 to the stream and `input_ring` the one byte s | 0x04; the
poll handler that receives the tip byte calls `output_tip` with exactly s and
does not call `output_ring`, and the poll handler that receives the ring byte
calls `output_ring` with exactly s and does not call `output_tip`.  For a
level that is 0 or 1, s is the level itself. -/
theorem bit_socket_round_trip (s t : BitSocketState) (state : Int) :
    (bit_socket_input_tip s state).2
      = [BitSocketEvent.stream_output ((if state ≠ 0 then 1 else 0) ||| 0x02)] ∧
    (bit_socket_input_ring s state).2
      = [BitSocketEvent.stream_output ((if state ≠ 0 then 1 else 0) ||| 0x04)] ∧
    (∀ b, (bit_socket_input_tip s state).2 = [BitSocketEvent.stream_output b] →
      (bit_socket_device_timer t TIMER_ID_POLL [b]).2
        = [BitSocketEvent.output_tip (if state ≠ 0 then 1 else 0)]) ∧
    (∀ b, (bit_socket_input_ring s state).2 = [BitSocketEvent.stream_output b] →
      (bit_socket_device_timer t TIMER_ID_POLL [b]).2
        = [BitSocketEvent.output_ring (if state ≠ 0 then 1 else 0)]) ∧
    ((state = 0 ∨ state = 1) → (((if state ≠ 0 then 1 else 0 : Nat) : Int) = state)) := by
  have h1 : (bit_socket_input_tip s state).2
      = [BitSocketEvent.stream_output ((if state ≠ 0 then 1 else 0) ||| 0x02)] := by
    unfold bit_socket_input_tip
    by_cases h : state = 0 <;> simp [h]
  have h2 : (bit_socket_input_ring s state).2
      = [BitSocketEvent.stream_output ((if state ≠ 0 then 1 else 0) ||| 0x04)] := by
    unfold bit_socket_input_ring
    by_cases h : state = 0 <;> simp [h]
  refine ⟨h1, h2, ?_, ?_, ?_⟩
  · intro b hb
    rw [h1] at hb
    simp only [List.cons.injEq, BitSocketEvent.stream_output.injEq, and_true] at hb
    rw [← hb]
    by_cases h : state = 0
    · simp only [h, ne_eq, not_true_eq_false, if_false]
      rfl
    · simp only [h, ne_eq, not_false_eq_true, if_true]
      rfl
  · intro b hb
    rw [h2] at hb
    simp only [List.cons.injEq, BitSocketEvent.stream_output.injEq, and_true] at hb
    rw [← hb]
    by_cases h : state = 0
    · simp only [h, ne_eq, not_true_eq_false, if_false]
      rfl
    · simp only [h, ne_eq, not_false_eq_true, if_true]
      rfl
  · rintro (h | h) <;> simp [h]

theorem mos8563_register_w_fields (s : MOS8563State) (data : Nat) :
    (mos8563_register_w s data).1.base.regs = (mos8563_register_w_store s data).1.base.regs ∧
    (mos8563_register_w s data).1.base.ctr.m_register_address_latch
      = (mos8563_register_w_store s data).1.base.ctr.m_register_address_latch ∧
    (mos8563_register_w s data).1.m_horiz_char = (mos8563_register_w_store s data).1.m_horiz_char ∧
    (mos8563_register_w s data).1.m_vert_char_disp
      = (mos8563_register_w_store s data).1.m_vert_char_disp ∧
    (mos8563_register_w s data).1.m_vert_scroll
      = (mos8563_register_w_store s data).1.m_vert_scroll ∧
    (mos8563_register_w s data).1.m_horiz_scroll
      = (mos8563_register_w_store s data).1.m_horiz_scroll ∧
    (mos8563_register_w s data).1.m_color = (mos8563_register_w_store s data).1.m_color ∧
    (mos8563_register_w s data).1.m_row_addr_incr
      = (mos8563_register_w_store s data).1.m_row_addr_incr ∧
    (mos8563_register_w s data).1.m_char_base_addr
      = (mos8563_register_w_store s data).1.m_char_base_addr ∧
    (mos8563_register_w s data).1.m_underline_ras
      = (mos8563_register_w_store s data).1.m_underline_ras ∧
    (mos8563_register_w s data).1.m_dram_refresh
      = (mos8563_register_w_store s data).1.m_dram_refresh ∧
    (mos8563_register_w s data).1.m_sync_polarity
      = (mos8563_register_w_store s data).1.m_sync_polarity := by
  refine ⟨recompute_parameters_regs _ _, ?_, rfl, rfl, rfl, rfl, rfl, rfl, rfl, rfl, rfl, rfl⟩
  show (recompute_parameters _ false).1.ctr.m_register_address_latch = _
  unfold recompute_parameters
  simp only []
  split_ifs <;> rfl

theorem recompute_parameters_latch (s : State) (postload : Bool) :
    (recompute_parameters s postload).1.ctr.m_register_address_latch
      = s.ctr.m_register_address_latch := by
  unfold recompute_parameters
  simp only []
  split_ifs <;> rfl

theorem mos8563_read_back_05 (s : MOS8563State) (d : Nat) :
    (mos8563_register_r (mos8563_register_w (mos8563_address_w s 0x05) d).1).1
      = (d &&& 0x1f) ||| 0xc0 := by
  have h := mos8563_register_w_fields (mos8563_address_w s 0x05) d
  have hl : (mos8563_register_w (mos8563_address_w s 0x05) d).1.base.ctr.m_register_address_latch
      = 0x05 := by rw [h.2.1]; rfl
  unfold mos8563_register_r
  rw [hl]
  simp only []
  rw [h.1]
  rfl

theorem mos8563_register_w_store_latch (s : MOS8563State) (data : Nat) :
    (mos8563_register_w_store s data).1.base.ctr.m_register_address_latch
      = s.base.ctr.m_register_address_latch := by
  unfold mos8563_register_w_store
  split <;> try rfl
  simp only []
  split_ifs <;> simp only [recompute_parameters_latch]

theorem mos8563_register_read_back (s : MOS8563State) (d i : Nat)
    (hi : i ∈ [0x00, 0x01, 0x02, 0x03, 0x04, 0x06, 0x07, 0x08, 0x09, 0x0a, 0x0b,
      0x16, 0x17, 0x18, 0x19, 0x1a, 0x1b, 0x1c, 0x1d, 0x24, 0x25]) :
    (mos8563_register_r (mos8563_register_w (mos8563_address_w s i) d).1).1
      = read_back_value (mos8563_write_mask i) d := by
  have h := mos8563_register_w_fields (mos8563_address_w s i) d
  have hl : (mos8563_register_w (mos8563_address_w s i) d).1.base.ctr.m_register_address_latch
      = i &&& 0x3f := by
    rw [h.2.1, mos8563_register_w_store_latch]
    rfl
  simp only [List.mem_cons, List.mem_singleton, List.not_mem_nil, or_false] at hi
  unfold mos8563_register_r
  rw [hl]
  rcases hi with rfl | rfl | rfl | rfl | rfl | rfl | rfl | rfl | rfl | rfl | rfl | rfl | rfl |
    rfl | rfl | rfl | rfl | rfl | rfl | rfl | rfl
  · show _ = _
    simp only []
    rw [h.1]
    simp [read_back_value, mos8563_write_mask, mos8563_register_w_store, mos8563_address_w]
  · show _ = _
    simp only []
    rw [h.1]
    simp [read_back_value, mos8563_write_mask, mos8563_register_w_store, mos8563_address_w]
  · show _ = _
    simp only []
    rw [h.1]
    simp [read_back_value, mos8563_write_mask, mos8563_register_w_store, mos8563_address_w]
  · show _ = _
    simp only []
    rw [h.1]
    simp [read_back_value, mos8563_write_mask, mos8563_register_w_store, mos8563_address_w]
  · show _ = _
    simp only []
    rw [h.1]
    simp [read_back_value, mos8563_write_mask, mos8563_register_w_store, mos8563_address_w]
  · show _ = _
    simp only []
    rw [h.1]
    simp [read_back_value, mos8563_write_mask, mos8563_register_w_store, mos8563_address_w]
  · show _ = _
    simp only []
    rw [h.1]
    simp [read_back_value, mos8563_write_mask, mos8563_register_w_store, mos8563_address_w]
  · show _ = _
    simp only []
    rw [h.1]
    simp [read_back_value, mos8563_write_mask, mos8563_register_w_store, mos8563_address_w]
  · show _ = _
    simp only []
    rw [h.1]
    simp [read_back_value, mos8563_write_mask, mos8563_register_w_store, mos8563_address_w]
  · show _ = _
    simp only []
    rw [h.1]
    simp [read_back_value, mos8563_write_mask, mos8563_register_w_store, mos8563_address_w]
  · show _ = _
    simp only []
    rw [h.1]
    simp [read_back_value, mos8563_write_mask, mos8563_register_w_store, mos8563_address_w]
  · show _ = _
    simp only []
    rw [h.2.2.1]
    simp [read_back_value, mos8563_write_mask, mos8563_register_w_store, mos8563_address_w]
  · show _ = _
    simp only []
    rw [h.2.2.2.1]
    simp [read_back_value, mos8563_write_mask, mos8563_register_w_store, mos8563_address_w]
  · show _ = _
    simp only []
    rw [h.2.2.2.2.1]
    simp [read_back_value, mos8563_write_mask, mos8563_register_w_store, mos8563_address_w]
  · show _ = _
    simp only []
    rw [h.2.2.2.2.2.1]
    simp only [read_back_value, mos8563_write_mask, mos8563_register_w_store, mos8563_address_w]
    split_ifs <;> simp
  · show _ = _
    simp only []
    rw [h.2.2.2.2.2.2.1]
    simp [read_back_value, mos8563_write_mask, mos8563_register_w_store, mos8563_address_w]
  · show _ = _
    simp only []
    rw [h.2.2.2.2.2.2.2.1]
    simp [read_back_value, mos8563_write_mask, mos8563_register_w_store, mos8563_address_w]
  · show _ = _
    simp only []
    rw [h.2.2.2.2.2.2.2.2.1]
    simp [read_back_value, mos8563_write_mask, mos8563_register_w_store, mos8563_address_w]
  · show _ = _
    simp only []
    rw [h.2.2.2.2.2.2.2.2.2.1]
    simp [read_back_value, mos8563_write_mask, mos8563_register_w_store, mos8563_address_w]
  · show _ = _
    simp only []
    rw [h.2.2.2.2.2.2.2.2.2.2.1]
    simp [read_back_value, mos8563_write_mask, mos8563_register_w_store, mos8563_address_w]
  · show _ = _
    simp only []
    rw [h.2.2.2.2.2.2.2.2.2.2.2]
    simp [read_back_value, mos8563_write_mask, mos8563_register_w_store, mos8563_address_w]

theorem mos8563_register_r_undefined (s : MOS8563State) (i : Nat) (h1 : 0x26 ≤ i)
    (h2 : i ≤ 0x3f) : (mos8563_register_r (mos8563_address_w s i)).1 = 0xff := by
  interval_cases i <;> rfl

/-- C33 fails on the code at register 0x05 (vertical total adjust): on a
started MOS8563, selecting register 0x05, writing 0x00 and reading back
returns 0xc0, where the claim has (0x00 & 0x1f) | (0xff & ~0x1f) = 0xe0.  For
every state and data byte the read-back of register 0x05 is (d & 0x1f) |
0xc0, so bit 5 always reads 0 although it is outside the write mask.  For
every other register of the claim the read-back is (d & m) | (0xff & ~m),
and a read with the latch at 0x26 .. 0x3f returns 0xff. -/
theorem mos8563_register_05_read_back :
    (mos8563_register_r (mos8563_register_w (mos8563_address_w mos8563_started 0x05) 0x00).1).1
      = 0xc0 ∧
    read_back_value (mos8563_write_mask 0x05) 0x00 = 0xe0 ∧
    (∀ (s : MOS8563State) (d : Nat),
      (mos8563_register_r (mos8563_register_w (mos8563_address_w s 0x05) d).1).1
        = (d &&& 0x1f) ||| 0xc0 ∧
      ((mos8563_register_r (mos8563_register_w (mos8563_address_w s 0x05) d).1).1).testBit 5
        = false ∧
      (read_back_value (mos8563_write_mask 0x05) d).testBit 5 = true) ∧
    (∀ (s : MOS8563State) (d i : Nat),
      i ∈ [0x00, 0x01, 0x02, 0x03, 0x04, 0x06, 0x07, 0x08, 0x09, 0x0a, 0x0b,
        0x16, 0x17, 0x18, 0x19, 0x1a, 0x1b, 0x1c, 0x1d, 0x24, 0x25] →
      (mos8563_register_r (mos8563_register_w (mos8563_address_w s i) d).1).1
        = read_back_value (mos8563_write_mask i) d) ∧
    (∀ (s : MOS8563State) (i : Nat), 0x26 ≤ i → i ≤ 0x3f →
      (mos8563_register_r (mos8563_address_w s i)).1 = 0xff) := by
  refine ⟨?_, by decide, ?_, fun s d i hi => mos8563_register_read_back s d i hi,
    fun s i h1 h2 => mos8563_register_r_undefined s i h1 h2⟩
  · rw [mos8563_read_back_05]
    decide
  · intro s d
    refine ⟨mos8563_read_back_05 s d, ?_, ?_⟩
    · rw [mos8563_read_back_05]
      have h1 : Nat.testBit 31 5 = false := by decide
      have h2 : Nat.testBit 192 5 = false := by decide
      simp [Nat.testBit_or, Nat.testBit_and, h1, h2]
    · have h3 : Nat.testBit 224 5 = true := by decide
      simp [read_back_value, mos8563_write_mask, Nat.testBit_or, h3]

theorem videoram_writes_append (a b : List MOS8563Event) :
    videoram_writes (a ++ b) = videoram_writes a ++ videoram_writes b := by
  induction a with
  | nil => rfl
  | cons e rest ih =>
    cases e <;> simp [videoram_writes, ih]

/-- One block-copy event. -/
theorem mos8563_block_copy_step (t : MOS8563State) :
    (mos8563_block_copy t).1.m_word_count = u8 ((t.m_word_count : Int) - 1) ∧
    (mos8563_block_copy t).1.base.regs.m_update_addr = (t.base.regs.m_update_addr + 1) % 65536 ∧
    (mos8563_block_copy t).1.m_block_addr
      = (if VSS_COPY t != 0 then (t.m_block_addr + 1) % 65536 else t.m_block_addr) ∧
    (mos8563_block_copy t).1.m_vert_scroll = t.m_vert_scroll ∧
    (mos8563_block_copy t).1.m_data = t.m_data ∧
    (mos8563_block_copy t).1.base.ctr.m_update_ready_bit
      = (if u8 ((t.m_word_count : Int) - 1) != 0 then t.base.ctr.m_update_ready_bit else true) ∧
    videoram_writes (mos8563_block_copy t).2
      = [(t.base.regs.m_update_addr,
          if VSS_COPY t != 0 then t.videoram t.m_block_addr else t.m_data)] ∧
    (mos8563_block_copy t).2.any is_block_copy_adjust = (u8 ((t.m_word_count : Int) - 1) != 0) := by
  unfold mos8563_block_copy
  simp only []
  cases hc : (VSS_COPY t != 0) <;> cases hw : (u8 ((t.m_word_count : Int) - 1) != 0) <;>
    simp only [hc, hw, if_true, if_false, Bool.false_eq_true, mos8563_write_videoram,
      mos8563_read_videoram] <;>
    simp [videoram_writes, is_block_copy_adjust]

theorem mos8563_block_copy_steps_shift (k : Nat) (t : MOS8563State) :
    mos8563_block_copy_steps (k + 1) t = mos8563_block_copy_steps k (mos8563_block_copy t).1 := by
  induction k with
  | zero => rfl
  | succ k ih =>
    show (mos8563_block_copy (mos8563_block_copy_steps (k + 1) t)).1 = _
    rw [ih]
    rfl

theorem u8_pred_pred (w : Nat) (k : Nat) :
    u8 ((u8 ((w : Int) - k) : Int) - 1) = u8 ((w : Int) - (k + 1 : Nat)) := by
  unfold u8
  omega

/-- The members after `k` block-copy events. -/
theorem mos8563_block_copy_steps_fields (t : MOS8563State) (hw : t.m_word_count < 256)
    (hu : t.base.regs.m_update_addr < 65536) (hb : t.m_block_addr < 65536) (k : Nat) :
    (mos8563_block_copy_steps k t).m_word_count = u8 ((t.m_word_count : Int) - k) ∧
    (mos8563_block_copy_steps k t).base.regs.m_update_addr
      = (t.base.regs.m_update_addr + k) % 65536 ∧
    (mos8563_block_copy_steps k t).m_block_addr
      = (if VSS_COPY t != 0 then (t.m_block_addr + k) % 65536 else t.m_block_addr) ∧
    (mos8563_block_copy_steps k t).m_vert_scroll = t.m_vert_scroll ∧
    (mos8563_block_copy_steps k t).m_data = t.m_data := by
  induction k with
  | zero =>
    refine ⟨?_, ?_, ?_, rfl, rfl⟩
    · show t.m_word_count = u8 ((t.m_word_count : Int) - (0 : Nat))
      unfold u8
      omega
    · show t.base.regs.m_update_addr = _
      omega
    · show t.m_block_addr = _
      split_ifs
      · omega
      · rfl
  | succ k ih =>
    obtain ⟨h1, h2, h3, h4, h5⟩ := ih
    have hs := mos8563_block_copy_step (mos8563_block_copy_steps k t)
    have hv : VSS_COPY (mos8563_block_copy_steps k t) = VSS_COPY t := by
      unfold VSS_COPY
      rw [h4]
    show (mos8563_block_copy (mos8563_block_copy_steps k t)).1.m_word_count = _ ∧
      (mos8563_block_copy (mos8563_block_copy_steps k t)).1.base.regs.m_update_addr = _ ∧
      (mos8563_block_copy (mos8563_block_copy_steps k t)).1.m_block_addr = _ ∧
      (mos8563_block_copy (mos8563_block_copy_steps k t)).1.m_vert_scroll = _ ∧
      (mos8563_block_copy (mos8563_block_copy_steps k t)).1.m_data = _
    rw [hs.1, hs.2.1, hs.2.2.1, hs.2.2.2.1, hs.2.2.2.2.1, h1, h2, h3, h4, h5, hv]
    refine ⟨u8_pred_pred _ _, ?_, ?_, rfl, rfl⟩
    · omega
    · split_ifs
      · omega
      · rfl

/-- The event loop ends after as many events as the word count says (256
for a word count of 0), and each event makes exactly one video RAM write. -/
theorem mos8563_block_copy_run_terminates (c : Nat) :
    ∀ (t : MOS8563State) (fuel : Nat), t.m_word_count < 256 →
      block_copy_count t.m_word_count = c + 1 → c + 1 ≤ fuel →
      ∃ ev, mos8563_block_copy_run fuel t = some (mos8563_block_copy_steps (c + 1) t, ev) ∧
        videoram_writes ev
          = (List.range (c + 1)).map (fun i =>
              ((mos8563_block_copy_steps i t).base.regs.m_update_addr,
               if VSS_COPY (mos8563_block_copy_steps i t) != 0
               then (mos8563_block_copy_steps i t).videoram
                      (mos8563_block_copy_steps i t).m_block_addr
               else (mos8563_block_copy_steps i t).m_data)) := by
  induction c with
  | zero =>
    intro t fuel hw hc hf
    obtain ⟨f, rfl⟩ : ∃ f, fuel = f + 1 := ⟨fuel - 1, by omega⟩
    have hs := mos8563_block_copy_step t
    have hw1 : t.m_word_count = 1 := by
      unfold block_copy_count at hc
      split_ifs at hc <;> omega
    have hz : (u8 ((t.m_word_count : Int) - 1) != 0) = false := by
      rw [hw1]
      decide
    refine ⟨(mos8563_block_copy t).2, ?_, ?_⟩
    · show (if (mos8563_block_copy t).2.any is_block_copy_adjust = true then _ else _) = _
      rw [hs.2.2.2.2.2.2.2, hz]
      rfl
    · rw [hs.2.2.2.2.2.2.1]
      rfl
  | succ c ih =>
    intro t fuel hw hc hf
    obtain ⟨f, rfl⟩ : ∃ f, fuel = f + 1 := ⟨fuel - 1, by omega⟩
    have hs := mos8563_block_copy_step t
    have hu : u8 ((t.m_word_count : Int) - 1) = (if t.m_word_count = 0 then 255 else t.m_word_count - 1) := by
      unfold u8
      split_ifs <;> omega
    have hnz : (u8 ((t.m_word_count : Int) - 1) != 0) = true := by
      rw [hu]
      unfold block_copy_count at hc
      split_ifs at hc ⊢
      · decide
      · simp only [bne_iff_ne, ne_eq]
        omega
    have hw2 : (mos8563_block_copy t).1.m_word_count < 256 := by
      rw [hs.1, hu]
      split_ifs <;> omega
    have hc2 : block_copy_count (mos8563_block_copy t).1.m_word_count = c + 1 := by
      rw [hs.1, hu]
      unfold block_copy_count at hc ⊢
      by_cases h0 : t.m_word_count = 0
      · rw [if_pos h0] at hc
        rw [if_pos h0]
        simp only [show (255 : Nat) ≠ 0 by decide, if_false]
        omega
      · rw [if_neg h0] at hc
        rw [if_neg h0, if_neg (by omega)]
        omega
    obtain ⟨ev, he1, he2⟩ := ih (mos8563_block_copy t).1 f hw2 hc2 (by omega)
    refine ⟨(mos8563_block_copy t).2 ++ ev, ?_, ?_⟩
    · show (if (mos8563_block_copy t).2.any is_block_copy_adjust = true then _ else _) = _
      rw [hs.2.2.2.2.2.2.2, hnz, if_pos rfl, he1, mos8563_block_copy_steps_shift (c + 1) t]
    · rw [videoram_writes_append, hs.2.2.2.2.2.2.1, he2, List.range_succ_eq_map (c + 1)]
      simp only [List.map_cons, List.map_map, List.singleton_append]
      congr 1
      apply List.map_congr_left
      intro i _
      simp only [Function.comp, mos8563_block_copy_steps_shift i t]

theorem mos8563_register_w_1e (s : MOS8563State) (n : Nat)
    (hl : s.base.ctr.m_register_address_latch = 0x1e) :
    (mos8563_register_w s n).1.base.ctr.m_update_ready_bit = false ∧
    (mos8563_register_w s n).1.m_word_count = n &&& 0xff ∧
    (mos8563_register_w s n).1.base.regs = s.base.regs ∧
    (mos8563_register_w s n).1.m_block_addr = s.m_block_addr ∧
    (mos8563_register_w s n).1.m_vert_scroll = s.m_vert_scroll ∧
    (mos8563_register_w s n).1.m_data = s.m_data ∧
    (mos8563_register_w s n).1.videoram = s.videoram ∧
    MOS8563Event.block_copy_timer_adjust (Delay.clocks (cclks_to_attotime s.base 1))
      ∈ (mos8563_register_w s n).2 := by
  have hst : mos8563_register_w_store s n
      = ({ s with
           m_word_count := n &&& 0xff,
           base := { s.base with ctr := { s.base.ctr with m_update_ready_bit := false } } },
         [MOS8563Event.block_copy_timer_adjust (Delay.clocks (cclks_to_attotime s.base 1))]) := by
    unfold mos8563_register_w_store
    rw [hl]
  have hr : ∀ b : State, (recompute_parameters b false).1.ctr.m_update_ready_bit
      = b.ctr.m_update_ready_bit := by
    intro b
    unfold recompute_parameters
    simp only []
    split_ifs <;> rfl
  refine ⟨?_, ?_, ?_, ?_, ?_, ?_, ?_, ?_⟩ <;> simp only [mos8563_register_w, hst]
  · rw [hr]
  · rw [recompute_parameters_regs]
  · simp

/-- C38: MOS8563 block copy / fill terminates after the programmed count.
With register 0x1e selected, the update and block addresses within 16 bits
and a data byte n, `register_w` clears the update-ready bit, stores n as the
word count and adjusts the block-copy timer.  With N = n for 1 <= n <= 255
and N = 256 for n = 0, the block-copy event loop then returns for every bound
of at least N events, after exactly N events; its video RAM writes are
exactly N, the i-th (from 0) to the address (update address + i) mod 2^16,
writing the data register in fill mode (vertical-scroll bit 7 clear) and the
byte the video RAM holds at that moment at (block address + i) mod 2^16 in
copy mode.  Afterwards the update address is (old + N) mod 2^16, the
update-ready bit is set and the word count is 0. -/
theorem mos8563_block_copy_terminates (s : MOS8563State) (n : Nat)
    (hl : s.base.ctr.m_register_address_latch = 0x1e) (hn : n < 256)
    (hu : s.base.regs.m_update_addr < 65536) (hb : s.m_block_addr < 65536) :
    (mos8563_register_w s n).1.base.ctr.m_update_ready_bit = false ∧
    (mos8563_register_w s n).1.m_word_count = n ∧
    MOS8563Event.block_copy_timer_adjust (Delay.clocks (cclks_to_attotime s.base 1))
      ∈ (mos8563_register_w s n).2 ∧
    (∀ fuel, block_copy_count n ≤ fuel →
      ∃ ev, mos8563_block_copy_run fuel (mos8563_register_w s n).1
          = some (mos8563_block_copy_steps (block_copy_count n) (mos8563_register_w s n).1, ev) ∧
        videoram_writes ev
          = (List.range (block_copy_count n)).map (fun i =>
              ((s.base.regs.m_update_addr + i) % 65536,
               if VSS_COPY s != 0
               then (mos8563_block_copy_steps i (mos8563_register_w s n).1).videoram
                      ((s.m_block_addr + i) % 65536)
               else s.m_data)) ∧
        (videoram_writes ev).length = block_copy_count n) ∧
    (mos8563_block_copy_steps (block_copy_count n)
        (mos8563_register_w s n).1).base.regs.m_update_addr
      = (s.base.regs.m_update_addr + block_copy_count n) % 65536 ∧
    (mos8563_block_copy_steps (block_copy_count n)
        (mos8563_register_w s n).1).base.ctr.m_update_ready_bit = true ∧
    (mos8563_block_copy_steps (block_copy_count n) (mos8563_register_w s n).1).m_word_count = 0 ∧
    (block_copy_count n = if n = 0 then 256 else n) := by
  obtain ⟨r1, r2, r3, r4, r5, r6, _, r8⟩ := mos8563_register_w_1e s n hl
  have hnn : n &&& 0xff = n := by
    rw [Nat.and_pow_two_sub_one_eq_mod n 8]
    omega
  rw [hnn] at r2
  obtain ⟨s1, hs1⟩ : ∃ s1, s1 = (mos8563_register_w s n).1 := ⟨_, rfl⟩
  rw [← hs1] at r1 r2 r3 r4 r5 r6 ⊢
  have hw1 : s1.m_word_count < 256 := by rw [r2]; exact hn
  have hu1 : s1.base.regs.m_update_addr < 65536 := by rw [r3]; exact hu
  have hb1 : s1.m_block_addr < 65536 := by rw [r4]; exact hb
  have hv1 : VSS_COPY s1 = VSS_COPY s := by unfold VSS_COPY; rw [r5]
  have hf := mos8563_block_copy_steps_fields s1 hw1 hu1 hb1
  obtain ⟨c, hc⟩ : ∃ c, block_copy_count n = c + 1 := by
    refine ⟨block_copy_count n - 1, ?_⟩
    unfold block_copy_count
    split_ifs <;> omega
  have hcn : block_copy_count s1.m_word_count = c + 1 := by rw [r2]; exact hc
  refine ⟨r1, r2, r8, ?_, ?_, ?_, ?_, rfl⟩
  · intro fuel hfuel
    obtain ⟨ev, he1, he2⟩ := mos8563_block_copy_run_terminates c s1 fuel hw1 hcn (by omega)
    have he3 : videoram_writes ev
        = (List.range (block_copy_count n)).map (fun i =>
              ((s.base.regs.m_update_addr + i) % 65536,
               if VSS_COPY s != 0
               then (mos8563_block_copy_steps i s1).videoram ((s.m_block_addr + i) % 65536)
               else s.m_data)) := by
      rw [he2, hc]
      apply List.map_congr_left
      intro i _
      have hv : VSS_COPY (mos8563_block_copy_steps i s1) = VSS_COPY s := by
        unfold VSS_COPY
        rw [(hf i).2.2.2.1, r5]
      rw [(hf i).2.1, (hf i).2.2.1, (hf i).2.2.2.2, hv, hv1, r3, r4, r6]
      split_ifs <;> rfl
    refine ⟨ev, ?_, he3, ?_⟩
    · rw [he1, hc]
    · rw [he3, List.length_map, List.length_range]
  · rw [(hf _).2.1, r3]
  · rw [hc]
    show (mos8563_block_copy (mos8563_block_copy_steps c s1)).1.base.ctr.m_update_ready_bit = true
    rw [(mos8563_block_copy_step _).2.2.2.2.2.1, (hf c).1, u8_pred_pred, r2]
    have hz : u8 ((n : Int) - (c + 1 : Nat)) = 0 := by
      unfold block_copy_count at hc
      unfold u8
      split_ifs at hc <;> omega
    rw [hz]
    rfl
  · rw [(hf _).1, r2]
    unfold block_copy_count
    unfold u8
    split_ifs <;> omega

set_option maxRecDepth 100000 in
/-- Witness for C38: a fill of 3 bytes on the MOS8563 of `mos8563_fill_chip`
writes 0x5a to 0xfffe, 0xffff and 0x0000 and leaves the update address at
1. -/
theorem mos8563_block_copy_terminates_witness :
    (mos8563_fill_chip.base.ctr.m_register_address_latch = 0x1e ∧
      mos8563_fill_chip.base.regs.m_update_addr < 65536 ∧
      mos8563_fill_chip.m_block_addr < 65536) ∧
    (∃ ev, mos8563_block_copy_run 3 (mos8563_register_w mos8563_fill_chip 3).1
        = some (mos8563_block_copy_steps 3 (mos8563_register_w mos8563_fill_chip 3).1, ev) ∧
      videoram_writes ev = [(0xfffe, 0x5a), (0xffff, 0x5a), (0x0000, 0x5a)]) ∧
    (mos8563_block_copy_steps 3
        (mos8563_register_w mos8563_fill_chip 3).1).base.regs.m_update_addr = 1 := by
  have h := mos8563_block_copy_terminates mos8563_fill_chip 3 (by decide) (by decide)
    (by decide) (by decide)
  refine ⟨⟨by decide, by decide, by decide⟩, ?_, ?_⟩
  · obtain ⟨ev, h1, h2, _⟩ := h.2.2.2.1 3 (by decide)
    refine ⟨ev, h1, ?_⟩
    rw [h2]
    have hv : (VSS_COPY mos8563_fill_chip != 0) = false := by decide
    simp only [hv, Bool.false_eq_true, if_false]
    rfl
  · exact h.2.2.2.2.1

theorem draw_scanline_regs (ccv : State → Nat → Nat → Bool) (s s1 : State) (y : Int) (ra : Nat)
    (ev : List Event) (h : draw_scanline ccv s y = .ok (ra, s1, ev)) :
    s1.regs = s.regs ∧ s1.cfg = s.cfg ∧ ra = u8 (Int.tmod y (char_height s)) ∧
    char_height s1 = char_height s := by
  unfold draw_scanline at h
  simp only [] at h
  split_ifs at h <;> simp only [Except.ok.injEq, Prod.mk.injEq] at h <;>
    (obtain ⟨h1, h2, _⟩ := h; subst h2; exact ⟨rfl, rfl, h1.symm, rfl⟩)

/-- C32: HD6345 screen split.  Let the inherited (HD6845S) `draw_scanline(y)`
return the raster row `ra` and the state `b`, and let H be the character
height.  Then the `draw_scanline(y)` of the HD6345 returns the same raster
row and makes the same call of the row callback, and its state differs from
`b` at most in the running display address.  On the bottom raster row of a
character row (`ra` = H - 1), with r = y div H: the running display address
is the screen-2 start address if (control1 & 3) >= 1 and r equals the
screen-2 position and that position differs from the screen-3 and screen-4
positions; it is the screen-3 start address under the same conditions for
screen 3 with (control1 & 3) >= 2, and the screen-4 start address for screen 4
with (control1 & 3) = 3; when no rule applies the state is `b`.  On every
other scanline, and whenever (control1 & 3) = 0, the state is `b`.  For y >= 0
and 0 < H <= 256 the raster row is y mod H and r is the quotient y / H. -/
theorem hd6345_screen_split (s : HD6345State) (y : Int) (ra : Nat) (b : State)
    (ev : List Event)
    (h : draw_scanline hd6845s_check_cursor_visible s.base y = .ok (ra, b, ev)) :
    ∃ s1 : HD6345State,
      hd6345_draw_scanline s y = .ok (ra, s1, ev) ∧
      s1 = { s with base := { b with ctr := { b.ctr with
              m_current_disp_addr := s1.base.ctr.m_current_disp_addr } } } ∧
      ((ra : Int) = char_height s.base - 1 →
        ((1 ≤ s.m_control1 &&& 0x03 ∧ Int.tdiv y (char_height s.base) = s.m_disp2_pos ∧
            s.m_disp2_pos ≠ s.m_disp3_pos ∧ s.m_disp2_pos ≠ s.m_disp4_pos) →
          s1.base.ctr.m_current_disp_addr = s.m_disp2_start_addr) ∧
        ((2 ≤ s.m_control1 &&& 0x03 ∧ Int.tdiv y (char_height s.base) = s.m_disp3_pos ∧
            s.m_disp3_pos ≠ s.m_disp2_pos ∧ s.m_disp3_pos ≠ s.m_disp4_pos) →
          s1.base.ctr.m_current_disp_addr = s.m_disp3_start_addr) ∧
        ((s.m_control1 &&& 0x03 = 3 ∧ Int.tdiv y (char_height s.base) = s.m_disp4_pos ∧
            s.m_disp4_pos ≠ s.m_disp2_pos ∧ s.m_disp4_pos ≠ s.m_disp3_pos) →
          s1.base.ctr.m_current_disp_addr = s.m_disp4_start_addr) ∧
        (¬ (1 ≤ s.m_control1 &&& 0x03 ∧ Int.tdiv y (char_height s.base) = s.m_disp2_pos ∧
            s.m_disp2_pos ≠ s.m_disp3_pos ∧ s.m_disp2_pos ≠ s.m_disp4_pos) →
         ¬ (2 ≤ s.m_control1 &&& 0x03 ∧ Int.tdiv y (char_height s.base) = s.m_disp3_pos ∧
            s.m_disp3_pos ≠ s.m_disp2_pos ∧ s.m_disp3_pos ≠ s.m_disp4_pos) →
         ¬ (s.m_control1 &&& 0x03 = 3 ∧ Int.tdiv y (char_height s.base) = s.m_disp4_pos ∧
            s.m_disp4_pos ≠ s.m_disp2_pos ∧ s.m_disp4_pos ≠ s.m_disp3_pos) →
          s1.base = b)) ∧
      ((ra : Int) ≠ char_height s.base - 1 → s1.base = b) ∧
      (s.m_control1 &&& 0x03 = 0 → s1.base = b) ∧
      (0 ≤ y → 0 < char_height s.base → char_height s.base ≤ 256 →
        (ra : Int) = y % char_height s.base ∧
        Int.tdiv y (char_height s.base) = y / char_height s.base) := by
  obtain ⟨hregs, hcfg, hra, hH⟩ := draw_scanline_regs _ _ _ _ _ _ h
  have hc3 : s.m_control1 &&& 0x03 ≤ 3 := Nat.and_le_right
  have hlast : 0 ≤ y → 0 < char_height s.base → char_height s.base ≤ 256 →
      (ra : Int) = y % char_height s.base ∧
      Int.tdiv y (char_height s.base) = y / char_height s.base := by
    intro hy h0 h256
    constructor
    · rw [hra, u8_tmod y _ hy h0 h256]
      exact Int.toNat_of_nonneg (Int.emod_nonneg _ (by omega))
    · exact Int.tdiv_eq_ediv hy (le_of_lt h0)
  unfold hd6345_draw_scanline
  rw [h]
  simp only [hH]
  by_cases hb : (ra : Int) = char_height s.base - 1
  · have hb1 : ((ra : Int) == char_height s.base - 1) = true := by simp [hb]
    simp only [hb1, if_true]
    generalize Int.tdiv y (char_height s.base) = r at *
    split_ifs <;>
      refine ⟨_, rfl, rfl, fun _ => ⟨fun hx => ?_, fun hx => ?_, fun hx => ?_, fun n2 n3 n4 => ?_⟩,
        fun hx => absurd hb hx, fun hx => ?_, hlast⟩
    all_goals
      simp only [Bool.and_eq_true, decide_eq_true_eq, beq_iff_eq, bne_iff_ne, ne_eq,
        gt_iff_lt] at *
    all_goals first
      | rfl
      | (exfalso; omega)
  · have hb1 : ((ra : Int) == char_height s.base - 1) = false := by simp [hb]
    simp only [hb1, Bool.false_eq_true, if_false]
    refine ⟨_, rfl, rfl, fun hx => absurd hx hb, fun _ => rfl, fun _ => rfl, hlast⟩

set_option maxRecDepth 100000 in
/-- Witness for C32: on the HD6345 of `hd6345_split_chip`, scanline 23 is the
bottom raster row (7) of character row 2, the screen-2 position; after
`draw_scanline(23)` the running display address is the screen-2 start address
0x0100. -/
theorem hd6345_screen_split_witness :
    (∃ ra b ev, draw_scanline hd6845s_check_cursor_visible hd6345_split_chip.base 23
      = .ok (ra, b, ev)) ∧
    ∃ s1 ev, hd6345_draw_scanline hd6345_split_chip 23 = .ok (7, s1, ev) ∧
      s1.base.ctr.m_current_disp_addr = 0x0100 := by
  obtain ⟨ra, b, ev, h⟩ : ∃ ra b ev,
      draw_scanline hd6845s_check_cursor_visible hd6345_split_chip.base 23 = .ok (ra, b, ev) :=
    ⟨_, _, _, rfl⟩
  refine ⟨⟨ra, b, ev, h⟩, ?_⟩
  have hra : ra = 7 := by
    rw [(draw_scanline_regs _ _ _ _ _ _ h).2.2.1]
    decide
  obtain ⟨s1, h1, _, h3, _⟩ := hd6345_screen_split hd6345_split_chip 23 ra b ev h
  subst hra
  exact ⟨s1, ev, h1, (h3 (by decide)).1 (by decide)⟩

/-! ## Vertical total beyond the line counter -/

theorem vertical_adjust_idle_congr (s t : State)
    (h1 : t.ctr.m_adjust_active = s.ctr.m_adjust_active)
    (h2 : t.ctr.m_line_counter = s.ctr.m_line_counter) (h : vertical_adjust_idle s) :
    vertical_adjust_idle t := by
  unfold vertical_adjust_idle at *
  rw [h1, h2]
  exact h

theorem recompute_parameters_adjust_idle (s : State) (postload : Bool)
    (h : vertical_adjust_idle s) : vertical_adjust_idle (recompute_parameters s postload).1 := by
  unfold recompute_parameters
  simp only [vertical_adjust_idle] at *
  split_ifs <;> (try simp only []) <;> omega

theorem transparent_update_adjust_idle (s s1 : State) (ev : List Event)
    (hok : transparent_update s = .ok (s1, ev)) (h : vertical_adjust_idle s) :
    vertical_adjust_idle s1 := by
  unfold transparent_update at hok
  simp only [] at hok
  split_ifs at hok
  · rw [call_on_update_address_frame _ _ _ _ hok]
    exact h
  · simp only [Except.ok.injEq] at hok
    have h1 := congrArg Prod.fst hok
    rw [update_upd_adr_timer_state] at h1
    simp only [] at h1
    rw [← h1]
    exact h
  · simp only [Except.ok.injEq, Prod.mk.injEq] at hok
    rw [← hok.1]
    exact h
  · simp only [Except.ok.injEq, Prod.mk.injEq] at hok
    rw [← hok.1]
    exact h

theorem register_w_store_adjust_idle (s s1 : State) (data : Nat) (ev : List Event)
    (hok : register_w_store s data = .ok (s1, ev)) (h : vertical_adjust_idle s) :
    vertical_adjust_idle s1 := by
  unfold register_w_store at hok
  split at hok
  case h_19 =>
    simp only [] at hok
    split_ifs at hok
    · rw [call_on_update_address_frame _ _ _ _ hok]
      exact h
    · simp only [Except.ok.injEq, Prod.mk.injEq] at hok
      rw [← hok.1]
      exact h
    · simp only [Except.ok.injEq, Prod.mk.injEq] at hok
      rw [← hok.1]
      exact h
  case h_20 =>
    simp only [] at hok
    split_ifs at hok
    · rw [call_on_update_address_frame _ _ _ _ hok]
      exact h
    · simp only [Except.ok.injEq, Prod.mk.injEq] at hok
      rw [← hok.1]
      exact h
    · simp only [Except.ok.injEq, Prod.mk.injEq] at hok
      rw [← hok.1]
      exact h
  case h_21 => exact transparent_update_adjust_idle s s1 ev hok h
  all_goals
    simp only [Except.ok.injEq, Prod.mk.injEq] at hok
    rw [← hok.1]
    exact h

theorem register_w_adjust_idle (s s1 : State) (data : Nat) (ev : List Event)
    (hok : register_w s data = .ok (s1, ev)) (h : vertical_adjust_idle s) :
    vertical_adjust_idle s1 := by
  unfold register_w at hok
  split at hok
  · cases hok
  · rename_i s2 ev1 hstore
    simp only [Except.ok.injEq, Prod.mk.injEq] at hok
    rw [← hok.1]
    exact recompute_parameters_adjust_idle _ _
      (register_w_store_adjust_idle s s2 data ev1 hstore h)

theorem register_r_adjust_idle (s s1 : State) (v : Nat) (ev : List Event)
    (hok : register_r s = .ok (v, s1, ev)) (h : vertical_adjust_idle s) :
    vertical_adjust_idle s1 := by
  unfold register_r at hok
  split at hok
  case h_7 =>
    split at hok
    · rename_i s2 ev2 ht
      simp only [Except.ok.injEq, Prod.mk.injEq] at hok
      rw [← hok.2.1]
      exact transparent_update_adjust_idle s s2 ev2 ht h
    · cases hok
  all_goals
    simp only [Except.ok.injEq, Prod.mk.injEq] at hok
    rw [← hok.2.1]
    exact h

theorem update_counters_adjust_idle (s : State) (view : TimerView) (h : vertical_adjust_idle s) :
    vertical_adjust_idle (update_counters s view) := by
  unfold update_counters
  simp only []
  split_ifs <;> exact h

/-- A line tick in a state with vertical adjust idle and a vertical total
of 128 or more: the tick does not enter vertical adjust, does not take the
frame origin reset, and leaves vertical adjust idle. -/
theorem handle_line_timer_adjust_idle (ccv : State → Nat → Nat → Bool) (s : State)
    (hv : 128 ≤ s.regs.m_vert_char_total) (h : vertical_adjust_idle s) :
    adjust_entered_in_tick s = false ∧ frame_reset_in_tick s = false ∧
    vertical_adjust_idle (handle_line_timer ccv s).1 := by
  obtain ⟨ha, hl⟩ := h
  have hne : (s.ctr.m_line_counter == s.regs.m_vert_char_total) = false := by
    rw [beq_eq_false_iff_ne]
    omega
  have hf := after_counter_stage_fields s
  have hact : (after_counter_stage s).ctr.m_adjust_active = 0 := by
    by_cases hr : (s.ctr.m_raster_counter : Int) = char_height s - 1
    · rw [(hf.2.1 hr).1, hne]
      exact ha
    · rw [(hf.2.2 hr).1]
      exact ha
  have hlc : (after_counter_stage s).ctr.m_line_counter ≤ 127 := by
    by_cases hr : (s.ctr.m_raster_counter : Int) = char_height s - 1
    · rw [(hf.2.1 hr).2.2]
      exact Nat.and_le_right
    · rw [(hf.2.2 hr).2.2]
      exact hl
  have hreset : frame_reset_in_tick s = false := by
    rw [frame_reset_in_tick_eq, hact]
    rfl
  have hno := line_adjust_no_reset (after_counter_stage s) (by rw [hact]; rfl)
  have hc := handle_line_timer_ctr ccv s _ rfl
  refine ⟨?_, hreset, ?_, ?_⟩
  · unfold adjust_entered_in_tick
    simp only []
    rw [(line_vsync_width_counters _ _).2.2.1, (line_vsync_width_frame _ _).2.2]
    show (_ && (s.ctr.m_line_counter == s.regs.m_vert_char_total)) = false
    rw [hne, Bool.and_false]
  · rw [hc.1, hno.2.2.2]
    exact hact
  · rw [hc.2.2.1, hno.2.1]
    exact hlc

theorem device_timer_adjust_idle (ccv : State → Nat → Nat → Bool) (s s1 : State) (id : TimerId)
    (param : Int) (view : TimerView) (ev : List Event)
    (hok : device_timer ccv s id param view = .ok (s1, ev))
    (hv : 128 ≤ s.regs.m_vert_char_total) (h : vertical_adjust_idle s) :
    vertical_adjust_idle s1 := by
  cases id <;> simp only [device_timer] at hok
  · simp only [Except.ok.injEq] at hok
    have h1 := congrArg Prod.fst hok
    simp only [] at h1
    rw [← h1]
    exact (handle_line_timer_adjust_idle ccv s hv h).2.2
  · simp only [Except.ok.injEq] at hok
    have h1 := congrArg Prod.fst hok
    simp only [] at h1
    rw [← h1]
    exact vertical_adjust_idle_congr _ _ (by rw [(set_de_frame _ _).1])
      (by rw [(set_de_frame _ _).1]) h
  · simp only [Except.ok.injEq, Prod.mk.injEq] at hok
    rw [← hok.1]
    exact vertical_adjust_idle_congr _ _ (by rw [(set_cur_frame _ _).1])
      (by rw [(set_cur_frame _ _).1]) h
  · simp only [Except.ok.injEq] at hok
    have h1 := congrArg Prod.fst hok
    simp only [] at h1
    rw [← h1]
    exact vertical_adjust_idle_congr _ _ (by rw [(set_cur_frame _ _).1])
      (by rw [(set_cur_frame _ _).1]) h
  · simp only [Except.ok.injEq, Prod.mk.injEq] at hok
    rw [← hok.1]
    exact vertical_adjust_idle_congr _ _ (by rw [(set_hsync_frame _ _).1])
      (by rw [(set_hsync_frame _ _).1]) h
  · simp only [Except.ok.injEq] at hok
    have h1 := congrArg Prod.fst hok
    simp only [] at h1
    rw [← h1]
    exact vertical_adjust_idle_congr _ _ (by rw [(set_hsync_frame _ _).1])
      (by rw [(set_hsync_frame _ _).1]) h
  · simp only [Except.ok.injEq, Prod.mk.injEq] at hok
    rw [← hok.1]
    exact update_counters_adjust_idle s view h
  · rw [call_on_update_address_frame _ _ _ _ hok]
    exact h
  · split_ifs at hok
    all_goals
      simp only [Except.ok.injEq, Prod.mk.injEq] at hok
      rw [← hok.1]
      exact h

theorem draw_scanline_adjust_idle (ccv : State → Nat → Nat → Bool) (s s1 : State) (y : Int)
    (ra : Nat) (ev : List Event) (hok : draw_scanline ccv s y = .ok (ra, s1, ev))
    (h : vertical_adjust_idle s) : vertical_adjust_idle s1 := by
  unfold draw_scanline at hok
  simp only [] at hok
  split_ifs at hok
  all_goals
    simp only [Except.ok.injEq, Prod.mk.injEq] at hok
    rw [← hok.2.1]
    exact h

theorem draw_scanlines_adjust_idle (ccv : State → Nat → Nat → Bool) (n : Nat) :
    ∀ (s s1 : State) (y : Nat) (ev : List Event), draw_scanlines ccv s y n = .ok (s1, ev) →
      vertical_adjust_idle s → vertical_adjust_idle s1 := by
  induction n with
  | zero =>
    intro s s1 y ev hok h
    simp only [draw_scanlines, Except.ok.injEq, Prod.mk.injEq] at hok
    rw [← hok.1]
    exact h
  | succ n ih =>
    intro s s1 y ev hok h
    simp only [draw_scanlines] at hok
    split at hok
    · cases hok
    · rename_i ra s2 ev1 hd
      split at hok
      · cases hok
      · rename_i s3 ev2 hrest
        simp only [Except.ok.injEq, Prod.mk.injEq] at hok
        rw [← hok.1]
        exact ih s2 s3 (y + 1) ev2 hrest (draw_scanline_adjust_idle ccv s s2 y ra ev1 hd h)

theorem screen_update_adjust_idle (ccv : State → Nat → Nat → Bool) (s s1 : State)
    (cliprect : Rectangle) (ev : List Event) (hok : screen_update ccv s cliprect = .ok (s1, ev))
    (h : vertical_adjust_idle s) : vertical_adjust_idle s1 := by
  unfold screen_update at hok
  simp only [] at hok
  split_ifs at hok
  all_goals first
    | (simp only [Except.ok.injEq, Prod.mk.injEq] at hok
       rw [← hok.1]
       exact h)
    | (split at hok
       · cases hok
       · rename_i s3 ev3 hd
         simp only [Except.ok.injEq, Prod.mk.injEq] at hok
         rw [← hok.1]
         exact draw_scanlines_adjust_idle ccv _ _ s3 _ ev3 hd h)

theorem set_hpixels_per_column_adjust_idle (s s1 : State) (n : Int) (ev : List Event)
    (hok : set_hpixels_per_column s n = .ok (s1, ev)) (h : vertical_adjust_idle s) :
    vertical_adjust_idle s1 := by
  unfold set_hpixels_per_column at hok
  split_ifs at hok
  · simp only [Except.ok.injEq] at hok
    have h1 := congrArg Prod.fst hok
    simp only [] at h1
    rw [← h1]
    exact recompute_parameters_adjust_idle _ _ h
  · simp only [Except.ok.injEq, Prod.mk.injEq] at hok
    rw [← hok.1]
    exact h

theorem step_adjust_idle (ccv : State → Nat → Nat → Bool) (s s1 : State) (op : Op)
    (ev : List Event) (hok : step ccv s op = .ok (s1, ev))
    (hv : 128 ≤ s.regs.m_vert_char_total) (h : vertical_adjust_idle s) :
    vertical_adjust_idle s1 := by
  cases op <;> simp only [step] at hok
  case register_r =>
    split at hok
    · cases hok
    · rename_i v s2 ev2 hr
      simp only [Except.ok.injEq, Prod.mk.injEq] at hok
      rw [← hok.1]
      exact register_r_adjust_idle s s2 v ev2 hr h
  case register_w data => exact register_w_adjust_idle s s1 data ev hok h
  case set_hpixels_per_column n => exact set_hpixels_per_column_adjust_idle s s1 n ev hok h
  case device_timer id param view =>
    exact device_timer_adjust_idle ccv s s1 id param view ev hok hv h
  case draw_scanline y =>
    split at hok
    · cases hok
    · rename_i ra s2 ev2 hr
      simp only [Except.ok.injEq, Prod.mk.injEq] at hok
      rw [← hok.1]
      exact draw_scanline_adjust_idle ccv s s2 y ra ev2 hr h
  case screen_update cliprect => exact screen_update_adjust_idle ccv s s1 cliprect ev hok h
  case get_ma view =>
    simp only [Except.ok.injEq, Prod.mk.injEq] at hok
    rw [← hok.1]
    exact update_counters_adjust_idle s view h
  case device_post_load =>
    simp only [Except.ok.injEq] at hok
    have h1 := congrArg Prod.fst hok
    simp only [] at h1
    rw [← h1]
    exact recompute_parameters_adjust_idle _ _ h
  case device_clock_changed =>
    simp only [Except.ok.injEq] at hok
    have h1 := congrArg Prod.fst hok
    simp only [] at h1
    rw [← h1]
    exact recompute_parameters_adjust_idle _ _ h
  case device_reset b =>
    simp only [Except.ok.injEq] at hok
    have h1 := congrArg Prod.fst hok
    simp only [] at h1
    rw [← h1]
    exact h
  case assert_light_pen_input =>
    simp only [Except.ok.injEq] at hok
    have h1 := congrArg Prod.fst hok
    simp only [assert_light_pen_input] at h1
    rw [← h1]
    exact h
  all_goals
    simp only [Except.ok.injEq, Prod.mk.injEq] at hok
    rw [← hok.1]
    exact h

theorem hd6345_register_w_store_ctr (s : HD6345State) (data : Nat) :
    (hd6345_register_w_store s data).base.ctr = s.base.ctr := by
  unfold hd6345_register_w_store
  split <;> rfl

theorem hd6345_register_w_adjust_idle (s : HD6345State) (data : Nat)
    (h : vertical_adjust_idle s.base) : vertical_adjust_idle (hd6345_register_w s data).1.base := by
  show vertical_adjust_idle (recompute_parameters (hd6345_register_w_store s data).base false).1
  apply recompute_parameters_adjust_idle
  exact vertical_adjust_idle_congr _ _ (by rw [hd6345_register_w_store_ctr])
    (by rw [hd6345_register_w_store_ctr]) h

theorem hd6345_register_r_adjust_idle (s : HD6345State) (h : vertical_adjust_idle s.base) :
    vertical_adjust_idle (hd6345_register_r s).2.base := by
  unfold hd6345_register_r
  split <;> exact h

theorem hd6345_draw_scanline_adjust_idle (s s1 : HD6345State) (y : Int) (ra : Nat)
    (ev : List Event) (hok : hd6345_draw_scanline s y = .ok (ra, s1, ev))
    (h : vertical_adjust_idle s.base) : vertical_adjust_idle s1.base := by
  unfold hd6345_draw_scanline at hok
  split at hok
  · cases hok
  · rename_i ra1 b ev1 hd
    have hb := draw_scanline_adjust_idle _ _ _ _ _ _ hd h
    simp only [] at hok
    split_ifs at hok
    all_goals
      simp only [Except.ok.injEq, Prod.mk.injEq] at hok
      rw [← hok.2.1]
      exact hb

theorem hd6345_draw_scanlines_adjust_idle (n : Nat) :
    ∀ (s s1 : HD6345State) (y : Nat) (ev : List Event),
      hd6345_draw_scanlines s y n = .ok (s1, ev) →
      vertical_adjust_idle s.base → vertical_adjust_idle s1.base := by
  induction n with
  | zero =>
    intro s s1 y ev hok h
    simp only [hd6345_draw_scanlines, Except.ok.injEq, Prod.mk.injEq] at hok
    rw [← hok.1]
    exact h
  | succ n ih =>
    intro s s1 y ev hok h
    simp only [hd6345_draw_scanlines] at hok
    split at hok
    · cases hok
    · rename_i ra s2 ev1 hd
      split at hok
      · cases hok
      · rename_i s3 ev2 hrest
        simp only [Except.ok.injEq, Prod.mk.injEq] at hok
        rw [← hok.1]
        exact ih s2 s3 (y + 1) ev2 hrest (hd6345_draw_scanline_adjust_idle s s2 y ra ev1 hd h)

theorem hd6345_screen_update_adjust_idle (s s1 : HD6345State) (cliprect : Rectangle)
    (ev : List Event) (hok : hd6345_screen_update s cliprect = .ok (s1, ev))
    (h : vertical_adjust_idle s.base) : vertical_adjust_idle s1.base := by
  unfold hd6345_screen_update at hok
  simp only [] at hok
  split_ifs at hok
  all_goals first
    | (simp only [Except.ok.injEq, Prod.mk.injEq] at hok
       rw [← hok.1]
       exact h)
    | (split at hok
       · cases hok
       · rename_i s3 ev3 hd
         simp only [Except.ok.injEq, Prod.mk.injEq] at hok
         rw [← hok.1]
         exact hd6345_draw_scanlines_adjust_idle _ _ s3 _ ev3 hd h)

theorem hd6345_step_adjust_idle (s s1 : HD6345State) (op : Op) (ev : List Event)
    (hok : hd6345_step s op = .ok (s1, ev)) (hv : 128 ≤ s.base.regs.m_vert_char_total)
    (h : vertical_adjust_idle s.base) : vertical_adjust_idle s1.base := by
  cases op <;> simp only [hd6345_step] at hok
  case address_w data =>
    simp only [Except.ok.injEq, Prod.mk.injEq] at hok
    rw [← hok.1]
    exact h
  case register_r =>
    simp only [Except.ok.injEq, Prod.mk.injEq] at hok
    rw [← hok.1]
    exact hd6345_register_r_adjust_idle s h
  case register_w data =>
    simp only [Except.ok.injEq] at hok
    have h1 := congrArg Prod.fst hok
    simp only [] at h1
    rw [← h1]
    exact hd6345_register_w_adjust_idle s data h
  case draw_scanline y =>
    split at hok
    · cases hok
    · rename_i ra s2 ev2 hr
      simp only [Except.ok.injEq, Prod.mk.injEq] at hok
      rw [← hok.1]
      exact hd6345_draw_scanline_adjust_idle s s2 y ra ev2 hr h
  case screen_update cliprect => exact hd6345_screen_update_adjust_idle s s1 cliprect ev hok h
  case device_reset b =>
    simp only [Except.ok.injEq] at hok
    have h1 := congrArg Prod.fst hok
    simp only [] at h1
    rw [← h1]
    exact h
  all_goals
    split at hok
    · cases hok
    · rename_i b ev2 hs
      simp only [Except.ok.injEq, Prod.mk.injEq] at hok
      rw [← hok.1]
      exact step_adjust_idle _ _ _ _ _ hs hv h

theorem hd6345_trace_adjust_idle (ops : List Op) :
    ∀ s : HD6345State, vertical_adjust_idle s.base →
      (∀ t ∈ hd6345_trace s ops, 128 ≤ t.base.regs.m_vert_char_total) →
      ∀ t ∈ hd6345_trace s ops, vertical_adjust_idle t.base := by
  induction ops with
  | nil =>
    intro s h _ t ht
    simp only [hd6345_trace, List.mem_singleton] at ht
    rw [ht]
    exact h
  | cons op ops ih =>
    intro s h hv t ht
    have hvs : 128 ≤ s.base.regs.m_vert_char_total :=
      hv s (by simp only [hd6345_trace, List.mem_cons, true_or])
    simp only [hd6345_trace, List.mem_cons] at ht hv
    rcases ht with ht | ht
    · rw [ht]
      exact h
    · cases hstep : hd6345_step s op with
      | error e =>
        rw [hstep] at ht
        simp at ht
      | ok r =>
        obtain ⟨s1, ev⟩ := r
        rw [hstep] at ht hv
        simp only [] at ht hv
        exact ih s1 (hd6345_step_adjust_idle s s1 op ev hstep hvs h)
          (fun u hu => hv u (Or.inr hu)) t ht

theorem mos8563_register_w_store_adjust_idle (s : MOS8563State) (data : Nat)
    (h : vertical_adjust_idle s.base) :
    vertical_adjust_idle (mos8563_register_w_store s data).1.base := by
  unfold mos8563_register_w_store
  split
  case h_26 =>
    simp only []
    split_ifs
    all_goals first
      | exact h
      | exact recompute_parameters_adjust_idle _ _ h
      | (refine recompute_parameters_adjust_idle _ _ ?_
         have h1 := recompute_parameters_adjust_idle { s.base with m_clk_scale := 4 } true h
         exact h1)
  all_goals exact h

theorem mos8563_register_w_adjust_idle (s : MOS8563State) (data : Nat)
    (h : vertical_adjust_idle s.base) :
    vertical_adjust_idle (mos8563_register_w s data).1.base := by
  show vertical_adjust_idle (recompute_parameters (mos8563_register_w_store s data).1.base false).1
  exact recompute_parameters_adjust_idle _ _ (mos8563_register_w_store_adjust_idle s data h)

theorem mos8563_register_r_adjust_idle (s : MOS8563State) (h : vertical_adjust_idle s.base) :
    vertical_adjust_idle (mos8563_register_r s).2.1.base := by
  unfold mos8563_register_r
  split <;> exact h

theorem mos8563_block_copy_adjust_idle (s : MOS8563State) (h : vertical_adjust_idle s.base) :
    vertical_adjust_idle (mos8563_block_copy s).1.base := by
  unfold mos8563_block_copy
  simp only []
  split_ifs <;> exact h

theorem mos8563_char_blink_base (s : MOS8563State) : (mos8563_char_blink s).base = s.base := by
  unfold mos8563_char_blink
  simp only []
  split_ifs <;> rfl

theorem mos8563_handle_line_timer_adjust_idle (s : MOS8563State)
    (hv : 128 ≤ s.base.regs.m_vert_char_total) (h : vertical_adjust_idle s.base) :
    vertical_adjust_idle (mos8563_handle_line_timer s).1.base := by
  have ht := (handle_line_timer_adjust_idle check_cursor_visible s.base hv h).2.2
  unfold mos8563_handle_line_timer
  simp only []
  split_ifs
  · rw [mos8563_char_blink_base]
    exact ht
  · exact ht

theorem mos8563_draw_scanline_adjust_idle (s s1 : MOS8563State) (y : Int) (ra : Nat)
    (ev : List Event) (hok : mos8563_draw_scanline s y = .ok (ra, s1, ev))
    (h : vertical_adjust_idle s.base) : vertical_adjust_idle s1.base := by
  unfold mos8563_draw_scanline at hok
  split at hok
  · cases hok
  · rename_i ra1 b ev1 hd
    have hb := draw_scanline_adjust_idle _ _ _ _ _ _ hd h
    simp only [] at hok
    split_ifs at hok
    all_goals
      simp only [Except.ok.injEq, Prod.mk.injEq] at hok
      rw [← hok.2.1]
      exact hb

theorem mos8563_draw_scanlines_adjust_idle (n : Nat) :
    ∀ (s s1 : MOS8563State) (y : Nat) (ev : List Event),
      mos8563_draw_scanlines s y n = .ok (s1, ev) →
      vertical_adjust_idle s.base → vertical_adjust_idle s1.base := by
  induction n with
  | zero =>
    intro s s1 y ev hok h
    simp only [mos8563_draw_scanlines, Except.ok.injEq, Prod.mk.injEq] at hok
    rw [← hok.1]
    exact h
  | succ n ih =>
    intro s s1 y ev hok h
    simp only [mos8563_draw_scanlines] at hok
    split at hok
    · cases hok
    · rename_i ra s2 ev1 hd
      split at hok
      · cases hok
      · rename_i s3 ev2 hrest
        simp only [Except.ok.injEq, Prod.mk.injEq] at hok
        rw [← hok.1]
        exact ih s2 s3 (y + 1) ev2 hrest (mos8563_draw_scanline_adjust_idle s s2 y ra ev1 hd h)

theorem mos8563_screen_update_adjust_idle (s s1 : MOS8563State) (cliprect : Rectangle)
    (ev : List Event) (hok : mos8563_screen_update s cliprect = .ok (s1, ev))
    (h : vertical_adjust_idle s.base) : vertical_adjust_idle s1.base := by
  unfold mos8563_screen_update at hok
  simp only [] at hok
  split_ifs at hok
  all_goals first
    | (simp only [Except.ok.injEq, Prod.mk.injEq] at hok
       rw [← hok.1]
       exact h)
    | (split at hok
       · cases hok
       · rename_i s3 ev3 hd
         simp only [Except.ok.injEq, Prod.mk.injEq] at hok
         rw [← hok.1]
         exact mos8563_draw_scanlines_adjust_idle _ _ s3 _ ev3 hd h)

theorem mos8563_step_adjust_idle (s s1 : MOS8563State) (op : MOS8563Op)
    (ev : List MOS8563Event) (hok : mos8563_step s op = .ok (s1, ev))
    (hv : 128 ≤ s.base.regs.m_vert_char_total) (h : vertical_adjust_idle s.base) :
    vertical_adjust_idle s1.base := by
  cases op with
  | block_copy_timer =>
    simp only [mos8563_step, Except.ok.injEq] at hok
    have h1 := congrArg Prod.fst hok
    simp only [] at h1
    rw [← h1]
    exact mos8563_block_copy_adjust_idle s h
  | base op =>
    cases op
    case device_timer id param view =>
      cases id <;> simp only [mos8563_step] at hok
      case TIMER_LINE =>
        simp only [Except.ok.injEq, Prod.mk.injEq] at hok
        rw [← hok.1]
        exact mos8563_handle_line_timer_adjust_idle s hv h
      all_goals
        split at hok
        · cases hok
        · rename_i b ev2 hs
          simp only [Except.ok.injEq, Prod.mk.injEq] at hok
          rw [← hok.1]
          exact step_adjust_idle _ _ _ _ _ hs hv h
    case address_w data =>
      simp only [mos8563_step, Except.ok.injEq, Prod.mk.injEq] at hok
      rw [← hok.1]
      exact h
    case status_r =>
      simp only [mos8563_step, Except.ok.injEq, Prod.mk.injEq] at hok
      rw [← hok.1]
      exact h
    case register_r =>
      simp only [mos8563_step, Except.ok.injEq, Prod.mk.injEq] at hok
      rw [← hok.1]
      exact mos8563_register_r_adjust_idle s h
    case register_w data =>
      simp only [mos8563_step, Except.ok.injEq] at hok
      have h1 := congrArg Prod.fst hok
      simp only [] at h1
      rw [← h1]
      exact mos8563_register_w_adjust_idle s data h
    case draw_scanline y =>
      simp only [mos8563_step] at hok
      split at hok
      · cases hok
      · rename_i ra s2 ev2 hr
        simp only [Except.ok.injEq, Prod.mk.injEq] at hok
        rw [← hok.1]
        exact mos8563_draw_scanline_adjust_idle s s2 y ra ev2 hr h
    case screen_update cliprect =>
      simp only [mos8563_step] at hok
      split at hok
      · cases hok
      · rename_i s2 ev2 hr
        simp only [Except.ok.injEq, Prod.mk.injEq] at hok
        rw [← hok.1]
        exact mos8563_screen_update_adjust_idle s s2 cliprect ev2 hr h
    case device_reset b =>
      simp only [mos8563_step, Except.ok.injEq, Prod.mk.injEq] at hok
      rw [← hok.1]
      exact h
    all_goals
      simp only [mos8563_step] at hok
      split at hok
      · cases hok
      · rename_i b ev2 hs
        simp only [Except.ok.injEq, Prod.mk.injEq] at hok
        rw [← hok.1]
        exact step_adjust_idle _ _ _ _ _ hs hv h

theorem mos8563_trace_adjust_idle (ops : List MOS8563Op) :
    ∀ s : MOS8563State, vertical_adjust_idle s.base →
      (∀ t ∈ mos8563_trace s ops, 128 ≤ t.base.regs.m_vert_char_total) →
      ∀ t ∈ mos8563_trace s ops, vertical_adjust_idle t.base := by
  induction ops with
  | nil =>
    intro s h _ t ht
    simp only [mos8563_trace, List.mem_singleton] at ht
    rw [ht]
    exact h
  | cons op ops ih =>
    intro s h hv t ht
    have hvs : 128 ≤ s.base.regs.m_vert_char_total :=
      hv s (by simp only [mos8563_trace, List.mem_cons, true_or])
    simp only [mos8563_trace, List.mem_cons] at ht hv
    rcases ht with ht | ht
    · rw [ht]
      exact h
    · cases hstep : mos8563_step s op with
      | error e =>
        rw [hstep] at ht
        simp at ht
      | ok r =>
        obtain ⟨s1, ev⟩ := r
        rw [hstep] at ht hv
        simp only [] at ht hv
        exact ih s1 (mos8563_step_adjust_idle s s1 op ev hstep hvs h)
          (fun u hu => hv u (Or.inr hu)) t ht

theorem hd6345_register_w_vert_total (s : HD6345State) (data : Nat)
    (hl : s.base.ctr.m_register_address_latch = 0x04) :
    (hd6345_register_w s data).1.base.regs.m_vert_char_total = data &&& 0xff := by
  show (recompute_parameters (hd6345_register_w_store s data).base false).1.regs.m_vert_char_total
    = _
  rw [recompute_parameters_regs]
  unfold hd6345_register_w_store
  rw [hl]

theorem mos8563_register_w_vert_total (s : MOS8563State) (data : Nat)
    (hl : s.base.ctr.m_register_address_latch = 0x04) :
    (mos8563_register_w s data).1.base.regs.m_vert_char_total = data &&& 0xff := by
  show (recompute_parameters (mos8563_register_w_store s data).1.base false).1.regs.m_vert_char_total
    = _
  rw [recompute_parameters_regs]
  unfold mos8563_register_w_store
  rw [hl]

/-- C36: on the variants whose vertical-total register is 8 bits wide, a
vertical total of 128 or more is never matched by the 7-bit line counter.
The `register_w` of the HD6345 and of the MOS8563 stores data & 0xff in
register 0x04, so after `device_start` the register can be programmed with
any v in 128 .. 255, and the state then has vertical adjust idle (the
adjust-active flag clear, the line counter at most 127).  From every state
with vertical adjust idle, along every sequence of operations of the device
during which the vertical total stays at 128 or more, in every state passed
through: the adjust-active flag is clear, and a line tick started there does
not enter vertical adjust, does not take the frame origin reset, and leaves
the adjust-active flag clear. -/
theorem vertical_total_128_never_matched :
    (∀ (s : HD6345State) (data : Nat), s.base.ctr.m_register_address_latch = 0x04 →
      (hd6345_register_w s data).1.base.regs.m_vert_char_total = data &&& 0xff) ∧
    (∀ (s : MOS8563State) (data : Nat), s.base.ctr.m_register_address_latch = 0x04 →
      (mos8563_register_w s data).1.base.regs.m_vert_char_total = data &&& 0xff) ∧
    (∀ (c : HD6345State) (v : Nat), 128 ≤ v → v ≤ 255 →
      (hd6345_register_w (hd6345_address_w (hd6345_device_start c) 0x04) v).1.base.regs.m_vert_char_total
        = v ∧
      vertical_adjust_idle
        (hd6345_register_w (hd6345_address_w (hd6345_device_start c) 0x04) v).1.base) ∧
    (∀ (c : MOS8563State) (v : Nat), 128 ≤ v → v ≤ 255 →
      (mos8563_register_w (mos8563_address_w (mos8563_device_start c) 0x04)
          v).1.base.regs.m_vert_char_total = v ∧
      vertical_adjust_idle
        (mos8563_register_w (mos8563_address_w (mos8563_device_start c) 0x04) v).1.base) ∧
    (∀ (s : HD6345State) (ops : List Op), vertical_adjust_idle s.base →
      (∀ t ∈ hd6345_trace s ops, 128 ≤ t.base.regs.m_vert_char_total) →
      ∀ t ∈ hd6345_trace s ops,
        t.base.ctr.m_adjust_active = 0 ∧ adjust_entered_in_tick t.base = false ∧
        frame_reset_in_tick t.base = false ∧
        (handle_line_timer hd6845s_check_cursor_visible t.base).1.ctr.m_adjust_active = 0) ∧
    (∀ (s : MOS8563State) (ops : List MOS8563Op), vertical_adjust_idle s.base →
      (∀ t ∈ mos8563_trace s ops, 128 ≤ t.base.regs.m_vert_char_total) →
      ∀ t ∈ mos8563_trace s ops,
        t.base.ctr.m_adjust_active = 0 ∧ adjust_entered_in_tick t.base = false ∧
        frame_reset_in_tick t.base = false ∧
        (mos8563_handle_line_timer t).1.base.ctr.m_adjust_active = 0) := by
  have hmask : ∀ v : Nat, v ≤ 255 → v &&& 0xff = v := by
    intro v hv
    rw [Nat.and_pow_two_sub_one_eq_mod v 8]
    omega
  refine ⟨hd6345_register_w_vert_total, mos8563_register_w_vert_total, ?_, ?_, ?_, ?_⟩
  · intro c v _ hv
    refine ⟨?_, ?_⟩
    · rw [hd6345_register_w_vert_total _ _ rfl, hmask v hv]
    · exact hd6345_register_w_adjust_idle _ _ ⟨rfl, Nat.zero_le 127⟩
  · intro c v _ hv
    refine ⟨?_, ?_⟩
    · rw [mos8563_register_w_vert_total _ _ rfl, hmask v hv]
    · exact mos8563_register_w_adjust_idle _ _ ⟨rfl, Nat.zero_le 127⟩
  · intro s ops h hv t ht
    have hi := hd6345_trace_adjust_idle ops s h hv t ht
    have hk := handle_line_timer_adjust_idle hd6845s_check_cursor_visible t.base (hv t ht) hi
    exact ⟨hi.1, hk.1, hk.2.1, hk.2.2.1⟩
  · intro s ops h hv t ht
    have hi := mos8563_trace_adjust_idle ops s h hv t ht
    have hk := handle_line_timer_adjust_idle check_cursor_visible t.base (hv t ht) hi
    exact ⟨hi.1, hk.1, hk.2.1, (mos8563_handle_line_timer_adjust_idle t (hv t ht) hi).1⟩

set_option maxRecDepth 100000 in
/-- Witness for C36: the HD6345 of `hd6345_tall_chip` holds vertical total
200 with vertical adjust idle, keeps that vertical total over three line
ticks, and no state on the way lets a line tick take the frame origin
reset. -/
theorem vertical_total_128_never_matched_witness :
    (hd6345_tall_chip.base.regs.m_vert_char_total = 200 ∧
      vertical_adjust_idle hd6345_tall_chip.base ∧
      ∀ t ∈ hd6345_trace hd6345_tall_chip three_line_ticks,
        128 ≤ t.base.regs.m_vert_char_total) ∧
    ∀ t ∈ hd6345_trace hd6345_tall_chip three_line_ticks,
      adjust_entered_in_tick t.base = false ∧ frame_reset_in_tick t.base = false := by
  have h1 : vertical_adjust_idle hd6345_tall_chip.base := ⟨by decide, by decide⟩
  have h2 : ∀ t ∈ hd6345_trace hd6345_tall_chip three_line_ticks,
      128 ≤ t.base.regs.m_vert_char_total := by decide
  have h := vertical_total_128_never_matched.2.2.2.2.1 hd6345_tall_chip three_line_ticks h1 h2
  exact ⟨⟨by decide, h1, h2⟩, fun t ht => ⟨(h t ht).2.1, (h t ht).2.2.1⟩⟩

end MC6845
